import Mathlib

/-!
# DSC Classic keybus interface: a shallow embedding of `src/dscClassic.cpp`

The C++ class `dscClassicInterface` keeps its state in static members and in
function-local statics.  The embedding makes that state explicit: every
member and every local static becomes a field of a record, every member
function becomes a pure function from state (and the values it reads from
the hardware: pin levels, `micros()`, `millis()`) to state.

* `byte` values are `Nat` with an explicit `% 256` where the source can wrap;
* `unsigned long` time stamps are `Nat`, differences are taken modulo `2^32`;
* arrays are functions `Nat → Nat`; a loop that writes indices `0 .. n-1`
  becomes a function that changes exactly those indices, so an access past
  the declared size would be visible in the model.
-/

namespace DscClassic

/-! ## Constants of the header -/

/-- Modelled from the spec: `dscClassic.h` is not part of the sources; the
spec gives the frame size `DATA_SIZE` as 8 bytes per channel. -/
def dscDataSize : Nat := 8

/-- Modelled from the spec: `dscClassic.h` is not part of the sources; the
spec gives the frame ring capacity `BUFFER_SIZE` as 10 (the default). -/
def dscBufferSize : Nat := 10

/-! ## Machine arithmetic -/

/-- Difference of two `unsigned long` values (32 bit, wrapping). -/
def subU32 (a b : Nat) : Nat := (a % 4294967296 + 4294967296 - b % 4294967296) % 4294967296

/-- Increment of a `byte` counter (`x++`). -/
def incByte (x : Nat) : Nat := (x + 1) % 256

/-- C string length: the number of characters before the first NUL. -/
def strlen (s : List Char) : Nat := (s.takeWhile (fun c => c != Char.ofNat 0)).length

/-- Character `s[i]` of a C string; the terminating NUL follows the stored
characters. -/
def charAt (s : List Char) (i : Nat) : Char := s.getD i (Char.ofNat 0)

/-! ## Virtual keypad state -/

/-- The members and local statics used by the key writer. -/
structure Writer where
  virtualKeypad : Bool
  writeKey : Nat
  writeKeyPending : Bool
  writeKeyWait : Bool
  writeAlarm : Bool
  writeReady : Bool
  writeKeysPending : Bool
  writeKeysArray : List Char
  /-- The local static `writeCounter` of `writeKeys`. -/
  writeCounter : Nat
  /-- The local static `previousTime` of `setWriteKey`. -/
  previousTime : Nat
  writeCompleteTime : Nat
  /-- The local static `writeStart` of `dscClockInterrupt`. -/
  writeStart : Bool
  accessCodeStay : List Char
  accessCodeAway : List Char
  accessCodeNight : List Char

/-- The `switch (receivedKey)` of `setWriteKey`: the writer after the selected
case, and the resulting `validKey`. -/
def keySwitch (s : Writer) (receivedKey : Char) : Writer × Bool :=
  if receivedKey = '0' then ({ s with writeKey := 0xD7 }, true)
  else if receivedKey = '1' then ({ s with writeKey := 0xBE }, true)
  else if receivedKey = '2' then ({ s with writeKey := 0xDE }, true)
  else if receivedKey = '3' then ({ s with writeKey := 0xEE }, true)
  else if receivedKey = '4' then ({ s with writeKey := 0xBD }, true)
  else if receivedKey = '5' then ({ s with writeKey := 0xDD }, true)
  else if receivedKey = '6' then ({ s with writeKey := 0xED }, true)
  else if receivedKey = '7' then ({ s with writeKey := 0xBB }, true)
  else if receivedKey = '8' then ({ s with writeKey := 0xDB }, true)
  else if receivedKey = '9' then ({ s with writeKey := 0xEB }, true)
  else if receivedKey = '*' then ({ s with writeKey := 0xB7 }, true)
  else if receivedKey = '#' then ({ s with writeKey := 0xE7 }, true)
  else if receivedKey = 'F' ∨ receivedKey = 'f' then
    ({ s with writeKey := 0x3F, writeAlarm := true }, true)
  else if receivedKey = 'A' ∨ receivedKey = 'a' then
    ({ s with writeKey := 0x5F, writeAlarm := true }, true)
  else if receivedKey = 'P' ∨ receivedKey = 'p' then
    ({ s with writeKey := 0x6F, writeAlarm := true }, true)
  else (s, false)

/-- Embedding of `dscClassicInterface::setWriteKey`, called when `millis()` reads `now`. -/
def setWriteKey (s : Writer) (receivedKey : Char) (now : Nat) : Writer :=
  if !s.writeKeyPending && (decide (subU32 now s.previousTime > 500) || decide (now ≤ 500)) then
    let r := keySwitch s receivedKey
    let s1 := r.1
    let validKey := r.2
    let s2 := if s1.writeAlarm then { s1 with previousTime := now } else s1
    if validKey then { s2 with writeKeyPending := true, writeReady := false } else s2
  else s

/-- Embedding of `dscClassicInterface::writeKeys`, called when `millis()` reads `now`. -/
def writeKeys (s : Writer) (now : Nat) : Writer :=
  if !s.writeKeyPending && s.writeKeysPending
      && decide (s.writeCounter < strlen s.writeKeysArray) then
    if charAt s.writeKeysArray s.writeCounter != Char.ofNat 0 then
      let s1 := setWriteKey s (charAt s.writeKeysArray s.writeCounter) now
      let s2 := { s1 with writeCounter := incByte s1.writeCounter }
      if charAt s2.writeKeysArray s2.writeCounter = Char.ofNat 0 then
        { s2 with writeKeysPending := false, writeCounter := 0 }
      else s2
    else s
  else s

/-! ## Capture state of the interrupt handlers -/

/-- The members and local statics owned by the two interrupt handlers. -/
structure Capture where
  isrPanelData : Nat → Nat
  isrPC16Data : Nat → Nat
  isrModuleData : Nat → Nat
  isrPanelBitTotal : Nat
  isrPanelBitCount : Nat
  isrPanelByteCount : Nat
  isrModuleBitTotal : Nat
  isrModuleBitCount : Nat
  isrModuleByteCount : Nat
  /-- The local static `skipData` of `dscDataInterrupt`. -/
  skipData : Bool
  /-- The local static `moduleDataDetected` of `dscDataInterrupt`. -/
  moduleDataDetected : Bool
  /-- The local static `previousPanelData` of `dscDataInterrupt`. -/
  previousPanelData : Nat → Nat
  /-- The local static `previousPC16Data` of `dscDataInterrupt`. -/
  previousPC16Data : Nat → Nat
  clockHighTime : Nat
  /-- The local static `previousClockHighTime` of `dscClockInterrupt`. -/
  previousClockHighTime : Nat
  keybusTime : Nat
  processModuleData : Bool
  moduleDataCaptured : Bool
  moduleData : Nat → Nat
  moduleBitCount : Nat
  moduleByteCount : Nat

/-- The frame ring shared by `dscDataInterrupt` (producer) and `loop`
(consumer). -/
structure Ring where
  panelBuffer : Nat → Nat → Nat
  pc16Buffer : Nat → Nat → Nat
  panelBufferBitCount : Nat → Nat
  panelBufferByteCount : Nat → Nat
  panelBufferLength : Nat
  bufferOverflow : Bool
  /-- The local static `panelBufferIndex` of `loop`. -/
  panelBufferIndex : Nat

/-- The foreground variables that `processPanelStatus` reads and never
assigns: the frame `loop` copied out of the ring, the status byte index
`loop` latched, and the caller's `pauseStatus` setting. -/
structure Foreground where
  panelData : Nat → Nat
  pc16Data : Nat → Nat
  panelBitCount : Nat
  panelByteCount : Nat
  statusByte : Nat
  pauseStatus : Bool
  /-- The local static `startupCycle` of `loop`. -/
  startupCycle : Bool

/-- The decoded status: what `processPanelStatus` (and `resetStatus`, and the
liveness block of `loop`) assign.  A per-partition array of which only element
0 is ever used (`lights[0]`, `status[0]`, `ready[0]`, ...) is the field of
that name; the zone arrays are functions of the group index. -/
structure Decoder where
  statusChanged : Bool
  keybusConnected : Bool
  previousKeybus : Bool
  keybusChanged : Bool
  lights : Nat
  previousLights : Nat
  readyLight : Bool
  armedLight : Bool
  memoryLight : Bool
  bypassLight : Bool
  troubleLight : Bool
  programLight : Bool
  fireLight : Bool
  beep : Bool
  troubleBit : Bool
  armedBypassBit : Bool
  armedBitA : Bool
  armedBitB : Bool
  alarmBit : Bool
  memoryBlink : Bool
  armedBlink : Bool
  bypassBlink : Bool
  troubleBlink : Bool
  lightBlink : Bool
  memoryLightTimeOn : Nat
  memoryLightTimeOff : Nat
  armedLightTimeOn : Nat
  armedLightTimeOff : Nat
  bypassLightTimeOn : Nat
  bypassLightTimeOff : Nat
  troubleLightTimeOn : Nat
  troubleLightTimeOff : Nat
  /-- False until the first call of `processPanelStatus` has run the
  initialisers `= millis()` of the local statics `beepTimeStart` and
  `beepTimeOff`. -/
  beepTimesSet : Bool
  beepTimeStart : Nat
  beepTimeOff : Nat
  beepOn : Bool
  status : Nat
  previousStatus : Nat
  ready : Bool
  previousReady : Bool
  readyChanged : Bool
  armed : Bool
  armedStay : Bool
  armedAway : Bool
  previousArmed : Bool
  previousArmedStay : Bool
  previousArmedAway : Bool
  armedChanged : Bool
  armedStayTriggered : Bool
  noEntryDelay : Bool
  exitDelayArmed : Bool
  exitDelayTriggered : Bool
  exitDelay : Bool
  previousExitDelay : Bool
  exitDelayChanged : Bool
  exitState : Nat
  previousExitState : Nat
  exitStateChanged : Bool
  alarm : Bool
  previousAlarm : Bool
  alarmChanged : Bool
  alarmTriggered : Bool
  previousAlarmTriggered : Bool
  starKeyDetected : Bool
  openZones : Nat → Nat
  previousOpenZones : Nat → Nat
  openZonesChanged : Nat → Nat
  openZonesStatusChanged : Bool
  alarmZones : Nat → Nat
  previousAlarmZones : Nat → Nat
  alarmZonesChanged : Nat → Nat
  alarmZonesStatusChanged : Bool
  zonesTriggered : Nat → Nat
  trouble : Bool
  previousTrouble : Bool
  troubleChanged : Bool
  fire : Bool
  previousFire : Bool
  fireChanged : Bool
  keypadFireAlarm : Bool
  keypadAuxAlarm : Bool
  keypadPanicAlarm : Bool
  previousFireAlarm : Nat
  previousAuxAlarm : Nat
  previousPanicAlarm : Nat
  pgmOutputsChanged : Bool

/-- The whole state of the interface object. -/
structure State where
  wr : Writer
  cap : Capture
  ring : Ring
  fg : Foreground
  dec : Decoder

/-! ## Redundancy filter -/

/-- Embedding of `dscClassicInterface::redundantPanelData`: the returned flag and the
contents of `previousCmd` afterwards. -/
def redundantPanelData (previousCmd currentCmd : Nat → Nat) (checkedBytes : Nat) :
    Bool × (Nat → Nat) :=
  let redundantData := (List.range checkedBytes).all (fun i => previousCmd i == currentCmd i)
  if redundantData then (true, previousCmd)
  else (false, fun i => if i < dscDataSize then currentCmd i else previousCmd i)

/-! ## Clock interrupt -/

/-- Embedding of `dscClassicInterface::dscClockInterrupt`, entered with the clock pin at
level `clockPin` (true is HIGH) while `micros()` and `millis()` read `micros`
and `millis`.  The second component is the `digitalWrite(dscWritePin, _)` the
call performs, if any (at most one per call): `some true` is HIGH. -/
def dscClockInterrupt (s : State) (clockPin : Bool) (micros millis : Nat) :
    State × Option Bool :=
  if clockPin then
    ({ s with cap := { s.cap with previousClockHighTime := micros } },
      if s.wr.virtualKeypad then some false else none)
  else
    let cap := { s.cap with clockHighTime := subU32 micros s.cap.previousClockHighTime }
    if s.wr.virtualKeypad then
      let w1 :=
        if s.wr.writeKeyPending && decide (subU32 millis s.wr.writeCompleteTime > 50) then
          { s.wr with writeKeyWait := false }
        else s.wr
      if w1.writeKeyPending && !w1.writeKeyWait then
        if cap.clockHighTime > 2000 then
          ({ s with cap := cap, wr := { w1 with writeStart := true } },
            if (w1.writeKey >>> 7) &&& 1 = 0 then some true else none)
        else if w1.writeStart && decide (cap.isrPanelBitTotal ≤ 7) then
          let w2 :=
            if cap.isrPanelBitTotal = 7 then
              { w1 with writeKeyPending := false, writeKeyWait := true,
                        writeCompleteTime := millis, writeStart := false }
            else w1
          ({ s with cap := cap, wr := w2 },
            if (w1.writeKey >>> (7 - cap.isrPanelBitCount)) &&& 1 = 0 then some true else none)
        else ({ s with cap := cap, wr := w1 }, none)
      else ({ s with cap := cap, wr := w1 }, none)
    else ({ s with cap := cap }, none)

/-! ## Data interrupt -/

/-- The clock-high branch of `dscDataInterrupt`: one panel bit and one PC16
bit are shifted into the current byte. -/
def samplePanelBit (c : Capture) (readPin pc16Pin : Bool) : Capture :=
  if c.isrPanelByteCount ≥ dscDataSize then { c with skipData := true }
  else
    let c1 :=
      if c.isrPanelBitCount < 8 then
        let p := (c.isrPanelData c.isrPanelByteCount <<< 1) % 256
        let q := (c.isrPC16Data c.isrPanelByteCount <<< 1) % 256
        { c with
          isrPanelData := fun i =>
            if i = c.isrPanelByteCount then (if readPin then p ||| 1 else p)
            else c.isrPanelData i
          isrPC16Data := fun i =>
            if i = c.isrPanelByteCount then (if pc16Pin then q ||| 1 else q)
            else c.isrPC16Data i }
      else c
    let c2 :=
      if c1.isrPanelBitCount < 7 then { c1 with isrPanelBitCount := incByte c1.isrPanelBitCount }
      else { c1 with isrPanelBitCount := 0, isrPanelByteCount := incByte c1.isrPanelByteCount }
    { c2 with isrPanelBitTotal := incByte c2.isrPanelBitTotal }

/-- The "skips incomplete data and redundant data" block at a frame boundary:
sets `skipData` and runs the two redundancy filters (the second one only when
the first reports redundant, as `&&` does). -/
def skipCheck (c : Capture) (lightBlink readyLight : Bool) : Capture :=
  if c.isrPanelBitTotal < 8 then { c with skipData := true }
  else if lightBlink && readyLight then { c with skipData := false }
  else
    let r1 := redundantPanelData c.previousPanelData c.isrPanelData c.isrPanelByteCount
    let c1 := { c with previousPanelData := r1.2 }
    if r1.1 then
      let r2 := redundantPanelData c1.previousPC16Data c1.isrPC16Data c1.isrPanelByteCount
      let c2 := { c1 with previousPC16Data := r2.2 }
      if r2.1 then { c2 with skipData := true } else c2
    else c1

/-- The "stores new panel data in the panel buffer" block at a frame boundary. -/
def storeFrame (r : Ring) (c : Capture) : Ring :=
  if r.panelBufferLength = dscBufferSize then { r with bufferOverflow := true }
  else if !c.skipData && decide (r.panelBufferLength < dscBufferSize) then
    { r with
      panelBuffer := fun k i =>
        if k = r.panelBufferLength ∧ i < dscDataSize then c.isrPanelData i
        else r.panelBuffer k i
      pc16Buffer := fun k i =>
        if k = r.panelBufferLength ∧ i < dscDataSize then c.isrPC16Data i
        else r.pc16Buffer k i
      panelBufferBitCount := fun k =>
        if k = r.panelBufferLength then c.isrPanelBitTotal else r.panelBufferBitCount k
      panelBufferByteCount := fun k =>
        if k = r.panelBufferLength then c.isrPanelByteCount else r.panelBufferByteCount k
      panelBufferLength := incByte r.panelBufferLength }
  else r

/-- The "stores new keypad and module data" block at a frame boundary. -/
def storeModule (c : Capture) : Capture :=
  if c.processModuleData then
    let c1 :=
      if c.moduleDataDetected then
        { c with
          moduleDataDetected := false
          moduleDataCaptured := true
          moduleData := fun i => if i < dscDataSize then c.isrModuleData i else c.moduleData i
          moduleBitCount := c.isrModuleBitTotal
          moduleByteCount := c.isrModuleByteCount }
      else c
    { c1 with
      isrModuleData := fun i => if i < dscDataSize then 0 else c1.isrModuleData i
      isrModuleBitTotal := 0
      isrModuleBitCount := 0
      isrModuleByteCount := 0 }
  else c

/-- The "resets the panel capture data and counters" block at a frame
boundary. -/
def resetPanelCapture (c : Capture) : Capture :=
  { c with
    isrPanelData := fun i => if i < dscDataSize then 0 else c.isrPanelData i
    isrPC16Data := fun i => if i < dscDataSize then 0 else c.isrPC16Data i
    isrPanelBitTotal := 0
    isrPanelBitCount := 0
    isrPanelByteCount := 0
    skipData := false }

/-- The keypad and module capture at the end of the clock-low branch of
`dscDataInterrupt`: the captured state and the new `starKeyDetected`. -/
def sampleModuleBit (c : Capture) (panelBufferLength : Nat) (starKeyDetected readPin : Bool) :
    Capture × Bool :=
  if c.processModuleData && decide (c.isrModuleByteCount < dscDataSize)
      && decide (panelBufferLength ≤ 1) then
    let c1 :=
      if c.isrModuleBitCount < 8 then
        let m := (c.isrModuleData c.isrModuleByteCount <<< 1) % 256
        if readPin then
          { c with isrModuleData := fun i =>
              if i = c.isrModuleByteCount then m ||| 1 else c.isrModuleData i }
        else
          { c with
            isrModuleData := fun i => if i = c.isrModuleByteCount then m else c.isrModuleData i
            moduleDataDetected := true }
      else c
    let r :=
      if c1.isrModuleBitCount = 7 then
        ({ c1 with isrModuleBitCount := 0, isrModuleByteCount := incByte c1.isrModuleByteCount },
          (starKeyDetected || (c1.moduleDataDetected && c1.isrModuleData 0 == 0xB7)))
      else if c1.isrModuleBitCount < 7 then
        ({ c1 with isrModuleBitCount := incByte c1.isrModuleBitCount }, starKeyDetected)
      else (c1, starKeyDetected)
    ({ r.1 with isrModuleBitTotal := incByte r.1.isrModuleBitTotal }, r.2)
  else (c, starKeyDetected)

/-- Embedding of `dscClassicInterface::dscDataInterrupt`, entered with the clock pin at
level `clockPin`, the data pin at `readPin`, the PC16 pin at `pc16Pin` (true
is HIGH) while `millis()` reads `millis`. -/
def dscDataInterrupt (s : State) (clockPin readPin pc16Pin : Bool) (millis : Nat) : State :=
  if clockPin then { s with cap := samplePanelBit s.cap readPin pc16Pin }
  else
    let s1 :=
      if s.cap.clockHighTime > 2000 then
        let c1 := skipCheck { s.cap with keybusTime := millis } s.dec.lightBlink s.dec.readyLight
        let ring := storeFrame s.ring c1
        { s with cap := resetPanelCapture (storeModule c1), ring := ring }
      else s
    let m := sampleModuleBit s1.cap s1.ring.panelBufferLength s1.dec.starKeyDetected readPin
    { s1 with cap := m.1, dec := { s1.dec with starKeyDetected := m.2 } }

/-! ## Status decoder -/

/-- Modelled from the spec: `DSC_EXIT_STAY` is declared in the missing header;
the code only assigns and compares the three exit states, which are distinct
and nonzero. -/
def DSC_EXIT_STAY : Nat := 1

/-- Modelled from the spec: `DSC_EXIT_AWAY`, declared in the missing header. -/
def DSC_EXIT_AWAY : Nat := 2

/-- Modelled from the spec: `DSC_EXIT_NO_ENTRY_DELAY`, declared in the missing
header. -/
def DSC_EXIT_NO_ENTRY_DELAY : Nat := 3

/-- Arduino `bitRead(value, bit)`. -/
def bitRead (value bit : Nat) : Bool := (value >>> bit) &&& 1 != 0

/-- Arduino `bitWrite(value, bit, b)` on a `byte`: `bitSet` or `bitClear`. -/
def bitWrite (value bit : Nat) (b : Bool) : Nat :=
  if b then (value ||| (1 <<< bit)) % 256 else value &&& (255 ^^^ ((1 <<< bit) % 256))

/-- The statement `if (!pauseStatus) statusChanged = true;`. -/
def markStatusChanged (p : Foreground) (d : Decoder) : Decoder :=
  if !p.pauseStatus then { d with statusChanged := true } else d

/-- Embedding of `dscClassicInterface::processReadyStatus`. -/
def processReadyStatus (p : Foreground) (d : Decoder) (status : Bool) : Decoder :=
  let d := { d with ready := status }
  if d.ready != d.previousReady then
    markStatusChanged p { d with previousReady := d.ready, readyChanged := true }
  else d

/-- Embedding of `dscClassicInterface::processAlarmStatus`. -/
def processAlarmStatus (p : Foreground) (d : Decoder) (status : Bool) : Decoder :=
  let d := { d with alarm := status }
  if d.alarm != d.previousAlarm then
    markStatusChanged p { d with previousAlarm := d.alarm, alarmChanged := true }
  else d

/-- Embedding of `dscClassicInterface::processExitDelayStatus`. -/
def processExitDelayStatus (p : Foreground) (d : Decoder) (status : Bool) : Decoder :=
  let d := { d with exitDelay := status }
  if d.exitDelay != d.previousExitDelay then
    markStatusChanged p { d with previousExitDelay := d.exitDelay, exitDelayChanged := true }
  else d

/-- Embedding of `dscClassicInterface::processArmedStatus`. -/
def processArmedStatus (p : Foreground) (d : Decoder) (armedStatus : Bool) : Decoder :=
  let d := { d with armedStay := armedStatus, armedAway := armedStatus, armed := armedStatus }
  if d.armed != d.previousArmed then
    markStatusChanged p { d with previousArmed := d.armed, armedChanged := true }
  else d

/-- The "keypad lights", "keypad beep" and "PC16 status" blocks of
`processPanelStatus`. -/
def decodeLights (p : Foreground) (d : Decoder) : Decoder :=
  let b := p.panelData p.statusByte
  let d := { d with readyLight := bitRead b 7 }
  let d := { d with lights := bitWrite d.lights 0 d.readyLight }
  let d := { d with armedLight := bitRead b 6 }
  let d := { d with lights := bitWrite d.lights 1 d.armedLight }
  let d := { d with memoryLight := bitRead b 5 }
  let d := { d with lights := bitWrite d.lights 2 d.memoryLight }
  let d := { d with bypassLight := bitRead b 4 }
  let d := { d with lights := bitWrite d.lights 3 d.bypassLight }
  let d := { d with troubleLight := bitRead b 3 }
  let d := { d with lights := bitWrite d.lights 4 d.troubleLight }
  let d := { d with programLight := bitRead b 2 }
  let d := { d with lights := bitWrite d.lights 5 d.programLight }
  let d := { d with fireLight := bitRead b 1 }
  let d := { d with lights := bitWrite d.lights 6 d.fireLight }
  let d :=
    if d.lights != d.previousLights then markStatusChanged p { d with previousLights := d.lights }
    else d
  let q := p.pc16Data p.statusByte
  { d with
    beep := bitRead b 0
    troubleBit := bitRead q 7
    armedBypassBit := bitRead q 6
    armedBitA := bitRead q 5
    armedBitB := bitRead q 4
    alarmBit := bitRead q 0 }

/-- One of the four "checks for ... light blinking" blocks of
`processPanelStatus`, which differ only in the light they watch: from the
light, the time, the light's two time stamps and blink flag, `lightBlink` and
whether none of the other three blink flags is set (`othersOff`), the new
`(timeOn, timeOff, blink, lightBlink)`. -/
def blinkCheck (light : Bool) (now timeOn timeOff : Nat) (blink lightBlink othersOff : Bool) :
    Nat × Nat × Bool × Bool :=
  if light then
    if subU32 now timeOff < 600 then (now, timeOff, true, true)
    else (now, timeOff, false, if othersOff then false else lightBlink)
  else
    if subU32 now timeOn > 1200 then (timeOn, now, false, if othersOff then false else lightBlink)
    else (timeOn, now, blink, lightBlink)

/-- The four blink checks of `processPanelStatus`, in source order: memory,
armed, bypass, trouble. -/
def decodeBlink (d : Decoder) (now : Nat) : Decoder :=
  let r := blinkCheck d.memoryLight now d.memoryLightTimeOn d.memoryLightTimeOff d.memoryBlink
    d.lightBlink (!d.armedBlink && !d.bypassBlink && !d.troubleBlink)
  let d := { d with memoryLightTimeOn := r.1, memoryLightTimeOff := r.2.1,
                    memoryBlink := r.2.2.1, lightBlink := r.2.2.2 }
  let r := blinkCheck d.armedLight now d.armedLightTimeOn d.armedLightTimeOff d.armedBlink
    d.lightBlink (!d.memoryBlink && !d.bypassBlink && !d.troubleBlink)
  let d := { d with armedLightTimeOn := r.1, armedLightTimeOff := r.2.1,
                    armedBlink := r.2.2.1, lightBlink := r.2.2.2 }
  let r := blinkCheck d.bypassLight now d.bypassLightTimeOn d.bypassLightTimeOff d.bypassBlink
    d.lightBlink (!d.memoryBlink && !d.armedBlink && !d.troubleBlink)
  let d := { d with bypassLightTimeOn := r.1, bypassLightTimeOff := r.2.1,
                    bypassBlink := r.2.2.1, lightBlink := r.2.2.2 }
  let r := blinkCheck d.troubleLight now d.troubleLightTimeOn d.troubleLightTimeOff d.troubleBlink
    d.lightBlink (!d.memoryBlink && !d.armedBlink && !d.bypassBlink)
  { d with troubleLightTimeOn := r.1, troubleLightTimeOff := r.2.1,
           troubleBlink := r.2.2.1, lightBlink := r.2.2.2 }

/-- The "checks for beep status" block of `processPanelStatus`. -/
def decodeBeep (d : Decoder) (now : Nat) : Decoder :=
  let d :=
    if d.beepTimesSet then d
    else { d with beepTimesSet := true, beepTimeStart := now, beepTimeOff := now }
  if d.beep then { d with beepTimeStart := now, beepOn := true }
  else if d.beepOn then
    let beepTime := subU32 now d.beepTimeStart
    let d := { d with beepOn := false }
    if beepTime ≤ 90 then
      if d.status = 0x0E then { d with readyChanged := true } else d
    else if d.lights = 0 ∧ beepTime > 90 ∧ beepTime ≤ 800 then
      { d with status := 0x10, readyChanged := false }
    else if beepTime > 800 ∧ beepTime < 1200 then
      if d.lights = 0 then { d with status := 0x8F, readyChanged := false }
      else { d with status := 0x0E, readyChanged := false }
    else d
  else d

/-- The "armed status" block of `processPanelStatus`. -/
def decodeArmed (p : Foreground) (d : Decoder) (now : Nat) : Decoder :=
  let d :=
    if d.armedBitA then
      let d := { d with armed := true, exitDelayArmed := true }
      let d :=
        if d.bypassLight || d.armedBypassBit then
          { d with armedStay := true, armedStayTriggered := true, armedAway := false }
        else if d.armedStayTriggered then
          if !d.beep && !d.alarmBit && decide (subU32 now d.beepTimeOff > 2000) then
            { d with armedStay := false, armedAway := true }
          else d
        else { d with armedStay := false, armedAway := true }
      let d :=
        if d.armedBlink && (d.armedBitA == d.armedBitB) then
          { d with noEntryDelay := true, exitState := DSC_EXIT_NO_ENTRY_DELAY }
        else d
      processReadyStatus p d false
    else
      processAlarmStatus p (processArmedStatus p { d with armedStayTriggered := false } false) false
  if d.armed != d.previousArmed || d.armedStay != d.previousArmedStay
      || d.armedAway != d.previousArmedAway then
    markStatusChanged p
      { d with previousArmed := d.armed, previousArmedStay := d.armedStay,
               previousArmedAway := d.armedAway, armedChanged := true }
  else d

/-- The "ready status" block of `processPanelStatus`. -/
def decodeReady (p : Foreground) (d : Decoder) (now : Nat) : Decoder :=
  if d.readyLight && !d.armedBitA then
    let d := processAlarmStatus p (processArmedStatus p (processReadyStatus p d true) false) false
    let d := { d with exitDelayArmed := false, previousAlarmTriggered := false,
                      starKeyDetected := false }
    let d := if !d.armedBlink then { d with noEntryDelay := false } else d
    if d.armedLight then
      let d := { processExitDelayStatus p d true with exitDelayTriggered := true }
      if d.exitState ≠ DSC_EXIT_NO_ENTRY_DELAY then
        let d := if d.bypassLight then { d with exitState := DSC_EXIT_STAY }
                 else { d with exitState := DSC_EXIT_AWAY }
        if d.exitState ≠ d.previousExitState then
          markStatusChanged p
            { d with previousExitState := d.exitState, exitDelayChanged := true,
                     exitStateChanged := true }
        else d
      else d
    else if !d.exitDelayArmed && !d.armedBlink
        && decide (subU32 now d.armedLightTimeOn > 400) then
      { processExitDelayStatus p d false with exitState := 0 }
    else d
  else
    let d :=
      if p.panelData (p.statusByte - 1) ≠ 0
          ∨ (p.statusByte = 3
              ∧ (p.panelData (p.statusByte - 1) ≠ 0 ∨ p.panelData (p.statusByte - 2) ≠ 0)) then
        processReadyStatus p d false
      else d
    let d :=
      if d.exitDelayArmed && !d.armedBitA then
        { processReadyStatus p d false with exitDelayArmed := false }
      else d
    if d.exitDelay && d.armedBitA then processExitDelayStatus p d false else d

/-- Replaces element `i` of an array. -/
def setAt (a : Nat → Nat) (i v : Nat) : Nat → Nat := fun j => if j = i then v else a j

/-- The bit positions `7, 6, ..., 0` visited by `for (byte bit = 7; bit <= 7; bit--)`. -/
def bitsDown : List Nat := [7, 6, 5, 4, 3, 2, 1, 0]

/-- The body of `for (byte i = 1; i <= statusByte; i++)` in the "zones status"
block of `processPanelStatus`, for zone group `i`. -/
def decodeZoneGroup (p : Foreground) (d : Decoder) (i : Nat) : Decoder :=
  let d := bitsDown.foldl
    (fun d bit =>
      if (!bitRead (d.zonesTriggered (p.statusByte - 1)) bit && !d.alarmBit) || d.exitDelay then
        let v := bitWrite (d.openZones (i - 1)) (7 - bit) (bitRead (p.panelData (p.statusByte - i)) bit)
        { d with openZones := setAt d.openZones (i - 1) v }
      else d)
    d
  let zonesChanged := d.openZones (i - 1) ^^^ d.previousOpenZones (i - 1)
  if zonesChanged ≠ 0 then
    let d := markStatusChanged p
      { d with previousOpenZones := setAt d.previousOpenZones (i - 1) (d.openZones (i - 1)),
               openZonesStatusChanged := true }
    (List.range 8).foldl
      (fun d zoneBit =>
        if bitRead zonesChanged zoneBit then
          let v := bitWrite (d.openZonesChanged (i - 1)) zoneBit true
          { d with openZonesChanged := setAt d.openZonesChanged (i - 1) v }
        else d)
      d
  else d

/-- The "zones status" block of `processPanelStatus`. -/
def decodeZones (p : Foreground) (d : Decoder) : Decoder :=
  if !d.previousAlarmTriggered && !d.memoryBlink && !d.bypassBlink && !d.troubleBlink
      && !d.starKeyDetected then
    ((List.range p.statusByte).map (fun k => k + 1)).foldl (decodeZoneGroup p) d
  else d

/-- The "alarm zones status" block of `processPanelStatus`. -/
def decodeAlarmZones (p : Foreground) (d : Decoder) : Decoder :=
  let d := [7, 6, 5, 4, 3, 2].foldl
    (fun d bit =>
      if bitRead (p.pc16Data (p.statusByte - 1)) bit then
        { d with
          alarmZones := setAt d.alarmZones 0 (bitWrite (d.alarmZones 0) (7 - bit) true)
          zonesTriggered := setAt d.zonesTriggered 0 (bitWrite (d.zonesTriggered 0) (7 - bit) true) }
      else
        { d with alarmZones := setAt d.alarmZones 0 (bitWrite (d.alarmZones 0) (7 - bit) false) })
    d
  let zonesChanged := d.alarmZones 0 ^^^ d.previousAlarmZones 0
  if zonesChanged ≠ 0 then
    let d := markStatusChanged p
      { d with previousAlarmZones := setAt d.previousAlarmZones 0 (d.alarmZones 0),
               alarmZonesStatusChanged := true }
    (List.range 8).foldl
      (fun d zoneBit =>
        if bitRead zonesChanged zoneBit then
          let v := bitWrite (d.alarmZonesChanged 0) zoneBit true
          let d := { d with alarmZonesChanged := setAt d.alarmZonesChanged 0 v }
          if d.alarmBit then
            let v := bitWrite (d.openZones 0) zoneBit (bitRead (d.alarmZones 0) zoneBit)
            let w := bitWrite (d.openZonesChanged 0) zoneBit true
            let d :=
              { d with
                openZones := setAt d.openZones 0 v
                openZonesChanged := setAt d.openZonesChanged 0 w
                openZonesStatusChanged := true }
            { d with previousOpenZones := setAt d.previousOpenZones 0 (d.openZones 0) }
          else d
        else d)
      d
  else d

/-- The "alarm status" block of `processPanelStatus`. -/
def decodeAlarm (p : Foreground) (d : Decoder) : Decoder :=
  if p.panelData p.statusByte &&& 0xFE ≠ 0 then
    if d.alarmBit && !d.memoryBlink then
      { processAlarmStatus p (processReadyStatus p d false) true with alarmTriggered := true }
    else if !d.memoryBlink && !d.armedChanged then
      let d := processAlarmStatus p d false
      if d.alarmTriggered then { d with alarmTriggered := false, previousAlarmTriggered := true }
      else d
    else d
  else d

/-- The "trouble status" and "fire status" blocks of `processPanelStatus`. -/
def decodeTroubleFire (p : Foreground) (d : Decoder) : Decoder :=
  let d := { d with trouble := d.troubleBit }
  let d :=
    if d.trouble != d.previousTrouble then
      markStatusChanged p { d with previousTrouble := d.trouble, troubleChanged := true }
    else d
  let d := { d with fire := bitRead (p.pc16Data (p.statusByte - 1)) 0 }
  if d.fire != d.previousFire then
    markStatusChanged p { d with previousFire := d.fire, fireChanged := true }
  else d

/-- The three "keypad ... alarm" blocks of `processPanelStatus`. -/
def decodeKeypadAlarms (p : Foreground) (d : Decoder) (now : Nat) : Decoder :=
  let d :=
    if bitRead (p.pc16Data p.statusByte) 1 && decide (subU32 now d.previousFireAlarm > 1000) then
      markStatusChanged p { d with keypadFireAlarm := true, previousFireAlarm := now }
    else d
  let d :=
    if bitRead (p.pc16Data p.statusByte) 2 && decide (subU32 now d.previousAuxAlarm > 1000) then
      markStatusChanged p { d with keypadAuxAlarm := true, previousAuxAlarm := now }
    else d
  if bitRead (p.pc16Data p.statusByte) 3 && decide (subU32 now d.previousPanicAlarm > 1000) then
    markStatusChanged p { d with keypadPanicAlarm := true, previousPanicAlarm := now }
  else d

/-- The "status" block of `processPanelStatus`: the PowerSeries status code. -/
def decodeStatus (p : Foreground) (d : Decoder) : Decoder :=
  let d :=
    if d.memoryBlink && d.bypassBlink && d.troubleBlink then { d with status := 0xE4 }
    else if d.lights ≠ 0 then
      let d :=
        if d.readyChanged ∨ d.status = 0x8F ∨ d.status = 0x10 ∨ d.status = 0xE4 then
          if d.ready then { d with status := 0x01 }
          else if d.openZonesStatusChanged ∧ (d.openZones 0 ≠ 0 ∨ d.openZones 1 ≠ 0) then
            { d with status := 0x03 }
          else d
        else d
      let d :=
        if d.armedChanged then
          if d.armed then
            let d :=
              if d.armedAway then { d with status := 0x05 }
              else if d.armedStay then { d with status := 0x04 }
              else d
            if d.noEntryDelay then { d with status := 0x06 } else d
          else { d with status := 0x3E }
        else d
      let d :=
        if d.alarmChanged then
          if d.alarm then { d with status := 0x11 }
          else if !d.armedChanged then { d with status := 0x3E }
          else d
        else d
      let d :=
        if d.exitDelayChanged then
          if d.exitDelay then { d with status := 0x08 }
          else if !d.armed then { d with status := 0x3E }
          else d
        else d
      if d.status = 0x3E then
        if d.ready then { d with status := 0x01 }
        else if d.openZones 0 ≠ 0 ∨ d.openZones 1 ≠ 0 then { d with status := 0x03 }
        else d
      else d
    else d
  if d.status ≠ d.previousStatus then markStatusChanged p { d with previousStatus := d.status }
  else d

/-- Embedding of `dscClassicInterface::processPanelStatus`, run while `millis()` reads
`now` (one reading for the whole call). -/
def processPanelStatus (p : Foreground) (d : Decoder) (now : Nat) : Decoder :=
  decodeStatus p (decodeKeypadAlarms p (decodeTroubleFire p (decodeAlarm p
    (decodeAlarmZones p (decodeZones p (decodeReady p (decodeArmed p
      (decodeBeep (decodeBlink (decodeLights p d) now) now) now) now))))) now)

/-- Embedding of `dscClassicInterface::resetStatus`. -/
def resetStatus (d : Decoder) : Decoder :=
  { d with
    statusChanged := true
    keybusChanged := true
    troubleChanged := true
    readyChanged := true
    armedChanged := true
    alarmChanged := true
    fireChanged := true
    openZonesStatusChanged := true
    alarmZonesStatusChanged := true
    openZonesChanged := setAt d.openZonesChanged 0 0xFF
    alarmZonesChanged := setAt d.alarmZonesChanged 0 0xFF
    pgmOutputsChanged := true }

/-! ## Foreground polling -/

/-- Whether `loop`, called while `millis()` reads `now`, leaves through
`if (!keybusConnected) return true;`: the keybus state changes, to
disconnected. -/
def loopDisconnects (s : State) (now : Nat) : Bool :=
  (s.dec.previousKeybus != !decide (subU32 now s.cap.keybusTime > 3000))
    && decide (subU32 now s.cap.keybusTime > 3000)

/-- Whether this call of `loop` reaches the copy of a ring slot into
`panelData[]` and `pc16Data[]`: it does not leave on a disconnect and the ring
is not empty. -/
def loopCopies (s : State) (now : Nat) : Bool :=
  !loopDisconnects s now && s.ring.panelBufferLength != 0

/-- The "copies data from the buffer to `panelData[]`" block of `loop`: slot
`panelBufferIndex - 1` (a `byte`) goes to the foreground buffers. -/
def copySlot (r : Ring) (fg : Foreground) : Foreground :=
  let dataIndex := (r.panelBufferIndex + 255) % 256
  { fg with
    panelData := fun i => if i < dscDataSize then r.panelBuffer dataIndex i else fg.panelData i
    pc16Data := fun i => if i < dscDataSize then r.pc16Buffer dataIndex i else fg.pc16Data i
    panelBitCount := r.panelBufferBitCount dataIndex
    panelByteCount := r.panelBufferByteCount dataIndex }

/-- The `panelBufferIndex++` of `loop` and its "resets counters when the buffer
is cleared" block. -/
def advanceIndex (r : Ring) : Ring :=
  let ring : Ring := { r with panelBufferIndex := incByte r.panelBufferIndex }
  if ring.panelBufferIndex > ring.panelBufferLength then
    { ring with panelBufferIndex := 1, panelBufferLength := 0 }
  else ring

/-- Embedding of `dscClassicInterface::loop`, run while `millis()` reads `now` (one reading
for the whole call): the state afterwards and the returned flag. -/
def loop (s : State) (now : Nat) : State × Bool :=
  let d := { s.dec with keybusConnected := !decide (subU32 now s.cap.keybusTime > 3000) }
  let changed := d.previousKeybus != d.keybusConnected
  let d :=
    if changed then
      markStatusChanged s.fg { d with previousKeybus := d.keybusConnected, keybusChanged := true }
    else d
  if changed && !d.keybusConnected then ({ s with dec := d }, true)
  else
    let wr := if s.wr.writeKeysPending then writeKeys s.wr now else s.wr
    if s.ring.panelBufferLength = 0 then ({ s with dec := d, wr := wr }, false)
    else
      let fg := copySlot s.ring s.fg
      let ring := advanceIndex s.ring
      if fg.startupCycle && (decide (fg.panelByteCount < 2) || fg.pc16Data 0 == 0xFF) then
        ({ s with dec := d, fg := fg, wr := wr, ring := ring }, false)
      else
        let started := fg.startupCycle
        let fg : Foreground :=
          if started then
            { fg with startupCycle := false,
                      statusByte := if fg.panelByteCount = 3 then 2 else fg.statusByte }
          else fg
        let wr := if started then { wr with writeReady := true } else wr
        let wr :=
          if !wr.writeKeyPending && !wr.writeKeysPending then { wr with writeReady := true }
          else { wr with writeReady := false }
        ({ s with dec := processPanelStatus fg d now, fg := fg, wr := wr, ring := ring }, true)

/-- Embedding of `dscClassicInterface::stop`.  Detaching the interrupts and the timer has
no effect on the state; the handlers are simply no longer invoked. -/
def stop (s : State) : State :=
  { s with
    ring := { s.ring with panelBufferLength := 0 }
    cap :=
      { s.cap with
        isrPanelData := fun i => if i < dscDataSize then 0 else s.cap.isrPanelData i
        isrPC16Data := fun i => if i < dscDataSize then 0 else s.cap.isrPC16Data i
        isrModuleData := fun i => if i < dscDataSize then 0 else s.cap.isrModuleData i
        isrPanelBitTotal := 0
        isrPanelBitCount := 0
        isrPanelByteCount := 0
        isrModuleBitTotal := 0
        isrModuleBitCount := 0
        isrModuleByteCount := 0 } }

/-- Embedding of `dscClassicInterface::begin`: it configures the pins and the timer and
attaches `dscClockInterrupt`; it assigns none of the modelled variables (the
output stream is not modelled). -/
def begin (s : State) : State := s

/-- The part of `write(const char *receivedKeys, bool blockingWrite)` after the
pending-write wait and the single-character test, for `blockingWrite = false`:
the string becomes `writeKeysArray` and `writeKeys` sends its first key. -/
def writeMulti (s : Writer) (receivedKeys : List Char) (now : Nat) : Writer :=
  let s := { s with writeKeysArray := receivedKeys }
  let s :=
    if charAt s.writeKeysArray 0 ≠ Char.ofNat 0 then
      { s with writeKeysPending := true, writeReady := false }
    else s
  writeKeys s now

/-- Embedding of `dscClassicInterface::write(const char receivedKey)`.  The source first
spins in `loop()` while a write is pending; that wait is not modelled: the
result is `none` when the call would have to wait.  The access-code macros go
through the string `write`; an access code of one character (which would make
that call come back here) gives `none`: in this branch the stay code has at
least 4 characters and the constructor makes the other two codes longer. -/
def writeChar (s : Writer) (receivedKey : Char) (now : Nat) : Option Writer :=
  if s.writeKeyPending || s.writeKeysPending then none
  else if strlen s.accessCodeStay < 4 then some (setWriteKey s receivedKey now)
  else if receivedKey = 's' ∨ receivedKey = 'S' then
    if strlen s.accessCodeStay = 1 then none else some (writeMulti s s.accessCodeStay now)
  else if receivedKey = 'w' ∨ receivedKey = 'W' then
    if strlen s.accessCodeAway = 1 then none else some (writeMulti s s.accessCodeAway now)
  else if receivedKey = 'n' ∨ receivedKey = 'N' then
    if strlen s.accessCodeNight = 1 then none else some (writeMulti s s.accessCodeNight now)
  else some (setWriteKey s receivedKey now)

/-- Embedding of `dscClassicInterface::write(const char *receivedKeys, bool blockingWrite)`
with `blockingWrite = false`; `none` when the call would have to wait for a
pending write (see `writeChar`). -/
def write (s : Writer) (receivedKeys : List Char) (now : Nat) : Option Writer :=
  if s.writeKeyPending || s.writeKeysPending then none
  else if strlen receivedKeys = 1 then writeChar s (charAt receivedKeys 0) now
  else some (writeMulti s receivedKeys now)

/-! ## Power-on state -/

/-- An array of zeros. -/
def zeros : Nat → Nat := fun _ => 0

/-- The writer after the constructor ran on a zero-initialised object with
the write pin `setWritePin` (255 leaves the virtual keypad disabled) and the
given access code. -/
def Writer.init (setWritePin : Nat) (accessCode : List Char) : Writer :=
  { virtualKeypad := decide (setWritePin ≠ 255), writeKey := 0, writeKeyPending := false, writeKeyWait := false,
    writeAlarm := false, writeReady := false, writeKeysPending := false, writeKeysArray := [],
    writeCounter := 0, previousTime := 0, writeCompleteTime := 0, writeStart := false,
    accessCodeStay := accessCode, accessCodeAway := accessCode ++ ['*', '1'],
    accessCodeNight := ['*', '9'] ++ accessCode }

/-- The capture state of a zero-initialised object. -/
def Capture.init : Capture :=
  { isrPanelData := zeros, isrPC16Data := zeros, isrModuleData := zeros,
    isrPanelBitTotal := 0, isrPanelBitCount := 0, isrPanelByteCount := 0,
    isrModuleBitTotal := 0, isrModuleBitCount := 0, isrModuleByteCount := 0,
    skipData := false, moduleDataDetected := false,
    previousPanelData := zeros, previousPC16Data := zeros,
    clockHighTime := 0, previousClockHighTime := 0, keybusTime := 0,
    processModuleData := false, moduleDataCaptured := false, moduleData := zeros,
    moduleBitCount := 0, moduleByteCount := 0 }

/-- The empty ring of a zero-initialised object; `panelBufferIndex` starts at 1. -/
def Ring.init : Ring :=
  { panelBuffer := fun _ => zeros, pc16Buffer := fun _ => zeros,
    panelBufferBitCount := zeros, panelBufferByteCount := zeros,
    panelBufferLength := 0, bufferOverflow := false, panelBufferIndex := 1 }

/-- The foreground buffers after the constructor ran on a zero-initialised
object: `statusByte = 1`, `pauseStatus = false`, `startupCycle = true`. -/
def Foreground.init : Foreground :=
  { panelData := zeros, pc16Data := zeros, panelBitCount := 0, panelByteCount := 0,
    statusByte := 1, pauseStatus := false, startupCycle := true }

/-- The decoded status of a zero-initialised object. -/
def Decoder.init : Decoder :=
  { statusChanged := false, keybusConnected := false,
    previousKeybus := false, keybusChanged := false,
    lights := 0, previousLights := 0, readyLight := false, armedLight := false,
    memoryLight := false, bypassLight := false, troubleLight := false, programLight := false,
    fireLight := false, beep := false, troubleBit := false, armedBypassBit := false,
    armedBitA := false, armedBitB := false, alarmBit := false, memoryBlink := false,
    armedBlink := false, bypassBlink := false, troubleBlink := false, lightBlink := false,
    memoryLightTimeOn := 0, memoryLightTimeOff := 0, armedLightTimeOn := 0,
    armedLightTimeOff := 0, bypassLightTimeOn := 0, bypassLightTimeOff := 0,
    troubleLightTimeOn := 0, troubleLightTimeOff := 0, beepTimesSet := false,
    beepTimeStart := 0, beepTimeOff := 0, beepOn := false, status := 0, previousStatus := 0,
    ready := false, previousReady := false, readyChanged := false, armed := false,
    armedStay := false, armedAway := false, previousArmed := false,
    previousArmedStay := false, previousArmedAway := false, armedChanged := false,
    armedStayTriggered := false, noEntryDelay := false, exitDelayArmed := false,
    exitDelayTriggered := false, exitDelay := false, previousExitDelay := false,
    exitDelayChanged := false, exitState := 0, previousExitState := 0,
    exitStateChanged := false, alarm := false, previousAlarm := false, alarmChanged := false,
    alarmTriggered := false, previousAlarmTriggered := false, starKeyDetected := false,
    openZones := zeros, previousOpenZones := zeros, openZonesChanged := zeros,
    openZonesStatusChanged := false, alarmZones := zeros, previousAlarmZones := zeros,
    alarmZonesChanged := zeros, alarmZonesStatusChanged := false, zonesTriggered := zeros,
    trouble := false, previousTrouble := false, troubleChanged := false, fire := false,
    previousFire := false, fireChanged := false, keypadFireAlarm := false,
    keypadAuxAlarm := false, keypadPanicAlarm := false, previousFireAlarm := 0,
    previousAuxAlarm := 0, previousPanicAlarm := 0, pgmOutputsChanged := false }

/-- The power-on state of a statically allocated interface object constructed
with the write pin `setWritePin` and the given access code. -/
def State.init (setWritePin : Nat) (accessCode : List Char) : State :=
  { wr := Writer.init setWritePin accessCode, cap := Capture.init, ring := Ring.init,
    fg := Foreground.init, dec := Decoder.init }

/-! ## The key table as the specification words it -/

/-- The key table of the specification for the keys that are not alarm keys. -/
def specKeyTable : List (Char × Nat) :=
  [('0', 0xD7), ('1', 0xBE), ('2', 0xDE), ('3', 0xEE), ('4', 0xBD), ('5', 0xDD),
   ('6', 0xED), ('7', 0xBB), ('8', 0xDB), ('9', 0xEB), ('*', 0xB7), ('#', 0xE7)]

/-- The key table of the specification for the alarm keys F, A, P (either case). -/
def specAlarmKeyTable : List (Char × Nat) :=
  [('F', 0x3F), ('f', 0x3F), ('A', 0x5F), ('a', 0x5F), ('P', 0x6F), ('p', 0x6F)]

/-- The characters the specification lists as keys. -/
def specKeyChars : List Char := (specKeyTable ++ specAlarmKeyTable).map Prod.fst

/-! ## Bit capture (`dscDataInterrupt`, clock high) -/

/-- The value of a bit string read most significant bit first. -/
def msbValue (bits : List Bool) : Nat :=
  bits.foldl (fun acc b => 2 * acc + (if b then 1 else 0)) 0

/-- The state after consecutive invocations of `dscDataInterrupt` with the
clock high, one per sample `(data level, PC16 level, millis())`. -/
def clockHighRun (s : State) (samples : List (Bool × Bool × Nat)) : State :=
  samples.foldl (fun s x => dscDataInterrupt s true x.1 x.2.1 x.2.2) s

/-- The registers of the panel capture: everything in `Capture` that the
keypad and module capture leaves alone. -/
def Capture.panelRegs (c : Capture) :=
  (c.isrPanelData, c.isrPC16Data, c.isrPanelBitTotal, c.isrPanelBitCount, c.isrPanelByteCount,
    c.skipData, c.previousPanelData, c.previousPC16Data, c.clockHighTime,
    c.previousClockHighTime, c.keybusTime)

/-- What the capture registers hold after the samples `xs` were taken from the
reset state: the three counters, every byte as the MSB-first value of its
bits, and nothing outside the `dscDataSize` bytes touched (`c0` is the state
the run started from). -/
def Captured (c0 c : Capture) (xs : List (Bool × Bool × Nat)) : Prop :=
  c.isrPanelBitTotal = xs.length ∧ c.isrPanelByteCount = xs.length / 8
  ∧ c.isrPanelBitCount = xs.length % 8
  ∧ (∀ j, j < dscDataSize →
      c.isrPanelData j = msbValue (((xs.map (fun x => x.1)).drop (8 * j)).take 8)
      ∧ c.isrPC16Data j = msbValue (((xs.map (fun x => x.2.1)).drop (8 * j)).take 8))
  ∧ (∀ j, dscDataSize ≤ j →
      c.isrPanelData j = c0.isrPanelData j ∧ c.isrPC16Data j = c0.isrPC16Data j)

/-- Whether the panel capture registers are in their per-frame reset state. -/
def Capture.isReset (c : Capture) : Prop :=
  c.isrPanelBitTotal = 0 ∧ c.isrPanelBitCount = 0 ∧ c.isrPanelByteCount = 0
  ∧ ∀ j, j < dscDataSize → c.isrPanelData j = 0 ∧ c.isrPC16Data j = 0

/-- The sixteen clock-high samples of the PC1550 frame with panel bytes
`[0x00, 0x80]` (Ready light) and PC16 bytes `[0x00, 0x00]`, taken at
millisecond 1000. -/
def readyFrameSamples : List (Bool × Bool × Nat) :=
  (List.replicate 8 (false, false, 1000)) ++ [(true, false, 1000)]
    ++ (List.replicate 7 (false, false, 1000))

/-! ## Bus stimulus -/

/-- One period of the keybus clock as the two handlers see it: the rising
edge (`dscClockInterrupt` with the clock high), the sample the timer takes
250 us later while the clock is high (`dscDataInterrupt`, panel and PC16
levels), the falling edge, and the sample taken while the clock is low (the
keypad/module level on the data line).  Each invocation has its own readings
of `micros()` and `millis()`. -/
structure Cycle where
  riseMicros : Nat
  riseMillis : Nat
  panelBit : Bool
  pc16Bit : Bool
  highMillis : Nat
  fallMicros : Nat
  fallMillis : Nat
  keypadBit : Bool
  lowMillis : Nat

/-- The four handler invocations of one clock period: the state afterwards
and the `digitalWrite` on the write pin performed by the falling-edge
invocation, if any. -/
def clockCycle (s : State) (c : Cycle) : State × Option Bool :=
  let s1 := (dscClockInterrupt s true c.riseMicros c.riseMillis).1
  let s2 := dscDataInterrupt s1 true c.panelBit c.pc16Bit c.highMillis
  let r := dscClockInterrupt s2 false c.fallMicros c.fallMillis
  (dscDataInterrupt r.1 false c.keypadBit false c.lowMillis, r.2)

/-- Consecutive clock periods: the final state and the write-pin action of
each falling edge, in order. -/
def clockCycles (s : State) (cs : List Cycle) : State × List (Option Bool) :=
  cs.foldl (fun acc c => ((clockCycle acc.1 c).1, acc.2 ++ [(clockCycle acc.1 c).2])) (s, [])

/-- The write-pin action the key protocol prescribes in slot `k` for the key
code `key`: drive the pin HIGH when bit `7 - k` is 0, leave it otherwise. -/
def slotAction (key k : Nat) : Option Bool :=
  if Nat.testBit key (7 - k) then none else some true

/-- A key transmission is under way and `k` panel bits of the current command
have been sampled. -/
def Sending (s : State) (key k : Nat) : Prop :=
  s.wr.virtualKeypad = true ∧ s.wr.writeKeyPending = true ∧ s.wr.writeKeyWait = false
  ∧ s.wr.writeStart = true ∧ s.wr.writeKey = key
  ∧ s.cap.isrPanelBitTotal = k ∧ s.cap.isrPanelBitCount = k ∧ s.cap.isrPanelByteCount = 0

/-- Clock period number `k` of a command whose long idle starts at 1000 ms:
period 0 begins the idle (clock high for 5 ms), the later periods have the
clock high for 500 us; all sampled levels are those of an idle bus. -/
def bitCycle (k : Nat) : Cycle :=
  { riseMicros := 1000000 + 1000 * k + (if k = 0 then 0 else 5000)
    riseMillis := 1000 + k + (if k = 0 then 0 else 5)
    panelBit := false
    pc16Bit := false
    highMillis := 1000 + k + (if k = 0 then 0 else 5)
    fallMicros := 1000000 + 1000 * k + (if k = 0 then 5000 else 5500)
    fallMillis := 1000 + k + 5
    keypadBit := true
    lowMillis := 1000 + k + 5 }

/-- The power-on state after `setWriteKey('5')` at 900 ms: the key code `0xDD`
is pending. -/
def keyFivePending : State :=
  { State.init 4 [] with wr := setWriteKey (Writer.init 4 []) '5' 900 }

/-! ## Events and traces -/

/-- What can happen to the interface object: an invocation of one of the two
interrupt handlers with the hardware readings it finds, or a call of the API
from the sketch. -/
inductive Event where
  /-- An invocation of `dscClockInterrupt()` with the clock pin level and the two clocks. -/
  | clockEdge (clockPin : Bool) (micros millis : Nat)
  /-- An invocation of `dscDataInterrupt()` with the three pin levels and `millis()`. -/
  | dataSample (clockPin readPin pc16Pin : Bool) (millis : Nat)
  /-- A call of `loop()` with `millis()`. -/
  | poll (millis : Nat)
  /-- A call of `write(receivedKeys)` with `millis()`. -/
  | keys (receivedKeys : List Char) (millis : Nat)
  /-- A call of `stop()`. -/
  | stopCapture
  /-- A call of `begin()`. -/
  | beginCapture
  /-- A call of `resetStatus()`. -/
  | resetFlags
deriving DecidableEq

/-- The state after an event.  A `write` that would have to wait for a pending
write (it spins in `loop()` until the interrupt handler has sent the key) is
not taken. -/
def step (s : State) : Event → State
  | .clockEdge clockPin micros millis => (dscClockInterrupt s clockPin micros millis).1
  | .dataSample clockPin readPin pc16Pin millis =>
      dscDataInterrupt s clockPin readPin pc16Pin millis
  | .poll millis => (loop s millis).1
  | .keys receivedKeys millis =>
      match write s.wr receivedKeys millis with
      | some w => { s with wr := w }
      | none => s
  | .stopCapture => stop s
  | .beginCapture => begin s
  | .resetFlags => { s with dec := resetStatus s.dec }

/-- A frame as it travels from the capture registers through a ring slot to
the foreground buffers: the `dscDataSize` bytes of each channel and the two
counts. -/
structure Frame where
  panel : List Nat
  pc16 : List Nat
  bitCount : Nat
  byteCount : Nat
deriving DecidableEq

/-- The frame in the capture registers. -/
def capturedFrame (c : Capture) : Frame :=
  { panel := (List.range dscDataSize).map c.isrPanelData
    pc16 := (List.range dscDataSize).map c.isrPC16Data
    bitCount := c.isrPanelBitTotal
    byteCount := c.isrPanelByteCount }

/-- The frame in ring slot `k`. -/
def slotFrame (r : Ring) (k : Nat) : Frame :=
  { panel := (List.range dscDataSize).map (r.panelBuffer k)
    pc16 := (List.range dscDataSize).map (r.pc16Buffer k)
    bitCount := r.panelBufferBitCount k
    byteCount := r.panelBufferByteCount k }

/-- The frame in `panelData[]`, `pc16Data[]`, `panelBitCount`, `panelByteCount`. -/
def foregroundFrame (f : Foreground) : Frame :=
  { panel := (List.range dscDataSize).map f.panelData
    pc16 := (List.range dscDataSize).map f.pc16Data
    bitCount := f.panelBitCount
    byteCount := f.panelByteCount }

/-- A state together with the history of the frame ring: the frames
`dscDataInterrupt` has stored and the frames `loop` has copied out, both in
order of occurrence. -/
structure Trace where
  state : State
  stored : List Frame
  delivered : List Frame

/-- One event on a trace.  A data interrupt has stored a frame exactly when it
has raised `panelBufferLength` by one; the frame stored is the one in the
capture registers at that moment.  A `loop` call delivers the frame it leaves
in the foreground buffers when it reaches the copy (`loopCopies`). -/
def Trace.step (t : Trace) (e : Event) : Trace :=
  { state := DscClassic.step t.state e
    stored :=
      match e with
      | .dataSample _ _ _ _ =>
          if (DscClassic.step t.state e).ring.panelBufferLength = t.state.ring.panelBufferLength + 1 then
            t.stored ++ [capturedFrame t.state.cap]
          else t.stored
      | _ => t.stored
    delivered :=
      match e with
      | .poll millis =>
          if loopCopies t.state millis then t.delivered ++ [foregroundFrame (DscClassic.step t.state e).fg]
          else t.delivered
      | _ => t.delivered }

/-- The trace of a list of events. -/
def Trace.run (t : Trace) (es : List Event) : Trace := es.foldl Trace.step t

/-- The trace at power-on: nothing stored, nothing delivered. -/
def Trace.init (setWritePin : Nat) (accessCode : List Char) : Trace :=
  { state := State.init setWritePin accessCode, stored := [], delivered := [] }

/-- The four handler invocations of a clock period, as events. -/
def Cycle.events (c : Cycle) : List Event :=
  [.clockEdge true c.riseMicros c.riseMillis,
   .dataSample true c.panelBit c.pc16Bit c.highMillis,
   .clockEdge false c.fallMicros c.fallMillis,
   .dataSample false c.keypadBit false c.lowMillis]

/-- The bits of a byte, most significant first. -/
def bitsOf (b : Nat) : List Bool := bitsDown.map (fun k => Nat.testBit b k)

/-- The clock periods in which the panel sends a frame with the given panel
and PC16 bytes, the first rising edge at `t` microseconds: one period of 1 ms
per bit with the clock high for 500 us, the last bit followed by the
inter-frame idle (clock high for 5 ms).  The data line is idle while the clock
is low. -/
def frameCycles (t : Nat) (panel pc16 : List Nat) : List Cycle :=
  let ds := panel.flatMap bitsOf
  let ps := pc16.flatMap bitsOf
  (List.range ds.length).map (fun i =>
    let high := if i + 1 = ds.length then 5000 else 500
    { riseMicros := t + 1000 * i
      riseMillis := (t + 1000 * i) / 1000
      panelBit := ds.getD i false
      pc16Bit := ps.getD i false
      highMillis := (t + 1000 * i + 250) / 1000
      fallMicros := t + 1000 * i + high
      fallMillis := (t + 1000 * i + high) / 1000
      keypadBit := true
      lowMillis := (t + 1000 * i + high + 250) / 1000 })

/-- The events of `frameCycles`. -/
def frameEvents (t : Nat) (panel pc16 : List Nat) : List Event :=
  (frameCycles t panel pc16).flatMap Cycle.events

/-- The clock period `c`, `ms` milliseconds later. -/
def Cycle.delay (c : Cycle) (ms : Nat) : Cycle :=
  { c with
    riseMicros := c.riseMicros + 1000 * ms
    riseMillis := c.riseMillis + ms
    highMillis := c.highMillis + ms
    fallMicros := c.fallMicros + 1000 * ms
    fallMillis := c.fallMillis + ms
    lowMillis := c.lowMillis + ms }

/-- The eight clock periods `bitCycle 0 .. bitCycle 7` (a long idle and the
first seven bits of the next command), `ms` milliseconds later. -/
def keyCycles (ms : Nat) : List Cycle :=
  (List.range 8).map (fun k => (bitCycle k).delay ms)

/-- The PC1550 frame "armed": Armed light, PC16 ArmedSideA. -/
def armedFrame : Frame :=
  ⟨[0x00, 0x40, 0, 0, 0, 0, 0, 0], [0x00, 0x20, 0, 0, 0, 0, 0, 0], 16, 2⟩

/-- The PC1550 frame "armed, in alarm": Armed light and zone 3 light, PC16
ArmedSideA, Alarm and the alarm bit of zone 3. -/
def alarmFrame : Frame :=
  ⟨[0x20, 0x40, 0, 0, 0, 0, 0, 0], [0x20, 0x21, 0, 0, 0, 0, 0, 0], 16, 2⟩

/-- The PC1550 frame "armed, alarm over": Armed light and zone 3 light, PC16
ArmedSideA only. -/
def alarmOverFrame : Frame :=
  ⟨[0x20, 0x40, 0, 0, 0, 0, 0, 0], [0x00, 0x20, 0, 0, 0, 0, 0, 0], 16, 2⟩

/-- The PC1550 frame "ready": Ready light, PC16 all zero. -/
def readyFrame : Frame :=
  ⟨[0x00, 0x80, 0, 0, 0, 0, 0, 0], [0x00, 0x00, 0, 0, 0, 0, 0, 0], 16, 2⟩

/-- The PC1550 frame "zone 3 open": Ready light and zone 3 light. -/
def zoneFrame : Frame :=
  ⟨[0x20, 0x80, 0, 0, 0, 0, 0, 0], [0x00, 0x00, 0, 0, 0, 0, 0, 0], 16, 2⟩

/-- The events in which the panel sends the 16-bit frame `f`, starting at `t`
microseconds. -/
def Frame.events (f : Frame) (t : Nat) : List Event :=
  frameEvents t (f.panel.take f.byteCount) (f.pc16.take f.byteCount)

/-- The writer after `write(receivedKeys)` at `millis`, or unchanged when the
call would have to wait. -/
def writeAt (s : State) (receivedKeys : List Char) (millis : Nat) : State :=
  step s (.keys receivedKeys millis)

/-- The panic key sent from power-on: `write("P")` at 10 s, then the eight
clock periods in which the handler sends the key. -/
def afterPanicKey : State × List (Option Bool) :=
  clockCycles (writeAt (State.init 4 []) ['P'] 10000) (keyCycles 9000)

/-- Fifty seconds after the panic key, `write("1234")` at 60 s and the eight
clock periods in which the handler sends the first key. -/
def accessCodeFirstKey : State × List (Option Bool) :=
  clockCycles (writeAt afterPanicKey.1 ['1', '2', '3', '4'] 60000) (keyCycles 59000)

/-- The draining of that write: `loop()` at 60030, 60031 and 60032 ms, then
eight more clock periods. -/
def accessCodeDrained : State × List (Option Bool) :=
  clockCycles (step (step (step accessCodeFirstKey.1 (.poll 60030)) (.poll 60031)) (.poll 60032))
    (keyCycles 59040)

/-- From power-on, `write("F1")` at 10 s and the eight clock periods in which
the handler sends the first key. -/
def fireThenOneFirstKey : State × List (Option Bool) :=
  clockCycles (writeAt (State.init 4 []) ['F', '1'] 10000) (keyCycles 9000)

/-- From power-on the panel sends the ready frame and the armed frame, `loop()`
runs once (it consumes the first of the two stored frames), then the sketch
calls `stop()` and `begin()`. -/
def restartedTrace : Trace :=
  (Trace.init 4 []).run (readyFrame.events 1000000 ++ armedFrame.events 1025000
    ++ [.poll 1050, .stopCapture, .beginCapture])

/-- After the restart the panel sends the frame "zone 3 open" and `loop()` runs
twice. -/
def afterRestartTrace : Trace :=
  restartedTrace.run (zoneFrame.events 2000000 ++ [.poll 2025, .poll 2026])

/-- The ring invariant between producer and consumer, with the history: the
length is within the capacity, the consumer index is 1 on an empty ring and
otherwise points into the filled part, and for some already completed history
`base` the stored frames are `base` followed by the filled slots, the
delivered frames `base` followed by the slots before the consumer index. -/
def RingInv (r : Ring) (stored delivered : List Frame) : Prop :=
  r.panelBufferLength ≤ dscBufferSize
  ∧ 1 ≤ r.panelBufferIndex
  ∧ (r.panelBufferLength = 0 → r.panelBufferIndex = 1)
  ∧ (0 < r.panelBufferLength → r.panelBufferIndex ≤ r.panelBufferLength)
  ∧ ∃ base,
      stored = base ++ (List.range r.panelBufferLength).map (slotFrame r)
      ∧ delivered = base ++ (List.range (r.panelBufferIndex - 1)).map (slotFrame r)

/-- The events of a short session: the panel sends the ready frame and the
armed frame, `loop()` runs, the panel sends the alarm frame, `loop()` runs
twice. -/
def sessionEvents : List Event :=
  readyFrame.events 1000000 ++ armedFrame.events 1025000 ++ [.poll 1050]
    ++ alarmFrame.events 1075000 ++ [.poll 1100, .poll 1101]

/-- The state after a list of events. -/
def runEvents (s : State) (es : List Event) : State := es.foldl step s

/-- The bounds of the ring: the length within the capacity and the consumer
index between 1 and the capacity. -/
def BoundInv (r : Ring) : Prop :=
  r.panelBufferLength ≤ dscBufferSize ∧ 1 ≤ r.panelBufferIndex
  ∧ r.panelBufferIndex ≤ dscBufferSize

/-- Ten frames, alternately ready and armed, with no `loop()` call in between
(they fill the ring), and an eleventh frame up to, but not including, the data
interrupt at its frame boundary. -/
def fullRingEvents : List Event :=
  ((List.range 10).flatMap (fun k =>
      (if k % 2 = 0 then readyFrame else armedFrame).events (1000000 + 25000 * k)))
    ++ (readyFrame.events 1250000).dropLast

/-- The state from power-on after the first three handler invocations of
`bitCycle 0`: one panel bit sampled, then the falling edge that ends a long
idle. -/
def oneBitState : State := runEvents (State.init 4 []) (bitCycle 0).events.dropLast

/-- The state from power-on after `fullRingEvents`. -/
def fullRingState : State := runEvents (State.init 4 []) fullRingEvents

/-! ## What each block of the decoder leaves alone -/

/-- The decoder `x` with the fields that the lights block (keypad lights, beep, PC16 status)
can assign put back to their values in `d`: `x.restoreLights d = d` says that
`x` differs from `d` in those fields only. -/
def Decoder.restoreLights (x d : Decoder) : Decoder :=
  { x with
    readyLight := d.readyLight
    lights := d.lights
    armedLight := d.armedLight
    memoryLight := d.memoryLight
    bypassLight := d.bypassLight
    troubleLight := d.troubleLight
    programLight := d.programLight
    fireLight := d.fireLight
    previousLights := d.previousLights
    statusChanged := d.statusChanged
    beep := d.beep
    troubleBit := d.troubleBit
    armedBypassBit := d.armedBypassBit
    armedBitA := d.armedBitA
    armedBitB := d.armedBitB
    alarmBit := d.alarmBit }

/-- The decoder `x` with the fields that the four blink checks
can assign put back to their values in `d`: `x.restoreBlink d = d` says that
`x` differs from `d` in those fields only. -/
def Decoder.restoreBlink (x d : Decoder) : Decoder :=
  { x with
    memoryLightTimeOn := d.memoryLightTimeOn
    memoryLightTimeOff := d.memoryLightTimeOff
    memoryBlink := d.memoryBlink
    armedLightTimeOn := d.armedLightTimeOn
    armedLightTimeOff := d.armedLightTimeOff
    armedBlink := d.armedBlink
    bypassLightTimeOn := d.bypassLightTimeOn
    bypassLightTimeOff := d.bypassLightTimeOff
    bypassBlink := d.bypassBlink
    troubleLightTimeOn := d.troubleLightTimeOn
    troubleLightTimeOff := d.troubleLightTimeOff
    troubleBlink := d.troubleBlink
    lightBlink := d.lightBlink }

/-- The decoder `x` with the fields that the beep block
can assign put back to their values in `d`: `x.restoreBeep d = d` says that
`x` differs from `d` in those fields only. -/
def Decoder.restoreBeep (x d : Decoder) : Decoder :=
  { x with
    beepTimesSet := d.beepTimesSet
    beepTimeStart := d.beepTimeStart
    beepTimeOff := d.beepTimeOff
    beepOn := d.beepOn
    status := d.status
    readyChanged := d.readyChanged }

/-- The decoder `x` with the fields that the armed status block
can assign put back to their values in `d`: `x.restoreArmed d = d` says that
`x` differs from `d` in those fields only. -/
def Decoder.restoreArmed (x d : Decoder) : Decoder :=
  { x with
    armed := d.armed
    exitDelayArmed := d.exitDelayArmed
    armedStay := d.armedStay
    armedStayTriggered := d.armedStayTriggered
    armedAway := d.armedAway
    noEntryDelay := d.noEntryDelay
    exitState := d.exitState
    ready := d.ready
    previousReady := d.previousReady
    readyChanged := d.readyChanged
    statusChanged := d.statusChanged
    alarm := d.alarm
    previousAlarm := d.previousAlarm
    alarmChanged := d.alarmChanged
    previousArmed := d.previousArmed
    previousArmedStay := d.previousArmedStay
    previousArmedAway := d.previousArmedAway
    armedChanged := d.armedChanged }

/-- The decoder `x` with the fields that the ready status block
can assign put back to their values in `d`: `x.restoreReady d = d` says that
`x` differs from `d` in those fields only. -/
def Decoder.restoreReady (x d : Decoder) : Decoder :=
  { x with
    ready := d.ready
    previousReady := d.previousReady
    readyChanged := d.readyChanged
    statusChanged := d.statusChanged
    armedStay := d.armedStay
    armedAway := d.armedAway
    armed := d.armed
    previousArmed := d.previousArmed
    armedChanged := d.armedChanged
    alarm := d.alarm
    previousAlarm := d.previousAlarm
    alarmChanged := d.alarmChanged
    exitDelayArmed := d.exitDelayArmed
    previousAlarmTriggered := d.previousAlarmTriggered
    starKeyDetected := d.starKeyDetected
    noEntryDelay := d.noEntryDelay
    exitDelay := d.exitDelay
    previousExitDelay := d.previousExitDelay
    exitDelayChanged := d.exitDelayChanged
    exitDelayTriggered := d.exitDelayTriggered
    exitState := d.exitState
    previousExitState := d.previousExitState
    exitStateChanged := d.exitStateChanged }

/-- The decoder `x` with the fields that the zones status block
can assign put back to their values in `d`: `x.restoreZones d = d` says that
`x` differs from `d` in those fields only. -/
def Decoder.restoreZones (x d : Decoder) : Decoder :=
  { x with
    openZones := d.openZones
    previousOpenZones := d.previousOpenZones
    openZonesStatusChanged := d.openZonesStatusChanged
    openZonesChanged := d.openZonesChanged
    statusChanged := d.statusChanged }

/-- The decoder `x` with the fields that the alarm zones status block
can assign put back to their values in `d`: `x.restoreAlarmZones d = d` says that
`x` differs from `d` in those fields only. -/
def Decoder.restoreAlarmZones (x d : Decoder) : Decoder :=
  { x with
    alarmZones := d.alarmZones
    zonesTriggered := d.zonesTriggered
    previousAlarmZones := d.previousAlarmZones
    alarmZonesStatusChanged := d.alarmZonesStatusChanged
    alarmZonesChanged := d.alarmZonesChanged
    statusChanged := d.statusChanged
    openZones := d.openZones
    openZonesChanged := d.openZonesChanged
    openZonesStatusChanged := d.openZonesStatusChanged
    previousOpenZones := d.previousOpenZones }

/-- The decoder `x` with the fields that the alarm status block
can assign put back to their values in `d`: `x.restoreAlarm d = d` says that
`x` differs from `d` in those fields only. -/
def Decoder.restoreAlarm (x d : Decoder) : Decoder :=
  { x with
    ready := d.ready
    previousReady := d.previousReady
    readyChanged := d.readyChanged
    statusChanged := d.statusChanged
    alarm := d.alarm
    previousAlarm := d.previousAlarm
    alarmChanged := d.alarmChanged
    alarmTriggered := d.alarmTriggered
    previousAlarmTriggered := d.previousAlarmTriggered }

/-- The decoder `x` with the fields that the trouble and fire status blocks
can assign put back to their values in `d`: `x.restoreTroubleFire d = d` says that
`x` differs from `d` in those fields only. -/
def Decoder.restoreTroubleFire (x d : Decoder) : Decoder :=
  { x with
    trouble := d.trouble
    previousTrouble := d.previousTrouble
    troubleChanged := d.troubleChanged
    fire := d.fire
    previousFire := d.previousFire
    fireChanged := d.fireChanged
    statusChanged := d.statusChanged }

/-- The decoder `x` with the fields that the three keypad alarm blocks
can assign put back to their values in `d`: `x.restoreKeypad d = d` says that
`x` differs from `d` in those fields only. -/
def Decoder.restoreKeypad (x d : Decoder) : Decoder :=
  { x with
    keypadFireAlarm := d.keypadFireAlarm
    previousFireAlarm := d.previousFireAlarm
    keypadAuxAlarm := d.keypadAuxAlarm
    previousAuxAlarm := d.previousAuxAlarm
    keypadPanicAlarm := d.keypadPanicAlarm
    previousPanicAlarm := d.previousPanicAlarm
    statusChanged := d.statusChanged }

/-- The decoder `x` with the fields that the status block
can assign put back to their values in `d`: `x.restoreStatus d = d` says that
`x` differs from `d` in those fields only. -/
def Decoder.restoreStatus (x d : Decoder) : Decoder :=
  { x with
    status := d.status
    previousStatus := d.previousStatus
    statusChanged := d.statusChanged }

/-! ## Runs of the decoder -/

/-- The decoder after `processPanelStatus` has run on each of a list of
foreground buffers in turn, each with the `millis()` reading of its call. -/
def decodeAll (d : Decoder) (fs : List (Foreground × Nat)) : Decoder :=
  fs.foldl (fun d f => processPanelStatus f.1 d f.2) d

/-- The armed flags agree: `armed[0]` is the disjunction of `armedStay[0]` and
`armedAway[0]`, and the local static `armedStayTriggered` of
`processPanelStatus` is only set while one of the two is. -/
def ArmedInv (d : Decoder) : Prop :=
  d.armed = (d.armedStay || d.armedAway)
    ∧ (d.armedStayTriggered = true → (d.armedStay || d.armedAway) = true)

/-! ## Decoder stimuli -/

/-- The foreground buffers when `loop` has copied the frame `f` out of the
ring, after the startup wait, with the given `statusByte` and `pauseStatus`
false. -/
def Frame.foreground (f : Frame) (statusByte : Nat) : Foreground :=
  { panelData := fun i => f.panel.getD i 0, pc16Data := fun i => f.pc16.getD i 0,
    panelBitCount := f.bitCount, panelByteCount := f.byteCount, statusByte := statusByte,
    pauseStatus := false, startupCycle := false }

/-- The PC1550 frame "ready, in alarm": Ready light, PC16 Alarm bit, ArmedSideA
clear. -/
def readyAlarmFrame : Frame :=
  ⟨[0x00, 0x80, 0, 0, 0, 0, 0, 0], [0x00, 0x01, 0, 0, 0, 0, 0, 0], 16, 2⟩

/-- The decoder state in which `processPanelStatus` reaches its "zones status"
block: after the lights, blink, beep, armed and ready blocks. -/
def beforeZones (p : Foreground) (d : Decoder) (now : Nat) : Decoder :=
  decodeReady p (decodeArmed p (decodeBeep (decodeBlink (decodeLights p d) now) now) now) now

/-- The condition of the "zones status" block of `processPanelStatus` in the
state `d`. -/
def zonesGuard (d : Decoder) : Bool :=
  !d.previousAlarmTriggered && !d.memoryBlink && !d.bypassBlink && !d.troubleBlink
    && !d.starKeyDetected

/-- The PC1550 frame "armed, in alarm on zone 2": Armed light, PC16 ArmedSideA,
Alarm and the alarm bit of zone 2. -/
def alarmZone2Frame : Frame :=
  ⟨[0x00, 0x40, 0, 0, 0, 0, 0, 0], [0x40, 0x21, 0, 0, 0, 0, 0, 0], 16, 2⟩

/-- Decoder states in which nothing is pending: no memory, bypass or trouble
blink, no beep being timed, no armed, alarm or exit-delay change recorded or
due, a ready change recorded or due, and no zone recorded as triggered.  The
power-on state is one. -/
def Idle (d : Decoder) : Prop :=
  d.memoryBlink = false ∧ d.bypassBlink = false ∧ d.troubleBlink = false ∧ d.beepOn = false
    ∧ (d.readyChanged = true ∨ d.previousReady = false)
    ∧ d.armedChanged = false ∧ d.previousArmed = false ∧ d.previousArmedStay = false
    ∧ d.previousArmedAway = false ∧ d.alarmChanged = false ∧ d.previousAlarm = false
    ∧ d.exitDelayChanged = false ∧ d.previousExitDelay = false
    ∧ ∀ j bit, bitRead (d.zonesTriggered j) bit = false

/-- What the lights block has read from a frame with the Ready light on, the
Armed, Memory, Bypass and Trouble lights off, no beep, and PC16 ArmedSideA and
Alarm clear. -/
def ReadyInputs (d : Decoder) : Prop :=
  d.readyLight = true ∧ d.armedLight = false ∧ d.memoryLight = false ∧ d.bypassLight = false
    ∧ d.troubleLight = false ∧ d.beep = false ∧ d.armedBitA = false ∧ d.alarmBit = false

/-- The PC1550 frame "exit delay, in alarm on zone 2": Ready and Armed lights,
PC16 Alarm and the alarm bit of zone 2, ArmedSideA clear. -/
def exitDelayAlarmFrame : Frame :=
  ⟨[0x00, 0xC0, 0, 0, 0, 0, 0, 0], [0x40, 0x01, 0, 0, 0, 0, 0, 0], 16, 2⟩

/-- The PC1550 frame "armed stay": Armed and Bypass lights, PC16 ArmedSideA and
ArmedBypass. -/
def armedStayFrame : Frame :=
  ⟨[0x00, 0x50, 0, 0, 0, 0, 0, 0], [0x00, 0x60, 0, 0, 0, 0, 0, 0], 16, 2⟩

/-- The frame `armedStayFrame` with the keypad beep on. -/
def armedStayBeepFrame : Frame :=
  ⟨[0x00, 0x51, 0, 0, 0, 0, 0, 0], [0x00, 0x60, 0, 0, 0, 0, 0, 0], 16, 2⟩

/-! ## Startup wait of `loop` -/

/-- The liveness blocks of `loop` (source lines 141-155), run while `millis()`
reads `now`: the decoder state after `keybusConnected` is refreshed and a change
of it recorded. -/
def keybusCheck (s : State) (now : Nat) : Decoder :=
  let d := { s.dec with keybusConnected := !decide (subU32 now s.cap.keybusTime > 3000) }
  if d.previousKeybus != d.keybusConnected then
    markStatusChanged s.fg { d with previousKeybus := d.keybusConnected, keybusChanged := true }
  else d

/-- Whether the frame that `loop` would copy out of the ring passes the test
`panelByteCount < 2 || pc16Data[0] == 0xFF` of the startup wait: at least two
bytes and `pc16Data[0]` other than `0xFF`. -/
def passesStartup (s : State) : Bool :=
  !(decide ((copySlot s.ring s.fg).panelByteCount < 2)
    || (copySlot s.ring s.fg).pc16Data 0 == 0xFF)

/-- Whether this call of `loop` reaches `processPanelStatus()`: it copies a
frame, and the startup wait is over or ends with this frame. -/
def loopDecodes (s : State) (now : Nat) : Bool :=
  loopCopies s now && (!s.fg.startupCycle || passesStartup s)

/-- The `statusByte` facts of the startup wait: `statusByte` is 1 or 2, and it
is 1 while `startupCycle` is still set. -/
def StartInv (f : Foreground) : Prop :=
  (f.statusByte = 1 ∨ f.statusByte = 2) ∧ (f.startupCycle = false ∨ f.statusByte = 1)

/-- From power-on the panel sends a frame of four bytes (Ready light in the
second byte, PC16 all zero) and `loop()` runs once. -/
def fourByteFrameRun : State :=
  runEvents (State.init 4 [])
    (frameEvents 1000000 [0x00, 0x80, 0x00, 0x00] [0, 0, 0, 0] ++ [.poll 1050])

/-- After `fourByteFrameRun` the panel sends a frame of three bytes and
`loop()` runs once more. -/
def threeByteFrameRun : State :=
  runEvents fourByteFrameRun (frameEvents 1100000 [0x00, 0x00, 0x80] [0, 0, 0] ++ [.poll 1150])

/-! ## Key codes, redundancy filter and module printing: further definitions -/

/-- The number of zero bits in one hex digit of a byte: the four bits
`lo .. lo + 3`, so `lo = 0` for the lower and `lo = 4` for the upper nibble. -/
def nibbleZeroBits (v lo : Nat) : Nat :=
  ((List.range 4).filter (fun k => !bitRead v (lo + k))).length

/-- The characters of the digit, star and hash keys. -/
def keypadKeyChars : List Char :=
  ['0', '1', '2', '3', '4', '5', '6', '7', '8', '9', '*', '#']

/-- The characters of the fire, auxiliary and panic alarm keys. -/
def alarmKeyChars : List Char := ['F', 'f', 'A', 'a', 'P', 'p']

/-- Embedding of `dscClassicInterface::printModuleMessage`: the text printed to
`stream` and the text printed to `Serial`, for the given `hideKeypadDigits`
setting and `moduleData`. -/
def printModuleMessage (hideKeypadDigits : Bool) (moduleData : Nat → Nat) : String × String :=
  let streamText := "[Keypad] "
  let k := moduleData 0
  if hideKeypadDigits then
    if k = 0xBE ∨ k = 0xDE ∨ k = 0xEE ∨ k = 0xBD ∨ k = 0xDD ∨ k = 0xED ∨ k = 0xBB ∨ k = 0xDB
        ∨ k = 0xEB ∨ k = 0xD7 then (streamText, "[Digit]")
    else if k = 0xB7 then (streamText, "*")
    else if k = 0xE7 then (streamText, "#")
    else if k = 0x3F then (streamText, "Fire alarm")
    else if k = 0x5F then (streamText, "Aux alarm")
    else if k = 0x6F then (streamText, "Panic alarm")
    else (streamText, "")
  else
    if k = 0xBE then (streamText, "1")
    else if k = 0xDE then (streamText, "2")
    else if k = 0xEE then (streamText, "3")
    else if k = 0xBD then (streamText, "4")
    else if k = 0xDD then (streamText, "5")
    else if k = 0xED then (streamText, "6")
    else if k = 0xBB then (streamText, "7")
    else if k = 0xDB then (streamText, "8")
    else if k = 0xEB then (streamText, "9")
    else if k = 0xD7 then (streamText, "0")
    else if k = 0xB7 then (streamText, "*")
    else if k = 0xE7 then (streamText, "#")
    else if k = 0x3F then (streamText, "Fire alarm")
    else if k = 0x5F then (streamText, "Aux alarm")
    else if k = 0x6F then (streamText, "Panic alarm")
    else (streamText, "")

/-- The inner loop of the binary printers, `for (byte mask = 0x80; mask; mask >>= 1)`:
the eight bits of a byte as text, most significant bit first. -/
def printByteBits (v : Nat) : String :=
  [0x80, 0x40, 0x20, 0x10, 0x08, 0x04, 0x02, 0x01].foldl
    (fun out mask => if mask &&& v ≠ 0 then out ++ "1" else out ++ "0") ""

/-- Embedding of `dscClassicInterface::printModuleBinary`: the text printed to
`stream`. The test `moduleByte != panelByteCount - 1` is evaluated in `int`,
so it is `moduleByte + 1 ≠ panelByteCount` on naturals. -/
def printModuleBinary (hideKeypadDigits : Bool) (moduleData : Nat → Nat)
    (moduleByteCount panelByteCount : Nat) (printSpaces : Bool) : String :=
  let k := moduleData 0
  let keypadDigit : Bool :=
    if hideKeypadDigits then
      if k = 0xBE ∨ k = 0xDE ∨ k = 0xEE ∨ k = 0xBD ∨ k = 0xDD ∨ k = 0xED ∨ k = 0xBB ∨ k = 0xDB
          ∨ k = 0xEB then true
      else false
    else false
  (List.range moduleByteCount).foldl
    (fun out moduleByte =>
      let out1 :=
        if hideKeypadDigits && keypadDigit && moduleByte == 0 then out ++ "........"
        else out ++ printByteBits (moduleData moduleByte)
      if printSpaces && moduleByte + 1 != panelByteCount then out1 ++ " " else out1)
    ""

/-- A captured module frame of two bytes: the given first byte, then `0xFF`. -/
def keyModuleData (key : Nat) : Nat → Nat := fun i => if i = 0 then key else 0xFF

/-- The ten digit key codes. -/
def digitKeyCodes : List Nat := [0xD7, 0xBE, 0xDE, 0xEE, 0xBD, 0xDD, 0xED, 0xBB, 0xDB, 0xEB]

/-- The state in which the transmission of the key `5` has been cut short:
from `keyFivePending`, the long idle and three bit periods of a command. -/
def keyFiveInterrupted : State :=
  (clockCycles keyFivePending ((List.range 4).map bitCycle)).1

/-! ## Blink detection: observations of one light -/

/-- The flag `lightBlink` is the disjunction of the four per-light blink flags. -/
def BlinkInv (d : Decoder) : Prop :=
  d.lightBlink = (d.memoryBlink || d.armedBlink || d.bypassBlink || d.troubleBlink)

/-- What one blink check does to the registers of its light,
`(timeOn, timeOff, blink)`: the first three components of `blinkCheck`, which
do not depend on `lightBlink` and the other blink flags. -/
def blinkStep (light : Bool) (now : Nat) (x : Nat × Nat × Bool) : Nat × Nat × Bool :=
  ((blinkCheck light now x.1 x.2.1 x.2.2 false false).1,
   (blinkCheck light now x.1 x.2.1 x.2.2 false false).2.1,
   (blinkCheck light now x.1 x.2.1 x.2.2 false false).2.2.1)

/-- The registers of a light after the given observations `(light, millis())`
from power-on, where the time stamps are 0 and the blink flag is false. -/
def blinkRun (obs : List (Bool × Nat)) : Nat × Nat × Bool :=
  obs.foldl (fun x o => blinkStep o.1 o.2 x) (0, 0, false)

/-- The registers `(timeOn, timeOff, blink)` of the memory light. -/
def Decoder.memoryView (d : Decoder) : Nat × Nat × Bool :=
  (d.memoryLightTimeOn, d.memoryLightTimeOff, d.memoryBlink)

/-- The registers `(timeOn, timeOff, blink)` of the armed light. -/
def Decoder.armedView (d : Decoder) : Nat × Nat × Bool :=
  (d.armedLightTimeOn, d.armedLightTimeOff, d.armedBlink)

/-- The registers `(timeOn, timeOff, blink)` of the bypass light. -/
def Decoder.bypassView (d : Decoder) : Nat × Nat × Bool :=
  (d.bypassLightTimeOn, d.bypassLightTimeOff, d.bypassBlink)

/-- The registers `(timeOn, timeOff, blink)` of the trouble light. -/
def Decoder.troubleView (d : Decoder) : Nat × Nat × Bool :=
  (d.troubleLightTimeOn, d.troubleLightTimeOff, d.troubleBlink)

/-- The observations of the light in bit `bit` of `panelData[statusByte]` made
by a sequence of decodes: for each decoded frame, whether the light is ON and
the `millis()` reading of the decode. -/
def lightObs (bit : Nat) (fs : List (Foreground × Nat)) : List (Bool × Nat) :=
  fs.map (fun f => (bitRead (f.1.panelData f.1.statusByte) bit, f.2))

/-- The `millis()` reading of the most recent OFF observation, 0 when there is none. -/
def lastOff (obs : List (Bool × Nat)) : Nat :=
  obs.foldl (fun t o => if o.1 then t else o.2) 0

/-- The `millis()` reading of the most recent ON observation, 0 when there is none. -/
def lastOn (obs : List (Bool × Nat)) : Nat :=
  obs.foldl (fun t o => if o.1 then o.2 else t) 0

/-- A PC1550 frame with only the Memory light on. -/
def memoryLightFrame : Frame :=
  ⟨[0x00, 0x20, 0, 0, 0, 0, 0, 0], [0x00, 0x00, 0, 0, 0, 0, 0, 0], 16, 2⟩

/-! ## Change flags and `statusChanged` -/

/-- How a block of the decoder treats the change flags, from `d` to `x`:
`statusChanged` is never cleared, it is not touched while `pauseStatus` is
set, and with `pauseStatus` clear either `statusChanged` is set afterwards or
none of the ten per-field change flags has been raised. -/
def FlagsKept (p : Foreground) (d x : Decoder) : Prop :=
  (d.statusChanged = true → x.statusChanged = true)
  ∧ (p.pauseStatus = true → x.statusChanged = d.statusChanged)
  ∧ (p.pauseStatus = false → x.statusChanged = true ∨
      ((x.readyChanged = true → d.readyChanged = true)
      ∧ (x.armedChanged = true → d.armedChanged = true)
      ∧ (x.alarmChanged = true → d.alarmChanged = true)
      ∧ (x.exitDelayChanged = true → d.exitDelayChanged = true)
      ∧ (x.exitStateChanged = true → d.exitStateChanged = true)
      ∧ (x.fireChanged = true → d.fireChanged = true)
      ∧ (x.troubleChanged = true → d.troubleChanged = true)
      ∧ (x.keybusChanged = true → d.keybusChanged = true)
      ∧ (x.openZonesStatusChanged = true → d.openZonesStatusChanged = true)
      ∧ (x.alarmZonesStatusChanged = true → d.alarmZonesStatusChanged = true)))

/-- One of the per-field change flags other than `readyChanged[0]` is false
in `d` and true in `x`. -/
def FlagRaised (d x : Decoder) : Prop :=
  (d.armedChanged = false ∧ x.armedChanged = true)
  ∨ (d.alarmChanged = false ∧ x.alarmChanged = true)
  ∨ (d.exitDelayChanged = false ∧ x.exitDelayChanged = true)
  ∨ (d.exitStateChanged = false ∧ x.exitStateChanged = true)
  ∨ (d.fireChanged = false ∧ x.fireChanged = true)
  ∨ (d.troubleChanged = false ∧ x.troubleChanged = true)
  ∨ (d.keybusChanged = false ∧ x.keybusChanged = true)
  ∨ (d.openZonesStatusChanged = false ∧ x.openZonesStatusChanged = true)
  ∨ (d.alarmZonesStatusChanged = false ∧ x.alarmZonesStatusChanged = true)

/-- A decoder state after "function not available" has been reported and
read: `status[0]` and its previous value are `0x0E`, no light is lit, no
change flag is set, and a keypress beep that began at 1000 ms is on. -/
def functionNotAvailableBeep : Decoder :=
  { Decoder.init with status := 0x0E, previousStatus := 0x0E, beepTimesSet := true,
                      beepOn := true, beepTimeStart := 1000 }

/-- A PC1550 frame with no light lit and the beep bit off. -/
def darkFrame : Frame := ⟨[0, 0], [0, 0], 16, 2⟩

/-! ## Exit state -/

/-- The values that `exitState[0]` takes. -/
def ExitStateValid (v : Nat) : Prop :=
  v = 0 ∨ v = DSC_EXIT_STAY ∨ v = DSC_EXIT_AWAY ∨ v = DSC_EXIT_NO_ENTRY_DELAY

/-- The PC1550 frame "armed" with both PC16 armed bits set: Armed light,
ArmedSideA and ArmedSideB. -/
def armedBothSidesFrame : Frame :=
  ⟨[0x00, 0x40, 0, 0, 0, 0, 0, 0], [0x00, 0x30, 0, 0, 0, 0, 0, 0], 16, 2⟩

/-- The same frame with the Armed light off. -/
def armedLightOffFrame : Frame :=
  ⟨[0x00, 0x00, 0, 0, 0, 0, 0, 0], [0x00, 0x30, 0, 0, 0, 0, 0, 0], 16, 2⟩

/-! ## Beep duration -/

/-- The power-on state after `resetStatus()` and a call of `loop()` at 5000 ms
with an empty frame ring. -/
def afterResetStatus : State :=
  runEvents (State.init 4 []) [.resetFlags, .poll 5000]

/-! # Theorems -/

/-! ## Key table (`setWriteKey`) -/

/-- C1: with no key write pending and the alarm-key cooldown not applying,
`setWriteKey c` follows the key table: a listed key sets `writeKey` to its
code, `writeKeyPending` to true and `writeReady` to false (an alarm key also
sets `writeAlarm`, another key leaves it); every other character leaves
`writeKey`, `writeKeyPending`, `writeReady` and `writeAlarm` unchanged. -/
theorem setWriteKey_key_table (s : Writer) (c : Char) (now : Nat)
    (hpend : s.writeKeyPending = false)
    (hcool : subU32 now s.previousTime > 500 ∨ now ≤ 500) :
    (∀ k, (c, k) ∈ specKeyTable →
        (setWriteKey s c now).writeKey = k ∧ (setWriteKey s c now).writeKeyPending = true
        ∧ (setWriteKey s c now).writeReady = false
        ∧ (setWriteKey s c now).writeAlarm = s.writeAlarm)
    ∧ (∀ k, (c, k) ∈ specAlarmKeyTable →
        (setWriteKey s c now).writeKey = k ∧ (setWriteKey s c now).writeKeyPending = true
        ∧ (setWriteKey s c now).writeReady = false
        ∧ (setWriteKey s c now).writeAlarm = true)
    ∧ (c ∉ specKeyChars →
        (setWriteKey s c now).writeKey = s.writeKey
        ∧ (setWriteKey s c now).writeKeyPending = s.writeKeyPending
        ∧ (setWriteKey s c now).writeReady = s.writeReady
        ∧ (setWriteKey s c now).writeAlarm = s.writeAlarm) := by
  have hguard : (!s.writeKeyPending && (decide (subU32 now s.previousTime > 500)
      || decide (now ≤ 500))) = true := by
    rcases hcool with h | h <;> simp [hpend, h]
  refine ⟨?_, ?_, ?_⟩
  · intro k hk
    simp only [specKeyTable, List.mem_cons, Prod.mk.injEq, List.mem_singleton,
      List.not_mem_nil, or_false] at hk
    rcases hk with h | h | h | h | h | h | h | h | h | h | h | h <;>
    · obtain ⟨hc, hcode⟩ := h
      subst hc hcode
      simp only [setWriteKey, hguard, keySwitch]
      cases hA : s.writeAlarm <;> simp [hA]
  · intro k hk
    simp only [specAlarmKeyTable, List.mem_cons, Prod.mk.injEq, List.mem_singleton,
      List.not_mem_nil, or_false] at hk
    rcases hk with h | h | h | h | h | h <;>
    · obtain ⟨hc, hcode⟩ := h
      subst hc hcode
      simp [setWriteKey, hguard, keySwitch]
  · intro hc
    simp only [specKeyChars, specKeyTable, specAlarmKeyTable, List.map, List.cons_append,
      List.nil_append, List.mem_cons, List.not_mem_nil, or_false, not_or] at hc
    obtain ⟨h0, h1, h2, h3, h4, h5, h6, h7, h8, h9, hs, hh, hF, hf, hA, ha, hP, hp⟩ := hc
    simp only [setWriteKey, hguard, keySwitch, h0, h1, h2, h3, h4, h5, h6, h7, h8, h9, hs, hh,
      hF, hf, hA, ha, hP, hp, or_self, if_false, if_true]
    cases hW : s.writeAlarm <;> simp [hW, hpend]

/-- Example for C1: the key `5` written at 1000 ms into the idle writer of the
power-on state. -/
theorem setWriteKey_key_table_witness :
    (setWriteKey (Writer.init 4 []) '5' 1000).writeKey = 0xDD
    ∧ (setWriteKey (Writer.init 4 []) '5' 1000).writeKeyPending = true :=
  ⟨((setWriteKey_key_table (Writer.init 4 []) '5' 1000 rfl (Or.inl (by decide))).1 0xDD
      (by decide)).1,
   ((setWriteKey_key_table (Writer.init 4 []) '5' 1000 rfl (Or.inl (by decide))).1 0xDD
      (by decide)).2.1⟩

/-! ## Bit capture: proofs -/

theorem sampleModuleBit_panelRegs (c : Capture) (len : Nat) (star readPin : Bool) :
    (sampleModuleBit c len star readPin).1.panelRegs = c.panelRegs := by
  unfold sampleModuleBit
  simp only []
  split_ifs <;> rfl

theorem storeModule_panelRegs (c : Capture) : (storeModule c).panelRegs = c.panelRegs := by
  unfold storeModule
  simp only []
  split_ifs <;> rfl

theorem msbValue_append (l : List Bool) (b : Bool) :
    msbValue (l ++ [b]) = 2 * msbValue l + (if b then 1 else 0) := by
  simp [msbValue, List.foldl_append]

theorem msbValue_lt (l : List Bool) : msbValue l < 2 ^ l.length := by
  induction l using List.reverseRecOn with
  | nil => simp [msbValue]
  | append_singleton l b ih =>
    rw [msbValue_append, List.length_append, List.length_singleton, pow_succ]
    split <;> omega

theorem shift_or_bit : ∀ v, v < 128 → ∀ b : Bool,
    (if b then ((v <<< 1) % 256) ||| 1 else (v <<< 1) % 256) = 2 * v + (if b then 1 else 0) := by
  decide

theorem clockHighRun_append (s : State) (xs ys : List (Bool × Bool × Nat)) :
    clockHighRun s (xs ++ ys) = clockHighRun (clockHighRun s xs) ys := by
  simp [clockHighRun, List.foldl_append]

theorem clockHighRun_cap (s : State) (xs : List (Bool × Bool × Nat)) :
    (clockHighRun s xs).cap = xs.foldl (fun c x => samplePanelBit c x.1 x.2.1) s.cap := by
  induction xs generalizing s with
  | nil => rfl
  | cons x xs ih =>
    simp only [clockHighRun, List.foldl_cons] at ih ⊢
    rw [ih]
    rfl

/-- The bits of byte `j` among the samples taken so far. -/
theorem take_drop_snoc (l : List Bool) (b : Bool) (j : Nat) :
    ((l ++ [b]).drop (8 * j)).take 8 =
      if j = l.length / 8 then (l.drop (8 * j)).take 8 ++ [b] else (l.drop (8 * j)).take 8 := by
  split
  · next h =>
    have h1 : 8 * j ≤ l.length := by omega
    have h2 : (l.drop (8 * j)).length < 8 := by simp; omega
    rw [List.drop_append_of_le_length h1, List.take_append_eq_append_take]
    rw [List.take_of_length_le (le_of_lt h2)]
    have : 8 - (List.drop (8 * j) l).length = (8 - (List.drop (8 * j) l).length - 1) + 1 := by omega
    rw [this]
    simp
  · next h =>
    by_cases hj : j < l.length / 8
    · have h1 : 8 * j ≤ l.length := by omega
      have h2 : 8 ≤ (l.drop (8 * j)).length := by simp; omega
      rw [List.drop_append_of_le_length h1, List.take_append_eq_append_take]
      have : 8 - (List.drop (8 * j) l).length = 0 := by omega
      rw [this]
      simp
    · have h1 : l.length < 8 * j := by omega
      rw [List.drop_eq_nil_of_le (by simp; omega), List.drop_eq_nil_of_le (by omega)]

theorem msbValue_partial_lt (l : List Bool) (j : Nat) (h : j = l.length / 8) :
    msbValue ((l.drop (8 * j)).take 8) < 128 := by
  have h2 : ((l.drop (8 * j)).take 8).length ≤ 7 := by simp; omega
  have h3 := msbValue_lt ((l.drop (8 * j)).take 8)
  calc msbValue ((l.drop (8 * j)).take 8) < 2 ^ ((l.drop (8 * j)).take 8).length := h3
    _ ≤ 2 ^ 7 := Nat.pow_le_pow_right (by norm_num) h2
    _ = 128 := by norm_num

theorem captured_step (c0 c : Capture) (xs : List (Bool × Bool × Nat)) (x : Bool × Bool × Nat)
    (h : Captured c0 c xs) (hlen : xs.length < 64) :
    Captured c0 (samplePanelBit c x.1 x.2.1) (xs ++ [x]) := by
  obtain ⟨hT, hB, hC, hD, hO⟩ := h
  have hB8 : ¬ c.isrPanelByteCount ≥ dscDataSize := by simp [dscDataSize, hB]; omega
  have hC8 : c.isrPanelBitCount < 8 := by omega
  unfold samplePanelBit
  rw [if_neg hB8, if_pos hC8]
  refine ⟨?_, ?_, ?_, ?_, ?_⟩
  · by_cases h7 : c.isrPanelBitCount < 7 <;>
      simp only [h7, if_true, if_false, incByte, List.length_append, List.length_singleton] <;>
      omega
  · by_cases h7 : c.isrPanelBitCount < 7 <;>
      simp only [h7, if_true, if_false, incByte, List.length_append, List.length_singleton] <;>
      omega
  · by_cases h7 : c.isrPanelBitCount < 7 <;>
      simp only [h7, if_true, if_false, incByte, List.length_append, List.length_singleton] <;>
      omega
  · intro j hj
    obtain ⟨hp, hq⟩ := hD j hj
    simp only [List.map_append, List.map_cons, List.map_nil, take_drop_snoc, List.length_map]
    by_cases hjb : j = xs.length / 8
    · have hjc : j = c.isrPanelByteCount := by omega
      have v1 := msbValue_partial_lt (xs.map (fun x => x.1)) j (by simp [hjb])
      have v2 := msbValue_partial_lt (xs.map (fun x => x.2.1)) j (by simp [hjb])
      simp only [if_pos hjb, msbValue_append]
      rw [← hp, ← hq]
      rw [← hp] at v1; rw [← hq] at v2
      subst hjc
      by_cases h7 : c.isrPanelBitCount < 7 <;>
        simp only [h7, if_true, if_false] <;>
        exact ⟨shift_or_bit _ v1 _, shift_or_bit _ v2 _⟩
    · have hjc : j ≠ c.isrPanelByteCount := by omega
      simp only [if_neg hjb]
      by_cases h7 : c.isrPanelBitCount < 7 <;> simp [h7, hjc, hp, hq]
  · intro j hj
    obtain ⟨hp, hq⟩ := hO j hj
    have hjc : j ≠ c.isrPanelByteCount := by simp [dscDataSize] at hj; omega
    by_cases h7 : c.isrPanelBitCount < 7 <;> simp [h7, hjc, hp, hq]

theorem captured_run (c0 : Capture) (xs : List (Bool × Bool × Nat)) (h0 : c0.isReset)
    (hlen : xs.length ≤ 64) :
    Captured c0 (xs.foldl (fun c x => samplePanelBit c x.1 x.2.1) c0) xs := by
  induction xs using List.reverseRecOn with
  | nil =>
    obtain ⟨hT, hC, hB, hD⟩ := h0
    refine ⟨by simp [hT], by simp [hB], by simp [hC], ?_, fun j _ => ⟨rfl, rfl⟩⟩
    intro j hj
    simpa [msbValue] using hD j hj
  | append_singleton xs x ih =>
    rw [List.length_append, List.length_singleton] at hlen
    rw [List.foldl_append, List.foldl_cons, List.foldl_nil]
    exact captured_step c0 _ xs x (ih (by omega)) (by omega)

theorem samplePanelBit_saturated (c : Capture) (d p : Bool)
    (h : c.isrPanelByteCount ≥ dscDataSize) :
    (samplePanelBit c d p).isrPanelData = c.isrPanelData
    ∧ (samplePanelBit c d p).isrPC16Data = c.isrPC16Data
    ∧ (samplePanelBit c d p).isrPanelBitTotal = c.isrPanelBitTotal
    ∧ (samplePanelBit c d p).isrPanelByteCount = c.isrPanelByteCount
    ∧ (samplePanelBit c d p).isrPanelBitCount = c.isrPanelBitCount := by
  unfold samplePanelBit
  rw [if_pos h]
  exact ⟨rfl, rfl, rfl, rfl, rfl⟩

theorem saturated_run (c : Capture) (xs : List (Bool × Bool × Nat))
    (h : c.isrPanelByteCount ≥ dscDataSize) :
    (xs.foldl (fun c x => samplePanelBit c x.1 x.2.1) c).isrPanelData = c.isrPanelData
    ∧ (xs.foldl (fun c x => samplePanelBit c x.1 x.2.1) c).isrPC16Data = c.isrPC16Data
    ∧ (xs.foldl (fun c x => samplePanelBit c x.1 x.2.1) c).isrPanelBitTotal = c.isrPanelBitTotal
    ∧ (xs.foldl (fun c x => samplePanelBit c x.1 x.2.1) c).isrPanelByteCount
        = c.isrPanelByteCount
    ∧ (xs.foldl (fun c x => samplePanelBit c x.1 x.2.1) c).isrPanelBitCount
        = c.isrPanelBitCount := by
  induction xs generalizing c with
  | nil => exact ⟨rfl, rfl, rfl, rfl, rfl⟩
  | cons x xs ih =>
    obtain ⟨a1, a2, a3, a4, a5⟩ := samplePanelBit_saturated c x.1 x.2.1 h
    obtain ⟨b1, b2, b3, b4, b5⟩ := ih (samplePanelBit c x.1 x.2.1) (by rw [a4]; exact h)
    simp only [List.foldl_cons]
    exact ⟨b1.trans a1, b2.trans a2, b3.trans a3, b4.trans a4, b5.trans a5⟩

theorem samplePanelBit_in_bounds (c : Capture) (d p : Bool) (j : Nat) (hj : dscDataSize ≤ j) :
    (samplePanelBit c d p).isrPanelData j = c.isrPanelData j
    ∧ (samplePanelBit c d p).isrPC16Data j = c.isrPC16Data j := by
  unfold samplePanelBit
  by_cases h : c.isrPanelByteCount ≥ dscDataSize
  · rw [if_pos h]; exact ⟨rfl, rfl⟩
  · rw [if_neg h]
    have hne : j ≠ c.isrPanelByteCount := by omega
    by_cases h8 : c.isrPanelBitCount < 8 <;> by_cases h7 : c.isrPanelBitCount < 7 <;>
      simp [h8, h7, hne]

theorem run_in_bounds (c : Capture) (xs : List (Bool × Bool × Nat)) (j : Nat)
    (hj : dscDataSize ≤ j) :
    (xs.foldl (fun c x => samplePanelBit c x.1 x.2.1) c).isrPanelData j = c.isrPanelData j
    ∧ (xs.foldl (fun c x => samplePanelBit c x.1 x.2.1) c).isrPC16Data j = c.isrPC16Data j := by
  induction xs generalizing c with
  | nil => exact ⟨rfl, rfl⟩
  | cons x xs ih =>
    obtain ⟨a1, a2⟩ := samplePanelBit_in_bounds c x.1 x.2.1 j hj
    obtain ⟨b1, b2⟩ := ih (samplePanelBit c x.1 x.2.1)
    simp only [List.foldl_cons]
    exact ⟨b1.trans a1, b2.trans a2⟩

/-- C4: from the reset per-frame state, `n ≤ 64` clock-high invocations of
`dscDataInterrupt` leave `isrPanelBitTotal = n`, `isrPanelByteCount = n / 8`,
`isrPanelBitCount = n % 8`, and every complete byte `j` of `isrPanelData`
(`isrPC16Data`) equal to the MSB-first value of the data (PC16) levels
`8j .. 8j+7`; samples beyond the 64th change no captured byte and no counter,
and no index from `dscDataSize` on is ever written. -/
theorem clockHighRun_capture (s : State) (xs extra : List (Bool × Bool × Nat))
    (hreset : s.cap.isReset) (hlen : xs.length ≤ 64) :
    ((clockHighRun s xs).cap.isrPanelBitTotal = xs.length
      ∧ (clockHighRun s xs).cap.isrPanelByteCount = xs.length / 8
      ∧ (clockHighRun s xs).cap.isrPanelBitCount = xs.length % 8
      ∧ ∀ j, j < xs.length / 8 →
          (clockHighRun s xs).cap.isrPanelData j
            = msbValue (((xs.map (fun x => x.1)).drop (8 * j)).take 8)
          ∧ (clockHighRun s xs).cap.isrPC16Data j
            = msbValue (((xs.map (fun x => x.2.1)).drop (8 * j)).take 8))
    ∧ (xs.length = 64 →
        (clockHighRun s (xs ++ extra)).cap.isrPanelData = (clockHighRun s xs).cap.isrPanelData
        ∧ (clockHighRun s (xs ++ extra)).cap.isrPC16Data = (clockHighRun s xs).cap.isrPC16Data
        ∧ (clockHighRun s (xs ++ extra)).cap.isrPanelBitTotal = 64
        ∧ (clockHighRun s (xs ++ extra)).cap.isrPanelByteCount = 8
        ∧ (clockHighRun s (xs ++ extra)).cap.isrPanelBitCount = 0)
    ∧ (∀ j, dscDataSize ≤ j →
        (clockHighRun s (xs ++ extra)).cap.isrPanelData j = s.cap.isrPanelData j
        ∧ (clockHighRun s (xs ++ extra)).cap.isrPC16Data j = s.cap.isrPC16Data j) := by
  obtain ⟨hT, hB, hC, hD, _⟩ := captured_run s.cap xs hreset hlen
  refine ⟨⟨?_, ?_, ?_, ?_⟩, ?_, ?_⟩
  · rw [clockHighRun_cap]; exact hT
  · rw [clockHighRun_cap]; exact hB
  · rw [clockHighRun_cap]; exact hC
  · intro j hj
    rw [clockHighRun_cap]
    exact hD j (by simp only [dscDataSize]; omega)
  · intro h64
    have hsat : (xs.foldl (fun c x => samplePanelBit c x.1 x.2.1) s.cap).isrPanelByteCount
        ≥ dscDataSize := by rw [hB, h64]; decide
    obtain ⟨a1, a2, a3, a4, a5⟩ := saturated_run _ extra hsat
    rw [clockHighRun_append, clockHighRun_cap (clockHighRun s xs), clockHighRun_cap s xs]
    refine ⟨a1, a2, ?_, ?_, ?_⟩
    · rw [a3, hT, h64]
    · rw [a4, hB, h64]
    · rw [a5, hC, h64]
  · intro j hj
    rw [clockHighRun_cap]
    exact run_in_bounds s.cap (xs ++ extra) j hj

/-- Example for C4: the sixteen samples of the ready frame `[0x00, 0x80]`
taken from power-on fill two bytes, the second of which is `0x80`. -/
theorem clockHighRun_capture_witness :
    (clockHighRun (State.init 4 []) readyFrameSamples).cap.isrPanelByteCount = 2
    ∧ (clockHighRun (State.init 4 []) readyFrameSamples).cap.isrPanelData 1 = 0x80 :=
  ⟨(clockHighRun_capture (State.init 4 []) readyFrameSamples []
      ⟨rfl, rfl, rfl, fun _ _ => ⟨rfl, rfl⟩⟩ (by decide)).1.2.1,
   ((clockHighRun_capture (State.init 4 []) readyFrameSamples []
      ⟨rfl, rfl, rfl, fun _ _ => ⟨rfl, rfl⟩⟩ (by decide)).1.2.2.2 1 (by decide)).1⟩


/-! ## Frame boundary: incomplete frames -/

/-- C10: at a frame boundary (clock low, `clockHighTime > 2000`) with fewer
than 8 panel bits captured, `dscDataInterrupt` stores nothing: the ring length
and every ring slot are unchanged, the previous-frame arrays of the redundancy
filter are unchanged, and the per-frame capture buffers and counters are
zero. -/
theorem dscDataInterrupt_incomplete_frame (s : State) (readPin pc16Pin : Bool) (millis : Nat)
    (hidle : s.cap.clockHighTime > 2000) (hbits : s.cap.isrPanelBitTotal < 8) :
    (dscDataInterrupt s false readPin pc16Pin millis).ring.panelBufferLength
        = s.ring.panelBufferLength
    ∧ (dscDataInterrupt s false readPin pc16Pin millis).ring.panelBuffer = s.ring.panelBuffer
    ∧ (dscDataInterrupt s false readPin pc16Pin millis).ring.pc16Buffer = s.ring.pc16Buffer
    ∧ (dscDataInterrupt s false readPin pc16Pin millis).ring.panelBufferBitCount
        = s.ring.panelBufferBitCount
    ∧ (dscDataInterrupt s false readPin pc16Pin millis).ring.panelBufferByteCount
        = s.ring.panelBufferByteCount
    ∧ (dscDataInterrupt s false readPin pc16Pin millis).cap.previousPanelData
        = s.cap.previousPanelData
    ∧ (dscDataInterrupt s false readPin pc16Pin millis).cap.previousPC16Data
        = s.cap.previousPC16Data
    ∧ (∀ i, i < dscDataSize →
        (dscDataInterrupt s false readPin pc16Pin millis).cap.isrPanelData i = 0
        ∧ (dscDataInterrupt s false readPin pc16Pin millis).cap.isrPC16Data i = 0)
    ∧ (dscDataInterrupt s false readPin pc16Pin millis).cap.isrPanelBitTotal = 0
    ∧ (dscDataInterrupt s false readPin pc16Pin millis).cap.isrPanelBitCount = 0
    ∧ (dscDataInterrupt s false readPin pc16Pin millis).cap.isrPanelByteCount = 0 := by
  have hskip : skipCheck { s.cap with keybusTime := millis } s.dec.lightBlink s.dec.readyLight
      = { s.cap with keybusTime := millis, skipData := true } := by
    unfold skipCheck
    rw [if_pos (by exact hbits)]
  have hring : ∀ r : Ring, ∀ c : Capture, c.skipData = true →
      (storeFrame r c).panelBufferLength = r.panelBufferLength
      ∧ (storeFrame r c).panelBuffer = r.panelBuffer
      ∧ (storeFrame r c).pc16Buffer = r.pc16Buffer
      ∧ (storeFrame r c).panelBufferBitCount = r.panelBufferBitCount
      ∧ (storeFrame r c).panelBufferByteCount = r.panelBufferByteCount := by
    intro r c hc
    unfold storeFrame
    by_cases hfull : r.panelBufferLength = dscBufferSize
    · rw [if_pos hfull]; exact ⟨rfl, rfl, rfl, rfl, rfl⟩
    · rw [if_neg hfull]; simp [hc]
  have hregs := sampleModuleBit_panelRegs
    (resetPanelCapture (storeModule { s.cap with keybusTime := millis, skipData := true }))
    (storeFrame s.ring { s.cap with keybusTime := millis, skipData := true }).panelBufferLength
    s.dec.starKeyDetected readPin
  have hmod := storeModule_panelRegs { s.cap with keybusTime := millis, skipData := true }
  simp only [Capture.panelRegs, Prod.mk.injEq] at hregs hmod
  obtain ⟨r1, r2, r3, r4, r5, -, r7, r8, -⟩ := hregs
  obtain ⟨-, -, -, -, -, -, m7, m8, -⟩ := hmod
  obtain ⟨g1, g2, g3, g4, g5⟩ := hring s.ring { s.cap with keybusTime := millis, skipData := true } rfl
  unfold dscDataInterrupt
  simp only [Bool.false_eq_true, if_false, if_pos hidle, hskip]
  refine ⟨g1, g2, g3, g4, g5, ?_, ?_, ?_, ?_, ?_, ?_⟩
  · rw [r7]; exact m7
  · rw [r8]; exact m8
  · intro i hi
    rw [r1, r2]
    simp [resetPanelCapture, hi]
  · rw [r3]; rfl
  · rw [r4]; rfl
  · rw [r5]; rfl

/-- Example for C10: from power-on, the frame boundary that follows a single
sampled bit (the first clock period seen, ending in a long idle) stores
nothing. -/
theorem dscDataInterrupt_incomplete_frame_witness :
    (dscDataInterrupt oneBitState false true false 1006).ring.panelBufferLength = 0
    ∧ (dscDataInterrupt oneBitState false true false 1006).cap.isrPanelBitTotal = 0 :=
  ⟨(dscDataInterrupt_incomplete_frame oneBitState true false 1006
      (by decide) (by decide)).1,
   (dscDataInterrupt_incomplete_frame oneBitState true false 1006
      (by decide) (by decide)).2.2.2.2.2.2.2.2.1⟩

/-! ## Virtual keypad transmitter (`dscClockInterrupt`) -/

theorem dscDataInterrupt_wr (s : State) (clockPin readPin pc16Pin : Bool) (millis : Nat) :
    (dscDataInterrupt s clockPin readPin pc16Pin millis).wr = s.wr := by
  unfold dscDataInterrupt
  split_ifs <;> rfl

theorem dscDataInterrupt_low_short (s : State) (readPin pc16Pin : Bool) (millis : Nat)
    (h : ¬ s.cap.clockHighTime > 2000) :
    (dscDataInterrupt s false readPin pc16Pin millis).cap.panelRegs = s.cap.panelRegs
    ∧ (dscDataInterrupt s false readPin pc16Pin millis).ring = s.ring := by
  unfold dscDataInterrupt
  simp only [Bool.false_eq_true, if_false, if_neg h]
  exact ⟨sampleModuleBit_panelRegs _ _ _ _, trivial⟩

theorem dscDataInterrupt_low_idle (s : State) (readPin pc16Pin : Bool) (millis : Nat)
    (h : s.cap.clockHighTime > 2000) :
    (dscDataInterrupt s false readPin pc16Pin millis).cap.isrPanelBitTotal = 0
    ∧ (dscDataInterrupt s false readPin pc16Pin millis).cap.isrPanelBitCount = 0
    ∧ (dscDataInterrupt s false readPin pc16Pin millis).cap.isrPanelByteCount = 0 := by
  unfold dscDataInterrupt
  simp only [Bool.false_eq_true, if_false, if_pos h]
  have hregs := sampleModuleBit_panelRegs
    (resetPanelCapture (storeModule
      (skipCheck { s.cap with keybusTime := millis } s.dec.lightBlink s.dec.readyLight)))
    (storeFrame s.ring
      (skipCheck { s.cap with keybusTime := millis } s.dec.lightBlink
        s.dec.readyLight)).panelBufferLength
    s.dec.starKeyDetected readPin
  simp only [Capture.panelRegs, Prod.mk.injEq] at hregs
  obtain ⟨-, -, r3, r4, r5, -⟩ := hregs
  exact ⟨r3, r4, r5⟩

theorem slotAction_eq (key k : Nat) :
    (if (key >>> (7 - k)) &&& 1 = 0 then some true else none) = slotAction key k := by
  unfold slotAction
  rw [Nat.testBit, Nat.land_comm 1, Nat.and_one_is_mod]
  rcases Nat.mod_two_eq_zero_or_one (key >>> (7 - k)) with h | h <;> simp [h]

theorem samplePanelBit_counts (c : Capture) (d p : Bool) (k : Nat) (hk : k < 7)
    (hT : c.isrPanelBitTotal = k) (hC : c.isrPanelBitCount = k) (hB : c.isrPanelByteCount = 0) :
    (samplePanelBit c d p).isrPanelBitTotal = k + 1
    ∧ (samplePanelBit c d p).isrPanelBitCount = k + 1
    ∧ (samplePanelBit c d p).isrPanelByteCount = 0
    ∧ (samplePanelBit c d p).clockHighTime = c.clockHighTime
    ∧ (samplePanelBit c d p).previousClockHighTime = c.previousClockHighTime := by
  have hB8 : ¬ c.isrPanelByteCount ≥ dscDataSize := by simp [dscDataSize, hB]
  have hC8 : c.isrPanelBitCount < 8 := by omega
  have hC7 : c.isrPanelBitCount < 7 := by omega
  unfold samplePanelBit
  rw [if_neg hB8, if_pos hC8]
  simp only [hC7, if_true, incByte]
  refine ⟨?_, ?_, hB, trivial, trivial⟩ <;> omega

theorem dscClockInterrupt_rising (s : State) (micros millis : Nat) :
    (dscClockInterrupt s true micros millis).1
      = { s with cap := { s.cap with previousClockHighTime := micros } } := by
  simp [dscClockInterrupt]

theorem dscClockInterrupt_cap (s : State) (micros millis : Nat) :
    (dscClockInterrupt s false micros millis).1.cap
      = { s.cap with clockHighTime := subU32 micros s.cap.previousClockHighTime } := by
  unfold dscClockInterrupt
  simp only [Bool.false_eq_true, if_false]
  split_ifs <;> rfl

/-- The falling edge that ends the long idle, with a key pending and the
post-write wait over: the transmission starts and bit 7 is acted on. -/
theorem dscClockInterrupt_start (s : State) (micros millis : Nat)
    (hvk : s.wr.virtualKeypad = true) (hpend : s.wr.writeKeyPending = true)
    (hwait : subU32 millis s.wr.writeCompleteTime > 50)
    (hidle : subU32 micros s.cap.previousClockHighTime > 2000) :
    (dscClockInterrupt s false micros millis).1.wr
      = { s.wr with writeKeyWait := false, writeStart := true }
    ∧ (dscClockInterrupt s false micros millis).2 = slotAction s.wr.writeKey 0 := by
  rw [← slotAction_eq]
  unfold dscClockInterrupt
  simp [hvk, hpend, hwait, hidle]

/-- A falling edge inside the command while a transmission is under way and
`k ≤ 7` panel bits have been sampled: bit `7 - k` is acted on, and the seventh
such edge completes the write. -/
theorem dscClockInterrupt_continue (s : State) (micros millis k : Nat)
    (hvk : s.wr.virtualKeypad = true) (hpend : s.wr.writeKeyPending = true)
    (hw : s.wr.writeKeyWait = false) (hstart : s.wr.writeStart = true)
    (hshort : ¬ subU32 micros s.cap.previousClockHighTime > 2000)
    (hT : s.cap.isrPanelBitTotal = k) (hC : s.cap.isrPanelBitCount = k) (hk : k ≤ 7) :
    (dscClockInterrupt s false micros millis).1.wr
      = (if k = 7 then
          { s.wr with writeKeyPending := false, writeKeyWait := true,
                      writeCompleteTime := millis, writeStart := false }
         else s.wr)
    ∧ (dscClockInterrupt s false micros millis).2 = slotAction s.wr.writeKey k := by
  rw [← slotAction_eq]
  obtain ⟨wr, cap, ring, fg, dec⟩ := s
  obtain ⟨vk, key, pend, wait, al, rdy, ksp, arr, cnt, pt, wct, wst, a1, a2, a3⟩ := wr
  simp only at hvk hpend hw hstart hT hC hshort
  subst hvk hpend hw hstart
  unfold dscClockInterrupt
  by_cases h50 : subU32 millis wct > 50 <;> by_cases h7 : k = 7 <;>
    simp [h50, h7, hshort, hT, hC, hk]

/-- A falling edge with no key pending leaves the write pin alone. -/
theorem dscClockInterrupt_idle (s : State) (micros millis : Nat)
    (hpend : s.wr.writeKeyPending = false) :
    (dscClockInterrupt s false micros millis).1.wr = s.wr
    ∧ (dscClockInterrupt s false micros millis).2 = none := by
  unfold dscClockInterrupt
  by_cases hvk : s.wr.virtualKeypad = true <;> simp [hvk, hpend]

theorem samplePanelBit_previousClockHighTime (c : Capture) (d p : Bool) :
    (samplePanelBit c d p).previousClockHighTime = c.previousClockHighTime := by
  unfold samplePanelBit
  simp only []
  split_ifs <;> rfl

/-- Slot 0: the falling edge that ends the long idle starts the transmission
and acts on bit 7; the frame boundary that follows resets the bit counters. -/
theorem clockCycle_slot0 (s : State) (c : Cycle)
    (hvk : s.wr.virtualKeypad = true) (hpend : s.wr.writeKeyPending = true)
    (hwait : subU32 c.fallMillis s.wr.writeCompleteTime > 50)
    (hidle : subU32 c.fallMicros c.riseMicros > 2000) :
    Sending (clockCycle s c).1 s.wr.writeKey 0
    ∧ (clockCycle s c).2 = slotAction s.wr.writeKey 0 := by
  have hprev : (dscDataInterrupt (dscClockInterrupt s true c.riseMicros c.riseMillis).1 true
      c.panelBit c.pc16Bit c.highMillis).cap.previousClockHighTime = c.riseMicros := by
    rw [dscClockInterrupt_rising]
    simp only [dscDataInterrupt, if_true]
    rw [samplePanelBit_previousClockHighTime]
  have hwr : (dscDataInterrupt (dscClockInterrupt s true c.riseMicros c.riseMillis).1 true
      c.panelBit c.pc16Bit c.highMillis).wr = s.wr := by
    rw [dscDataInterrupt_wr, dscClockInterrupt_rising]
  obtain ⟨h1, h2⟩ := dscClockInterrupt_start
    (dscDataInterrupt (dscClockInterrupt s true c.riseMicros c.riseMillis).1 true
      c.panelBit c.pc16Bit c.highMillis) c.fallMicros c.fallMillis
    (by rw [hwr]; exact hvk) (by rw [hwr]; exact hpend) (by rw [hwr]; exact hwait)
    (by rw [hprev]; exact hidle)
  have hcap := dscClockInterrupt_cap
    (dscDataInterrupt (dscClockInterrupt s true c.riseMicros c.riseMillis).1 true
      c.panelBit c.pc16Bit c.highMillis) c.fallMicros c.fallMillis
  have hhigh : (dscClockInterrupt
      (dscDataInterrupt (dscClockInterrupt s true c.riseMicros c.riseMillis).1 true
        c.panelBit c.pc16Bit c.highMillis) false c.fallMicros c.fallMillis).1.cap.clockHighTime
      > 2000 := by
    rw [hcap, hprev]; exact hidle
  obtain ⟨z1, z2, z3⟩ := dscDataInterrupt_low_idle _ c.keypadBit false c.lowMillis hhigh
  rw [hwr] at h1 h2
  unfold clockCycle
  refine ⟨⟨?_, ?_, ?_, ?_, ?_, z1, z2, z3⟩, h2⟩
  · simp only [dscDataInterrupt_wr]; rw [h1]; exact hvk
  · simp only [dscDataInterrupt_wr]; rw [h1]; exact hpend
  · simp only [dscDataInterrupt_wr]; rw [h1]
  · simp only [dscDataInterrupt_wr]; rw [h1]
  · simp only [dscDataInterrupt_wr]; rw [h1]

/-- Slot `k + 1`: after `k + 1` sampled bits the falling edge acts on bit
`7 - (k + 1)`; the transmission goes on until the edge with 7 sampled bits,
which completes the write. -/
theorem clockCycle_next (s : State) (c : Cycle) (key k : Nat) (hk : k < 7)
    (hS : Sending s key k) (hshort : ¬ subU32 c.fallMicros c.riseMicros > 2000) :
    (clockCycle s c).2 = slotAction key (k + 1)
    ∧ (k + 1 < 7 → Sending (clockCycle s c).1 key (k + 1))
    ∧ (k + 1 = 7 → (clockCycle s c).1.wr.writeKeyPending = false
        ∧ (clockCycle s c).1.wr.writeKeyWait = true
        ∧ (clockCycle s c).1.wr.writeCompleteTime = c.fallMillis) := by
  obtain ⟨hvk, hpend, hw, hstart, hkey, hT, hC, hB⟩ := hS
  have hs2 : dscDataInterrupt (dscClockInterrupt s true c.riseMicros c.riseMillis).1 true
      c.panelBit c.pc16Bit c.highMillis
      = { s with cap := samplePanelBit { s.cap with previousClockHighTime := c.riseMicros }
                          c.panelBit c.pc16Bit } := by
    rw [dscClockInterrupt_rising]
    simp only [dscDataInterrupt, if_true]
  obtain ⟨n1, n2, n3, -, n5⟩ := samplePanelBit_counts
    { s.cap with previousClockHighTime := c.riseMicros } c.panelBit c.pc16Bit k hk hT hC hB
  obtain ⟨h1, h2⟩ := dscClockInterrupt_continue
    { s with cap := samplePanelBit { s.cap with previousClockHighTime := c.riseMicros }
                      c.panelBit c.pc16Bit } c.fallMicros c.fallMillis (k + 1)
    hvk hpend hw hstart (by rw [n5]; exact hshort) n1 n2 (by omega)
  have hcap := dscClockInterrupt_cap
    { s with cap := samplePanelBit { s.cap with previousClockHighTime := c.riseMicros }
                      c.panelBit c.pc16Bit } c.fallMicros c.fallMillis
  have hlow : ¬ (dscClockInterrupt
      { s with cap := samplePanelBit { s.cap with previousClockHighTime := c.riseMicros }
                        c.panelBit c.pc16Bit } false c.fallMicros c.fallMillis).1.cap.clockHighTime
      > 2000 := by
    rw [hcap]
    simp only [n5]
    exact hshort
  obtain ⟨z, -⟩ := dscDataInterrupt_low_short _ c.keypadBit false c.lowMillis hlow
  simp only [Capture.panelRegs, Prod.mk.injEq] at z
  obtain ⟨-, -, z3, z4, z5, -⟩ := z
  rw [hcap] at z3 z4 z5
  simp only [] at z3 z4 z5
  unfold clockCycle
  simp only [hs2, dscDataInterrupt_wr]
  refine ⟨by rw [h2, hkey], ?_, ?_⟩
  · intro hlt
    have hne : ¬ k + 1 = 7 := by omega
    rw [if_neg hne] at h1
    refine ⟨?_, ?_, ?_, ?_, ?_, ?_, ?_, ?_⟩
    · simp only [dscDataInterrupt_wr]; rw [h1]; exact hvk
    · simp only [dscDataInterrupt_wr]; rw [h1]; exact hpend
    · simp only [dscDataInterrupt_wr]; rw [h1]; exact hw
    · simp only [dscDataInterrupt_wr]; rw [h1]; exact hstart
    · simp only [dscDataInterrupt_wr]; rw [h1]; exact hkey
    · rw [z3]; exact n1
    · rw [z4]; exact n2
    · rw [z5]; exact n3
  · intro h7
    rw [if_pos h7] at h1
    rw [h1]
    exact ⟨rfl, rfl, rfl⟩

/-- A clock period with no key pending: the write pin is left alone and no
key becomes pending. -/
theorem clockCycle_idle (s : State) (c : Cycle) (hpend : s.wr.writeKeyPending = false) :
    (clockCycle s c).1.wr.writeKeyPending = false ∧ (clockCycle s c).2 = none := by
  have hwr : (dscDataInterrupt (dscClockInterrupt s true c.riseMicros c.riseMillis).1 true
      c.panelBit c.pc16Bit c.highMillis).wr = s.wr := by
    rw [dscDataInterrupt_wr, dscClockInterrupt_rising]
  obtain ⟨h1, h2⟩ := dscClockInterrupt_idle
    (dscDataInterrupt (dscClockInterrupt s true c.riseMicros c.riseMillis).1 true
      c.panelBit c.pc16Bit c.highMillis) c.fallMicros c.fallMillis (by rw [hwr]; exact hpend)
  unfold clockCycle
  simp only [dscDataInterrupt_wr]
  exact ⟨by rw [h1, hwr]; exact hpend, h2⟩

theorem clockCycles_idle (later : List Cycle) (s : State) (acc : List (Option Bool))
    (hpend : s.wr.writeKeyPending = false) :
    (later.foldl (fun a c => ((clockCycle a.1 c).1, a.2 ++ [(clockCycle a.1 c).2])) (s, acc)).2
      = acc ++ List.replicate later.length none := by
  induction later generalizing s acc with
  | nil => simp
  | cons c cs ih =>
    obtain ⟨h1, h2⟩ := clockCycle_idle s c hpend
    simp only [List.foldl_cons, List.length_cons, List.replicate_succ]
    rw [ih _ _ h1, h2]
    simp

/-- C3: with the virtual keypad enabled, a key pending and the 50 ms wait
over, the falling edge that ends the long idle (slot 0) and the seven falling
edges that follow (slot `k` after `k` sampled panel bits) drive the write pin
HIGH exactly in the slots `k` whose bit `7 - k` of `writeKey` is 0; after slot
7 `writeKeyPending` is false, `writeKeyWait` is true and `writeCompleteTime` is
the `millis()` reading of that edge; no later falling edge touches the pin. -/
theorem key_write_slots (s : State) (c0 c1 c2 c3 c4 c5 c6 c7 : Cycle) (later : List Cycle)
    (hvk : s.wr.virtualKeypad = true) (hpend : s.wr.writeKeyPending = true)
    (hwait : subU32 c0.fallMillis s.wr.writeCompleteTime > 50)
    (hidle : subU32 c0.fallMicros c0.riseMicros > 2000)
    (hshort : ∀ c ∈ [c1, c2, c3, c4, c5, c6, c7], subU32 c.fallMicros c.riseMicros ≤ 2000) :
    (clockCycles s [c0, c1, c2, c3, c4, c5, c6, c7]).2
      = (List.range 8).map
          (fun k => if Nat.testBit s.wr.writeKey (7 - k) then none else some true)
    ∧ (clockCycles s [c0, c1, c2, c3, c4, c5, c6, c7]).1.wr.writeKeyPending = false
    ∧ (clockCycles s [c0, c1, c2, c3, c4, c5, c6, c7]).1.wr.writeKeyWait = true
    ∧ (clockCycles s [c0, c1, c2, c3, c4, c5, c6, c7]).1.wr.writeCompleteTime = c7.fallMillis
    ∧ (clockCycles (clockCycles s [c0, c1, c2, c3, c4, c5, c6, c7]).1 later).2
      = List.replicate later.length none := by
  have hs : ∀ c ∈ [c1, c2, c3, c4, c5, c6, c7], ¬ subU32 c.fallMicros c.riseMicros > 2000 :=
    fun c hc => Nat.not_lt.mpr (hshort c hc)
  obtain ⟨S0, p0⟩ := clockCycle_slot0 s c0 hvk hpend hwait hidle
  obtain ⟨p1, S1, -⟩ := clockCycle_next _ c1 _ 0 (by omega) S0 (hs c1 (by simp))
  obtain ⟨p2, S2, -⟩ := clockCycle_next _ c2 _ 1 (by omega) (S1 (by omega)) (hs c2 (by simp))
  obtain ⟨p3, S3, -⟩ := clockCycle_next _ c3 _ 2 (by omega) (S2 (by omega)) (hs c3 (by simp))
  obtain ⟨p4, S4, -⟩ := clockCycle_next _ c4 _ 3 (by omega) (S3 (by omega)) (hs c4 (by simp))
  obtain ⟨p5, S5, -⟩ := clockCycle_next _ c5 _ 4 (by omega) (S4 (by omega)) (hs c5 (by simp))
  obtain ⟨p6, S6, -⟩ := clockCycle_next _ c6 _ 5 (by omega) (S5 (by omega)) (hs c6 (by simp))
  obtain ⟨p7, -, F⟩ := clockCycle_next _ c7 _ 6 (by omega) (S6 (by omega)) (hs c7 (by simp))
  obtain ⟨f1, f2, f3⟩ := F (by omega)
  have hrun : clockCycles s [c0, c1, c2, c3, c4, c5, c6, c7]
      = ((clockCycle (clockCycle (clockCycle (clockCycle (clockCycle (clockCycle (clockCycle
            (clockCycle s c0).1 c1).1 c2).1 c3).1 c4).1 c5).1 c6).1 c7).1,
          [slotAction s.wr.writeKey 0, slotAction s.wr.writeKey 1, slotAction s.wr.writeKey 2,
           slotAction s.wr.writeKey 3, slotAction s.wr.writeKey 4, slotAction s.wr.writeKey 5,
           slotAction s.wr.writeKey 6, slotAction s.wr.writeKey 7]) := by
    simp only [clockCycles, List.foldl_cons, List.foldl_nil, List.nil_append, List.cons_append,
      p0, p1, p2, p3, p4, p5, p6, p7]
  rw [hrun]
  refine ⟨?_, f1, f2, f3, ?_⟩
  · simp [List.range, List.range.loop, slotAction]
  · simpa [clockCycles] using clockCycles_idle later _ [] f1

/-- Example for C3: the key `5` (`0xDD`) pending since 900 ms, the idle ending
at 1005 ms and seven bit periods of 1 ms: the pin is driven in slots 2 and 6. -/
theorem key_write_slots_witness :
    (clockCycles keyFivePending
      [bitCycle 0, bitCycle 1, bitCycle 2, bitCycle 3, bitCycle 4, bitCycle 5, bitCycle 6,
       bitCycle 7]).2
      = [none, none, some true, none, none, none, some true, none] :=
  (key_write_slots keyFivePending (bitCycle 0) (bitCycle 1) (bitCycle 2) (bitCycle 3)
    (bitCycle 4) (bitCycle 5) (bitCycle 6) (bitCycle 7) [] (by decide) (by decide) (by decide)
    (by decide) (by decide)).1


/-! ## Redundancy filter at the frame boundary -/

set_option maxRecDepth 100000 in
/-- C5 (the code does not keep the claim): from power-on, with `lightBlink`
and `readyLight` false and the ring far from full, the same armed frame
presented three times and followed by a different frame is stored twice: the
ring holds two consecutive byte-equal frames. -/
theorem repeated_frame_stored_twice :
    ((Trace.init 4 []).run (armedFrame.events 1000000 ++ armedFrame.events 1025000
        ++ armedFrame.events 1050000 ++ alarmFrame.events 1075000)).stored
      = [armedFrame, armedFrame, alarmFrame]
    ∧ slotFrame ((Trace.init 4 []).run (armedFrame.events 1000000 ++ armedFrame.events 1025000
        ++ armedFrame.events 1050000 ++ alarmFrame.events 1075000)).state.ring 0
      = slotFrame ((Trace.init 4 []).run (armedFrame.events 1000000 ++ armedFrame.events 1025000
        ++ armedFrame.events 1050000 ++ alarmFrame.events 1075000)).state.ring 1
    ∧ ((Trace.init 4 []).run (armedFrame.events 1000000 ++ armedFrame.events 1025000
        ++ armedFrame.events 1050000 ++ alarmFrame.events 1075000)).state.ring.panelBufferLength
      = 3
    ∧ ((Trace.init 4 []).run (armedFrame.events 1000000 ++ armedFrame.events 1025000
        ++ armedFrame.events 1050000 ++ alarmFrame.events 1075000)).state.dec.lightBlink = false
    ∧ ((Trace.init 4 []).run (armedFrame.events 1000000 ++ armedFrame.events 1025000
        ++ armedFrame.events 1050000 ++ alarmFrame.events 1075000)).state.dec.readyLight
      = false := by
  decide!

set_option maxRecDepth 100000 in
/-- C6 (the code does not keep the claim): from power-on, after the armed
frame (sent twice) and the alarm frame have been stored, the frame "alarm
over" is withheld although its PC16 bytes differ from those of the alarm
frame, the most recently stored one: its panel bytes equal the alarm frame's
and its PC16 bytes equal the stale `previousPC16Data`, which the short-circuit
`&&` left at the armed frame's bytes. -/
theorem changed_frame_withheld :
    ((Trace.init 4 []).run (armedFrame.events 1000000 ++ armedFrame.events 1025000
        ++ alarmFrame.events 1050000)).stored = [armedFrame, armedFrame, alarmFrame]
    ∧ ((Trace.init 4 []).run (armedFrame.events 1000000 ++ armedFrame.events 1025000
        ++ alarmFrame.events 1050000 ++ alarmOverFrame.events 1075000)).stored
      = [armedFrame, armedFrame, alarmFrame]
    ∧ alarmOverFrame.pc16 ≠ alarmFrame.pc16
    ∧ ((Trace.init 4 []).run (armedFrame.events 1000000 ++ armedFrame.events 1025000
        ++ alarmFrame.events 1050000 ++ alarmOverFrame.events 1075000)).state.ring.bufferOverflow
      = false := by
  decide!


/-! ## Multi-key writes -/

set_option maxRecDepth 100000 in
/-- C2 (the code does not keep the claim): once a panic key has been sent,
`writeAlarm` stays set, every accepted key restamps the cooldown, and
`writeKeys` advances its cursor past a key that `setWriteKey` rejects.  Fifty
seconds after the panic key, `write("1234")` with no write pending sends the
key `1` (`0xBE`); the next three `loop()` calls drop `2`, `3` and `4` and end
the write: one transmission instead of four.  Likewise `write("F1")` from
power-on sends `F` and drops `1`. -/
theorem write_keys_dropped :
    (afterPanicKey.2 = (List.range 8).map (slotAction 0x6F)
      ∧ afterPanicKey.1.wr.writeKeyPending = false
      ∧ afterPanicKey.1.wr.writeKeysPending = false)
    ∧ (accessCodeFirstKey.2 = (List.range 8).map (slotAction 0xBE)
      ∧ accessCodeFirstKey.1.wr.writeKeyPending = false
      ∧ accessCodeFirstKey.1.wr.writeKeysPending = true)
    ∧ (accessCodeDrained.2 = List.replicate 8 none
      ∧ accessCodeDrained.1.wr.writeKeyPending = false
      ∧ accessCodeDrained.1.wr.writeKeysPending = false
      ∧ accessCodeDrained.1.wr.writeKey = 0xBE)
    ∧ (fireThenOneFirstKey.2 = (List.range 8).map (slotAction 0x3F)
      ∧ (step fireThenOneFirstKey.1 (.poll 10030)).wr.writeKeyPending = false
      ∧ (step fireThenOneFirstKey.1 (.poll 10030)).wr.writeKeysPending = false
      ∧ (step fireThenOneFirstKey.1 (.poll 10030)).wr.writeKey = 0x3F) := by
  decide!


/-! ## Frame ring across `stop()` and `begin()` -/

set_option maxRecDepth 100000 in
/-- C8 (the code does not keep the claim): `stop()` zeroes `panelBufferLength`
but not the consumer's `panelBufferIndex`.  After a ready frame and an armed
frame were stored and `loop()` consumed the first, `stop()` and `begin()` leave
the index at 2; the frame "zone 3 open" stored after the restart goes to slot
0, the next `loop()` copies slot 1, the stale armed frame, and empties the
ring: the stale frame is delivered and the new one is lost. -/
theorem stale_frame_after_restart :
    (restartedTrace.stored = [readyFrame, armedFrame]
      ∧ restartedTrace.delivered = [readyFrame]
      ∧ restartedTrace.state.ring.panelBufferLength = 0
      ∧ restartedTrace.state.ring.panelBufferIndex = 2)
    ∧ (afterRestartTrace.stored = restartedTrace.stored ++ [zoneFrame]
      ∧ afterRestartTrace.delivered = restartedTrace.delivered ++ [armedFrame]
      ∧ afterRestartTrace.state.ring.panelBufferLength = 0
      ∧ foregroundFrame afterRestartTrace.state.fg = armedFrame) := by
  decide!


/-! ## Frame ring: producer and consumer -/

theorem dscClockInterrupt_ring (s : State) (clockPin : Bool) (micros millis : Nat) :
    (dscClockInterrupt s clockPin micros millis).1.ring = s.ring := by
  unfold dscClockInterrupt
  simp only []
  split_ifs <;> rfl

theorem skipCheck_capturedFrame (c : Capture) (lightBlink readyLight : Bool) :
    capturedFrame (skipCheck c lightBlink readyLight) = capturedFrame c := by
  unfold skipCheck
  simp only []
  split_ifs <;> rfl

theorem map_range_congr {α : Type} (f g : Nat → α) (n : Nat) (h : ∀ k, k < n → f k = g k) :
    (List.range n).map f = (List.range n).map g :=
  List.map_congr_left (fun k hk => h k (List.mem_range.mp hk))

/-- What `storeFrame` does to the ring: nothing the slots or the length would
show (the frame is skipped or the ring is full), or the frame goes into slot
`panelBufferLength` and the length grows by one. -/
theorem storeFrame_spec (r : Ring) (c : Capture) :
    (storeFrame r c).panelBufferIndex = r.panelBufferIndex
    ∧ (((storeFrame r c).panelBufferLength = r.panelBufferLength
        ∧ ∀ k, slotFrame (storeFrame r c) k = slotFrame r k)
      ∨ (r.panelBufferLength < dscBufferSize
        ∧ (storeFrame r c).panelBufferLength = r.panelBufferLength + 1
        ∧ (∀ k, k ≠ r.panelBufferLength → slotFrame (storeFrame r c) k = slotFrame r k)
        ∧ slotFrame (storeFrame r c) r.panelBufferLength = capturedFrame c)) := by
  unfold storeFrame
  by_cases hfull : r.panelBufferLength = dscBufferSize
  · rw [if_pos hfull]
    exact ⟨rfl, Or.inl ⟨rfl, fun _ => rfl⟩⟩
  · rw [if_neg hfull]
    by_cases hstore : (!c.skipData && decide (r.panelBufferLength < dscBufferSize)) = true
    · rw [if_pos hstore]
      have hlt : r.panelBufferLength < dscBufferSize := by
        simp only [Bool.and_eq_true, decide_eq_true_eq] at hstore; exact hstore.2
      refine ⟨rfl, Or.inr ⟨hlt, ?_, ?_, ?_⟩⟩
      · simp only [incByte, dscBufferSize] at hlt ⊢; omega
      · intro k hk
        simp [slotFrame, hk]
      · simp only [slotFrame, capturedFrame, true_and, if_true]
        congr 1
    · rw [if_neg hstore]
      exact ⟨rfl, Or.inl ⟨rfl, fun _ => rfl⟩⟩

/-- The ring after a data interrupt: unchanged, or `storeFrame` applied with
the frame of the capture registers. -/
theorem dscDataInterrupt_ring (s : State) (clockPin readPin pc16Pin : Bool) (millis : Nat) :
    (dscDataInterrupt s clockPin readPin pc16Pin millis).ring = s.ring
    ∨ ∃ c, capturedFrame c = capturedFrame s.cap
        ∧ (dscDataInterrupt s clockPin readPin pc16Pin millis).ring = storeFrame s.ring c := by
  unfold dscDataInterrupt
  by_cases hc : clockPin = true
  · rw [if_pos hc]; exact Or.inl rfl
  · rw [if_neg hc]
    by_cases hidle : s.cap.clockHighTime > 2000
    · rw [if_pos hidle]
      exact Or.inr ⟨_, skipCheck_capturedFrame { s.cap with keybusTime := millis } _ _, rfl⟩
    · rw [if_neg hidle]
      exact Or.inl rfl

/-- The ring and the delivered frame after `loop`: a call that reaches the
copy advances the index and leaves the copied slot in the foreground buffers,
any other call leaves the ring alone. -/
theorem loop_ring (s : State) (now : Nat) :
    (loop s now).1.ring = (if loopCopies s now then advanceIndex s.ring else s.ring)
    ∧ (loopCopies s now = true →
        foregroundFrame (loop s now).1.fg = foregroundFrame (copySlot s.ring s.fg)) := by
  have hk : ∀ d : Decoder, (markStatusChanged s.fg d).keybusConnected = d.keybusConnected := by
    intro d; unfold markStatusChanged; split_ifs <;> rfl
  unfold loop loopCopies loopDisconnects
  by_cases hprev : s.dec.previousKeybus = true <;>
  by_cases hgone : subU32 now s.cap.keybusTime > 3000 <;>
  by_cases hlen : s.ring.panelBufferLength = 0 <;>
  simp only [hprev, hgone, hlen, hk, decide_True, decide_False, Bool.not_true, Bool.not_false,
    bne_self_eq_false, Bool.false_and, Bool.and_false, Bool.and_true, Bool.true_and,
    if_true, if_false, Bool.false_eq_true, bne_iff_ne, ne_eq, not_true_eq_false,
    not_false_eq_true, Bool.not_eq_true, Bool.true_eq_false, and_self, imp_self,
    false_implies, implies_true, Bool.and_self, Bool.not_eq_false, true_and, and_true,
    Bool.bne_true, Bool.bne_false, Bool.true_bne, Bool.false_bne, Bool.not_not,
    Bool.and_eq_true, bne_eq_false_iff_eq] <;>
  (try split_ifs) <;>
  (first | trivial | rfl | exact ⟨rfl, fun _ => rfl⟩)

theorem ringInv_store (r : Ring) (c : Capture) (stored delivered : List Frame)
    (h : RingInv r stored delivered) :
    RingInv (storeFrame r c)
      (if (storeFrame r c).panelBufferLength = r.panelBufferLength + 1 then
        stored ++ [capturedFrame c] else stored)
      delivered := by
  obtain ⟨hL, hI, h0, hpos, base, hs, hd⟩ := h
  obtain ⟨hidx, hsame | hnew⟩ := storeFrame_spec r c
  · obtain ⟨hlen, hslots⟩ := hsame
    have hne : ¬ (storeFrame r c).panelBufferLength = r.panelBufferLength + 1 := by omega
    rw [if_neg hne]
    refine ⟨by rw [hlen]; exact hL, by rw [hidx]; exact hI, ?_, ?_, base, ?_, ?_⟩
    · rw [hlen, hidx]; exact h0
    · rw [hlen, hidx]; exact hpos
    · rw [hlen, hs]
      congr 1
      exact map_range_congr _ _ _ (fun k _ => (hslots k).symm)
    · rw [hidx, hd]
      congr 1
      exact map_range_congr _ _ _ (fun k _ => (hslots k).symm)
  · obtain ⟨hlt, hlen, hslots, hslot⟩ := hnew
    rw [if_pos hlen]
    refine ⟨by rw [hlen]; omega, by rw [hidx]; exact hI, ?_, ?_, base, ?_, ?_⟩
    · rw [hlen]; omega
    · intro _
      rw [hlen, hidx]
      rcases Nat.eq_zero_or_pos r.panelBufferLength with hz | hp
      · rw [h0 hz]; omega
      · have := hpos hp; omega
    · rw [hlen, List.range_succ, List.map_append, List.map_singleton, hslot, hs,
        List.append_assoc]
      congr 2
      exact map_range_congr _ _ _ (fun k hk => (hslots k (by omega)).symm)
    · rw [hidx, hd]
      congr 1
      refine map_range_congr _ _ _ (fun k hk => (hslots k ?_).symm)
      rcases Nat.eq_zero_or_pos r.panelBufferLength with hz | hp
      · rw [h0 hz] at hk; omega
      · have := hpos hp; omega

theorem ringInv_advance (r : Ring) (stored delivered : List Frame)
    (h : RingInv r stored delivered) (hne : r.panelBufferLength ≠ 0) :
    RingInv (advanceIndex r) stored
      (delivered ++ [slotFrame r ((r.panelBufferIndex + 255) % 256)]) := by
  obtain ⟨hL, hI, -, hpos, base, hs, hd⟩ := h
  have hIL := hpos (Nat.pos_of_ne_zero hne)
  have hidx : (r.panelBufferIndex + 255) % 256 = r.panelBufferIndex - 1 := by
    simp only [dscBufferSize] at hL; omega
  have hinc : incByte r.panelBufferIndex = r.panelBufferIndex + 1 := by
    simp only [incByte, dscBufferSize] at hL ⊢; omega
  have hdel : delivered ++ [slotFrame r ((r.panelBufferIndex + 255) % 256)]
      = base ++ (List.range r.panelBufferIndex).map (slotFrame r) := by
    have e : r.panelBufferIndex = (r.panelBufferIndex - 1) + 1 := by omega
    rw [hidx, hd, List.append_assoc]
    conv_rhs => rw [e, List.range_succ, List.map_append, List.map_singleton]
  rw [hdel]
  unfold advanceIndex
  simp only [hinc]
  by_cases hpast : r.panelBufferIndex + 1 > r.panelBufferLength
  · rw [if_pos hpast]
    have hEq : r.panelBufferIndex = r.panelBufferLength := by omega
    refine ⟨Nat.zero_le _, le_refl _, fun _ => rfl, fun h => absurd h (lt_irrefl _), stored, ?_, ?_⟩
    · simp
    · simp only [Nat.sub_self, List.range_zero, List.map_nil, List.append_nil]
      rw [hEq, hs]
  · rw [if_neg hpast]
    refine ⟨hL, by simp, fun h => absurd h hne, fun _ => by simp; omega, base, ?_, ?_⟩
    · rw [hs]; rfl
    · simp only [Nat.add_sub_cancel]; rfl

theorem ringInv_congr {r r' : Ring} {stored delivered : List Frame} (hr : r' = r)
    (h : RingInv r stored delivered) : RingInv r' stored delivered := by
  subst hr; exact h

theorem ringInv_step (t : Trace) (e : Event) (he : e ≠ Event.stopCapture)
    (h : RingInv t.state.ring t.stored t.delivered) :
    RingInv (t.step e).state.ring (t.step e).stored (t.step e).delivered := by
  cases e with
  | clockEdge clockPin micros millis =>
    simp only [Trace.step, step, dscClockInterrupt_ring]
    exact h
  | dataSample clockPin readPin pc16Pin millis =>
    simp only [Trace.step, step]
    rcases dscDataInterrupt_ring t.state clockPin readPin pc16Pin millis with hr | ⟨c, hc, hr⟩
    · have hne : ¬ (dscDataInterrupt t.state clockPin readPin pc16Pin millis).ring.panelBufferLength
          = t.state.ring.panelBufferLength + 1 := by rw [hr]; omega
      rw [if_neg hne]
      exact ringInv_congr hr h
    · have hst := ringInv_store _ c _ _ h
      by_cases hP : (dscDataInterrupt t.state clockPin readPin pc16Pin millis).ring.panelBufferLength
          = t.state.ring.panelBufferLength + 1
      · rw [if_pos (by rw [← hr]; exact hP), hc] at hst
        rw [if_pos hP]
        exact ringInv_congr hr hst
      · rw [if_neg (by rw [← hr]; exact hP)] at hst
        rw [if_neg hP]
        exact ringInv_congr hr hst
  | poll millis =>
    simp only [Trace.step, step]
    obtain ⟨hr, hf⟩ := loop_ring t.state millis
    by_cases hcp : loopCopies t.state millis = true
    · rw [hr, if_pos hcp, if_pos hcp, hf hcp]
      have hne : t.state.ring.panelBufferLength ≠ 0 := by
        simp only [loopCopies, Bool.and_eq_true, bne_iff_ne, ne_eq] at hcp
        exact hcp.2
      have e : foregroundFrame (copySlot t.state.ring t.state.fg)
          = slotFrame t.state.ring ((t.state.ring.panelBufferIndex + 255) % 256) := by
        simp only [foregroundFrame, copySlot, slotFrame]
        congr 1
      rw [e]
      exact ringInv_advance _ _ _ h hne
    · rw [hr, if_neg hcp, if_neg hcp]
      exact h
  | keys receivedKeys millis =>
    simp only [Trace.step, step]
    cases write t.state.wr receivedKeys millis <;> exact h
  | stopCapture => exact absurd rfl he
  | beginCapture => exact h
  | resetFlags => exact h

theorem ringInv_run (es : List Event) (t : Trace) (hstop : ∀ e ∈ es, e ≠ Event.stopCapture)
    (h : RingInv t.state.ring t.stored t.delivered) :
    RingInv (t.run es).state.ring (t.run es).stored (t.run es).delivered := by
  induction es generalizing t with
  | nil => exact h
  | cons e es ih =>
    simp only [Trace.run, List.foldl_cons]
    exact ih (t.step e) (fun e' he' => hstop e' (List.mem_cons_of_mem _ he'))
      (ringInv_step t e (hstop e (List.mem_cons_self _ _)) h)

/-- C7: for every sequence of handler invocations and API calls without
`stop()`, taken as atomic steps from power-on, the frames `loop()` has copied
into the foreground buffers (bytes and counts) are an initial segment of the
frames `dscDataInterrupt` has stored, in the same order: none delivered twice,
none skipped. -/
theorem delivered_initial_segment (setWritePin : Nat) (accessCode : List Char)
    (es : List Event)
    (hstop : ∀ e ∈ es, e ≠ Event.stopCapture) :
    ∃ rest, ((Trace.init setWritePin accessCode).run es).delivered ++ rest
      = ((Trace.init setWritePin accessCode).run es).stored := by
  obtain ⟨-, -, -, -, base, hs, hd⟩ := ringInv_run es (Trace.init setWritePin accessCode) hstop
    ⟨Nat.zero_le _, le_refl _, fun _ => rfl, fun h => absurd h (lt_irrefl _), [], rfl, rfl⟩
  have hle : ((Trace.init setWritePin accessCode).run es).state.ring.panelBufferIndex - 1
      ≤ ((Trace.init setWritePin accessCode).run es).state.ring.panelBufferLength := by
    obtain ⟨-, hI, h0, hpos, -⟩ := ringInv_run es (Trace.init setWritePin accessCode) hstop
      ⟨Nat.zero_le _, le_refl _, fun _ => rfl, fun h => absurd h (lt_irrefl _), [], rfl, rfl⟩
    rcases Nat.eq_zero_or_pos
      ((Trace.init setWritePin accessCode).run es).state.ring.panelBufferLength with hz | hp
    · rw [h0 hz]; omega
    · have := hpos hp; omega
  refine ⟨((List.range ((Trace.init setWritePin accessCode).run es).state.ring.panelBufferLength).map
      (slotFrame ((Trace.init setWritePin accessCode).run es).state.ring)).drop
        (((Trace.init setWritePin accessCode).run es).state.ring.panelBufferIndex - 1), ?_⟩
  rw [hs, hd, List.append_assoc]
  congr 1
  have hr : List.range (((Trace.init setWritePin accessCode).run es).state.ring.panelBufferIndex - 1)
      = (List.range ((Trace.init setWritePin accessCode).run es).state.ring.panelBufferLength).take
          (((Trace.init setWritePin accessCode).run es).state.ring.panelBufferIndex - 1) := by
    rw [List.take_range, Nat.min_eq_left hle]
  rw [hr, List.map_take, List.take_append_drop]

set_option maxRecDepth 100000 in
/-- Example for C7: a session of three frames and three `loop()` calls. -/
theorem delivered_initial_segment_witness :
    ∃ rest, ((Trace.init 4 []).run sessionEvents).delivered ++ rest
      = ((Trace.init 4 []).run sessionEvents).stored :=
  delivered_initial_segment 4 [] sessionEvents (by decide!)

/-! ## Ring bounds and overflow -/

theorem one_le_bufferSize : 1 ≤ dscBufferSize := by decide

theorem boundInv_step (s : State) (e : Event) (h : BoundInv s.ring) : BoundInv (step s e).ring := by
  obtain ⟨hL, hI, hI10⟩ := h
  cases e with
  | clockEdge clockPin micros millis =>
    simp only [step, dscClockInterrupt_ring]
    exact ⟨hL, hI, hI10⟩
  | dataSample clockPin readPin pc16Pin millis =>
    simp only [step]
    rcases dscDataInterrupt_ring s clockPin readPin pc16Pin millis with hr | ⟨c, -, hr⟩
    · rw [hr]; exact ⟨hL, hI, hI10⟩
    · rw [hr]
      obtain ⟨hidx, ⟨hlen, -⟩ | ⟨hlt, hlen, -⟩⟩ := storeFrame_spec s.ring c
      · exact ⟨by rw [hlen]; exact hL, by rw [hidx]; exact hI, by rw [hidx]; exact hI10⟩
      · exact ⟨by rw [hlen]; omega, by rw [hidx]; exact hI, by rw [hidx]; exact hI10⟩
  | poll millis =>
    simp only [step]
    rw [(loop_ring s millis).1]
    by_cases hcp : loopCopies s millis = true
    · rw [if_pos hcp]
      have hinc : incByte s.ring.panelBufferIndex = s.ring.panelBufferIndex + 1 := by
        simp only [incByte, dscBufferSize] at hI10 ⊢; omega
      unfold advanceIndex
      simp only [hinc]
      by_cases hpast : s.ring.panelBufferIndex + 1 > s.ring.panelBufferLength
      · rw [if_pos hpast]
        exact ⟨Nat.zero_le _, le_refl _, one_le_bufferSize⟩
      · rw [if_neg hpast]
        exact ⟨hL, Nat.le_add_left _ _, by simp only []; omega⟩
    · rw [if_neg hcp]; exact ⟨hL, hI, hI10⟩
  | keys receivedKeys millis =>
    simp only [step]
    cases write s.wr receivedKeys millis <;> exact ⟨hL, hI, hI10⟩
  | stopCapture => exact ⟨Nat.zero_le _, hI, hI10⟩
  | beginCapture => exact ⟨hL, hI, hI10⟩
  | resetFlags => exact ⟨hL, hI, hI10⟩

theorem boundInv_run (es : List Event) (s : State) (h : BoundInv s.ring) :
    BoundInv (runEvents s es).ring := by
  induction es generalizing s with
  | nil => exact h
  | cons e es ih =>
    simp only [runEvents, List.foldl_cons]
    exact ih (step s e) (boundInv_step s e h)

theorem storeFrame_overflow (r : Ring) (c : Capture) (h : r.bufferOverflow = true) :
    (storeFrame r c).bufferOverflow = true := by
  unfold storeFrame
  split_ifs <;> first | rfl | exact h

theorem storeFrame_in_bounds (r : Ring) (c : Capture) (k i : Nat)
    (h : (storeFrame r c).panelBuffer k i ≠ r.panelBuffer k i
      ∨ (storeFrame r c).pc16Buffer k i ≠ r.pc16Buffer k i) :
    k < dscBufferSize ∧ i < dscDataSize := by
  unfold storeFrame at h
  by_cases hfull : r.panelBufferLength = dscBufferSize
  · rw [if_pos hfull] at h; simp at h
  · rw [if_neg hfull] at h
    by_cases hstore : (!c.skipData && decide (r.panelBufferLength < dscBufferSize)) = true
    · rw [if_pos hstore] at h
      simp only [Bool.and_eq_true, decide_eq_true_eq] at hstore
      by_cases hk : k = r.panelBufferLength ∧ i < dscDataSize
      · exact ⟨by rw [hk.1]; exact hstore.2, hk.2⟩
      · simp [hk] at h
    · rw [if_neg hstore] at h; simp at h

theorem storeFrame_full (r : Ring) (c : Capture) (h : r.panelBufferLength = dscBufferSize) :
    storeFrame r c = { r with bufferOverflow := true } := by
  unfold storeFrame
  rw [if_pos h]

/-- C9: in every state reachable from power-on through the handlers and the
API (`stop()` included) `panelBufferLength ≤ dscBufferSize`, the slot `loop`
reads is inside the ring, and a data interrupt changes ring cells only inside
the ring; at a frame boundary with a full ring the handler sets
`bufferOverflow` and leaves the length and every slot unchanged; neither
handler nor `loop()` clears `bufferOverflow`. -/
theorem ring_bounds_and_overflow (setWritePin : Nat) (accessCode : List Char)
    (es : List Event) (s : State)
    (clockPin readPin pc16Pin : Bool) (micros millis : Nat) :
    ((runEvents (State.init setWritePin accessCode) es).ring.panelBufferLength ≤ dscBufferSize
      ∧ ((runEvents (State.init setWritePin accessCode) es).ring.panelBufferIndex + 255) % 256
          < dscBufferSize
      ∧ ∀ k i,
          ((dscDataInterrupt s clockPin readPin pc16Pin millis).ring.panelBuffer k i
              ≠ s.ring.panelBuffer k i
            ∨ (dscDataInterrupt s clockPin readPin pc16Pin millis).ring.pc16Buffer k i
              ≠ s.ring.pc16Buffer k i) →
          k < dscBufferSize ∧ i < dscDataSize)
    ∧ (s.cap.clockHighTime > 2000 → s.ring.panelBufferLength = dscBufferSize →
        (dscDataInterrupt s false readPin pc16Pin millis).ring
          = { s.ring with bufferOverflow := true })
    ∧ (s.ring.bufferOverflow = true →
        (dscDataInterrupt s clockPin readPin pc16Pin millis).ring.bufferOverflow = true
        ∧ (dscClockInterrupt s clockPin micros millis).1.ring.bufferOverflow = true
        ∧ (loop s millis).1.ring.bufferOverflow = true) := by
  refine ⟨⟨?_, ?_, ?_⟩, ?_, ?_⟩
  · exact (boundInv_run es _ ⟨Nat.zero_le _, le_refl _, one_le_bufferSize⟩).1
  · obtain ⟨-, h1, h2⟩ := boundInv_run es (State.init setWritePin accessCode)
      ⟨Nat.zero_le _, le_refl _, one_le_bufferSize⟩
    simp only [dscBufferSize] at h2 ⊢
    omega
  · intro k i h
    rcases dscDataInterrupt_ring s clockPin readPin pc16Pin millis with hr | ⟨c, -, hr⟩
    · rw [hr] at h; simp at h
    · rw [hr] at h
      exact storeFrame_in_bounds s.ring c k i h
  · intro hidle hfull
    unfold dscDataInterrupt
    simp only [Bool.false_eq_true, if_false, if_pos hidle]
    exact storeFrame_full _ _ hfull
  · intro hov
    refine ⟨?_, ?_, ?_⟩
    · rcases dscDataInterrupt_ring s clockPin readPin pc16Pin millis with hr | ⟨c, -, hr⟩
      · rw [hr]; exact hov
      · rw [hr]; exact storeFrame_overflow _ _ hov
    · rw [dscClockInterrupt_ring]; exact hov
    · rw [(loop_ring s millis).1]
      split_ifs
      · unfold advanceIndex
        simp only []
        split_ifs <;> exact hov
      · exact hov

set_option maxRecDepth 100000 in
/-- Example for C9: with the ring filled by ten frames, the frame boundary of
the eleventh sets `bufferOverflow` and stores nothing. -/
theorem ring_bounds_and_overflow_witness :
    fullRingState.ring.bufferOverflow = false
    ∧ (dscDataInterrupt fullRingState false true false 1270).ring
      = { fullRingState.ring with bufferOverflow := true } :=
  ⟨by decide!,
   (ring_bounds_and_overflow 4 [] [] fullRingState false true false 0 1270).2.1
     (by decide!) (by decide!)⟩


/-! ## Status decoder: which block writes what -/

theorem decodeLights_restore (p : Foreground) (d : Decoder) :
    (decodeLights p d).restoreLights d = d := by
  have h0 : d.restoreLights d = d := rfl
  unfold decodeLights markStatusChanged
  lift_lets
  repeat
    first
    | (intro x
       have : x.restoreLights d = d := by
         unfold x
         first | assumption | (split_ifs <;> assumption))
    | intro x
  assumption

theorem decodeBlink_restore (d : Decoder) (now : Nat) :
    (decodeBlink d now).restoreBlink d = d := rfl

theorem decodeBeep_restore (d : Decoder) (now : Nat) :
    (decodeBeep d now).restoreBeep d = d := by
  have h0 : d.restoreBeep d = d := rfl
  unfold decodeBeep
  lift_lets
  repeat
    first
    | (intro x
       have : x.restoreBeep d = d := by
         unfold x
         first | assumption | (split_ifs <;> assumption))
    | intro x
  first | assumption | (split_ifs <;> assumption)

theorem decodeArmed_restore (p : Foreground) (d : Decoder) (now : Nat) :
    (decodeArmed p d now).restoreArmed d = d := by
  have h0 : d.restoreArmed d = d := rfl
  unfold decodeArmed processReadyStatus processArmedStatus processAlarmStatus markStatusChanged
  lift_lets
  repeat
    first
    | (intro x
       have : x.restoreArmed d = d := by
         unfold x
         first | assumption | (split_ifs <;> assumption))
    | intro x
  first | assumption | (split_ifs <;> assumption)

theorem processReadyStatus_restoreReady (p : Foreground) (x d : Decoder) (b : Bool)
    (h : x.restoreReady d = d) : (processReadyStatus p x b).restoreReady d = d := by
  unfold processReadyStatus markStatusChanged
  lift_lets
  intro y
  split_ifs <;> exact h

theorem processArmedStatus_restoreReady (p : Foreground) (x d : Decoder) (b : Bool)
    (h : x.restoreReady d = d) : (processArmedStatus p x b).restoreReady d = d := by
  unfold processArmedStatus markStatusChanged
  lift_lets
  intro y
  split_ifs <;> exact h

theorem processAlarmStatus_restoreReady (p : Foreground) (x d : Decoder) (b : Bool)
    (h : x.restoreReady d = d) : (processAlarmStatus p x b).restoreReady d = d := by
  unfold processAlarmStatus markStatusChanged
  lift_lets
  intro y
  split_ifs <;> exact h

theorem processExitDelayStatus_restoreReady (p : Foreground) (x d : Decoder) (b : Bool)
    (h : x.restoreReady d = d) : (processExitDelayStatus p x b).restoreReady d = d := by
  unfold processExitDelayStatus markStatusChanged
  lift_lets
  intro y
  split_ifs <;> exact h

theorem decodeReady_restore (p : Foreground) (d : Decoder) (now : Nat) :
    (decodeReady p d now).restoreReady d = d := by
  have h0 : d.restoreReady d = d := rfl
  have hR := processReadyStatus_restoreReady p
  have hA := processArmedStatus_restoreReady p
  have hL := processAlarmStatus_restoreReady p
  have hE := processExitDelayStatus_restoreReady p
  unfold decodeReady markStatusChanged
  lift_lets
  repeat
    first
    | (intro x
       have : x.restoreReady d = d := by
         unfold x
         first
         | assumption
         | (split_ifs <;> first | assumption | (apply hR; assumption) | (apply hE; assumption))
         | (apply hL; apply hA; apply hR; assumption))
    | intro x
  split_ifs <;> first | assumption | (apply hE; assumption)

theorem decodeAlarm_restore (p : Foreground) (d : Decoder) :
    (decodeAlarm p d).restoreAlarm d = d := by
  have h0 : d.restoreAlarm d = d := rfl
  unfold decodeAlarm processReadyStatus processAlarmStatus markStatusChanged
  lift_lets
  repeat
    first
    | (intro x
       have : x.restoreAlarm d = d := by
         unfold x
         first | assumption | (split_ifs <;> assumption))
    | intro x
  first | assumption | (split_ifs <;> assumption)

theorem decodeTroubleFire_restore (p : Foreground) (d : Decoder) :
    (decodeTroubleFire p d).restoreTroubleFire d = d := by
  have h0 : d.restoreTroubleFire d = d := rfl
  unfold decodeTroubleFire markStatusChanged
  lift_lets
  repeat
    first
    | (intro x
       have : x.restoreTroubleFire d = d := by
         unfold x
         first | assumption | (split_ifs <;> assumption))
    | intro x
  first | assumption | (split_ifs <;> assumption)

theorem decodeKeypadAlarms_restore (p : Foreground) (d : Decoder) (now : Nat) :
    (decodeKeypadAlarms p d now).restoreKeypad d = d := by
  have h0 : d.restoreKeypad d = d := rfl
  unfold decodeKeypadAlarms markStatusChanged
  lift_lets
  repeat
    first
    | (intro x
       have : x.restoreKeypad d = d := by
         unfold x
         first | assumption | (split_ifs <;> assumption))
    | intro x
  first | assumption | (split_ifs <;> assumption)

theorem decodeStatus_restore (p : Foreground) (d : Decoder) :
    (decodeStatus p d).restoreStatus d = d := by
  have h0 : d.restoreStatus d = d := rfl
  unfold decodeStatus markStatusChanged
  lift_lets
  repeat
    first
    | (intro x
       have : x.restoreStatus d = d := by
         unfold x
         first | assumption | (split_ifs <;> assumption))
    | intro x
  first | assumption | (split_ifs <;> assumption)

theorem foldl_preserves {α β : Type} (P : β → Prop) (f : β → α → β)
    (hf : ∀ b a, P b → P (f b a)) (l : List α) (b : β) (hb : P b) : P (l.foldl f b) := by
  induction l generalizing b with
  | nil => exact hb
  | cons a l ih => exact ih (f b a) (hf b a hb)

theorem decodeZoneGroup_restore (p : Foreground) (x d : Decoder) (i : Nat)
    (h : x.restoreZones d = d) : (decodeZoneGroup p x i).restoreZones d = d := by
  unfold decodeZoneGroup
  lift_lets
  intro y zc z
  have hy : y.restoreZones d = d := by
    unfold y
    refine foldl_preserves (fun c : Decoder => c.restoreZones d = d) _ ?_ _ _ h
    intro b a hb
    dsimp only
    split_ifs <;> exact hb
  have hz : z.restoreZones d = d := by
    unfold z markStatusChanged
    split_ifs <;> exact hy
  split_ifs
  · refine foldl_preserves (fun c : Decoder => c.restoreZones d = d) _ ?_ _ _ hz
    intro b a hb
    dsimp only
    split_ifs <;> exact hb
  · exact hy

theorem decodeZones_restore (p : Foreground) (d : Decoder) :
    (decodeZones p d).restoreZones d = d := by
  unfold decodeZones
  split_ifs
  · exact foldl_preserves (fun c : Decoder => c.restoreZones d = d) _
      (fun b a hb => decodeZoneGroup_restore p b d a hb) _ _ rfl
  · rfl

theorem decodeAlarmZones_restore (p : Foreground) (d : Decoder) :
    (decodeAlarmZones p d).restoreAlarmZones d = d := by
  unfold decodeAlarmZones
  lift_lets
  intro y zc z
  have hy : y.restoreAlarmZones d = d := by
    unfold y
    refine foldl_preserves (fun c : Decoder => c.restoreAlarmZones d = d) _ ?_ _ _ rfl
    intro b a hb
    dsimp only
    split_ifs <;> exact hb
  have hz : z.restoreAlarmZones d = d := by
    unfold z markStatusChanged
    split_ifs <;> exact hy
  split_ifs
  · refine foldl_preserves (fun c : Decoder => c.restoreAlarmZones d = d) _ ?_ _ _ hz
    intro b a hb
    dsimp only
    split_ifs <;> exact hb
  · exact hy

theorem bitRead_eq_testBit (v k : Nat) : bitRead v k = v.testBit k := by
  unfold bitRead Nat.testBit
  rw [Nat.and_comm]

theorem testBit_bitWrite (v bit j : Nat) (b : Bool) (hbit : bit < 8) (hj : j < 8) :
    (bitWrite v bit b).testBit j = if j = bit then b else v.testBit j := by
  unfold bitWrite
  have h255 : (255 : Nat) = 2 ^ 8 - 1 := by norm_num
  have h256 : (256 : Nat) = 2 ^ 8 := by norm_num
  cases b
  · simp only [Bool.false_eq_true, if_false]
    rw [Nat.testBit_and, Nat.testBit_xor, h255, Nat.testBit_two_pow_sub_one, h256,
      Nat.testBit_mod_two_pow, Nat.one_shiftLeft, Nat.testBit_two_pow]
    by_cases hjb : j = bit
    · subst hjb; simp [hj]
    · have : ¬ bit = j := fun h => hjb h.symm
      simp [hj, hjb, this]
  · simp only [if_true]
    rw [h256, Nat.testBit_mod_two_pow, Nat.testBit_or, Nat.one_shiftLeft, Nat.testBit_two_pow]
    by_cases hjb : j = bit
    · subst hjb; simp [hj]
    · have : ¬ bit = j := fun h => hjb h.symm
      simp [hj, hjb, this]

theorem bitRead_bitWrite (v bit j : Nat) (b : Bool) (hbit : bit < 8) (hj : j < 8) :
    bitRead (bitWrite v bit b) j = if j = bit then b else bitRead v j := by
  simp only [bitRead_eq_testBit]
  exact testBit_bitWrite v bit j b hbit hj

theorem bitWrite_lt (v bit : Nat) (b : Bool) : bitWrite v bit b < 256 := by
  unfold bitWrite
  cases b
  · simp only [Bool.false_eq_true, if_false]
    have h1 : v &&& (255 ^^^ 1 <<< bit % 256) ≤ 255 ^^^ 1 <<< bit % 256 := Nat.and_le_right
    have h2 : 255 ^^^ 1 <<< bit % 256 < 2 ^ 8 :=
      Nat.xor_lt_two_pow (by norm_num) (by norm_num; exact Nat.mod_lt _ (by norm_num))
    omega
  · simp only [if_true]
    exact Nat.mod_lt _ (by norm_num)

theorem bitRead_zero (bit : Nat) : bitRead 0 bit = false := by
  simp [bitRead]

theorem bitRead_ite (c : Prop) [Decidable c] (a b k : Nat) :
    bitRead (if c then a else b) k = if c then bitRead a k else bitRead b k := by
  split_ifs <;> rfl

theorem foldl_establishes {α β : Type} (f : β → α → β) (P Q : β → Prop) (a0 : α) (l : List α)
    (hP : ∀ b, ∀ a ∈ l, P b → P (f b a))
    (hQ : ∀ b, ∀ a ∈ l, P b → Q b → Q (f b a))
    (hset : ∀ b, P b → Q (f b a0))
    (b : β) (hb : P b) (hmem : a0 ∈ l ∨ Q b) : Q (l.foldl f b) := by
  induction l generalizing b with
  | nil =>
    rcases hmem with h | h
    · exact absurd h (List.not_mem_nil a0)
    · exact h
  | cons a t ih =>
    simp only [List.foldl_cons]
    apply ih (fun b x hx => hP b x (List.mem_cons_of_mem a hx))
      (fun b x hx => hQ b x (List.mem_cons_of_mem a hx)) (f b a)
      (hP b a (List.mem_cons_self a t) hb)
    rcases hmem with h | h
    · rcases List.mem_cons.mp h with rfl | ht
      · exact Or.inr (hset b hb)
      · exact Or.inl ht
    · exact Or.inr (hQ b a (List.mem_cons_self a t) hb h)

theorem decodeLights_keybusConnected (p : Foreground) (d : Decoder) :
    (decodeLights p d).keybusConnected = d.keybusConnected := by
  have h := congrArg Decoder.keybusConnected (decodeLights_restore p d)
  exact h

theorem decodeBlink_keybusConnected (d : Decoder) (now : Nat) :
    (decodeBlink d now).keybusConnected = d.keybusConnected := by
  have h := congrArg Decoder.keybusConnected (decodeBlink_restore d now)
  exact h

theorem decodeBeep_keybusConnected (d : Decoder) (now : Nat) :
    (decodeBeep d now).keybusConnected = d.keybusConnected := by
  have h := congrArg Decoder.keybusConnected (decodeBeep_restore d now)
  exact h

theorem decodeArmed_keybusConnected (p : Foreground) (d : Decoder) (now : Nat) :
    (decodeArmed p d now).keybusConnected = d.keybusConnected := by
  have h := congrArg Decoder.keybusConnected (decodeArmed_restore p d now)
  exact h

theorem decodeReady_keybusConnected (p : Foreground) (d : Decoder) (now : Nat) :
    (decodeReady p d now).keybusConnected = d.keybusConnected := by
  have h := congrArg Decoder.keybusConnected (decodeReady_restore p d now)
  exact h

theorem decodeZones_keybusConnected (p : Foreground) (d : Decoder) :
    (decodeZones p d).keybusConnected = d.keybusConnected := by
  have h := congrArg Decoder.keybusConnected (decodeZones_restore p d)
  exact h

theorem decodeAlarmZones_keybusConnected (p : Foreground) (d : Decoder) :
    (decodeAlarmZones p d).keybusConnected = d.keybusConnected := by
  have h := congrArg Decoder.keybusConnected (decodeAlarmZones_restore p d)
  exact h

theorem decodeAlarm_keybusConnected (p : Foreground) (d : Decoder) :
    (decodeAlarm p d).keybusConnected = d.keybusConnected := by
  have h := congrArg Decoder.keybusConnected (decodeAlarm_restore p d)
  exact h

theorem decodeTroubleFire_keybusConnected (p : Foreground) (d : Decoder) :
    (decodeTroubleFire p d).keybusConnected = d.keybusConnected := by
  have h := congrArg Decoder.keybusConnected (decodeTroubleFire_restore p d)
  exact h

theorem decodeKeypadAlarms_keybusConnected (p : Foreground) (d : Decoder) (now : Nat) :
    (decodeKeypadAlarms p d now).keybusConnected = d.keybusConnected := by
  have h := congrArg Decoder.keybusConnected (decodeKeypadAlarms_restore p d now)
  exact h

theorem decodeStatus_keybusConnected (p : Foreground) (d : Decoder) :
    (decodeStatus p d).keybusConnected = d.keybusConnected := by
  have h := congrArg Decoder.keybusConnected (decodeStatus_restore p d)
  exact h


/-! ## Keybus liveness (`loop`) -/

theorem processPanelStatus_keybusConnected (p : Foreground) (d : Decoder) (now : Nat) :
    (processPanelStatus p d now).keybusConnected = d.keybusConnected := by
  unfold processPanelStatus
  rw [decodeStatus_keybusConnected, decodeKeypadAlarms_keybusConnected,
    decodeTroubleFire_keybusConnected, decodeAlarm_keybusConnected,
    decodeAlarmZones_keybusConnected, decodeZones_keybusConnected,
    decodeReady_keybusConnected, decodeArmed_keybusConnected, decodeBeep_keybusConnected,
    decodeBlink_keybusConnected, decodeLights_keybusConnected]

theorem loop_dec_keybusConnected (s : State) (now : Nat) :
    (loop s now).1.dec.keybusConnected = !decide (subU32 now s.cap.keybusTime > 3000) := by
  unfold loop markStatusChanged
  lift_lets
  intro _ d1 changed d2
  have h2 : d2.keybusConnected = !decide (subU32 now s.cap.keybusTime > 3000) := by
    unfold d2
    split_ifs <;> rfl
  intros
  split_ifs <;> simp only [processPanelStatus_keybusConnected] <;> exact h2

theorem loop_cap (s : State) (now : Nat) : (loop s now).1.cap = s.cap := by
  unfold loop
  lift_lets
  intros
  split_ifs <;> rfl

/-- C12: after every `loop()` call made while `millis()` reads `now`,
`keybusConnected` is true exactly when `now - keybusTime`, computed in unsigned
32-bit arithmetic, is at most 3000; the call leaves `keybusTime` as it was. -/
theorem loop_keybusConnected_iff (s : State) (now : Nat) :
    ((loop s now).1.dec.keybusConnected = true ↔ subU32 now s.cap.keybusTime ≤ 3000)
      ∧ (loop s now).1.cap.keybusTime = s.cap.keybusTime := by
  refine ⟨?_, by rw [loop_cap]⟩
  rw [loop_dec_keybusConnected]
  simp

theorem decodeBlink_lights (d : Decoder) (now : Nat) :
    (decodeBlink d now).lights = d.lights := by
  have h := congrArg Decoder.lights (decodeBlink_restore d now)
  exact h

theorem decodeBeep_lights (d : Decoder) (now : Nat) :
    (decodeBeep d now).lights = d.lights := by
  have h := congrArg Decoder.lights (decodeBeep_restore d now)
  exact h

theorem decodeArmed_lights (p : Foreground) (d : Decoder) (now : Nat) :
    (decodeArmed p d now).lights = d.lights := by
  have h := congrArg Decoder.lights (decodeArmed_restore p d now)
  exact h

theorem decodeReady_lights (p : Foreground) (d : Decoder) (now : Nat) :
    (decodeReady p d now).lights = d.lights := by
  have h := congrArg Decoder.lights (decodeReady_restore p d now)
  exact h

theorem decodeZones_lights (p : Foreground) (d : Decoder) :
    (decodeZones p d).lights = d.lights := by
  have h := congrArg Decoder.lights (decodeZones_restore p d)
  exact h

theorem decodeAlarmZones_lights (p : Foreground) (d : Decoder) :
    (decodeAlarmZones p d).lights = d.lights := by
  have h := congrArg Decoder.lights (decodeAlarmZones_restore p d)
  exact h

theorem decodeAlarm_lights (p : Foreground) (d : Decoder) :
    (decodeAlarm p d).lights = d.lights := by
  have h := congrArg Decoder.lights (decodeAlarm_restore p d)
  exact h

theorem decodeTroubleFire_lights (p : Foreground) (d : Decoder) :
    (decodeTroubleFire p d).lights = d.lights := by
  have h := congrArg Decoder.lights (decodeTroubleFire_restore p d)
  exact h

theorem decodeKeypadAlarms_lights (p : Foreground) (d : Decoder) (now : Nat) :
    (decodeKeypadAlarms p d now).lights = d.lights := by
  have h := congrArg Decoder.lights (decodeKeypadAlarms_restore p d now)
  exact h

theorem decodeStatus_lights (p : Foreground) (d : Decoder) :
    (decodeStatus p d).lights = d.lights := by
  have h := congrArg Decoder.lights (decodeStatus_restore p d)
  exact h


/-! ## Keypad lights (`processPanelStatus`) -/

theorem decodeLights_lights_eq (p : Foreground) (d : Decoder) :
    (decodeLights p d).lights =
      bitWrite (bitWrite (bitWrite (bitWrite (bitWrite (bitWrite (bitWrite d.lights
        0 (bitRead (p.panelData p.statusByte) 7))
        1 (bitRead (p.panelData p.statusByte) 6))
        2 (bitRead (p.panelData p.statusByte) 5))
        3 (bitRead (p.panelData p.statusByte) 4))
        4 (bitRead (p.panelData p.statusByte) 3))
        5 (bitRead (p.panelData p.statusByte) 2))
        6 (bitRead (p.panelData p.statusByte) 1) := by
  unfold decodeLights markStatusChanged
  lift_lets
  intro b d1 d2 d3 d4 d5 d6 d7 d8 d9 d10 d11 d12 d13 d14 d15
  have h : d15.lights = d14.lights := by
    unfold d15
    split_ifs <;> rfl
  intro q
  exact h

theorem processPanelStatus_lights_eq (p : Foreground) (d : Decoder) (now : Nat) :
    (processPanelStatus p d now).lights = (decodeLights p d).lights := by
  unfold processPanelStatus
  rw [decodeStatus_lights, decodeKeypadAlarms_lights, decodeTroubleFire_lights,
    decodeAlarm_lights, decodeAlarmZones_lights, decodeZones_lights, decodeReady_lights,
    decodeArmed_lights, decodeBeep_lights, decodeBlink_lights]

theorem bitRead_xor_one (v k : Nat) (hk : 1 ≤ k) : bitRead (v ^^^ 1) k = bitRead v k := by
  simp only [bitRead_eq_testBit, Nat.testBit_xor]
  have h1 : Nat.testBit 1 k = false := by
    have := @Nat.testBit_two_pow 0 k
    simp only [pow_zero] at this
    rw [this]
    simp
    omega
  rw [h1]
  simp

theorem bitRead_lights_seven (p : Foreground) (d : Decoder) (now : Nat) :
    bitRead (processPanelStatus p d now).lights 7 = bitRead d.lights 7 := by
  rw [processPanelStatus_lights_eq, decodeLights_lights_eq]
  simp [bitRead_bitWrite]

/-- C13: after every `processPanelStatus` call, bit `k` of `lights[0]` for `k` in
0..6 is bit `7 - k` of `panelData[statusByte]` (Ready, Armed, Memory, Bypass,
Trouble, Program, Fire); bit 7 of `lights[0]` keeps its value, which is 0 in
every state reached from power-on; and flipping the beep bit (bit 0 of the
panel byte) gives the same `lights[0]`. -/
theorem processPanelStatus_lights (p : Foreground) (d : Decoder) (now : Nat) :
    (∀ k : Fin 7, bitRead (processPanelStatus p d now).lights k.val
        = bitRead (p.panelData p.statusByte) (7 - k.val))
      ∧ bitRead (processPanelStatus p d now).lights 7 = bitRead d.lights 7
      ∧ (∀ fs, bitRead (decodeAll Decoder.init fs).lights 7 = false)
      ∧ (processPanelStatus
            { p with panelData := setAt p.panelData p.statusByte (p.panelData p.statusByte ^^^ 1) }
            d now).lights = (processPanelStatus p d now).lights := by
  refine ⟨?_, bitRead_lights_seven p d now, ?_, ?_⟩
  · intro k
    rw [processPanelStatus_lights_eq, decodeLights_lights_eq]
    fin_cases k <;> simp [bitRead_bitWrite]
  · intro fs
    unfold decodeAll
    refine foldl_preserves (fun c : Decoder => bitRead c.lights 7 = false) _ ?_ _ _ rfl
    intro c f hc
    show bitRead (processPanelStatus f.1 c f.2).lights 7 = false
    rw [bitRead_lights_seven, hc]
  · rw [processPanelStatus_lights_eq, processPanelStatus_lights_eq, decodeLights_lights_eq,
      decodeLights_lights_eq]
    simp only [setAt, if_true]
    rw [bitRead_xor_one _ 7 (by norm_num), bitRead_xor_one _ 6 (by norm_num),
      bitRead_xor_one _ 5 (by norm_num), bitRead_xor_one _ 4 (by norm_num),
      bitRead_xor_one _ 3 (by norm_num), bitRead_xor_one _ 2 (by norm_num),
      bitRead_xor_one _ 1 (by norm_num)]


/-! ## Reading a field of a conditional decoder state -/

theorem Decoder.ite_field (c : Prop) [Decidable c] (a b : Decoder) :
    (ite c a b).statusChanged = ite c a.statusChanged b.statusChanged
      ∧ (ite c a b).keybusConnected = ite c a.keybusConnected b.keybusConnected
      ∧ (ite c a b).previousKeybus = ite c a.previousKeybus b.previousKeybus
      ∧ (ite c a b).keybusChanged = ite c a.keybusChanged b.keybusChanged
      ∧ (ite c a b).lights = ite c a.lights b.lights
      ∧ (ite c a b).previousLights = ite c a.previousLights b.previousLights
      ∧ (ite c a b).readyLight = ite c a.readyLight b.readyLight
      ∧ (ite c a b).armedLight = ite c a.armedLight b.armedLight
      ∧ (ite c a b).memoryLight = ite c a.memoryLight b.memoryLight
      ∧ (ite c a b).bypassLight = ite c a.bypassLight b.bypassLight
      ∧ (ite c a b).troubleLight = ite c a.troubleLight b.troubleLight
      ∧ (ite c a b).programLight = ite c a.programLight b.programLight
      ∧ (ite c a b).fireLight = ite c a.fireLight b.fireLight
      ∧ (ite c a b).beep = ite c a.beep b.beep
      ∧ (ite c a b).troubleBit = ite c a.troubleBit b.troubleBit
      ∧ (ite c a b).armedBypassBit = ite c a.armedBypassBit b.armedBypassBit
      ∧ (ite c a b).armedBitA = ite c a.armedBitA b.armedBitA
      ∧ (ite c a b).armedBitB = ite c a.armedBitB b.armedBitB
      ∧ (ite c a b).alarmBit = ite c a.alarmBit b.alarmBit
      ∧ (ite c a b).memoryBlink = ite c a.memoryBlink b.memoryBlink
      ∧ (ite c a b).armedBlink = ite c a.armedBlink b.armedBlink
      ∧ (ite c a b).bypassBlink = ite c a.bypassBlink b.bypassBlink
      ∧ (ite c a b).troubleBlink = ite c a.troubleBlink b.troubleBlink
      ∧ (ite c a b).lightBlink = ite c a.lightBlink b.lightBlink
      ∧ (ite c a b).memoryLightTimeOn = ite c a.memoryLightTimeOn b.memoryLightTimeOn
      ∧ (ite c a b).memoryLightTimeOff = ite c a.memoryLightTimeOff b.memoryLightTimeOff
      ∧ (ite c a b).armedLightTimeOn = ite c a.armedLightTimeOn b.armedLightTimeOn
      ∧ (ite c a b).armedLightTimeOff = ite c a.armedLightTimeOff b.armedLightTimeOff
      ∧ (ite c a b).bypassLightTimeOn = ite c a.bypassLightTimeOn b.bypassLightTimeOn
      ∧ (ite c a b).bypassLightTimeOff = ite c a.bypassLightTimeOff b.bypassLightTimeOff
      ∧ (ite c a b).troubleLightTimeOn = ite c a.troubleLightTimeOn b.troubleLightTimeOn
      ∧ (ite c a b).troubleLightTimeOff = ite c a.troubleLightTimeOff b.troubleLightTimeOff
      ∧ (ite c a b).beepTimesSet = ite c a.beepTimesSet b.beepTimesSet
      ∧ (ite c a b).beepTimeStart = ite c a.beepTimeStart b.beepTimeStart
      ∧ (ite c a b).beepTimeOff = ite c a.beepTimeOff b.beepTimeOff
      ∧ (ite c a b).beepOn = ite c a.beepOn b.beepOn
      ∧ (ite c a b).status = ite c a.status b.status
      ∧ (ite c a b).previousStatus = ite c a.previousStatus b.previousStatus
      ∧ (ite c a b).ready = ite c a.ready b.ready
      ∧ (ite c a b).previousReady = ite c a.previousReady b.previousReady
      ∧ (ite c a b).readyChanged = ite c a.readyChanged b.readyChanged
      ∧ (ite c a b).armed = ite c a.armed b.armed
      ∧ (ite c a b).armedStay = ite c a.armedStay b.armedStay
      ∧ (ite c a b).armedAway = ite c a.armedAway b.armedAway
      ∧ (ite c a b).previousArmed = ite c a.previousArmed b.previousArmed
      ∧ (ite c a b).previousArmedStay = ite c a.previousArmedStay b.previousArmedStay
      ∧ (ite c a b).previousArmedAway = ite c a.previousArmedAway b.previousArmedAway
      ∧ (ite c a b).armedChanged = ite c a.armedChanged b.armedChanged
      ∧ (ite c a b).armedStayTriggered = ite c a.armedStayTriggered b.armedStayTriggered
      ∧ (ite c a b).noEntryDelay = ite c a.noEntryDelay b.noEntryDelay
      ∧ (ite c a b).exitDelayArmed = ite c a.exitDelayArmed b.exitDelayArmed
      ∧ (ite c a b).exitDelayTriggered = ite c a.exitDelayTriggered b.exitDelayTriggered
      ∧ (ite c a b).exitDelay = ite c a.exitDelay b.exitDelay
      ∧ (ite c a b).previousExitDelay = ite c a.previousExitDelay b.previousExitDelay
      ∧ (ite c a b).exitDelayChanged = ite c a.exitDelayChanged b.exitDelayChanged
      ∧ (ite c a b).exitState = ite c a.exitState b.exitState
      ∧ (ite c a b).previousExitState = ite c a.previousExitState b.previousExitState
      ∧ (ite c a b).exitStateChanged = ite c a.exitStateChanged b.exitStateChanged
      ∧ (ite c a b).alarm = ite c a.alarm b.alarm
      ∧ (ite c a b).previousAlarm = ite c a.previousAlarm b.previousAlarm
      ∧ (ite c a b).alarmChanged = ite c a.alarmChanged b.alarmChanged
      ∧ (ite c a b).alarmTriggered = ite c a.alarmTriggered b.alarmTriggered
      ∧ (ite c a b).previousAlarmTriggered = ite c a.previousAlarmTriggered b.previousAlarmTriggered
      ∧ (ite c a b).starKeyDetected = ite c a.starKeyDetected b.starKeyDetected
      ∧ (ite c a b).openZones = ite c a.openZones b.openZones
      ∧ (ite c a b).previousOpenZones = ite c a.previousOpenZones b.previousOpenZones
      ∧ (ite c a b).openZonesChanged = ite c a.openZonesChanged b.openZonesChanged
      ∧ (ite c a b).openZonesStatusChanged = ite c a.openZonesStatusChanged b.openZonesStatusChanged
      ∧ (ite c a b).alarmZones = ite c a.alarmZones b.alarmZones
      ∧ (ite c a b).previousAlarmZones = ite c a.previousAlarmZones b.previousAlarmZones
      ∧ (ite c a b).alarmZonesChanged = ite c a.alarmZonesChanged b.alarmZonesChanged
      ∧ (ite c a b).alarmZonesStatusChanged = ite c a.alarmZonesStatusChanged b.alarmZonesStatusChanged
      ∧ (ite c a b).zonesTriggered = ite c a.zonesTriggered b.zonesTriggered
      ∧ (ite c a b).trouble = ite c a.trouble b.trouble
      ∧ (ite c a b).previousTrouble = ite c a.previousTrouble b.previousTrouble
      ∧ (ite c a b).troubleChanged = ite c a.troubleChanged b.troubleChanged
      ∧ (ite c a b).fire = ite c a.fire b.fire
      ∧ (ite c a b).previousFire = ite c a.previousFire b.previousFire
      ∧ (ite c a b).fireChanged = ite c a.fireChanged b.fireChanged
      ∧ (ite c a b).keypadFireAlarm = ite c a.keypadFireAlarm b.keypadFireAlarm
      ∧ (ite c a b).keypadAuxAlarm = ite c a.keypadAuxAlarm b.keypadAuxAlarm
      ∧ (ite c a b).keypadPanicAlarm = ite c a.keypadPanicAlarm b.keypadPanicAlarm
      ∧ (ite c a b).previousFireAlarm = ite c a.previousFireAlarm b.previousFireAlarm
      ∧ (ite c a b).previousAuxAlarm = ite c a.previousAuxAlarm b.previousAuxAlarm
      ∧ (ite c a b).previousPanicAlarm = ite c a.previousPanicAlarm b.previousPanicAlarm
      ∧ (ite c a b).pgmOutputsChanged = ite c a.pgmOutputsChanged b.pgmOutputsChanged := by
  by_cases h : c
  · simp only [if_pos h, and_self]
  · simp only [if_neg h, and_self]
theorem decodeLights_armed (p : Foreground) (d : Decoder) :
    (decodeLights p d).armed = d.armed := by
  have h := congrArg Decoder.armed (decodeLights_restore p d)
  exact h

theorem decodeLights_armedAway (p : Foreground) (d : Decoder) :
    (decodeLights p d).armedAway = d.armedAway := by
  have h := congrArg Decoder.armedAway (decodeLights_restore p d)
  exact h

theorem decodeLights_armedStay (p : Foreground) (d : Decoder) :
    (decodeLights p d).armedStay = d.armedStay := by
  have h := congrArg Decoder.armedStay (decodeLights_restore p d)
  exact h

theorem decodeLights_armedStayTriggered (p : Foreground) (d : Decoder) :
    (decodeLights p d).armedStayTriggered = d.armedStayTriggered := by
  have h := congrArg Decoder.armedStayTriggered (decodeLights_restore p d)
  exact h

theorem decodeBlink_armed (d : Decoder) (now : Nat) :
    (decodeBlink d now).armed = d.armed := by
  have h := congrArg Decoder.armed (decodeBlink_restore d now)
  exact h

theorem decodeBlink_armedAway (d : Decoder) (now : Nat) :
    (decodeBlink d now).armedAway = d.armedAway := by
  have h := congrArg Decoder.armedAway (decodeBlink_restore d now)
  exact h

theorem decodeBlink_armedStay (d : Decoder) (now : Nat) :
    (decodeBlink d now).armedStay = d.armedStay := by
  have h := congrArg Decoder.armedStay (decodeBlink_restore d now)
  exact h

theorem decodeBlink_armedStayTriggered (d : Decoder) (now : Nat) :
    (decodeBlink d now).armedStayTriggered = d.armedStayTriggered := by
  have h := congrArg Decoder.armedStayTriggered (decodeBlink_restore d now)
  exact h

theorem decodeBeep_armed (d : Decoder) (now : Nat) :
    (decodeBeep d now).armed = d.armed := by
  have h := congrArg Decoder.armed (decodeBeep_restore d now)
  exact h

theorem decodeBeep_armedAway (d : Decoder) (now : Nat) :
    (decodeBeep d now).armedAway = d.armedAway := by
  have h := congrArg Decoder.armedAway (decodeBeep_restore d now)
  exact h

theorem decodeBeep_armedStay (d : Decoder) (now : Nat) :
    (decodeBeep d now).armedStay = d.armedStay := by
  have h := congrArg Decoder.armedStay (decodeBeep_restore d now)
  exact h

theorem decodeBeep_armedStayTriggered (d : Decoder) (now : Nat) :
    (decodeBeep d now).armedStayTriggered = d.armedStayTriggered := by
  have h := congrArg Decoder.armedStayTriggered (decodeBeep_restore d now)
  exact h

theorem decodeArmed_armedBitA (p : Foreground) (d : Decoder) (now : Nat) :
    (decodeArmed p d now).armedBitA = d.armedBitA := by
  have h := congrArg Decoder.armedBitA (decodeArmed_restore p d now)
  exact h

theorem decodeZones_armed (p : Foreground) (d : Decoder) :
    (decodeZones p d).armed = d.armed := by
  have h := congrArg Decoder.armed (decodeZones_restore p d)
  exact h

theorem decodeZones_armedAway (p : Foreground) (d : Decoder) :
    (decodeZones p d).armedAway = d.armedAway := by
  have h := congrArg Decoder.armedAway (decodeZones_restore p d)
  exact h

theorem decodeZones_armedStay (p : Foreground) (d : Decoder) :
    (decodeZones p d).armedStay = d.armedStay := by
  have h := congrArg Decoder.armedStay (decodeZones_restore p d)
  exact h

theorem decodeZones_armedStayTriggered (p : Foreground) (d : Decoder) :
    (decodeZones p d).armedStayTriggered = d.armedStayTriggered := by
  have h := congrArg Decoder.armedStayTriggered (decodeZones_restore p d)
  exact h

theorem decodeAlarmZones_armed (p : Foreground) (d : Decoder) :
    (decodeAlarmZones p d).armed = d.armed := by
  have h := congrArg Decoder.armed (decodeAlarmZones_restore p d)
  exact h

theorem decodeAlarmZones_armedAway (p : Foreground) (d : Decoder) :
    (decodeAlarmZones p d).armedAway = d.armedAway := by
  have h := congrArg Decoder.armedAway (decodeAlarmZones_restore p d)
  exact h

theorem decodeAlarmZones_armedStay (p : Foreground) (d : Decoder) :
    (decodeAlarmZones p d).armedStay = d.armedStay := by
  have h := congrArg Decoder.armedStay (decodeAlarmZones_restore p d)
  exact h

theorem decodeAlarmZones_armedStayTriggered (p : Foreground) (d : Decoder) :
    (decodeAlarmZones p d).armedStayTriggered = d.armedStayTriggered := by
  have h := congrArg Decoder.armedStayTriggered (decodeAlarmZones_restore p d)
  exact h

theorem decodeAlarm_armed (p : Foreground) (d : Decoder) :
    (decodeAlarm p d).armed = d.armed := by
  have h := congrArg Decoder.armed (decodeAlarm_restore p d)
  exact h

theorem decodeAlarm_armedAway (p : Foreground) (d : Decoder) :
    (decodeAlarm p d).armedAway = d.armedAway := by
  have h := congrArg Decoder.armedAway (decodeAlarm_restore p d)
  exact h

theorem decodeAlarm_armedStay (p : Foreground) (d : Decoder) :
    (decodeAlarm p d).armedStay = d.armedStay := by
  have h := congrArg Decoder.armedStay (decodeAlarm_restore p d)
  exact h

theorem decodeAlarm_armedStayTriggered (p : Foreground) (d : Decoder) :
    (decodeAlarm p d).armedStayTriggered = d.armedStayTriggered := by
  have h := congrArg Decoder.armedStayTriggered (decodeAlarm_restore p d)
  exact h

theorem decodeTroubleFire_armed (p : Foreground) (d : Decoder) :
    (decodeTroubleFire p d).armed = d.armed := by
  have h := congrArg Decoder.armed (decodeTroubleFire_restore p d)
  exact h

theorem decodeTroubleFire_armedAway (p : Foreground) (d : Decoder) :
    (decodeTroubleFire p d).armedAway = d.armedAway := by
  have h := congrArg Decoder.armedAway (decodeTroubleFire_restore p d)
  exact h

theorem decodeTroubleFire_armedStay (p : Foreground) (d : Decoder) :
    (decodeTroubleFire p d).armedStay = d.armedStay := by
  have h := congrArg Decoder.armedStay (decodeTroubleFire_restore p d)
  exact h

theorem decodeTroubleFire_armedStayTriggered (p : Foreground) (d : Decoder) :
    (decodeTroubleFire p d).armedStayTriggered = d.armedStayTriggered := by
  have h := congrArg Decoder.armedStayTriggered (decodeTroubleFire_restore p d)
  exact h

theorem decodeKeypadAlarms_armed (p : Foreground) (d : Decoder) (now : Nat) :
    (decodeKeypadAlarms p d now).armed = d.armed := by
  have h := congrArg Decoder.armed (decodeKeypadAlarms_restore p d now)
  exact h

theorem decodeKeypadAlarms_armedAway (p : Foreground) (d : Decoder) (now : Nat) :
    (decodeKeypadAlarms p d now).armedAway = d.armedAway := by
  have h := congrArg Decoder.armedAway (decodeKeypadAlarms_restore p d now)
  exact h

theorem decodeKeypadAlarms_armedStay (p : Foreground) (d : Decoder) (now : Nat) :
    (decodeKeypadAlarms p d now).armedStay = d.armedStay := by
  have h := congrArg Decoder.armedStay (decodeKeypadAlarms_restore p d now)
  exact h

theorem decodeKeypadAlarms_armedStayTriggered (p : Foreground) (d : Decoder) (now : Nat) :
    (decodeKeypadAlarms p d now).armedStayTriggered = d.armedStayTriggered := by
  have h := congrArg Decoder.armedStayTriggered (decodeKeypadAlarms_restore p d now)
  exact h

theorem decodeStatus_armed (p : Foreground) (d : Decoder) :
    (decodeStatus p d).armed = d.armed := by
  have h := congrArg Decoder.armed (decodeStatus_restore p d)
  exact h

theorem decodeStatus_armedAway (p : Foreground) (d : Decoder) :
    (decodeStatus p d).armedAway = d.armedAway := by
  have h := congrArg Decoder.armedAway (decodeStatus_restore p d)
  exact h

theorem decodeStatus_armedStay (p : Foreground) (d : Decoder) :
    (decodeStatus p d).armedStay = d.armedStay := by
  have h := congrArg Decoder.armedStay (decodeStatus_restore p d)
  exact h

theorem decodeStatus_armedStayTriggered (p : Foreground) (d : Decoder) :
    (decodeStatus p d).armedStayTriggered = d.armedStayTriggered := by
  have h := congrArg Decoder.armedStayTriggered (decodeStatus_restore p d)
  exact h


/-! ## Armed flags (`processPanelStatus`) -/

theorem decodeArmed_armedInv (p : Foreground) (d : Decoder) (now : Nat) (h : ArmedInv d) :
    ArmedInv (decodeArmed p d now)
      ∧ (d.armedBitA = false → (decodeArmed p d now).armedStayTriggered = false) := by
  unfold ArmedInv at h ⊢
  obtain ⟨h1, h2⟩ := h
  simp only [decodeArmed, processReadyStatus, processArmedStatus, processAlarmStatus,
    markStatusChanged, Decoder.ite_field, ite_self]
  split_ifs <;> simp_all

theorem decodeReady_armedInv (p : Foreground) (d : Decoder) (now : Nat) (h : ArmedInv d)
    (h3 : d.armedBitA = false → d.armedStayTriggered = false) :
    ArmedInv (decodeReady p d now) := by
  unfold ArmedInv at h ⊢
  obtain ⟨h1, h2⟩ := h
  simp only [decodeReady, processReadyStatus, processArmedStatus, processAlarmStatus,
    processExitDelayStatus, markStatusChanged, Decoder.ite_field, ite_self]
  split_ifs <;> simp_all

theorem armedInv_of_eq (x d : Decoder) (h1 : x.armed = d.armed) (h2 : x.armedStay = d.armedStay)
    (h3 : x.armedAway = d.armedAway) (h4 : x.armedStayTriggered = d.armedStayTriggered)
    (h : ArmedInv d) : ArmedInv x := by
  unfold ArmedInv at h ⊢
  rw [h1, h2, h3, h4]
  exact h

theorem processPanelStatus_armedInv (p : Foreground) (d : Decoder) (now : Nat)
    (h : ArmedInv d) : ArmedInv (processPanelStatus p d now) := by
  unfold processPanelStatus
  have hL : ArmedInv (decodeLights p d) :=
    armedInv_of_eq _ _ (decodeLights_armed p d) (decodeLights_armedStay p d)
      (decodeLights_armedAway p d) (decodeLights_armedStayTriggered p d) h
  have hB : ArmedInv (decodeBlink (decodeLights p d) now) :=
    armedInv_of_eq _ _ (decodeBlink_armed _ now) (decodeBlink_armedStay _ now)
      (decodeBlink_armedAway _ now) (decodeBlink_armedStayTriggered _ now) hL
  have hP : ArmedInv (decodeBeep (decodeBlink (decodeLights p d) now) now) :=
    armedInv_of_eq _ _ (decodeBeep_armed _ now) (decodeBeep_armedStay _ now)
      (decodeBeep_armedAway _ now) (decodeBeep_armedStayTriggered _ now) hB
  obtain ⟨hA, hT⟩ := decodeArmed_armedInv p _ now hP
  rw [← decodeArmed_armedBitA p _ now] at hT
  have hR := decodeReady_armedInv p _ now hA hT
  have hZ := armedInv_of_eq _ _ (decodeZones_armed p _) (decodeZones_armedStay p _)
    (decodeZones_armedAway p _) (decodeZones_armedStayTriggered p _) hR
  have hAZ := armedInv_of_eq _ _ (decodeAlarmZones_armed p _) (decodeAlarmZones_armedStay p _)
    (decodeAlarmZones_armedAway p _) (decodeAlarmZones_armedStayTriggered p _) hZ
  have hAl := armedInv_of_eq _ _ (decodeAlarm_armed p _) (decodeAlarm_armedStay p _)
    (decodeAlarm_armedAway p _) (decodeAlarm_armedStayTriggered p _) hAZ
  have hTF := armedInv_of_eq _ _ (decodeTroubleFire_armed p _) (decodeTroubleFire_armedStay p _)
    (decodeTroubleFire_armedAway p _) (decodeTroubleFire_armedStayTriggered p _) hAl
  have hK := armedInv_of_eq _ _ (decodeKeypadAlarms_armed p _ now)
    (decodeKeypadAlarms_armedStay p _ now) (decodeKeypadAlarms_armedAway p _ now)
    (decodeKeypadAlarms_armedStayTriggered p _ now) hTF
  exact armedInv_of_eq _ _ (decodeStatus_armed p _) (decodeStatus_armedStay p _)
    (decodeStatus_armedAway p _) (decodeStatus_armedStayTriggered p _) hK

theorem decodeAll_armedInv (fs : List (Foreground × Nat)) :
    ArmedInv (decodeAll Decoder.init fs) := by
  unfold decodeAll
  refine foldl_preserves ArmedInv _ ?_ _ _ ?_
  · intro c f hc
    exact processPanelStatus_armedInv f.1 c f.2 hc
  · unfold ArmedInv
    exact ⟨rfl, fun h => Bool.noConfusion h⟩

/-- C19: in every state reached from power-on by `processPanelStatus` calls,
`armed[0]` equals `armedStay[0] || armedAway[0]`: when `armed[0]` is true one of
the two is true, and when it is false both are false. -/
theorem armed_eq_stay_or_away (fs : List (Foreground × Nat)) :
    (decodeAll Decoder.init fs).armed
      = ((decodeAll Decoder.init fs).armedStay || (decodeAll Decoder.init fs).armedAway) :=
  (decodeAll_armedInv fs).1

theorem decodeLights_memoryBlink (p : Foreground) (d : Decoder) :
    (decodeLights p d).memoryBlink = d.memoryBlink := by
  have h := congrArg Decoder.memoryBlink (decodeLights_restore p d)
  exact h

theorem decodeLights_ready (p : Foreground) (d : Decoder) :
    (decodeLights p d).ready = d.ready := by
  have h := congrArg Decoder.ready (decodeLights_restore p d)
  exact h

theorem decodeBlink_alarmBit (d : Decoder) (now : Nat) :
    (decodeBlink d now).alarmBit = d.alarmBit := by
  have h := congrArg Decoder.alarmBit (decodeBlink_restore d now)
  exact h

theorem decodeBlink_armedBitA (d : Decoder) (now : Nat) :
    (decodeBlink d now).armedBitA = d.armedBitA := by
  have h := congrArg Decoder.armedBitA (decodeBlink_restore d now)
  exact h

theorem decodeBlink_ready (d : Decoder) (now : Nat) :
    (decodeBlink d now).ready = d.ready := by
  have h := congrArg Decoder.ready (decodeBlink_restore d now)
  exact h

theorem decodeBlink_readyLight (d : Decoder) (now : Nat) :
    (decodeBlink d now).readyLight = d.readyLight := by
  have h := congrArg Decoder.readyLight (decodeBlink_restore d now)
  exact h

theorem decodeBeep_alarmBit (d : Decoder) (now : Nat) :
    (decodeBeep d now).alarmBit = d.alarmBit := by
  have h := congrArg Decoder.alarmBit (decodeBeep_restore d now)
  exact h

theorem decodeBeep_armedBitA (d : Decoder) (now : Nat) :
    (decodeBeep d now).armedBitA = d.armedBitA := by
  have h := congrArg Decoder.armedBitA (decodeBeep_restore d now)
  exact h

theorem decodeBeep_memoryBlink (d : Decoder) (now : Nat) :
    (decodeBeep d now).memoryBlink = d.memoryBlink := by
  have h := congrArg Decoder.memoryBlink (decodeBeep_restore d now)
  exact h

theorem decodeBeep_ready (d : Decoder) (now : Nat) :
    (decodeBeep d now).ready = d.ready := by
  have h := congrArg Decoder.ready (decodeBeep_restore d now)
  exact h

theorem decodeBeep_readyLight (d : Decoder) (now : Nat) :
    (decodeBeep d now).readyLight = d.readyLight := by
  have h := congrArg Decoder.readyLight (decodeBeep_restore d now)
  exact h

theorem decodeArmed_alarmBit (p : Foreground) (d : Decoder) (now : Nat) :
    (decodeArmed p d now).alarmBit = d.alarmBit := by
  have h := congrArg Decoder.alarmBit (decodeArmed_restore p d now)
  exact h

theorem decodeArmed_memoryBlink (p : Foreground) (d : Decoder) (now : Nat) :
    (decodeArmed p d now).memoryBlink = d.memoryBlink := by
  have h := congrArg Decoder.memoryBlink (decodeArmed_restore p d now)
  exact h

theorem decodeArmed_readyLight (p : Foreground) (d : Decoder) (now : Nat) :
    (decodeArmed p d now).readyLight = d.readyLight := by
  have h := congrArg Decoder.readyLight (decodeArmed_restore p d now)
  exact h

theorem decodeReady_alarmBit (p : Foreground) (d : Decoder) (now : Nat) :
    (decodeReady p d now).alarmBit = d.alarmBit := by
  have h := congrArg Decoder.alarmBit (decodeReady_restore p d now)
  exact h

theorem decodeReady_armedBitA (p : Foreground) (d : Decoder) (now : Nat) :
    (decodeReady p d now).armedBitA = d.armedBitA := by
  have h := congrArg Decoder.armedBitA (decodeReady_restore p d now)
  exact h

theorem decodeReady_memoryBlink (p : Foreground) (d : Decoder) (now : Nat) :
    (decodeReady p d now).memoryBlink = d.memoryBlink := by
  have h := congrArg Decoder.memoryBlink (decodeReady_restore p d now)
  exact h

theorem decodeReady_readyLight (p : Foreground) (d : Decoder) (now : Nat) :
    (decodeReady p d now).readyLight = d.readyLight := by
  have h := congrArg Decoder.readyLight (decodeReady_restore p d now)
  exact h

theorem decodeZones_alarmBit (p : Foreground) (d : Decoder) :
    (decodeZones p d).alarmBit = d.alarmBit := by
  have h := congrArg Decoder.alarmBit (decodeZones_restore p d)
  exact h

theorem decodeZones_armedBitA (p : Foreground) (d : Decoder) :
    (decodeZones p d).armedBitA = d.armedBitA := by
  have h := congrArg Decoder.armedBitA (decodeZones_restore p d)
  exact h

theorem decodeZones_memoryBlink (p : Foreground) (d : Decoder) :
    (decodeZones p d).memoryBlink = d.memoryBlink := by
  have h := congrArg Decoder.memoryBlink (decodeZones_restore p d)
  exact h

theorem decodeZones_ready (p : Foreground) (d : Decoder) :
    (decodeZones p d).ready = d.ready := by
  have h := congrArg Decoder.ready (decodeZones_restore p d)
  exact h

theorem decodeZones_readyLight (p : Foreground) (d : Decoder) :
    (decodeZones p d).readyLight = d.readyLight := by
  have h := congrArg Decoder.readyLight (decodeZones_restore p d)
  exact h

theorem decodeAlarmZones_alarmBit (p : Foreground) (d : Decoder) :
    (decodeAlarmZones p d).alarmBit = d.alarmBit := by
  have h := congrArg Decoder.alarmBit (decodeAlarmZones_restore p d)
  exact h

theorem decodeAlarmZones_armedBitA (p : Foreground) (d : Decoder) :
    (decodeAlarmZones p d).armedBitA = d.armedBitA := by
  have h := congrArg Decoder.armedBitA (decodeAlarmZones_restore p d)
  exact h

theorem decodeAlarmZones_memoryBlink (p : Foreground) (d : Decoder) :
    (decodeAlarmZones p d).memoryBlink = d.memoryBlink := by
  have h := congrArg Decoder.memoryBlink (decodeAlarmZones_restore p d)
  exact h

theorem decodeAlarmZones_ready (p : Foreground) (d : Decoder) :
    (decodeAlarmZones p d).ready = d.ready := by
  have h := congrArg Decoder.ready (decodeAlarmZones_restore p d)
  exact h

theorem decodeAlarmZones_readyLight (p : Foreground) (d : Decoder) :
    (decodeAlarmZones p d).readyLight = d.readyLight := by
  have h := congrArg Decoder.readyLight (decodeAlarmZones_restore p d)
  exact h

theorem decodeAlarm_alarmBit (p : Foreground) (d : Decoder) :
    (decodeAlarm p d).alarmBit = d.alarmBit := by
  have h := congrArg Decoder.alarmBit (decodeAlarm_restore p d)
  exact h

theorem decodeAlarm_armedBitA (p : Foreground) (d : Decoder) :
    (decodeAlarm p d).armedBitA = d.armedBitA := by
  have h := congrArg Decoder.armedBitA (decodeAlarm_restore p d)
  exact h

theorem decodeAlarm_memoryBlink (p : Foreground) (d : Decoder) :
    (decodeAlarm p d).memoryBlink = d.memoryBlink := by
  have h := congrArg Decoder.memoryBlink (decodeAlarm_restore p d)
  exact h

theorem decodeAlarm_readyLight (p : Foreground) (d : Decoder) :
    (decodeAlarm p d).readyLight = d.readyLight := by
  have h := congrArg Decoder.readyLight (decodeAlarm_restore p d)
  exact h

theorem decodeTroubleFire_alarmBit (p : Foreground) (d : Decoder) :
    (decodeTroubleFire p d).alarmBit = d.alarmBit := by
  have h := congrArg Decoder.alarmBit (decodeTroubleFire_restore p d)
  exact h

theorem decodeTroubleFire_armedBitA (p : Foreground) (d : Decoder) :
    (decodeTroubleFire p d).armedBitA = d.armedBitA := by
  have h := congrArg Decoder.armedBitA (decodeTroubleFire_restore p d)
  exact h

theorem decodeTroubleFire_memoryBlink (p : Foreground) (d : Decoder) :
    (decodeTroubleFire p d).memoryBlink = d.memoryBlink := by
  have h := congrArg Decoder.memoryBlink (decodeTroubleFire_restore p d)
  exact h

theorem decodeTroubleFire_ready (p : Foreground) (d : Decoder) :
    (decodeTroubleFire p d).ready = d.ready := by
  have h := congrArg Decoder.ready (decodeTroubleFire_restore p d)
  exact h

theorem decodeTroubleFire_readyLight (p : Foreground) (d : Decoder) :
    (decodeTroubleFire p d).readyLight = d.readyLight := by
  have h := congrArg Decoder.readyLight (decodeTroubleFire_restore p d)
  exact h

theorem decodeKeypadAlarms_alarmBit (p : Foreground) (d : Decoder) (now : Nat) :
    (decodeKeypadAlarms p d now).alarmBit = d.alarmBit := by
  have h := congrArg Decoder.alarmBit (decodeKeypadAlarms_restore p d now)
  exact h

theorem decodeKeypadAlarms_armedBitA (p : Foreground) (d : Decoder) (now : Nat) :
    (decodeKeypadAlarms p d now).armedBitA = d.armedBitA := by
  have h := congrArg Decoder.armedBitA (decodeKeypadAlarms_restore p d now)
  exact h

theorem decodeKeypadAlarms_memoryBlink (p : Foreground) (d : Decoder) (now : Nat) :
    (decodeKeypadAlarms p d now).memoryBlink = d.memoryBlink := by
  have h := congrArg Decoder.memoryBlink (decodeKeypadAlarms_restore p d now)
  exact h

theorem decodeKeypadAlarms_ready (p : Foreground) (d : Decoder) (now : Nat) :
    (decodeKeypadAlarms p d now).ready = d.ready := by
  have h := congrArg Decoder.ready (decodeKeypadAlarms_restore p d now)
  exact h

theorem decodeKeypadAlarms_readyLight (p : Foreground) (d : Decoder) (now : Nat) :
    (decodeKeypadAlarms p d now).readyLight = d.readyLight := by
  have h := congrArg Decoder.readyLight (decodeKeypadAlarms_restore p d now)
  exact h

theorem decodeStatus_alarmBit (p : Foreground) (d : Decoder) :
    (decodeStatus p d).alarmBit = d.alarmBit := by
  have h := congrArg Decoder.alarmBit (decodeStatus_restore p d)
  exact h

theorem decodeStatus_armedBitA (p : Foreground) (d : Decoder) :
    (decodeStatus p d).armedBitA = d.armedBitA := by
  have h := congrArg Decoder.armedBitA (decodeStatus_restore p d)
  exact h

theorem decodeStatus_memoryBlink (p : Foreground) (d : Decoder) :
    (decodeStatus p d).memoryBlink = d.memoryBlink := by
  have h := congrArg Decoder.memoryBlink (decodeStatus_restore p d)
  exact h

theorem decodeStatus_ready (p : Foreground) (d : Decoder) :
    (decodeStatus p d).ready = d.ready := by
  have h := congrArg Decoder.ready (decodeStatus_restore p d)
  exact h

theorem decodeStatus_readyLight (p : Foreground) (d : Decoder) :
    (decodeStatus p d).readyLight = d.readyLight := by
  have h := congrArg Decoder.readyLight (decodeStatus_restore p d)
  exact h


/-! ## Ready status (`processPanelStatus`) -/

theorem decodeLights_inputs (p : Foreground) (d : Decoder) :
    (decodeLights p d).readyLight = bitRead (p.panelData p.statusByte) 7
      ∧ (decodeLights p d).armedLight = bitRead (p.panelData p.statusByte) 6
      ∧ (decodeLights p d).memoryLight = bitRead (p.panelData p.statusByte) 5
      ∧ (decodeLights p d).bypassLight = bitRead (p.panelData p.statusByte) 4
      ∧ (decodeLights p d).troubleLight = bitRead (p.panelData p.statusByte) 3
      ∧ (decodeLights p d).beep = bitRead (p.panelData p.statusByte) 0
      ∧ (decodeLights p d).troubleBit = bitRead (p.pc16Data p.statusByte) 7
      ∧ (decodeLights p d).armedBypassBit = bitRead (p.pc16Data p.statusByte) 6
      ∧ (decodeLights p d).armedBitA = bitRead (p.pc16Data p.statusByte) 5
      ∧ (decodeLights p d).armedBitB = bitRead (p.pc16Data p.statusByte) 4
      ∧ (decodeLights p d).alarmBit = bitRead (p.pc16Data p.statusByte) 0 := by
  unfold decodeLights markStatusChanged
  lift_lets
  intro b d1 d2 d3 d4 d5 d6 d7 d8 d9 d10 d11 d12 d13 d14 d15 q
  have h1 : d15.readyLight = d14.readyLight := by
    unfold d15
    split_ifs <;> rfl
  have h2 : d15.armedLight = d14.armedLight := by
    unfold d15
    split_ifs <;> rfl
  have h3 : d15.memoryLight = d14.memoryLight := by
    unfold d15
    split_ifs <;> rfl
  have h4 : d15.bypassLight = d14.bypassLight := by
    unfold d15
    split_ifs <;> rfl
  have h5 : d15.troubleLight = d14.troubleLight := by
    unfold d15
    split_ifs <;> rfl
  exact ⟨h1, h2, h3, h4, h5, rfl, rfl, rfl, rfl, rfl, rfl⟩

theorem decodeReady_of_readyLight (p : Foreground) (d : Decoder) (now : Nat)
    (h1 : d.readyLight = true) (h2 : d.armedBitA = false) :
    (decodeReady p d now).ready = true ∧ (decodeReady p d now).armed = false
      ∧ (decodeReady p d now).armedStay = false ∧ (decodeReady p d now).armedAway = false := by
  simp only [decodeReady, processReadyStatus, processArmedStatus, processAlarmStatus,
    processExitDelayStatus, markStatusChanged, Decoder.ite_field, ite_self, h1, h2]
  simp

theorem decodeAlarm_ready (p : Foreground) (d : Decoder) :
    (decodeAlarm p d).ready =
      if p.panelData p.statusByte &&& 0xFE ≠ 0 ∧ d.alarmBit = true ∧ d.memoryBlink = false
      then false else d.ready := by
  simp only [decodeAlarm, processReadyStatus, processAlarmStatus, markStatusChanged,
    Decoder.ite_field, ite_self]
  split_ifs <;> simp_all

theorem and_mask_ne_zero (v : Nat) (h : bitRead v 7 = true) : v &&& 0xFE ≠ 0 := by
  rw [bitRead_eq_testBit] at h
  intro h0
  have h7 : (v &&& 0xFE).testBit 7 = true := by
    rw [Nat.testBit_and, h]
    decide
  rw [h0] at h7
  simp at h7

theorem processPanelStatus_of_readyLight (p : Foreground) (d : Decoder) (now : Nat)
    (hR : bitRead (p.panelData p.statusByte) 7 = true)
    (hA : bitRead (p.pc16Data p.statusByte) 5 = false) :
    (processPanelStatus p d now).armed = false
      ∧ (processPanelStatus p d now).armedStay = false
      ∧ (processPanelStatus p d now).armedAway = false
      ∧ (processPanelStatus p d now).ready
          = !(bitRead (p.pc16Data p.statusByte) 0 && !(processPanelStatus p d now).memoryBlink) := by
  obtain ⟨i1, _, _, _, _, _, _, _, i9, _, i11⟩ := decodeLights_inputs p d
  have h1 : (decodeArmed p (decodeBeep (decodeBlink (decodeLights p d) now) now) now).readyLight
      = true := by
    simp only [decodeBlink_readyLight, decodeBeep_readyLight, decodeArmed_readyLight,
        decodeReady_readyLight, decodeZones_readyLight, decodeAlarmZones_readyLight,
        decodeAlarm_readyLight, decodeTroubleFire_readyLight, decodeKeypadAlarms_readyLight,
        decodeStatus_readyLight, i1, hR]
  have h2 : (decodeArmed p (decodeBeep (decodeBlink (decodeLights p d) now) now) now).armedBitA
      = false := by
    simp only [decodeBlink_armedBitA, decodeBeep_armedBitA, decodeArmed_armedBitA,
        decodeReady_armedBitA, decodeZones_armedBitA, decodeAlarmZones_armedBitA,
        decodeAlarm_armedBitA, decodeTroubleFire_armedBitA, decodeKeypadAlarms_armedBitA,
        decodeStatus_armedBitA, i9, hA]
  obtain ⟨r1, r2, r3, r4⟩ := decodeReady_of_readyLight p _ now h1 h2
  unfold processPanelStatus
  refine ⟨?_, ?_, ?_, ?_⟩
  · simp only [decodeLights_armed, decodeBlink_armed, decodeBeep_armed, decodeZones_armed,
        decodeAlarmZones_armed, decodeAlarm_armed, decodeTroubleFire_armed, decodeKeypadAlarms_armed,
        decodeStatus_armed, r2]
  · simp only [decodeLights_armedStay, decodeBlink_armedStay, decodeBeep_armedStay,
        decodeZones_armedStay, decodeAlarmZones_armedStay, decodeAlarm_armedStay,
        decodeTroubleFire_armedStay, decodeKeypadAlarms_armedStay, decodeStatus_armedStay, r3]
  · simp only [decodeLights_armedAway, decodeBlink_armedAway, decodeBeep_armedAway,
        decodeZones_armedAway, decodeAlarmZones_armedAway, decodeAlarm_armedAway,
        decodeTroubleFire_armedAway, decodeKeypadAlarms_armedAway, decodeStatus_armedAway, r4]
  · simp only [decodeLights_ready, decodeBlink_ready, decodeBeep_ready, decodeZones_ready,
        decodeAlarmZones_ready, decodeTroubleFire_ready, decodeKeypadAlarms_ready, decodeStatus_ready,
        decodeLights_memoryBlink, decodeBeep_memoryBlink, decodeArmed_memoryBlink,
        decodeReady_memoryBlink, decodeZones_memoryBlink, decodeAlarmZones_memoryBlink,
        decodeAlarm_memoryBlink, decodeTroubleFire_memoryBlink, decodeKeypadAlarms_memoryBlink,
        decodeStatus_memoryBlink, decodeBlink_alarmBit, decodeBeep_alarmBit, decodeArmed_alarmBit,
        decodeReady_alarmBit, decodeZones_alarmBit, decodeAlarmZones_alarmBit, decodeAlarm_alarmBit,
        decodeTroubleFire_alarmBit, decodeKeypadAlarms_alarmBit, decodeStatus_alarmBit,
        decodeAlarm_ready, r1, i11]
    have hm := and_mask_ne_zero _ hR
    cases hq : bitRead (p.pc16Data p.statusByte) 0 <;>
      cases hb : (decodeBlink (decodeLights p d) now).memoryBlink <;> simp [hm]

/-- C15, as the code has it: for every decoder state, frame and time, when the
Ready light (bit 7 of `panelData[statusByte]`) is on and PC16 ArmedSideA (bit 5
of `pc16Data[statusByte]`) is clear, `processPanelStatus` leaves `armed[0]`,
`armedStay[0]` and `armedAway[0]` false, and `ready[0]` true unless the PC16
Alarm bit is set while the memory light is not blinking, in which case
`ready[0]` is false. -/
theorem ready_light_not_armed (p : Foreground) (d : Decoder) (now : Nat)
    (hR : bitRead (p.panelData p.statusByte) 7 = true)
    (hA : bitRead (p.pc16Data p.statusByte) 5 = false) :
    (processPanelStatus p d now).armed = false
      ∧ (processPanelStatus p d now).armedStay = false
      ∧ (processPanelStatus p d now).armedAway = false
      ∧ (processPanelStatus p d now).ready
          = !(bitRead (p.pc16Data p.statusByte) 0 && !(processPanelStatus p d now).memoryBlink) :=
  processPanelStatus_of_readyLight p d now hR hA

/-- Example for C15: the ready frame decoded from power-on at 5 s. -/
theorem ready_light_not_armed_witness :
    bitRead ((readyFrame.foreground 1).panelData (readyFrame.foreground 1).statusByte) 7 = true
      ∧ bitRead ((readyFrame.foreground 1).pc16Data (readyFrame.foreground 1).statusByte) 5 = false
      ∧ (processPanelStatus (readyFrame.foreground 1) Decoder.init 5000).armed = false
      ∧ (processPanelStatus (readyFrame.foreground 1) Decoder.init 5000).armedStay = false
      ∧ (processPanelStatus (readyFrame.foreground 1) Decoder.init 5000).armedAway = false
      ∧ (processPanelStatus (readyFrame.foreground 1) Decoder.init 5000).ready
          = !(bitRead ((readyFrame.foreground 1).pc16Data (readyFrame.foreground 1).statusByte) 0
              && !(processPanelStatus (readyFrame.foreground 1) Decoder.init 5000).memoryBlink) :=
  ⟨by decide, by decide,
    ready_light_not_armed (readyFrame.foreground 1) Decoder.init 5000 (by decide) (by decide)⟩

set_option maxRecDepth 100000 in
/-- Counterexample for C15 as stated: the frame `panelData = [0x00, 0x80]`,
`pc16Data = [0x00, 0x01]` has the Ready light on and ArmedSideA clear, yet
decoded from power-on it leaves `ready[0]` false (and `alarm[0]` true), because
the alarm block runs `processReadyStatus(false)` when the PC16 Alarm bit is
set. -/
theorem ready_light_alarm_not_ready :
    bitRead ((readyAlarmFrame.foreground 1).panelData 1) 7 = true
      ∧ bitRead ((readyAlarmFrame.foreground 1).pc16Data 1) 5 = false
      ∧ (processPanelStatus (readyAlarmFrame.foreground 1) Decoder.init 5000).ready = false
      ∧ (processPanelStatus (readyAlarmFrame.foreground 1) Decoder.init 5000).alarm = true := by
  decide!

theorem decodeLights_openZones (p : Foreground) (d : Decoder) :
    (decodeLights p d).openZones = d.openZones := by
  have h := congrArg Decoder.openZones (decodeLights_restore p d)
  exact h

theorem decodeLights_zonesTriggered (p : Foreground) (d : Decoder) :
    (decodeLights p d).zonesTriggered = d.zonesTriggered := by
  have h := congrArg Decoder.zonesTriggered (decodeLights_restore p d)
  exact h

theorem decodeBlink_openZones (d : Decoder) (now : Nat) :
    (decodeBlink d now).openZones = d.openZones := by
  have h := congrArg Decoder.openZones (decodeBlink_restore d now)
  exact h

theorem decodeBlink_zonesTriggered (d : Decoder) (now : Nat) :
    (decodeBlink d now).zonesTriggered = d.zonesTriggered := by
  have h := congrArg Decoder.zonesTriggered (decodeBlink_restore d now)
  exact h

theorem decodeBeep_openZones (d : Decoder) (now : Nat) :
    (decodeBeep d now).openZones = d.openZones := by
  have h := congrArg Decoder.openZones (decodeBeep_restore d now)
  exact h

theorem decodeBeep_zonesTriggered (d : Decoder) (now : Nat) :
    (decodeBeep d now).zonesTriggered = d.zonesTriggered := by
  have h := congrArg Decoder.zonesTriggered (decodeBeep_restore d now)
  exact h

theorem decodeArmed_openZones (p : Foreground) (d : Decoder) (now : Nat) :
    (decodeArmed p d now).openZones = d.openZones := by
  have h := congrArg Decoder.openZones (decodeArmed_restore p d now)
  exact h

theorem decodeArmed_zonesTriggered (p : Foreground) (d : Decoder) (now : Nat) :
    (decodeArmed p d now).zonesTriggered = d.zonesTriggered := by
  have h := congrArg Decoder.zonesTriggered (decodeArmed_restore p d now)
  exact h

theorem decodeReady_openZones (p : Foreground) (d : Decoder) (now : Nat) :
    (decodeReady p d now).openZones = d.openZones := by
  have h := congrArg Decoder.openZones (decodeReady_restore p d now)
  exact h

theorem decodeReady_zonesTriggered (p : Foreground) (d : Decoder) (now : Nat) :
    (decodeReady p d now).zonesTriggered = d.zonesTriggered := by
  have h := congrArg Decoder.zonesTriggered (decodeReady_restore p d now)
  exact h

theorem decodeZones_zonesTriggered (p : Foreground) (d : Decoder) :
    (decodeZones p d).zonesTriggered = d.zonesTriggered := by
  have h := congrArg Decoder.zonesTriggered (decodeZones_restore p d)
  exact h

theorem decodeAlarm_openZones (p : Foreground) (d : Decoder) :
    (decodeAlarm p d).openZones = d.openZones := by
  have h := congrArg Decoder.openZones (decodeAlarm_restore p d)
  exact h

theorem decodeAlarm_zonesTriggered (p : Foreground) (d : Decoder) :
    (decodeAlarm p d).zonesTriggered = d.zonesTriggered := by
  have h := congrArg Decoder.zonesTriggered (decodeAlarm_restore p d)
  exact h

theorem decodeTroubleFire_openZones (p : Foreground) (d : Decoder) :
    (decodeTroubleFire p d).openZones = d.openZones := by
  have h := congrArg Decoder.openZones (decodeTroubleFire_restore p d)
  exact h

theorem decodeTroubleFire_zonesTriggered (p : Foreground) (d : Decoder) :
    (decodeTroubleFire p d).zonesTriggered = d.zonesTriggered := by
  have h := congrArg Decoder.zonesTriggered (decodeTroubleFire_restore p d)
  exact h

theorem decodeKeypadAlarms_openZones (p : Foreground) (d : Decoder) (now : Nat) :
    (decodeKeypadAlarms p d now).openZones = d.openZones := by
  have h := congrArg Decoder.openZones (decodeKeypadAlarms_restore p d now)
  exact h

theorem decodeKeypadAlarms_zonesTriggered (p : Foreground) (d : Decoder) (now : Nat) :
    (decodeKeypadAlarms p d now).zonesTriggered = d.zonesTriggered := by
  have h := congrArg Decoder.zonesTriggered (decodeKeypadAlarms_restore p d now)
  exact h

theorem decodeStatus_openZones (p : Foreground) (d : Decoder) :
    (decodeStatus p d).openZones = d.openZones := by
  have h := congrArg Decoder.openZones (decodeStatus_restore p d)
  exact h

theorem decodeStatus_zonesTriggered (p : Foreground) (d : Decoder) :
    (decodeStatus p d).zonesTriggered = d.zonesTriggered := by
  have h := congrArg Decoder.zonesTriggered (decodeStatus_restore p d)
  exact h


/-! ## Zones (`processPanelStatus`) -/

theorem decodeZoneGroup_openZones_eq (p : Foreground) (d : Decoder) (i : Nat) :
    (decodeZoneGroup p d i).openZones
      = (bitsDown.foldl
          (fun d bit =>
            if (!bitRead (d.zonesTriggered (p.statusByte - 1)) bit && !d.alarmBit) || d.exitDelay then
              let v := bitWrite (d.openZones (i - 1)) (7 - bit)
                (bitRead (p.panelData (p.statusByte - i)) bit)
              { d with openZones := setAt d.openZones (i - 1) v }
            else d)
          d).openZones := by
  unfold decodeZoneGroup
  lift_lets
  intro y zc z
  have hz : z.openZones = y.openZones := by
    unfold z markStatusChanged
    split_ifs <;> rfl
  split_ifs
  · refine foldl_preserves (fun w : Decoder => w.openZones = y.openZones) _ ?_ _ _ hz
    intro w a hw
    simp only [Decoder.ite_field, ite_self]
    exact hw
  · rfl

theorem decodeZoneGroup_other (p : Foreground) (d : Decoder) (i j : Nat) (hj : j ≠ i - 1) :
    (decodeZoneGroup p d i).openZones j = d.openZones j := by
  rw [decodeZoneGroup_openZones_eq]
  refine foldl_preserves (fun w : Decoder => w.openZones j = d.openZones j) _ ?_ _ _ rfl
  intro w a hw
  simp only [Decoder.ite_field, ite_apply, setAt, if_neg hj, ite_self]
  exact hw

theorem decodeZoneGroup_bits (p : Foreground) (d : Decoder) (i : Nat)
    (hA : d.alarmBit = false)
    (hZ : ∀ bit, bitRead (d.zonesTriggered (p.statusByte - 1)) bit = false) :
    (∀ k : Fin 8, bitRead ((decodeZoneGroup p d i).openZones (i - 1)) k.val
        = bitRead (p.panelData (p.statusByte - i)) (7 - k.val))
      ∧ (decodeZoneGroup p d i).openZones (i - 1) < 256 := by
  rw [decodeZoneGroup_openZones_eq]
  have hP : ∀ (w : Decoder), ∀ a ∈ bitsDown,
      (w.alarmBit = false ∧ w.zonesTriggered = d.zonesTriggered) →
      ((fun (d : Decoder) bit =>
        if (!bitRead (d.zonesTriggered (p.statusByte - 1)) bit && !d.alarmBit) || d.exitDelay then
          let v := bitWrite (d.openZones (i - 1)) (7 - bit)
            (bitRead (p.panelData (p.statusByte - i)) bit)
          { d with openZones := setAt d.openZones (i - 1) v }
        else d) w a).alarmBit = false
      ∧ ((fun (d : Decoder) bit =>
        if (!bitRead (d.zonesTriggered (p.statusByte - 1)) bit && !d.alarmBit) || d.exitDelay then
          let v := bitWrite (d.openZones (i - 1)) (7 - bit)
            (bitRead (p.panelData (p.statusByte - i)) bit)
          { d with openZones := setAt d.openZones (i - 1) v }
        else d) w a).zonesTriggered = d.zonesTriggered := by
    intro w a _ hw
    simp only [Decoder.ite_field, ite_self]
    exact hw
  constructor
  · intro k
    have hk : k.val < 8 := k.isLt
    refine foldl_establishes _
      (fun w : Decoder => w.alarmBit = false ∧ w.zonesTriggered = d.zonesTriggered)
      (fun w : Decoder => bitRead (w.openZones (i - 1)) k.val
        = bitRead (p.panelData (p.statusByte - i)) (7 - k.val)) (7 - k.val) _ hP ?_ ?_ d ⟨hA, rfl⟩
      (Or.inl ?_)
    · intro w a ha hw hq
      have ha8 : a ≤ 7 := by
        unfold bitsDown at ha
        simp only [List.mem_cons, List.mem_singleton, List.not_mem_nil, or_false] at ha
        omega
      have ha7 : 7 - a < 8 := by omega
      simp only [Decoder.ite_field, ite_apply, setAt, if_true, bitRead_ite, hw.1, hw.2, hZ,
        Bool.not_false, Bool.and_self, Bool.true_or, bitRead_bitWrite _ _ _ _ ha7 hk]
      by_cases h : k.val = 7 - a
      · have : 7 - k.val = a := by omega
        rw [if_pos h, this]
      · rw [if_neg h]
        exact hq
    · intro w hw
      have h7 : 7 - (7 - k.val) = k.val := by omega
      simp only [Decoder.ite_field, ite_apply, setAt, if_true, bitRead_ite, hw.1, hw.2, hZ,
        Bool.not_false, Bool.and_self, Bool.true_or, h7, bitRead_bitWrite _ _ _ _ hk hk]
    · unfold bitsDown
      simp only [List.mem_cons, List.mem_singleton]
      omega
  · refine foldl_establishes _
      (fun w : Decoder => w.alarmBit = false ∧ w.zonesTriggered = d.zonesTriggered)
      (fun w : Decoder => w.openZones (i - 1) < 256) 7 _ hP ?_ ?_ d ⟨hA, rfl⟩ (Or.inl ?_)
    · intro w a _ hw _
      simp only [Decoder.ite_field, ite_apply, setAt, if_true, hw.1, hw.2, hZ,
        Bool.not_false, Bool.and_self, Bool.true_or]
      exact bitWrite_lt _ _ _
    · intro w hw
      simp only [Decoder.ite_field, ite_apply, setAt, if_true, hw.1, hw.2, hZ,
        Bool.not_false, Bool.and_self, Bool.true_or]
      exact bitWrite_lt _ _ _
    · unfold bitsDown
      exact List.mem_cons_self _ _

theorem decodeZoneGroup_alarmBit (p : Foreground) (d : Decoder) (i : Nat) :
    (decodeZoneGroup p d i).alarmBit = d.alarmBit := by
  have h := congrArg Decoder.alarmBit (decodeZoneGroup_restore p d d i rfl)
  exact h

theorem decodeZoneGroup_zonesTriggered (p : Foreground) (d : Decoder) (i : Nat) :
    (decodeZoneGroup p d i).zonesTriggered = d.zonesTriggered := by
  have h := congrArg Decoder.zonesTriggered (decodeZoneGroup_restore p d d i rfl)
  exact h

theorem zoneGroups_openZones (p : Foreground) (gs : List Nat) (hnd : gs.Nodup)
    (hpos : ∀ g ∈ gs, 1 ≤ g) (d : Decoder) (hA : d.alarmBit = false)
    (hZ : ∀ bit, bitRead (d.zonesTriggered (p.statusByte - 1)) bit = false) :
    (∀ i ∈ gs, (∀ k : Fin 8, bitRead ((gs.foldl (decodeZoneGroup p) d).openZones (i - 1)) k.val
          = bitRead (p.panelData (p.statusByte - i)) (7 - k.val))
        ∧ (gs.foldl (decodeZoneGroup p) d).openZones (i - 1) < 256)
      ∧ (∀ j, (∀ g ∈ gs,
        j ≠ g - 1) → (gs.foldl (decodeZoneGroup p) d).openZones j = d.openZones j) := by
  induction gs generalizing d with
  | nil =>
    refine ⟨fun i hi => absurd hi (List.not_mem_nil i), fun j _ => rfl⟩
  | cons a t ih =>
    have hA2 : (decodeZoneGroup p d a).alarmBit = false := by
      rw [decodeZoneGroup_alarmBit, hA]
    have hZ2 : ∀ bit,
        bitRead ((decodeZoneGroup p d a).zonesTriggered (p.statusByte - 1)) bit = false := by
      intro bit
      rw [decodeZoneGroup_zonesTriggered, hZ]
    obtain ⟨ih1, ih2⟩ := ih (List.nodup_cons.mp hnd).2
      (fun g hg => hpos g (List.mem_cons_of_mem a hg)) (decodeZoneGroup p d a) hA2 hZ2
    have ha1 : 1 ≤ a := hpos a (List.mem_cons_self a t)
    simp only [List.foldl_cons]
    refine ⟨?_, ?_⟩
    · intro i hi
      rcases List.mem_cons.mp hi with rfl | hit
      · have hfix : (t.foldl (decodeZoneGroup p) (decodeZoneGroup p d i)).openZones (i - 1)
            = (decodeZoneGroup p d i).openZones (i - 1) := by
          apply ih2
          intro g hg hEq
          have hg1 : 1 ≤ g := hpos g (List.mem_cons_of_mem i hg)
          have : i = g := by omega
          subst this
          exact (List.nodup_cons.mp hnd).1 hg
        rw [hfix]
        exact decodeZoneGroup_bits p d i hA hZ
      · exact ih1 i hit
    · intro j hj
      rw [ih2 j (fun g hg => hj g (List.mem_cons_of_mem a hg))]
      exact decodeZoneGroup_other p d a j (hj a (List.mem_cons_self a t))

theorem decodeAlarmZones_openZones (p : Foreground) (d : Decoder) (hA : d.alarmBit = false) :
    (decodeAlarmZones p d).openZones = d.openZones := by
  unfold decodeAlarmZones
  lift_lets
  intro y zc z
  have hy : y.alarmBit = false ∧ y.openZones = d.openZones := by
    unfold y
    refine foldl_preserves (fun w : Decoder => w.alarmBit = false ∧ w.openZones = d.openZones)
      _ ?_ _ _ ⟨hA, rfl⟩
    intro w a hw
    simp only [Decoder.ite_field, ite_self]
    exact hw
  have hz : z.alarmBit = false ∧ z.openZones = d.openZones := by
    unfold z markStatusChanged
    split_ifs <;> exact hy
  split_ifs
  · refine (foldl_preserves (fun w : Decoder => w.alarmBit = false ∧ w.openZones = d.openZones)
      _ ?_ _ _ hz).2
    intro w a hw
    simp only [Decoder.ite_field, ite_self, hw.1, Bool.false_eq_true, if_false]
    exact ⟨trivial, hw.2⟩
  · exact hy.2

theorem decodeAlarmZones_zonesTriggered_of_clear (p : Foreground) (d : Decoder)
    (hq : ∀ bit, bitRead (p.pc16Data (p.statusByte - 1)) bit = false) :
    (decodeAlarmZones p d).zonesTriggered = d.zonesTriggered := by
  unfold decodeAlarmZones
  lift_lets
  intro y zc z
  have hy : y.zonesTriggered = d.zonesTriggered := by
    unfold y
    refine foldl_preserves (fun w : Decoder => w.zonesTriggered = d.zonesTriggered) _ ?_ _ _ rfl
    intro w a hw
    simp only [hq, Bool.false_eq_true, if_false]
    exact hw
  have hz : z.zonesTriggered = d.zonesTriggered := by
    unfold z markStatusChanged
    split_ifs <;> exact hy
  split_ifs
  · refine foldl_preserves (fun w : Decoder => w.zonesTriggered = d.zonesTriggered) _ ?_ _ _ hz
    intro w a hw
    simp only [Decoder.ite_field, ite_self]
    exact hw
  · exact hy

theorem decodeZones_bits (p : Foreground) (d : Decoder)
    (hG : zonesGuard d = true)
    (hA : d.alarmBit = false)
    (hZ : ∀ bit, bitRead (d.zonesTriggered (p.statusByte - 1)) bit = false)
    (i : Fin p.statusByte) :
    (∀ k : Fin 8, bitRead ((decodeZones p d).openZones i.val) k.val
        = bitRead (p.panelData (p.statusByte - (i.val + 1))) (7 - k.val))
      ∧ (decodeZones p d).openZones i.val < 256 := by
  unfold decodeZones
  unfold zonesGuard at hG
  rw [if_pos hG]
  have hnd : ((List.range p.statusByte).map (fun k => k + 1)).Nodup :=
    (List.nodup_range _).map (fun a b h => by simpa using h)
  have hpos : ∀ g ∈ (List.range p.statusByte).map (fun k => k + 1), 1 ≤ g := by
    intro g hg
    obtain ⟨a, _, rfl⟩ := List.mem_map.mp hg
    omega
  have hmem : i.val + 1 ∈ (List.range p.statusByte).map (fun k => k + 1) :=
    List.mem_map.mpr ⟨i.val, List.mem_range.mpr i.isLt, rfl⟩
  exact (zoneGroups_openZones p _ hnd hpos d hA hZ).1 (i.val + 1) hmem

theorem processPanelStatus_openZones_quiet (p : Foreground) (d : Decoder) (now : Nat)
    (hG : zonesGuard (beforeZones p d now) = true)
    (hA : bitRead (p.pc16Data p.statusByte) 0 = false)
    (hZ : ∀ bit, bitRead (d.zonesTriggered (p.statusByte - 1)) bit = false)
    (i : Fin p.statusByte) :
    (∀ k : Fin 8, bitRead ((processPanelStatus p d now).openZones i.val) k.val
        = bitRead (p.panelData (p.statusByte - (i.val + 1))) (7 - k.val))
      ∧ (processPanelStatus p d now).openZones i.val < 256 := by
  have hA2 : (beforeZones p d now).alarmBit = false := by
    unfold beforeZones
    simp only [decodeBlink_alarmBit, decodeBeep_alarmBit, decodeArmed_alarmBit,
      decodeReady_alarmBit, decodeZones_alarmBit, decodeAlarmZones_alarmBit, decodeAlarm_alarmBit,
    decodeTroubleFire_alarmBit, decodeKeypadAlarms_alarmBit, decodeStatus_alarmBit,
    (decodeLights_inputs p d).2.2.2.2.2.2.2.2.2.2, hA]
  have hZ2 : ∀ bit,
      bitRead ((beforeZones p d now).zonesTriggered (p.statusByte - 1)) bit = false := by
    intro bit
    unfold beforeZones
    simp only [decodeLights_zonesTriggered, decodeBlink_zonesTriggered, decodeBeep_zonesTriggered,
      decodeArmed_zonesTriggered, decodeReady_zonesTriggered, decodeZones_zonesTriggered,
    decodeAlarm_zonesTriggered, decodeTroubleFire_zonesTriggered,
    decodeKeypadAlarms_zonesTriggered, decodeStatus_zonesTriggered, hZ]
  have hA3 : (decodeZones p (beforeZones p d now)).alarmBit = false := by
    rw [decodeZones_alarmBit, hA2]
  have h := decodeZones_bits p (beforeZones p d now) hG hA2 hZ2 i
  have he : (processPanelStatus p d now).openZones
      = (decodeZones p (beforeZones p d now)).openZones := by
    unfold processPanelStatus
    simp only [decodeLights_openZones, decodeBlink_openZones, decodeBeep_openZones,
      decodeArmed_openZones, decodeReady_openZones, decodeAlarm_openZones,
    decodeTroubleFire_openZones, decodeKeypadAlarms_openZones, decodeStatus_openZones]
    exact decodeAlarmZones_openZones p _ hA3
  rw [he]
  exact h

theorem decodeLights_alarmChanged (p : Foreground) (d : Decoder) :
    (decodeLights p d).alarmChanged = d.alarmChanged := by
  have h := congrArg Decoder.alarmChanged (decodeLights_restore p d)
  exact h

theorem decodeLights_armedChanged (p : Foreground) (d : Decoder) :
    (decodeLights p d).armedChanged = d.armedChanged := by
  have h := congrArg Decoder.armedChanged (decodeLights_restore p d)
  exact h

theorem decodeLights_beepOn (p : Foreground) (d : Decoder) :
    (decodeLights p d).beepOn = d.beepOn := by
  have h := congrArg Decoder.beepOn (decodeLights_restore p d)
  exact h

theorem decodeLights_bypassBlink (p : Foreground) (d : Decoder) :
    (decodeLights p d).bypassBlink = d.bypassBlink := by
  have h := congrArg Decoder.bypassBlink (decodeLights_restore p d)
  exact h

theorem decodeLights_exitDelayChanged (p : Foreground) (d : Decoder) :
    (decodeLights p d).exitDelayChanged = d.exitDelayChanged := by
  have h := congrArg Decoder.exitDelayChanged (decodeLights_restore p d)
  exact h

theorem decodeLights_previousAlarm (p : Foreground) (d : Decoder) :
    (decodeLights p d).previousAlarm = d.previousAlarm := by
  have h := congrArg Decoder.previousAlarm (decodeLights_restore p d)
  exact h

theorem decodeLights_previousArmed (p : Foreground) (d : Decoder) :
    (decodeLights p d).previousArmed = d.previousArmed := by
  have h := congrArg Decoder.previousArmed (decodeLights_restore p d)
  exact h

theorem decodeLights_previousArmedAway (p : Foreground) (d : Decoder) :
    (decodeLights p d).previousArmedAway = d.previousArmedAway := by
  have h := congrArg Decoder.previousArmedAway (decodeLights_restore p d)
  exact h

theorem decodeLights_previousArmedStay (p : Foreground) (d : Decoder) :
    (decodeLights p d).previousArmedStay = d.previousArmedStay := by
  have h := congrArg Decoder.previousArmedStay (decodeLights_restore p d)
  exact h

theorem decodeLights_previousExitDelay (p : Foreground) (d : Decoder) :
    (decodeLights p d).previousExitDelay = d.previousExitDelay := by
  have h := congrArg Decoder.previousExitDelay (decodeLights_restore p d)
  exact h

theorem decodeLights_previousReady (p : Foreground) (d : Decoder) :
    (decodeLights p d).previousReady = d.previousReady := by
  have h := congrArg Decoder.previousReady (decodeLights_restore p d)
  exact h

theorem decodeLights_readyChanged (p : Foreground) (d : Decoder) :
    (decodeLights p d).readyChanged = d.readyChanged := by
  have h := congrArg Decoder.readyChanged (decodeLights_restore p d)
  exact h

theorem decodeLights_troubleBlink (p : Foreground) (d : Decoder) :
    (decodeLights p d).troubleBlink = d.troubleBlink := by
  have h := congrArg Decoder.troubleBlink (decodeLights_restore p d)
  exact h

theorem decodeBlink_alarmChanged (d : Decoder) (now : Nat) :
    (decodeBlink d now).alarmChanged = d.alarmChanged := by
  have h := congrArg Decoder.alarmChanged (decodeBlink_restore d now)
  exact h

theorem decodeBlink_armedChanged (d : Decoder) (now : Nat) :
    (decodeBlink d now).armedChanged = d.armedChanged := by
  have h := congrArg Decoder.armedChanged (decodeBlink_restore d now)
  exact h

theorem decodeBlink_armedLight (d : Decoder) (now : Nat) :
    (decodeBlink d now).armedLight = d.armedLight := by
  have h := congrArg Decoder.armedLight (decodeBlink_restore d now)
  exact h

theorem decodeBlink_beep (d : Decoder) (now : Nat) :
    (decodeBlink d now).beep = d.beep := by
  have h := congrArg Decoder.beep (decodeBlink_restore d now)
  exact h

theorem decodeBlink_beepOn (d : Decoder) (now : Nat) :
    (decodeBlink d now).beepOn = d.beepOn := by
  have h := congrArg Decoder.beepOn (decodeBlink_restore d now)
  exact h

theorem decodeBlink_bypassLight (d : Decoder) (now : Nat) :
    (decodeBlink d now).bypassLight = d.bypassLight := by
  have h := congrArg Decoder.bypassLight (decodeBlink_restore d now)
  exact h

theorem decodeBlink_exitDelayChanged (d : Decoder) (now : Nat) :
    (decodeBlink d now).exitDelayChanged = d.exitDelayChanged := by
  have h := congrArg Decoder.exitDelayChanged (decodeBlink_restore d now)
  exact h

theorem decodeBlink_memoryLight (d : Decoder) (now : Nat) :
    (decodeBlink d now).memoryLight = d.memoryLight := by
  have h := congrArg Decoder.memoryLight (decodeBlink_restore d now)
  exact h

theorem decodeBlink_previousAlarm (d : Decoder) (now : Nat) :
    (decodeBlink d now).previousAlarm = d.previousAlarm := by
  have h := congrArg Decoder.previousAlarm (decodeBlink_restore d now)
  exact h

theorem decodeBlink_previousArmed (d : Decoder) (now : Nat) :
    (decodeBlink d now).previousArmed = d.previousArmed := by
  have h := congrArg Decoder.previousArmed (decodeBlink_restore d now)
  exact h

theorem decodeBlink_previousArmedAway (d : Decoder) (now : Nat) :
    (decodeBlink d now).previousArmedAway = d.previousArmedAway := by
  have h := congrArg Decoder.previousArmedAway (decodeBlink_restore d now)
  exact h

theorem decodeBlink_previousArmedStay (d : Decoder) (now : Nat) :
    (decodeBlink d now).previousArmedStay = d.previousArmedStay := by
  have h := congrArg Decoder.previousArmedStay (decodeBlink_restore d now)
  exact h

theorem decodeBlink_previousExitDelay (d : Decoder) (now : Nat) :
    (decodeBlink d now).previousExitDelay = d.previousExitDelay := by
  have h := congrArg Decoder.previousExitDelay (decodeBlink_restore d now)
  exact h

theorem decodeBlink_previousReady (d : Decoder) (now : Nat) :
    (decodeBlink d now).previousReady = d.previousReady := by
  have h := congrArg Decoder.previousReady (decodeBlink_restore d now)
  exact h

theorem decodeBlink_readyChanged (d : Decoder) (now : Nat) :
    (decodeBlink d now).readyChanged = d.readyChanged := by
  have h := congrArg Decoder.readyChanged (decodeBlink_restore d now)
  exact h

theorem decodeBlink_troubleLight (d : Decoder) (now : Nat) :
    (decodeBlink d now).troubleLight = d.troubleLight := by
  have h := congrArg Decoder.troubleLight (decodeBlink_restore d now)
  exact h

theorem decodeBeep_alarmChanged (d : Decoder) (now : Nat) :
    (decodeBeep d now).alarmChanged = d.alarmChanged := by
  have h := congrArg Decoder.alarmChanged (decodeBeep_restore d now)
  exact h

theorem decodeBeep_armedChanged (d : Decoder) (now : Nat) :
    (decodeBeep d now).armedChanged = d.armedChanged := by
  have h := congrArg Decoder.armedChanged (decodeBeep_restore d now)
  exact h

theorem decodeBeep_armedLight (d : Decoder) (now : Nat) :
    (decodeBeep d now).armedLight = d.armedLight := by
  have h := congrArg Decoder.armedLight (decodeBeep_restore d now)
  exact h

theorem decodeBeep_beep (d : Decoder) (now : Nat) :
    (decodeBeep d now).beep = d.beep := by
  have h := congrArg Decoder.beep (decodeBeep_restore d now)
  exact h

theorem decodeBeep_bypassBlink (d : Decoder) (now : Nat) :
    (decodeBeep d now).bypassBlink = d.bypassBlink := by
  have h := congrArg Decoder.bypassBlink (decodeBeep_restore d now)
  exact h

theorem decodeBeep_bypassLight (d : Decoder) (now : Nat) :
    (decodeBeep d now).bypassLight = d.bypassLight := by
  have h := congrArg Decoder.bypassLight (decodeBeep_restore d now)
  exact h

theorem decodeBeep_exitDelayChanged (d : Decoder) (now : Nat) :
    (decodeBeep d now).exitDelayChanged = d.exitDelayChanged := by
  have h := congrArg Decoder.exitDelayChanged (decodeBeep_restore d now)
  exact h

theorem decodeBeep_memoryLight (d : Decoder) (now : Nat) :
    (decodeBeep d now).memoryLight = d.memoryLight := by
  have h := congrArg Decoder.memoryLight (decodeBeep_restore d now)
  exact h

theorem decodeBeep_previousAlarm (d : Decoder) (now : Nat) :
    (decodeBeep d now).previousAlarm = d.previousAlarm := by
  have h := congrArg Decoder.previousAlarm (decodeBeep_restore d now)
  exact h

theorem decodeBeep_previousArmed (d : Decoder) (now : Nat) :
    (decodeBeep d now).previousArmed = d.previousArmed := by
  have h := congrArg Decoder.previousArmed (decodeBeep_restore d now)
  exact h

theorem decodeBeep_previousArmedAway (d : Decoder) (now : Nat) :
    (decodeBeep d now).previousArmedAway = d.previousArmedAway := by
  have h := congrArg Decoder.previousArmedAway (decodeBeep_restore d now)
  exact h

theorem decodeBeep_previousArmedStay (d : Decoder) (now : Nat) :
    (decodeBeep d now).previousArmedStay = d.previousArmedStay := by
  have h := congrArg Decoder.previousArmedStay (decodeBeep_restore d now)
  exact h

theorem decodeBeep_previousExitDelay (d : Decoder) (now : Nat) :
    (decodeBeep d now).previousExitDelay = d.previousExitDelay := by
  have h := congrArg Decoder.previousExitDelay (decodeBeep_restore d now)
  exact h

theorem decodeBeep_previousReady (d : Decoder) (now : Nat) :
    (decodeBeep d now).previousReady = d.previousReady := by
  have h := congrArg Decoder.previousReady (decodeBeep_restore d now)
  exact h

theorem decodeBeep_troubleBlink (d : Decoder) (now : Nat) :
    (decodeBeep d now).troubleBlink = d.troubleBlink := by
  have h := congrArg Decoder.troubleBlink (decodeBeep_restore d now)
  exact h

theorem decodeBeep_troubleLight (d : Decoder) (now : Nat) :
    (decodeBeep d now).troubleLight = d.troubleLight := by
  have h := congrArg Decoder.troubleLight (decodeBeep_restore d now)
  exact h

theorem decodeArmed_armedLight (p : Foreground) (d : Decoder) (now : Nat) :
    (decodeArmed p d now).armedLight = d.armedLight := by
  have h := congrArg Decoder.armedLight (decodeArmed_restore p d now)
  exact h

theorem decodeArmed_beep (p : Foreground) (d : Decoder) (now : Nat) :
    (decodeArmed p d now).beep = d.beep := by
  have h := congrArg Decoder.beep (decodeArmed_restore p d now)
  exact h

theorem decodeArmed_beepOn (p : Foreground) (d : Decoder) (now : Nat) :
    (decodeArmed p d now).beepOn = d.beepOn := by
  have h := congrArg Decoder.beepOn (decodeArmed_restore p d now)
  exact h

theorem decodeArmed_bypassBlink (p : Foreground) (d : Decoder) (now : Nat) :
    (decodeArmed p d now).bypassBlink = d.bypassBlink := by
  have h := congrArg Decoder.bypassBlink (decodeArmed_restore p d now)
  exact h

theorem decodeArmed_bypassLight (p : Foreground) (d : Decoder) (now : Nat) :
    (decodeArmed p d now).bypassLight = d.bypassLight := by
  have h := congrArg Decoder.bypassLight (decodeArmed_restore p d now)
  exact h

theorem decodeArmed_exitDelayChanged (p : Foreground) (d : Decoder) (now : Nat) :
    (decodeArmed p d now).exitDelayChanged = d.exitDelayChanged := by
  have h := congrArg Decoder.exitDelayChanged (decodeArmed_restore p d now)
  exact h

theorem decodeArmed_memoryLight (p : Foreground) (d : Decoder) (now : Nat) :
    (decodeArmed p d now).memoryLight = d.memoryLight := by
  have h := congrArg Decoder.memoryLight (decodeArmed_restore p d now)
  exact h

theorem decodeArmed_previousExitDelay (p : Foreground) (d : Decoder) (now : Nat) :
    (decodeArmed p d now).previousExitDelay = d.previousExitDelay := by
  have h := congrArg Decoder.previousExitDelay (decodeArmed_restore p d now)
  exact h

theorem decodeArmed_troubleBlink (p : Foreground) (d : Decoder) (now : Nat) :
    (decodeArmed p d now).troubleBlink = d.troubleBlink := by
  have h := congrArg Decoder.troubleBlink (decodeArmed_restore p d now)
  exact h

theorem decodeArmed_troubleLight (p : Foreground) (d : Decoder) (now : Nat) :
    (decodeArmed p d now).troubleLight = d.troubleLight := by
  have h := congrArg Decoder.troubleLight (decodeArmed_restore p d now)
  exact h

theorem decodeReady_armedLight (p : Foreground) (d : Decoder) (now : Nat) :
    (decodeReady p d now).armedLight = d.armedLight := by
  have h := congrArg Decoder.armedLight (decodeReady_restore p d now)
  exact h

theorem decodeReady_beep (p : Foreground) (d : Decoder) (now : Nat) :
    (decodeReady p d now).beep = d.beep := by
  have h := congrArg Decoder.beep (decodeReady_restore p d now)
  exact h

theorem decodeReady_beepOn (p : Foreground) (d : Decoder) (now : Nat) :
    (decodeReady p d now).beepOn = d.beepOn := by
  have h := congrArg Decoder.beepOn (decodeReady_restore p d now)
  exact h

theorem decodeReady_bypassBlink (p : Foreground) (d : Decoder) (now : Nat) :
    (decodeReady p d now).bypassBlink = d.bypassBlink := by
  have h := congrArg Decoder.bypassBlink (decodeReady_restore p d now)
  exact h

theorem decodeReady_bypassLight (p : Foreground) (d : Decoder) (now : Nat) :
    (decodeReady p d now).bypassLight = d.bypassLight := by
  have h := congrArg Decoder.bypassLight (decodeReady_restore p d now)
  exact h

theorem decodeReady_memoryLight (p : Foreground) (d : Decoder) (now : Nat) :
    (decodeReady p d now).memoryLight = d.memoryLight := by
  have h := congrArg Decoder.memoryLight (decodeReady_restore p d now)
  exact h

theorem decodeReady_previousArmedAway (p : Foreground) (d : Decoder) (now : Nat) :
    (decodeReady p d now).previousArmedAway = d.previousArmedAway := by
  have h := congrArg Decoder.previousArmedAway (decodeReady_restore p d now)
  exact h

theorem decodeReady_previousArmedStay (p : Foreground) (d : Decoder) (now : Nat) :
    (decodeReady p d now).previousArmedStay = d.previousArmedStay := by
  have h := congrArg Decoder.previousArmedStay (decodeReady_restore p d now)
  exact h

theorem decodeReady_troubleBlink (p : Foreground) (d : Decoder) (now : Nat) :
    (decodeReady p d now).troubleBlink = d.troubleBlink := by
  have h := congrArg Decoder.troubleBlink (decodeReady_restore p d now)
  exact h

theorem decodeReady_troubleLight (p : Foreground) (d : Decoder) (now : Nat) :
    (decodeReady p d now).troubleLight = d.troubleLight := by
  have h := congrArg Decoder.troubleLight (decodeReady_restore p d now)
  exact h

theorem decodeZones_alarmChanged (p : Foreground) (d : Decoder) :
    (decodeZones p d).alarmChanged = d.alarmChanged := by
  have h := congrArg Decoder.alarmChanged (decodeZones_restore p d)
  exact h

theorem decodeZones_armedChanged (p : Foreground) (d : Decoder) :
    (decodeZones p d).armedChanged = d.armedChanged := by
  have h := congrArg Decoder.armedChanged (decodeZones_restore p d)
  exact h

theorem decodeZones_armedLight (p : Foreground) (d : Decoder) :
    (decodeZones p d).armedLight = d.armedLight := by
  have h := congrArg Decoder.armedLight (decodeZones_restore p d)
  exact h

theorem decodeZones_beep (p : Foreground) (d : Decoder) :
    (decodeZones p d).beep = d.beep := by
  have h := congrArg Decoder.beep (decodeZones_restore p d)
  exact h

theorem decodeZones_beepOn (p : Foreground) (d : Decoder) :
    (decodeZones p d).beepOn = d.beepOn := by
  have h := congrArg Decoder.beepOn (decodeZones_restore p d)
  exact h

theorem decodeZones_bypassBlink (p : Foreground) (d : Decoder) :
    (decodeZones p d).bypassBlink = d.bypassBlink := by
  have h := congrArg Decoder.bypassBlink (decodeZones_restore p d)
  exact h

theorem decodeZones_bypassLight (p : Foreground) (d : Decoder) :
    (decodeZones p d).bypassLight = d.bypassLight := by
  have h := congrArg Decoder.bypassLight (decodeZones_restore p d)
  exact h

theorem decodeZones_exitDelayChanged (p : Foreground) (d : Decoder) :
    (decodeZones p d).exitDelayChanged = d.exitDelayChanged := by
  have h := congrArg Decoder.exitDelayChanged (decodeZones_restore p d)
  exact h

theorem decodeZones_memoryLight (p : Foreground) (d : Decoder) :
    (decodeZones p d).memoryLight = d.memoryLight := by
  have h := congrArg Decoder.memoryLight (decodeZones_restore p d)
  exact h

theorem decodeZones_previousAlarm (p : Foreground) (d : Decoder) :
    (decodeZones p d).previousAlarm = d.previousAlarm := by
  have h := congrArg Decoder.previousAlarm (decodeZones_restore p d)
  exact h

theorem decodeZones_previousArmed (p : Foreground) (d : Decoder) :
    (decodeZones p d).previousArmed = d.previousArmed := by
  have h := congrArg Decoder.previousArmed (decodeZones_restore p d)
  exact h

theorem decodeZones_previousArmedAway (p : Foreground) (d : Decoder) :
    (decodeZones p d).previousArmedAway = d.previousArmedAway := by
  have h := congrArg Decoder.previousArmedAway (decodeZones_restore p d)
  exact h

theorem decodeZones_previousArmedStay (p : Foreground) (d : Decoder) :
    (decodeZones p d).previousArmedStay = d.previousArmedStay := by
  have h := congrArg Decoder.previousArmedStay (decodeZones_restore p d)
  exact h

theorem decodeZones_previousExitDelay (p : Foreground) (d : Decoder) :
    (decodeZones p d).previousExitDelay = d.previousExitDelay := by
  have h := congrArg Decoder.previousExitDelay (decodeZones_restore p d)
  exact h

theorem decodeZones_previousReady (p : Foreground) (d : Decoder) :
    (decodeZones p d).previousReady = d.previousReady := by
  have h := congrArg Decoder.previousReady (decodeZones_restore p d)
  exact h

theorem decodeZones_readyChanged (p : Foreground) (d : Decoder) :
    (decodeZones p d).readyChanged = d.readyChanged := by
  have h := congrArg Decoder.readyChanged (decodeZones_restore p d)
  exact h

theorem decodeZones_troubleBlink (p : Foreground) (d : Decoder) :
    (decodeZones p d).troubleBlink = d.troubleBlink := by
  have h := congrArg Decoder.troubleBlink (decodeZones_restore p d)
  exact h

theorem decodeZones_troubleLight (p : Foreground) (d : Decoder) :
    (decodeZones p d).troubleLight = d.troubleLight := by
  have h := congrArg Decoder.troubleLight (decodeZones_restore p d)
  exact h

theorem decodeAlarmZones_alarmChanged (p : Foreground) (d : Decoder) :
    (decodeAlarmZones p d).alarmChanged = d.alarmChanged := by
  have h := congrArg Decoder.alarmChanged (decodeAlarmZones_restore p d)
  exact h

theorem decodeAlarmZones_armedChanged (p : Foreground) (d : Decoder) :
    (decodeAlarmZones p d).armedChanged = d.armedChanged := by
  have h := congrArg Decoder.armedChanged (decodeAlarmZones_restore p d)
  exact h

theorem decodeAlarmZones_armedLight (p : Foreground) (d : Decoder) :
    (decodeAlarmZones p d).armedLight = d.armedLight := by
  have h := congrArg Decoder.armedLight (decodeAlarmZones_restore p d)
  exact h

theorem decodeAlarmZones_beep (p : Foreground) (d : Decoder) :
    (decodeAlarmZones p d).beep = d.beep := by
  have h := congrArg Decoder.beep (decodeAlarmZones_restore p d)
  exact h

theorem decodeAlarmZones_beepOn (p : Foreground) (d : Decoder) :
    (decodeAlarmZones p d).beepOn = d.beepOn := by
  have h := congrArg Decoder.beepOn (decodeAlarmZones_restore p d)
  exact h

theorem decodeAlarmZones_bypassBlink (p : Foreground) (d : Decoder) :
    (decodeAlarmZones p d).bypassBlink = d.bypassBlink := by
  have h := congrArg Decoder.bypassBlink (decodeAlarmZones_restore p d)
  exact h

theorem decodeAlarmZones_bypassLight (p : Foreground) (d : Decoder) :
    (decodeAlarmZones p d).bypassLight = d.bypassLight := by
  have h := congrArg Decoder.bypassLight (decodeAlarmZones_restore p d)
  exact h

theorem decodeAlarmZones_exitDelayChanged (p : Foreground) (d : Decoder) :
    (decodeAlarmZones p d).exitDelayChanged = d.exitDelayChanged := by
  have h := congrArg Decoder.exitDelayChanged (decodeAlarmZones_restore p d)
  exact h

theorem decodeAlarmZones_memoryLight (p : Foreground) (d : Decoder) :
    (decodeAlarmZones p d).memoryLight = d.memoryLight := by
  have h := congrArg Decoder.memoryLight (decodeAlarmZones_restore p d)
  exact h

theorem decodeAlarmZones_previousAlarm (p : Foreground) (d : Decoder) :
    (decodeAlarmZones p d).previousAlarm = d.previousAlarm := by
  have h := congrArg Decoder.previousAlarm (decodeAlarmZones_restore p d)
  exact h

theorem decodeAlarmZones_previousArmed (p : Foreground) (d : Decoder) :
    (decodeAlarmZones p d).previousArmed = d.previousArmed := by
  have h := congrArg Decoder.previousArmed (decodeAlarmZones_restore p d)
  exact h

theorem decodeAlarmZones_previousArmedAway (p : Foreground) (d : Decoder) :
    (decodeAlarmZones p d).previousArmedAway = d.previousArmedAway := by
  have h := congrArg Decoder.previousArmedAway (decodeAlarmZones_restore p d)
  exact h

theorem decodeAlarmZones_previousArmedStay (p : Foreground) (d : Decoder) :
    (decodeAlarmZones p d).previousArmedStay = d.previousArmedStay := by
  have h := congrArg Decoder.previousArmedStay (decodeAlarmZones_restore p d)
  exact h

theorem decodeAlarmZones_previousExitDelay (p : Foreground) (d : Decoder) :
    (decodeAlarmZones p d).previousExitDelay = d.previousExitDelay := by
  have h := congrArg Decoder.previousExitDelay (decodeAlarmZones_restore p d)
  exact h

theorem decodeAlarmZones_previousReady (p : Foreground) (d : Decoder) :
    (decodeAlarmZones p d).previousReady = d.previousReady := by
  have h := congrArg Decoder.previousReady (decodeAlarmZones_restore p d)
  exact h

theorem decodeAlarmZones_readyChanged (p : Foreground) (d : Decoder) :
    (decodeAlarmZones p d).readyChanged = d.readyChanged := by
  have h := congrArg Decoder.readyChanged (decodeAlarmZones_restore p d)
  exact h

theorem decodeAlarmZones_troubleBlink (p : Foreground) (d : Decoder) :
    (decodeAlarmZones p d).troubleBlink = d.troubleBlink := by
  have h := congrArg Decoder.troubleBlink (decodeAlarmZones_restore p d)
  exact h

theorem decodeAlarmZones_troubleLight (p : Foreground) (d : Decoder) :
    (decodeAlarmZones p d).troubleLight = d.troubleLight := by
  have h := congrArg Decoder.troubleLight (decodeAlarmZones_restore p d)
  exact h

theorem decodeAlarm_armedChanged (p : Foreground) (d : Decoder) :
    (decodeAlarm p d).armedChanged = d.armedChanged := by
  have h := congrArg Decoder.armedChanged (decodeAlarm_restore p d)
  exact h

theorem decodeAlarm_armedLight (p : Foreground) (d : Decoder) :
    (decodeAlarm p d).armedLight = d.armedLight := by
  have h := congrArg Decoder.armedLight (decodeAlarm_restore p d)
  exact h

theorem decodeAlarm_beep (p : Foreground) (d : Decoder) :
    (decodeAlarm p d).beep = d.beep := by
  have h := congrArg Decoder.beep (decodeAlarm_restore p d)
  exact h

theorem decodeAlarm_beepOn (p : Foreground) (d : Decoder) :
    (decodeAlarm p d).beepOn = d.beepOn := by
  have h := congrArg Decoder.beepOn (decodeAlarm_restore p d)
  exact h

theorem decodeAlarm_bypassBlink (p : Foreground) (d : Decoder) :
    (decodeAlarm p d).bypassBlink = d.bypassBlink := by
  have h := congrArg Decoder.bypassBlink (decodeAlarm_restore p d)
  exact h

theorem decodeAlarm_bypassLight (p : Foreground) (d : Decoder) :
    (decodeAlarm p d).bypassLight = d.bypassLight := by
  have h := congrArg Decoder.bypassLight (decodeAlarm_restore p d)
  exact h

theorem decodeAlarm_exitDelayChanged (p : Foreground) (d : Decoder) :
    (decodeAlarm p d).exitDelayChanged = d.exitDelayChanged := by
  have h := congrArg Decoder.exitDelayChanged (decodeAlarm_restore p d)
  exact h

theorem decodeAlarm_memoryLight (p : Foreground) (d : Decoder) :
    (decodeAlarm p d).memoryLight = d.memoryLight := by
  have h := congrArg Decoder.memoryLight (decodeAlarm_restore p d)
  exact h

theorem decodeAlarm_previousArmed (p : Foreground) (d : Decoder) :
    (decodeAlarm p d).previousArmed = d.previousArmed := by
  have h := congrArg Decoder.previousArmed (decodeAlarm_restore p d)
  exact h

theorem decodeAlarm_previousArmedAway (p : Foreground) (d : Decoder) :
    (decodeAlarm p d).previousArmedAway = d.previousArmedAway := by
  have h := congrArg Decoder.previousArmedAway (decodeAlarm_restore p d)
  exact h

theorem decodeAlarm_previousArmedStay (p : Foreground) (d : Decoder) :
    (decodeAlarm p d).previousArmedStay = d.previousArmedStay := by
  have h := congrArg Decoder.previousArmedStay (decodeAlarm_restore p d)
  exact h

theorem decodeAlarm_previousExitDelay (p : Foreground) (d : Decoder) :
    (decodeAlarm p d).previousExitDelay = d.previousExitDelay := by
  have h := congrArg Decoder.previousExitDelay (decodeAlarm_restore p d)
  exact h

theorem decodeAlarm_troubleBlink (p : Foreground) (d : Decoder) :
    (decodeAlarm p d).troubleBlink = d.troubleBlink := by
  have h := congrArg Decoder.troubleBlink (decodeAlarm_restore p d)
  exact h

theorem decodeAlarm_troubleLight (p : Foreground) (d : Decoder) :
    (decodeAlarm p d).troubleLight = d.troubleLight := by
  have h := congrArg Decoder.troubleLight (decodeAlarm_restore p d)
  exact h

theorem decodeTroubleFire_alarmChanged (p : Foreground) (d : Decoder) :
    (decodeTroubleFire p d).alarmChanged = d.alarmChanged := by
  have h := congrArg Decoder.alarmChanged (decodeTroubleFire_restore p d)
  exact h

theorem decodeTroubleFire_armedChanged (p : Foreground) (d : Decoder) :
    (decodeTroubleFire p d).armedChanged = d.armedChanged := by
  have h := congrArg Decoder.armedChanged (decodeTroubleFire_restore p d)
  exact h

theorem decodeTroubleFire_armedLight (p : Foreground) (d : Decoder) :
    (decodeTroubleFire p d).armedLight = d.armedLight := by
  have h := congrArg Decoder.armedLight (decodeTroubleFire_restore p d)
  exact h

theorem decodeTroubleFire_beep (p : Foreground) (d : Decoder) :
    (decodeTroubleFire p d).beep = d.beep := by
  have h := congrArg Decoder.beep (decodeTroubleFire_restore p d)
  exact h

theorem decodeTroubleFire_beepOn (p : Foreground) (d : Decoder) :
    (decodeTroubleFire p d).beepOn = d.beepOn := by
  have h := congrArg Decoder.beepOn (decodeTroubleFire_restore p d)
  exact h

theorem decodeTroubleFire_bypassBlink (p : Foreground) (d : Decoder) :
    (decodeTroubleFire p d).bypassBlink = d.bypassBlink := by
  have h := congrArg Decoder.bypassBlink (decodeTroubleFire_restore p d)
  exact h

theorem decodeTroubleFire_bypassLight (p : Foreground) (d : Decoder) :
    (decodeTroubleFire p d).bypassLight = d.bypassLight := by
  have h := congrArg Decoder.bypassLight (decodeTroubleFire_restore p d)
  exact h

theorem decodeTroubleFire_exitDelayChanged (p : Foreground) (d : Decoder) :
    (decodeTroubleFire p d).exitDelayChanged = d.exitDelayChanged := by
  have h := congrArg Decoder.exitDelayChanged (decodeTroubleFire_restore p d)
  exact h

theorem decodeTroubleFire_memoryLight (p : Foreground) (d : Decoder) :
    (decodeTroubleFire p d).memoryLight = d.memoryLight := by
  have h := congrArg Decoder.memoryLight (decodeTroubleFire_restore p d)
  exact h

theorem decodeTroubleFire_previousAlarm (p : Foreground) (d : Decoder) :
    (decodeTroubleFire p d).previousAlarm = d.previousAlarm := by
  have h := congrArg Decoder.previousAlarm (decodeTroubleFire_restore p d)
  exact h

theorem decodeTroubleFire_previousArmed (p : Foreground) (d : Decoder) :
    (decodeTroubleFire p d).previousArmed = d.previousArmed := by
  have h := congrArg Decoder.previousArmed (decodeTroubleFire_restore p d)
  exact h

theorem decodeTroubleFire_previousArmedAway (p : Foreground) (d : Decoder) :
    (decodeTroubleFire p d).previousArmedAway = d.previousArmedAway := by
  have h := congrArg Decoder.previousArmedAway (decodeTroubleFire_restore p d)
  exact h

theorem decodeTroubleFire_previousArmedStay (p : Foreground) (d : Decoder) :
    (decodeTroubleFire p d).previousArmedStay = d.previousArmedStay := by
  have h := congrArg Decoder.previousArmedStay (decodeTroubleFire_restore p d)
  exact h

theorem decodeTroubleFire_previousExitDelay (p : Foreground) (d : Decoder) :
    (decodeTroubleFire p d).previousExitDelay = d.previousExitDelay := by
  have h := congrArg Decoder.previousExitDelay (decodeTroubleFire_restore p d)
  exact h

theorem decodeTroubleFire_previousReady (p : Foreground) (d : Decoder) :
    (decodeTroubleFire p d).previousReady = d.previousReady := by
  have h := congrArg Decoder.previousReady (decodeTroubleFire_restore p d)
  exact h

theorem decodeTroubleFire_readyChanged (p : Foreground) (d : Decoder) :
    (decodeTroubleFire p d).readyChanged = d.readyChanged := by
  have h := congrArg Decoder.readyChanged (decodeTroubleFire_restore p d)
  exact h

theorem decodeTroubleFire_troubleBlink (p : Foreground) (d : Decoder) :
    (decodeTroubleFire p d).troubleBlink = d.troubleBlink := by
  have h := congrArg Decoder.troubleBlink (decodeTroubleFire_restore p d)
  exact h

theorem decodeTroubleFire_troubleLight (p : Foreground) (d : Decoder) :
    (decodeTroubleFire p d).troubleLight = d.troubleLight := by
  have h := congrArg Decoder.troubleLight (decodeTroubleFire_restore p d)
  exact h

theorem decodeKeypadAlarms_alarmChanged (p : Foreground) (d : Decoder) (now : Nat) :
    (decodeKeypadAlarms p d now).alarmChanged = d.alarmChanged := by
  have h := congrArg Decoder.alarmChanged (decodeKeypadAlarms_restore p d now)
  exact h

theorem decodeKeypadAlarms_armedChanged (p : Foreground) (d : Decoder) (now : Nat) :
    (decodeKeypadAlarms p d now).armedChanged = d.armedChanged := by
  have h := congrArg Decoder.armedChanged (decodeKeypadAlarms_restore p d now)
  exact h

theorem decodeKeypadAlarms_armedLight (p : Foreground) (d : Decoder) (now : Nat) :
    (decodeKeypadAlarms p d now).armedLight = d.armedLight := by
  have h := congrArg Decoder.armedLight (decodeKeypadAlarms_restore p d now)
  exact h

theorem decodeKeypadAlarms_beep (p : Foreground) (d : Decoder) (now : Nat) :
    (decodeKeypadAlarms p d now).beep = d.beep := by
  have h := congrArg Decoder.beep (decodeKeypadAlarms_restore p d now)
  exact h

theorem decodeKeypadAlarms_beepOn (p : Foreground) (d : Decoder) (now : Nat) :
    (decodeKeypadAlarms p d now).beepOn = d.beepOn := by
  have h := congrArg Decoder.beepOn (decodeKeypadAlarms_restore p d now)
  exact h

theorem decodeKeypadAlarms_bypassBlink (p : Foreground) (d : Decoder) (now : Nat) :
    (decodeKeypadAlarms p d now).bypassBlink = d.bypassBlink := by
  have h := congrArg Decoder.bypassBlink (decodeKeypadAlarms_restore p d now)
  exact h

theorem decodeKeypadAlarms_bypassLight (p : Foreground) (d : Decoder) (now : Nat) :
    (decodeKeypadAlarms p d now).bypassLight = d.bypassLight := by
  have h := congrArg Decoder.bypassLight (decodeKeypadAlarms_restore p d now)
  exact h

theorem decodeKeypadAlarms_exitDelayChanged (p : Foreground) (d : Decoder) (now : Nat) :
    (decodeKeypadAlarms p d now).exitDelayChanged = d.exitDelayChanged := by
  have h := congrArg Decoder.exitDelayChanged (decodeKeypadAlarms_restore p d now)
  exact h

theorem decodeKeypadAlarms_memoryLight (p : Foreground) (d : Decoder) (now : Nat) :
    (decodeKeypadAlarms p d now).memoryLight = d.memoryLight := by
  have h := congrArg Decoder.memoryLight (decodeKeypadAlarms_restore p d now)
  exact h

theorem decodeKeypadAlarms_previousAlarm (p : Foreground) (d : Decoder) (now : Nat) :
    (decodeKeypadAlarms p d now).previousAlarm = d.previousAlarm := by
  have h := congrArg Decoder.previousAlarm (decodeKeypadAlarms_restore p d now)
  exact h

theorem decodeKeypadAlarms_previousArmed (p : Foreground) (d : Decoder) (now : Nat) :
    (decodeKeypadAlarms p d now).previousArmed = d.previousArmed := by
  have h := congrArg Decoder.previousArmed (decodeKeypadAlarms_restore p d now)
  exact h

theorem decodeKeypadAlarms_previousArmedAway (p : Foreground) (d : Decoder) (now : Nat) :
    (decodeKeypadAlarms p d now).previousArmedAway = d.previousArmedAway := by
  have h := congrArg Decoder.previousArmedAway (decodeKeypadAlarms_restore p d now)
  exact h

theorem decodeKeypadAlarms_previousArmedStay (p : Foreground) (d : Decoder) (now : Nat) :
    (decodeKeypadAlarms p d now).previousArmedStay = d.previousArmedStay := by
  have h := congrArg Decoder.previousArmedStay (decodeKeypadAlarms_restore p d now)
  exact h

theorem decodeKeypadAlarms_previousExitDelay (p : Foreground) (d : Decoder) (now : Nat) :
    (decodeKeypadAlarms p d now).previousExitDelay = d.previousExitDelay := by
  have h := congrArg Decoder.previousExitDelay (decodeKeypadAlarms_restore p d now)
  exact h

theorem decodeKeypadAlarms_previousReady (p : Foreground) (d : Decoder) (now : Nat) :
    (decodeKeypadAlarms p d now).previousReady = d.previousReady := by
  have h := congrArg Decoder.previousReady (decodeKeypadAlarms_restore p d now)
  exact h

theorem decodeKeypadAlarms_readyChanged (p : Foreground) (d : Decoder) (now : Nat) :
    (decodeKeypadAlarms p d now).readyChanged = d.readyChanged := by
  have h := congrArg Decoder.readyChanged (decodeKeypadAlarms_restore p d now)
  exact h

theorem decodeKeypadAlarms_troubleBlink (p : Foreground) (d : Decoder) (now : Nat) :
    (decodeKeypadAlarms p d now).troubleBlink = d.troubleBlink := by
  have h := congrArg Decoder.troubleBlink (decodeKeypadAlarms_restore p d now)
  exact h

theorem decodeKeypadAlarms_troubleLight (p : Foreground) (d : Decoder) (now : Nat) :
    (decodeKeypadAlarms p d now).troubleLight = d.troubleLight := by
  have h := congrArg Decoder.troubleLight (decodeKeypadAlarms_restore p d now)
  exact h

theorem decodeStatus_alarmChanged (p : Foreground) (d : Decoder) :
    (decodeStatus p d).alarmChanged = d.alarmChanged := by
  have h := congrArg Decoder.alarmChanged (decodeStatus_restore p d)
  exact h

theorem decodeStatus_armedChanged (p : Foreground) (d : Decoder) :
    (decodeStatus p d).armedChanged = d.armedChanged := by
  have h := congrArg Decoder.armedChanged (decodeStatus_restore p d)
  exact h

theorem decodeStatus_armedLight (p : Foreground) (d : Decoder) :
    (decodeStatus p d).armedLight = d.armedLight := by
  have h := congrArg Decoder.armedLight (decodeStatus_restore p d)
  exact h

theorem decodeStatus_beep (p : Foreground) (d : Decoder) :
    (decodeStatus p d).beep = d.beep := by
  have h := congrArg Decoder.beep (decodeStatus_restore p d)
  exact h

theorem decodeStatus_beepOn (p : Foreground) (d : Decoder) :
    (decodeStatus p d).beepOn = d.beepOn := by
  have h := congrArg Decoder.beepOn (decodeStatus_restore p d)
  exact h

theorem decodeStatus_bypassBlink (p : Foreground) (d : Decoder) :
    (decodeStatus p d).bypassBlink = d.bypassBlink := by
  have h := congrArg Decoder.bypassBlink (decodeStatus_restore p d)
  exact h

theorem decodeStatus_bypassLight (p : Foreground) (d : Decoder) :
    (decodeStatus p d).bypassLight = d.bypassLight := by
  have h := congrArg Decoder.bypassLight (decodeStatus_restore p d)
  exact h

theorem decodeStatus_exitDelayChanged (p : Foreground) (d : Decoder) :
    (decodeStatus p d).exitDelayChanged = d.exitDelayChanged := by
  have h := congrArg Decoder.exitDelayChanged (decodeStatus_restore p d)
  exact h

theorem decodeStatus_memoryLight (p : Foreground) (d : Decoder) :
    (decodeStatus p d).memoryLight = d.memoryLight := by
  have h := congrArg Decoder.memoryLight (decodeStatus_restore p d)
  exact h

theorem decodeStatus_previousAlarm (p : Foreground) (d : Decoder) :
    (decodeStatus p d).previousAlarm = d.previousAlarm := by
  have h := congrArg Decoder.previousAlarm (decodeStatus_restore p d)
  exact h

theorem decodeStatus_previousArmed (p : Foreground) (d : Decoder) :
    (decodeStatus p d).previousArmed = d.previousArmed := by
  have h := congrArg Decoder.previousArmed (decodeStatus_restore p d)
  exact h

theorem decodeStatus_previousArmedAway (p : Foreground) (d : Decoder) :
    (decodeStatus p d).previousArmedAway = d.previousArmedAway := by
  have h := congrArg Decoder.previousArmedAway (decodeStatus_restore p d)
  exact h

theorem decodeStatus_previousArmedStay (p : Foreground) (d : Decoder) :
    (decodeStatus p d).previousArmedStay = d.previousArmedStay := by
  have h := congrArg Decoder.previousArmedStay (decodeStatus_restore p d)
  exact h

theorem decodeStatus_previousExitDelay (p : Foreground) (d : Decoder) :
    (decodeStatus p d).previousExitDelay = d.previousExitDelay := by
  have h := congrArg Decoder.previousExitDelay (decodeStatus_restore p d)
  exact h

theorem decodeStatus_previousReady (p : Foreground) (d : Decoder) :
    (decodeStatus p d).previousReady = d.previousReady := by
  have h := congrArg Decoder.previousReady (decodeStatus_restore p d)
  exact h

theorem decodeStatus_readyChanged (p : Foreground) (d : Decoder) :
    (decodeStatus p d).readyChanged = d.readyChanged := by
  have h := congrArg Decoder.readyChanged (decodeStatus_restore p d)
  exact h

theorem decodeStatus_troubleBlink (p : Foreground) (d : Decoder) :
    (decodeStatus p d).troubleBlink = d.troubleBlink := by
  have h := congrArg Decoder.troubleBlink (decodeStatus_restore p d)
  exact h

theorem decodeStatus_troubleLight (p : Foreground) (d : Decoder) :
    (decodeStatus p d).troubleLight = d.troubleLight := by
  have h := congrArg Decoder.troubleLight (decodeStatus_restore p d)
  exact h


/-! ## Decoding a ready frame in an idle state -/

theorem decodeLights_readyInputs (p : Foreground) (d : Decoder)
    (h7 : bitRead (p.panelData p.statusByte) 7 = true)
    (h6 : bitRead (p.panelData p.statusByte) 6 = false)
    (h5 : bitRead (p.panelData p.statusByte) 5 = false)
    (h4 : bitRead (p.panelData p.statusByte) 4 = false)
    (h3 : bitRead (p.panelData p.statusByte) 3 = false)
    (h0 : bitRead (p.panelData p.statusByte) 0 = false)
    (g5 : bitRead (p.pc16Data p.statusByte) 5 = false)
    (g0 : bitRead (p.pc16Data p.statusByte) 0 = false) :
    ReadyInputs (decodeLights p d) := by
  obtain ⟨i1, i2, i3, i4, i5, i6, _, _, i9, _, i11⟩ := decodeLights_inputs p d
  unfold ReadyInputs
  rw [i1, i2, i3, i4, i5, i6, i9, i11]
  exact ⟨h7, h6, h5, h4, h3, h0, g5, g0⟩

theorem decodeLights_idle (p : Foreground) (d : Decoder) (hI : Idle d) :
    Idle (decodeLights p d) := by
  unfold Idle at hI ⊢
  simp only [decodeLights_memoryBlink, decodeBeep_memoryBlink, decodeArmed_memoryBlink,
      decodeReady_memoryBlink, decodeZones_memoryBlink, decodeAlarmZones_memoryBlink,
      decodeAlarm_memoryBlink, decodeTroubleFire_memoryBlink, decodeKeypadAlarms_memoryBlink,
      decodeStatus_memoryBlink, decodeLights_bypassBlink, decodeBeep_bypassBlink,
      decodeArmed_bypassBlink, decodeReady_bypassBlink, decodeZones_bypassBlink,
      decodeAlarmZones_bypassBlink, decodeAlarm_bypassBlink, decodeTroubleFire_bypassBlink,
      decodeKeypadAlarms_bypassBlink, decodeStatus_bypassBlink, decodeLights_troubleBlink,
      decodeBeep_troubleBlink, decodeArmed_troubleBlink, decodeReady_troubleBlink,
      decodeZones_troubleBlink, decodeAlarmZones_troubleBlink, decodeAlarm_troubleBlink,
      decodeTroubleFire_troubleBlink, decodeKeypadAlarms_troubleBlink, decodeStatus_troubleBlink,
      decodeLights_beepOn, decodeBlink_beepOn, decodeArmed_beepOn, decodeReady_beepOn,
      decodeZones_beepOn, decodeAlarmZones_beepOn, decodeAlarm_beepOn, decodeTroubleFire_beepOn,
      decodeKeypadAlarms_beepOn, decodeStatus_beepOn, decodeLights_readyChanged,
      decodeBlink_readyChanged, decodeZones_readyChanged, decodeAlarmZones_readyChanged,
      decodeTroubleFire_readyChanged, decodeKeypadAlarms_readyChanged, decodeStatus_readyChanged,
      decodeLights_previousReady, decodeBlink_previousReady, decodeBeep_previousReady,
      decodeZones_previousReady, decodeAlarmZones_previousReady, decodeTroubleFire_previousReady,
      decodeKeypadAlarms_previousReady, decodeStatus_previousReady, decodeLights_armedChanged,
      decodeBlink_armedChanged, decodeBeep_armedChanged, decodeZones_armedChanged,
      decodeAlarmZones_armedChanged, decodeAlarm_armedChanged, decodeTroubleFire_armedChanged,
      decodeKeypadAlarms_armedChanged, decodeStatus_armedChanged, decodeLights_previousArmed,
      decodeBlink_previousArmed, decodeBeep_previousArmed, decodeZones_previousArmed,
      decodeAlarmZones_previousArmed, decodeAlarm_previousArmed, decodeTroubleFire_previousArmed,
      decodeKeypadAlarms_previousArmed, decodeStatus_previousArmed, decodeLights_previousArmedStay,
      decodeBlink_previousArmedStay, decodeBeep_previousArmedStay, decodeReady_previousArmedStay,
      decodeZones_previousArmedStay, decodeAlarmZones_previousArmedStay,
      decodeAlarm_previousArmedStay, decodeTroubleFire_previousArmedStay,
      decodeKeypadAlarms_previousArmedStay, decodeStatus_previousArmedStay,
      decodeLights_previousArmedAway, decodeBlink_previousArmedAway, decodeBeep_previousArmedAway,
      decodeReady_previousArmedAway, decodeZones_previousArmedAway,
      decodeAlarmZones_previousArmedAway, decodeAlarm_previousArmedAway,
      decodeTroubleFire_previousArmedAway, decodeKeypadAlarms_previousArmedAway,
      decodeStatus_previousArmedAway, decodeLights_alarmChanged, decodeBlink_alarmChanged,
      decodeBeep_alarmChanged, decodeZones_alarmChanged, decodeAlarmZones_alarmChanged,
      decodeTroubleFire_alarmChanged, decodeKeypadAlarms_alarmChanged, decodeStatus_alarmChanged,
      decodeLights_previousAlarm, decodeBlink_previousAlarm, decodeBeep_previousAlarm,
      decodeZones_previousAlarm, decodeAlarmZones_previousAlarm, decodeTroubleFire_previousAlarm,
      decodeKeypadAlarms_previousAlarm, decodeStatus_previousAlarm, decodeLights_exitDelayChanged,
      decodeBlink_exitDelayChanged, decodeBeep_exitDelayChanged, decodeArmed_exitDelayChanged,
      decodeZones_exitDelayChanged, decodeAlarmZones_exitDelayChanged,
      decodeAlarm_exitDelayChanged, decodeTroubleFire_exitDelayChanged,
      decodeKeypadAlarms_exitDelayChanged, decodeStatus_exitDelayChanged,
      decodeLights_previousExitDelay, decodeBlink_previousExitDelay, decodeBeep_previousExitDelay,
      decodeArmed_previousExitDelay, decodeZones_previousExitDelay,
      decodeAlarmZones_previousExitDelay, decodeAlarm_previousExitDelay,
      decodeTroubleFire_previousExitDelay, decodeKeypadAlarms_previousExitDelay,
      decodeStatus_previousExitDelay, decodeLights_zonesTriggered, decodeBlink_zonesTriggered,
      decodeBeep_zonesTriggered, decodeArmed_zonesTriggered, decodeReady_zonesTriggered,
      decodeZones_zonesTriggered, decodeAlarm_zonesTriggered, decodeTroubleFire_zonesTriggered,
      decodeKeypadAlarms_zonesTriggered, decodeStatus_zonesTriggered]
  exact hI

theorem decodeBlink_readyInputs (d : Decoder) (now : Nat) (hQ : ReadyInputs d) :
    ReadyInputs (decodeBlink d now) := by
  unfold ReadyInputs at hQ ⊢
  simp only [decodeBlink_readyLight, decodeBeep_readyLight, decodeArmed_readyLight,
      decodeReady_readyLight, decodeZones_readyLight, decodeAlarmZones_readyLight,
      decodeAlarm_readyLight, decodeTroubleFire_readyLight, decodeKeypadAlarms_readyLight,
      decodeStatus_readyLight, decodeBlink_armedLight, decodeBeep_armedLight,
      decodeArmed_armedLight, decodeReady_armedLight, decodeZones_armedLight,
      decodeAlarmZones_armedLight, decodeAlarm_armedLight, decodeTroubleFire_armedLight,
      decodeKeypadAlarms_armedLight, decodeStatus_armedLight, decodeBlink_memoryLight,
      decodeBeep_memoryLight, decodeArmed_memoryLight, decodeReady_memoryLight,
      decodeZones_memoryLight, decodeAlarmZones_memoryLight, decodeAlarm_memoryLight,
      decodeTroubleFire_memoryLight, decodeKeypadAlarms_memoryLight, decodeStatus_memoryLight,
      decodeBlink_bypassLight, decodeBeep_bypassLight, decodeArmed_bypassLight,
      decodeReady_bypassLight, decodeZones_bypassLight, decodeAlarmZones_bypassLight,
      decodeAlarm_bypassLight, decodeTroubleFire_bypassLight, decodeKeypadAlarms_bypassLight,
      decodeStatus_bypassLight, decodeBlink_troubleLight, decodeBeep_troubleLight,
      decodeArmed_troubleLight, decodeReady_troubleLight, decodeZones_troubleLight,
      decodeAlarmZones_troubleLight, decodeAlarm_troubleLight, decodeTroubleFire_troubleLight,
      decodeKeypadAlarms_troubleLight, decodeStatus_troubleLight, decodeBlink_beep,
      decodeBeep_beep, decodeArmed_beep, decodeReady_beep, decodeZones_beep, decodeAlarmZones_beep,
      decodeAlarm_beep, decodeTroubleFire_beep, decodeKeypadAlarms_beep, decodeStatus_beep,
      decodeBlink_armedBitA, decodeBeep_armedBitA, decodeArmed_armedBitA, decodeReady_armedBitA,
      decodeZones_armedBitA, decodeAlarmZones_armedBitA, decodeAlarm_armedBitA,
      decodeTroubleFire_armedBitA, decodeKeypadAlarms_armedBitA, decodeStatus_armedBitA,
      decodeBlink_alarmBit, decodeBeep_alarmBit, decodeArmed_alarmBit, decodeReady_alarmBit,
      decodeZones_alarmBit, decodeAlarmZones_alarmBit, decodeAlarm_alarmBit,
      decodeTroubleFire_alarmBit, decodeKeypadAlarms_alarmBit, decodeStatus_alarmBit]
  exact hQ

theorem decodeBeep_readyInputs (d : Decoder) (now : Nat) (hQ : ReadyInputs d) :
    ReadyInputs (decodeBeep d now) := by
  unfold ReadyInputs at hQ ⊢
  simp only [decodeBlink_readyLight, decodeBeep_readyLight, decodeArmed_readyLight,
      decodeReady_readyLight, decodeZones_readyLight, decodeAlarmZones_readyLight,
      decodeAlarm_readyLight, decodeTroubleFire_readyLight, decodeKeypadAlarms_readyLight,
      decodeStatus_readyLight, decodeBlink_armedLight, decodeBeep_armedLight,
      decodeArmed_armedLight, decodeReady_armedLight, decodeZones_armedLight,
      decodeAlarmZones_armedLight, decodeAlarm_armedLight, decodeTroubleFire_armedLight,
      decodeKeypadAlarms_armedLight, decodeStatus_armedLight, decodeBlink_memoryLight,
      decodeBeep_memoryLight, decodeArmed_memoryLight, decodeReady_memoryLight,
      decodeZones_memoryLight, decodeAlarmZones_memoryLight, decodeAlarm_memoryLight,
      decodeTroubleFire_memoryLight, decodeKeypadAlarms_memoryLight, decodeStatus_memoryLight,
      decodeBlink_bypassLight, decodeBeep_bypassLight, decodeArmed_bypassLight,
      decodeReady_bypassLight, decodeZones_bypassLight, decodeAlarmZones_bypassLight,
      decodeAlarm_bypassLight, decodeTroubleFire_bypassLight, decodeKeypadAlarms_bypassLight,
      decodeStatus_bypassLight, decodeBlink_troubleLight, decodeBeep_troubleLight,
      decodeArmed_troubleLight, decodeReady_troubleLight, decodeZones_troubleLight,
      decodeAlarmZones_troubleLight, decodeAlarm_troubleLight, decodeTroubleFire_troubleLight,
      decodeKeypadAlarms_troubleLight, decodeStatus_troubleLight, decodeBlink_beep,
      decodeBeep_beep, decodeArmed_beep, decodeReady_beep, decodeZones_beep, decodeAlarmZones_beep,
      decodeAlarm_beep, decodeTroubleFire_beep, decodeKeypadAlarms_beep, decodeStatus_beep,
      decodeBlink_armedBitA, decodeBeep_armedBitA, decodeArmed_armedBitA, decodeReady_armedBitA,
      decodeZones_armedBitA, decodeAlarmZones_armedBitA, decodeAlarm_armedBitA,
      decodeTroubleFire_armedBitA, decodeKeypadAlarms_armedBitA, decodeStatus_armedBitA,
      decodeBlink_alarmBit, decodeBeep_alarmBit, decodeArmed_alarmBit, decodeReady_alarmBit,
      decodeZones_alarmBit, decodeAlarmZones_alarmBit, decodeAlarm_alarmBit,
      decodeTroubleFire_alarmBit, decodeKeypadAlarms_alarmBit, decodeStatus_alarmBit]
  exact hQ

theorem decodeArmed_readyInputs (p : Foreground) (d : Decoder) (now : Nat) (hQ : ReadyInputs d) :
    ReadyInputs (decodeArmed p d now) := by
  unfold ReadyInputs at hQ ⊢
  simp only [decodeBlink_readyLight, decodeBeep_readyLight, decodeArmed_readyLight,
      decodeReady_readyLight, decodeZones_readyLight, decodeAlarmZones_readyLight,
      decodeAlarm_readyLight, decodeTroubleFire_readyLight, decodeKeypadAlarms_readyLight,
      decodeStatus_readyLight, decodeBlink_armedLight, decodeBeep_armedLight,
      decodeArmed_armedLight, decodeReady_armedLight, decodeZones_armedLight,
      decodeAlarmZones_armedLight, decodeAlarm_armedLight, decodeTroubleFire_armedLight,
      decodeKeypadAlarms_armedLight, decodeStatus_armedLight, decodeBlink_memoryLight,
      decodeBeep_memoryLight, decodeArmed_memoryLight, decodeReady_memoryLight,
      decodeZones_memoryLight, decodeAlarmZones_memoryLight, decodeAlarm_memoryLight,
      decodeTroubleFire_memoryLight, decodeKeypadAlarms_memoryLight, decodeStatus_memoryLight,
      decodeBlink_bypassLight, decodeBeep_bypassLight, decodeArmed_bypassLight,
      decodeReady_bypassLight, decodeZones_bypassLight, decodeAlarmZones_bypassLight,
      decodeAlarm_bypassLight, decodeTroubleFire_bypassLight, decodeKeypadAlarms_bypassLight,
      decodeStatus_bypassLight, decodeBlink_troubleLight, decodeBeep_troubleLight,
      decodeArmed_troubleLight, decodeReady_troubleLight, decodeZones_troubleLight,
      decodeAlarmZones_troubleLight, decodeAlarm_troubleLight, decodeTroubleFire_troubleLight,
      decodeKeypadAlarms_troubleLight, decodeStatus_troubleLight, decodeBlink_beep,
      decodeBeep_beep, decodeArmed_beep, decodeReady_beep, decodeZones_beep, decodeAlarmZones_beep,
      decodeAlarm_beep, decodeTroubleFire_beep, decodeKeypadAlarms_beep, decodeStatus_beep,
      decodeBlink_armedBitA, decodeBeep_armedBitA, decodeArmed_armedBitA, decodeReady_armedBitA,
      decodeZones_armedBitA, decodeAlarmZones_armedBitA, decodeAlarm_armedBitA,
      decodeTroubleFire_armedBitA, decodeKeypadAlarms_armedBitA, decodeStatus_armedBitA,
      decodeBlink_alarmBit, decodeBeep_alarmBit, decodeArmed_alarmBit, decodeReady_alarmBit,
      decodeZones_alarmBit, decodeAlarmZones_alarmBit, decodeAlarm_alarmBit,
      decodeTroubleFire_alarmBit, decodeKeypadAlarms_alarmBit, decodeStatus_alarmBit]
  exact hQ

theorem decodeReady_readyInputs (p : Foreground) (d : Decoder) (now : Nat) (hQ : ReadyInputs d) :
    ReadyInputs (decodeReady p d now) := by
  unfold ReadyInputs at hQ ⊢
  simp only [decodeBlink_readyLight, decodeBeep_readyLight, decodeArmed_readyLight,
      decodeReady_readyLight, decodeZones_readyLight, decodeAlarmZones_readyLight,
      decodeAlarm_readyLight, decodeTroubleFire_readyLight, decodeKeypadAlarms_readyLight,
      decodeStatus_readyLight, decodeBlink_armedLight, decodeBeep_armedLight,
      decodeArmed_armedLight, decodeReady_armedLight, decodeZones_armedLight,
      decodeAlarmZones_armedLight, decodeAlarm_armedLight, decodeTroubleFire_armedLight,
      decodeKeypadAlarms_armedLight, decodeStatus_armedLight, decodeBlink_memoryLight,
      decodeBeep_memoryLight, decodeArmed_memoryLight, decodeReady_memoryLight,
      decodeZones_memoryLight, decodeAlarmZones_memoryLight, decodeAlarm_memoryLight,
      decodeTroubleFire_memoryLight, decodeKeypadAlarms_memoryLight, decodeStatus_memoryLight,
      decodeBlink_bypassLight, decodeBeep_bypassLight, decodeArmed_bypassLight,
      decodeReady_bypassLight, decodeZones_bypassLight, decodeAlarmZones_bypassLight,
      decodeAlarm_bypassLight, decodeTroubleFire_bypassLight, decodeKeypadAlarms_bypassLight,
      decodeStatus_bypassLight, decodeBlink_troubleLight, decodeBeep_troubleLight,
      decodeArmed_troubleLight, decodeReady_troubleLight, decodeZones_troubleLight,
      decodeAlarmZones_troubleLight, decodeAlarm_troubleLight, decodeTroubleFire_troubleLight,
      decodeKeypadAlarms_troubleLight, decodeStatus_troubleLight, decodeBlink_beep,
      decodeBeep_beep, decodeArmed_beep, decodeReady_beep, decodeZones_beep, decodeAlarmZones_beep,
      decodeAlarm_beep, decodeTroubleFire_beep, decodeKeypadAlarms_beep, decodeStatus_beep,
      decodeBlink_armedBitA, decodeBeep_armedBitA, decodeArmed_armedBitA, decodeReady_armedBitA,
      decodeZones_armedBitA, decodeAlarmZones_armedBitA, decodeAlarm_armedBitA,
      decodeTroubleFire_armedBitA, decodeKeypadAlarms_armedBitA, decodeStatus_armedBitA,
      decodeBlink_alarmBit, decodeBeep_alarmBit, decodeArmed_alarmBit, decodeReady_alarmBit,
      decodeZones_alarmBit, decodeAlarmZones_alarmBit, decodeAlarm_alarmBit,
      decodeTroubleFire_alarmBit, decodeKeypadAlarms_alarmBit, decodeStatus_alarmBit]
  exact hQ

theorem decodeZones_readyInputs (p : Foreground) (d : Decoder) (hQ : ReadyInputs d) :
    ReadyInputs (decodeZones p d) := by
  unfold ReadyInputs at hQ ⊢
  simp only [decodeBlink_readyLight, decodeBeep_readyLight, decodeArmed_readyLight,
      decodeReady_readyLight, decodeZones_readyLight, decodeAlarmZones_readyLight,
      decodeAlarm_readyLight, decodeTroubleFire_readyLight, decodeKeypadAlarms_readyLight,
      decodeStatus_readyLight, decodeBlink_armedLight, decodeBeep_armedLight,
      decodeArmed_armedLight, decodeReady_armedLight, decodeZones_armedLight,
      decodeAlarmZones_armedLight, decodeAlarm_armedLight, decodeTroubleFire_armedLight,
      decodeKeypadAlarms_armedLight, decodeStatus_armedLight, decodeBlink_memoryLight,
      decodeBeep_memoryLight, decodeArmed_memoryLight, decodeReady_memoryLight,
      decodeZones_memoryLight, decodeAlarmZones_memoryLight, decodeAlarm_memoryLight,
      decodeTroubleFire_memoryLight, decodeKeypadAlarms_memoryLight, decodeStatus_memoryLight,
      decodeBlink_bypassLight, decodeBeep_bypassLight, decodeArmed_bypassLight,
      decodeReady_bypassLight, decodeZones_bypassLight, decodeAlarmZones_bypassLight,
      decodeAlarm_bypassLight, decodeTroubleFire_bypassLight, decodeKeypadAlarms_bypassLight,
      decodeStatus_bypassLight, decodeBlink_troubleLight, decodeBeep_troubleLight,
      decodeArmed_troubleLight, decodeReady_troubleLight, decodeZones_troubleLight,
      decodeAlarmZones_troubleLight, decodeAlarm_troubleLight, decodeTroubleFire_troubleLight,
      decodeKeypadAlarms_troubleLight, decodeStatus_troubleLight, decodeBlink_beep,
      decodeBeep_beep, decodeArmed_beep, decodeReady_beep, decodeZones_beep, decodeAlarmZones_beep,
      decodeAlarm_beep, decodeTroubleFire_beep, decodeKeypadAlarms_beep, decodeStatus_beep,
      decodeBlink_armedBitA, decodeBeep_armedBitA, decodeArmed_armedBitA, decodeReady_armedBitA,
      decodeZones_armedBitA, decodeAlarmZones_armedBitA, decodeAlarm_armedBitA,
      decodeTroubleFire_armedBitA, decodeKeypadAlarms_armedBitA, decodeStatus_armedBitA,
      decodeBlink_alarmBit, decodeBeep_alarmBit, decodeArmed_alarmBit, decodeReady_alarmBit,
      decodeZones_alarmBit, decodeAlarmZones_alarmBit, decodeAlarm_alarmBit,
      decodeTroubleFire_alarmBit, decodeKeypadAlarms_alarmBit, decodeStatus_alarmBit]
  exact hQ

theorem decodeAlarmZones_readyInputs (p : Foreground) (d : Decoder) (hQ : ReadyInputs d) :
    ReadyInputs (decodeAlarmZones p d) := by
  unfold ReadyInputs at hQ ⊢
  simp only [decodeBlink_readyLight, decodeBeep_readyLight, decodeArmed_readyLight,
      decodeReady_readyLight, decodeZones_readyLight, decodeAlarmZones_readyLight,
      decodeAlarm_readyLight, decodeTroubleFire_readyLight, decodeKeypadAlarms_readyLight,
      decodeStatus_readyLight, decodeBlink_armedLight, decodeBeep_armedLight,
      decodeArmed_armedLight, decodeReady_armedLight, decodeZones_armedLight,
      decodeAlarmZones_armedLight, decodeAlarm_armedLight, decodeTroubleFire_armedLight,
      decodeKeypadAlarms_armedLight, decodeStatus_armedLight, decodeBlink_memoryLight,
      decodeBeep_memoryLight, decodeArmed_memoryLight, decodeReady_memoryLight,
      decodeZones_memoryLight, decodeAlarmZones_memoryLight, decodeAlarm_memoryLight,
      decodeTroubleFire_memoryLight, decodeKeypadAlarms_memoryLight, decodeStatus_memoryLight,
      decodeBlink_bypassLight, decodeBeep_bypassLight, decodeArmed_bypassLight,
      decodeReady_bypassLight, decodeZones_bypassLight, decodeAlarmZones_bypassLight,
      decodeAlarm_bypassLight, decodeTroubleFire_bypassLight, decodeKeypadAlarms_bypassLight,
      decodeStatus_bypassLight, decodeBlink_troubleLight, decodeBeep_troubleLight,
      decodeArmed_troubleLight, decodeReady_troubleLight, decodeZones_troubleLight,
      decodeAlarmZones_troubleLight, decodeAlarm_troubleLight, decodeTroubleFire_troubleLight,
      decodeKeypadAlarms_troubleLight, decodeStatus_troubleLight, decodeBlink_beep,
      decodeBeep_beep, decodeArmed_beep, decodeReady_beep, decodeZones_beep, decodeAlarmZones_beep,
      decodeAlarm_beep, decodeTroubleFire_beep, decodeKeypadAlarms_beep, decodeStatus_beep,
      decodeBlink_armedBitA, decodeBeep_armedBitA, decodeArmed_armedBitA, decodeReady_armedBitA,
      decodeZones_armedBitA, decodeAlarmZones_armedBitA, decodeAlarm_armedBitA,
      decodeTroubleFire_armedBitA, decodeKeypadAlarms_armedBitA, decodeStatus_armedBitA,
      decodeBlink_alarmBit, decodeBeep_alarmBit, decodeArmed_alarmBit, decodeReady_alarmBit,
      decodeZones_alarmBit, decodeAlarmZones_alarmBit, decodeAlarm_alarmBit,
      decodeTroubleFire_alarmBit, decodeKeypadAlarms_alarmBit, decodeStatus_alarmBit]
  exact hQ

theorem decodeAlarm_readyInputs (p : Foreground) (d : Decoder) (hQ : ReadyInputs d) :
    ReadyInputs (decodeAlarm p d) := by
  unfold ReadyInputs at hQ ⊢
  simp only [decodeBlink_readyLight, decodeBeep_readyLight, decodeArmed_readyLight,
      decodeReady_readyLight, decodeZones_readyLight, decodeAlarmZones_readyLight,
      decodeAlarm_readyLight, decodeTroubleFire_readyLight, decodeKeypadAlarms_readyLight,
      decodeStatus_readyLight, decodeBlink_armedLight, decodeBeep_armedLight,
      decodeArmed_armedLight, decodeReady_armedLight, decodeZones_armedLight,
      decodeAlarmZones_armedLight, decodeAlarm_armedLight, decodeTroubleFire_armedLight,
      decodeKeypadAlarms_armedLight, decodeStatus_armedLight, decodeBlink_memoryLight,
      decodeBeep_memoryLight, decodeArmed_memoryLight, decodeReady_memoryLight,
      decodeZones_memoryLight, decodeAlarmZones_memoryLight, decodeAlarm_memoryLight,
      decodeTroubleFire_memoryLight, decodeKeypadAlarms_memoryLight, decodeStatus_memoryLight,
      decodeBlink_bypassLight, decodeBeep_bypassLight, decodeArmed_bypassLight,
      decodeReady_bypassLight, decodeZones_bypassLight, decodeAlarmZones_bypassLight,
      decodeAlarm_bypassLight, decodeTroubleFire_bypassLight, decodeKeypadAlarms_bypassLight,
      decodeStatus_bypassLight, decodeBlink_troubleLight, decodeBeep_troubleLight,
      decodeArmed_troubleLight, decodeReady_troubleLight, decodeZones_troubleLight,
      decodeAlarmZones_troubleLight, decodeAlarm_troubleLight, decodeTroubleFire_troubleLight,
      decodeKeypadAlarms_troubleLight, decodeStatus_troubleLight, decodeBlink_beep,
      decodeBeep_beep, decodeArmed_beep, decodeReady_beep, decodeZones_beep, decodeAlarmZones_beep,
      decodeAlarm_beep, decodeTroubleFire_beep, decodeKeypadAlarms_beep, decodeStatus_beep,
      decodeBlink_armedBitA, decodeBeep_armedBitA, decodeArmed_armedBitA, decodeReady_armedBitA,
      decodeZones_armedBitA, decodeAlarmZones_armedBitA, decodeAlarm_armedBitA,
      decodeTroubleFire_armedBitA, decodeKeypadAlarms_armedBitA, decodeStatus_armedBitA,
      decodeBlink_alarmBit, decodeBeep_alarmBit, decodeArmed_alarmBit, decodeReady_alarmBit,
      decodeZones_alarmBit, decodeAlarmZones_alarmBit, decodeAlarm_alarmBit,
      decodeTroubleFire_alarmBit, decodeKeypadAlarms_alarmBit, decodeStatus_alarmBit]
  exact hQ

theorem decodeTroubleFire_readyInputs (p : Foreground) (d : Decoder) (hQ : ReadyInputs d) :
    ReadyInputs (decodeTroubleFire p d) := by
  unfold ReadyInputs at hQ ⊢
  simp only [decodeBlink_readyLight, decodeBeep_readyLight, decodeArmed_readyLight,
      decodeReady_readyLight, decodeZones_readyLight, decodeAlarmZones_readyLight,
      decodeAlarm_readyLight, decodeTroubleFire_readyLight, decodeKeypadAlarms_readyLight,
      decodeStatus_readyLight, decodeBlink_armedLight, decodeBeep_armedLight,
      decodeArmed_armedLight, decodeReady_armedLight, decodeZones_armedLight,
      decodeAlarmZones_armedLight, decodeAlarm_armedLight, decodeTroubleFire_armedLight,
      decodeKeypadAlarms_armedLight, decodeStatus_armedLight, decodeBlink_memoryLight,
      decodeBeep_memoryLight, decodeArmed_memoryLight, decodeReady_memoryLight,
      decodeZones_memoryLight, decodeAlarmZones_memoryLight, decodeAlarm_memoryLight,
      decodeTroubleFire_memoryLight, decodeKeypadAlarms_memoryLight, decodeStatus_memoryLight,
      decodeBlink_bypassLight, decodeBeep_bypassLight, decodeArmed_bypassLight,
      decodeReady_bypassLight, decodeZones_bypassLight, decodeAlarmZones_bypassLight,
      decodeAlarm_bypassLight, decodeTroubleFire_bypassLight, decodeKeypadAlarms_bypassLight,
      decodeStatus_bypassLight, decodeBlink_troubleLight, decodeBeep_troubleLight,
      decodeArmed_troubleLight, decodeReady_troubleLight, decodeZones_troubleLight,
      decodeAlarmZones_troubleLight, decodeAlarm_troubleLight, decodeTroubleFire_troubleLight,
      decodeKeypadAlarms_troubleLight, decodeStatus_troubleLight, decodeBlink_beep,
      decodeBeep_beep, decodeArmed_beep, decodeReady_beep, decodeZones_beep, decodeAlarmZones_beep,
      decodeAlarm_beep, decodeTroubleFire_beep, decodeKeypadAlarms_beep, decodeStatus_beep,
      decodeBlink_armedBitA, decodeBeep_armedBitA, decodeArmed_armedBitA, decodeReady_armedBitA,
      decodeZones_armedBitA, decodeAlarmZones_armedBitA, decodeAlarm_armedBitA,
      decodeTroubleFire_armedBitA, decodeKeypadAlarms_armedBitA, decodeStatus_armedBitA,
      decodeBlink_alarmBit, decodeBeep_alarmBit, decodeArmed_alarmBit, decodeReady_alarmBit,
      decodeZones_alarmBit, decodeAlarmZones_alarmBit, decodeAlarm_alarmBit,
      decodeTroubleFire_alarmBit, decodeKeypadAlarms_alarmBit, decodeStatus_alarmBit]
  exact hQ

theorem decodeKeypadAlarms_readyInputs (p : Foreground) (d : Decoder) (now : Nat) (hQ : ReadyInputs d) :
    ReadyInputs (decodeKeypadAlarms p d now) := by
  unfold ReadyInputs at hQ ⊢
  simp only [decodeBlink_readyLight, decodeBeep_readyLight, decodeArmed_readyLight,
      decodeReady_readyLight, decodeZones_readyLight, decodeAlarmZones_readyLight,
      decodeAlarm_readyLight, decodeTroubleFire_readyLight, decodeKeypadAlarms_readyLight,
      decodeStatus_readyLight, decodeBlink_armedLight, decodeBeep_armedLight,
      decodeArmed_armedLight, decodeReady_armedLight, decodeZones_armedLight,
      decodeAlarmZones_armedLight, decodeAlarm_armedLight, decodeTroubleFire_armedLight,
      decodeKeypadAlarms_armedLight, decodeStatus_armedLight, decodeBlink_memoryLight,
      decodeBeep_memoryLight, decodeArmed_memoryLight, decodeReady_memoryLight,
      decodeZones_memoryLight, decodeAlarmZones_memoryLight, decodeAlarm_memoryLight,
      decodeTroubleFire_memoryLight, decodeKeypadAlarms_memoryLight, decodeStatus_memoryLight,
      decodeBlink_bypassLight, decodeBeep_bypassLight, decodeArmed_bypassLight,
      decodeReady_bypassLight, decodeZones_bypassLight, decodeAlarmZones_bypassLight,
      decodeAlarm_bypassLight, decodeTroubleFire_bypassLight, decodeKeypadAlarms_bypassLight,
      decodeStatus_bypassLight, decodeBlink_troubleLight, decodeBeep_troubleLight,
      decodeArmed_troubleLight, decodeReady_troubleLight, decodeZones_troubleLight,
      decodeAlarmZones_troubleLight, decodeAlarm_troubleLight, decodeTroubleFire_troubleLight,
      decodeKeypadAlarms_troubleLight, decodeStatus_troubleLight, decodeBlink_beep,
      decodeBeep_beep, decodeArmed_beep, decodeReady_beep, decodeZones_beep, decodeAlarmZones_beep,
      decodeAlarm_beep, decodeTroubleFire_beep, decodeKeypadAlarms_beep, decodeStatus_beep,
      decodeBlink_armedBitA, decodeBeep_armedBitA, decodeArmed_armedBitA, decodeReady_armedBitA,
      decodeZones_armedBitA, decodeAlarmZones_armedBitA, decodeAlarm_armedBitA,
      decodeTroubleFire_armedBitA, decodeKeypadAlarms_armedBitA, decodeStatus_armedBitA,
      decodeBlink_alarmBit, decodeBeep_alarmBit, decodeArmed_alarmBit, decodeReady_alarmBit,
      decodeZones_alarmBit, decodeAlarmZones_alarmBit, decodeAlarm_alarmBit,
      decodeTroubleFire_alarmBit, decodeKeypadAlarms_alarmBit, decodeStatus_alarmBit]
  exact hQ

theorem decodeStatus_readyInputs (p : Foreground) (d : Decoder) (hQ : ReadyInputs d) :
    ReadyInputs (decodeStatus p d) := by
  unfold ReadyInputs at hQ ⊢
  simp only [decodeBlink_readyLight, decodeBeep_readyLight, decodeArmed_readyLight,
      decodeReady_readyLight, decodeZones_readyLight, decodeAlarmZones_readyLight,
      decodeAlarm_readyLight, decodeTroubleFire_readyLight, decodeKeypadAlarms_readyLight,
      decodeStatus_readyLight, decodeBlink_armedLight, decodeBeep_armedLight,
      decodeArmed_armedLight, decodeReady_armedLight, decodeZones_armedLight,
      decodeAlarmZones_armedLight, decodeAlarm_armedLight, decodeTroubleFire_armedLight,
      decodeKeypadAlarms_armedLight, decodeStatus_armedLight, decodeBlink_memoryLight,
      decodeBeep_memoryLight, decodeArmed_memoryLight, decodeReady_memoryLight,
      decodeZones_memoryLight, decodeAlarmZones_memoryLight, decodeAlarm_memoryLight,
      decodeTroubleFire_memoryLight, decodeKeypadAlarms_memoryLight, decodeStatus_memoryLight,
      decodeBlink_bypassLight, decodeBeep_bypassLight, decodeArmed_bypassLight,
      decodeReady_bypassLight, decodeZones_bypassLight, decodeAlarmZones_bypassLight,
      decodeAlarm_bypassLight, decodeTroubleFire_bypassLight, decodeKeypadAlarms_bypassLight,
      decodeStatus_bypassLight, decodeBlink_troubleLight, decodeBeep_troubleLight,
      decodeArmed_troubleLight, decodeReady_troubleLight, decodeZones_troubleLight,
      decodeAlarmZones_troubleLight, decodeAlarm_troubleLight, decodeTroubleFire_troubleLight,
      decodeKeypadAlarms_troubleLight, decodeStatus_troubleLight, decodeBlink_beep,
      decodeBeep_beep, decodeArmed_beep, decodeReady_beep, decodeZones_beep, decodeAlarmZones_beep,
      decodeAlarm_beep, decodeTroubleFire_beep, decodeKeypadAlarms_beep, decodeStatus_beep,
      decodeBlink_armedBitA, decodeBeep_armedBitA, decodeArmed_armedBitA, decodeReady_armedBitA,
      decodeZones_armedBitA, decodeAlarmZones_armedBitA, decodeAlarm_armedBitA,
      decodeTroubleFire_armedBitA, decodeKeypadAlarms_armedBitA, decodeStatus_armedBitA,
      decodeBlink_alarmBit, decodeBeep_alarmBit, decodeArmed_alarmBit, decodeReady_alarmBit,
      decodeZones_alarmBit, decodeAlarmZones_alarmBit, decodeAlarm_alarmBit,
      decodeTroubleFire_alarmBit, decodeKeypadAlarms_alarmBit, decodeStatus_alarmBit]
  exact hQ

theorem decodeZones_idle (p : Foreground) (d : Decoder) (hI : Idle d) :
    Idle (decodeZones p d) := by
  unfold Idle at hI ⊢
  simp only [decodeLights_memoryBlink, decodeBeep_memoryBlink, decodeArmed_memoryBlink,
      decodeReady_memoryBlink, decodeZones_memoryBlink, decodeAlarmZones_memoryBlink,
      decodeAlarm_memoryBlink, decodeTroubleFire_memoryBlink, decodeKeypadAlarms_memoryBlink,
      decodeStatus_memoryBlink, decodeLights_bypassBlink, decodeBeep_bypassBlink,
      decodeArmed_bypassBlink, decodeReady_bypassBlink, decodeZones_bypassBlink,
      decodeAlarmZones_bypassBlink, decodeAlarm_bypassBlink, decodeTroubleFire_bypassBlink,
      decodeKeypadAlarms_bypassBlink, decodeStatus_bypassBlink, decodeLights_troubleBlink,
      decodeBeep_troubleBlink, decodeArmed_troubleBlink, decodeReady_troubleBlink,
      decodeZones_troubleBlink, decodeAlarmZones_troubleBlink, decodeAlarm_troubleBlink,
      decodeTroubleFire_troubleBlink, decodeKeypadAlarms_troubleBlink, decodeStatus_troubleBlink,
      decodeLights_beepOn, decodeBlink_beepOn, decodeArmed_beepOn, decodeReady_beepOn,
      decodeZones_beepOn, decodeAlarmZones_beepOn, decodeAlarm_beepOn, decodeTroubleFire_beepOn,
      decodeKeypadAlarms_beepOn, decodeStatus_beepOn, decodeLights_readyChanged,
      decodeBlink_readyChanged, decodeZones_readyChanged, decodeAlarmZones_readyChanged,
      decodeTroubleFire_readyChanged, decodeKeypadAlarms_readyChanged, decodeStatus_readyChanged,
      decodeLights_previousReady, decodeBlink_previousReady, decodeBeep_previousReady,
      decodeZones_previousReady, decodeAlarmZones_previousReady, decodeTroubleFire_previousReady,
      decodeKeypadAlarms_previousReady, decodeStatus_previousReady, decodeLights_armedChanged,
      decodeBlink_armedChanged, decodeBeep_armedChanged, decodeZones_armedChanged,
      decodeAlarmZones_armedChanged, decodeAlarm_armedChanged, decodeTroubleFire_armedChanged,
      decodeKeypadAlarms_armedChanged, decodeStatus_armedChanged, decodeLights_previousArmed,
      decodeBlink_previousArmed, decodeBeep_previousArmed, decodeZones_previousArmed,
      decodeAlarmZones_previousArmed, decodeAlarm_previousArmed, decodeTroubleFire_previousArmed,
      decodeKeypadAlarms_previousArmed, decodeStatus_previousArmed, decodeLights_previousArmedStay,
      decodeBlink_previousArmedStay, decodeBeep_previousArmedStay, decodeReady_previousArmedStay,
      decodeZones_previousArmedStay, decodeAlarmZones_previousArmedStay,
      decodeAlarm_previousArmedStay, decodeTroubleFire_previousArmedStay,
      decodeKeypadAlarms_previousArmedStay, decodeStatus_previousArmedStay,
      decodeLights_previousArmedAway, decodeBlink_previousArmedAway, decodeBeep_previousArmedAway,
      decodeReady_previousArmedAway, decodeZones_previousArmedAway,
      decodeAlarmZones_previousArmedAway, decodeAlarm_previousArmedAway,
      decodeTroubleFire_previousArmedAway, decodeKeypadAlarms_previousArmedAway,
      decodeStatus_previousArmedAway, decodeLights_alarmChanged, decodeBlink_alarmChanged,
      decodeBeep_alarmChanged, decodeZones_alarmChanged, decodeAlarmZones_alarmChanged,
      decodeTroubleFire_alarmChanged, decodeKeypadAlarms_alarmChanged, decodeStatus_alarmChanged,
      decodeLights_previousAlarm, decodeBlink_previousAlarm, decodeBeep_previousAlarm,
      decodeZones_previousAlarm, decodeAlarmZones_previousAlarm, decodeTroubleFire_previousAlarm,
      decodeKeypadAlarms_previousAlarm, decodeStatus_previousAlarm, decodeLights_exitDelayChanged,
      decodeBlink_exitDelayChanged, decodeBeep_exitDelayChanged, decodeArmed_exitDelayChanged,
      decodeZones_exitDelayChanged, decodeAlarmZones_exitDelayChanged,
      decodeAlarm_exitDelayChanged, decodeTroubleFire_exitDelayChanged,
      decodeKeypadAlarms_exitDelayChanged, decodeStatus_exitDelayChanged,
      decodeLights_previousExitDelay, decodeBlink_previousExitDelay, decodeBeep_previousExitDelay,
      decodeArmed_previousExitDelay, decodeZones_previousExitDelay,
      decodeAlarmZones_previousExitDelay, decodeAlarm_previousExitDelay,
      decodeTroubleFire_previousExitDelay, decodeKeypadAlarms_previousExitDelay,
      decodeStatus_previousExitDelay, decodeLights_zonesTriggered, decodeBlink_zonesTriggered,
      decodeBeep_zonesTriggered, decodeArmed_zonesTriggered, decodeReady_zonesTriggered,
      decodeZones_zonesTriggered, decodeAlarm_zonesTriggered, decodeTroubleFire_zonesTriggered,
      decodeKeypadAlarms_zonesTriggered, decodeStatus_zonesTriggered]
  exact hI

theorem decodeTroubleFire_idle (p : Foreground) (d : Decoder) (hI : Idle d) :
    Idle (decodeTroubleFire p d) := by
  unfold Idle at hI ⊢
  simp only [decodeLights_memoryBlink, decodeBeep_memoryBlink, decodeArmed_memoryBlink,
      decodeReady_memoryBlink, decodeZones_memoryBlink, decodeAlarmZones_memoryBlink,
      decodeAlarm_memoryBlink, decodeTroubleFire_memoryBlink, decodeKeypadAlarms_memoryBlink,
      decodeStatus_memoryBlink, decodeLights_bypassBlink, decodeBeep_bypassBlink,
      decodeArmed_bypassBlink, decodeReady_bypassBlink, decodeZones_bypassBlink,
      decodeAlarmZones_bypassBlink, decodeAlarm_bypassBlink, decodeTroubleFire_bypassBlink,
      decodeKeypadAlarms_bypassBlink, decodeStatus_bypassBlink, decodeLights_troubleBlink,
      decodeBeep_troubleBlink, decodeArmed_troubleBlink, decodeReady_troubleBlink,
      decodeZones_troubleBlink, decodeAlarmZones_troubleBlink, decodeAlarm_troubleBlink,
      decodeTroubleFire_troubleBlink, decodeKeypadAlarms_troubleBlink, decodeStatus_troubleBlink,
      decodeLights_beepOn, decodeBlink_beepOn, decodeArmed_beepOn, decodeReady_beepOn,
      decodeZones_beepOn, decodeAlarmZones_beepOn, decodeAlarm_beepOn, decodeTroubleFire_beepOn,
      decodeKeypadAlarms_beepOn, decodeStatus_beepOn, decodeLights_readyChanged,
      decodeBlink_readyChanged, decodeZones_readyChanged, decodeAlarmZones_readyChanged,
      decodeTroubleFire_readyChanged, decodeKeypadAlarms_readyChanged, decodeStatus_readyChanged,
      decodeLights_previousReady, decodeBlink_previousReady, decodeBeep_previousReady,
      decodeZones_previousReady, decodeAlarmZones_previousReady, decodeTroubleFire_previousReady,
      decodeKeypadAlarms_previousReady, decodeStatus_previousReady, decodeLights_armedChanged,
      decodeBlink_armedChanged, decodeBeep_armedChanged, decodeZones_armedChanged,
      decodeAlarmZones_armedChanged, decodeAlarm_armedChanged, decodeTroubleFire_armedChanged,
      decodeKeypadAlarms_armedChanged, decodeStatus_armedChanged, decodeLights_previousArmed,
      decodeBlink_previousArmed, decodeBeep_previousArmed, decodeZones_previousArmed,
      decodeAlarmZones_previousArmed, decodeAlarm_previousArmed, decodeTroubleFire_previousArmed,
      decodeKeypadAlarms_previousArmed, decodeStatus_previousArmed, decodeLights_previousArmedStay,
      decodeBlink_previousArmedStay, decodeBeep_previousArmedStay, decodeReady_previousArmedStay,
      decodeZones_previousArmedStay, decodeAlarmZones_previousArmedStay,
      decodeAlarm_previousArmedStay, decodeTroubleFire_previousArmedStay,
      decodeKeypadAlarms_previousArmedStay, decodeStatus_previousArmedStay,
      decodeLights_previousArmedAway, decodeBlink_previousArmedAway, decodeBeep_previousArmedAway,
      decodeReady_previousArmedAway, decodeZones_previousArmedAway,
      decodeAlarmZones_previousArmedAway, decodeAlarm_previousArmedAway,
      decodeTroubleFire_previousArmedAway, decodeKeypadAlarms_previousArmedAway,
      decodeStatus_previousArmedAway, decodeLights_alarmChanged, decodeBlink_alarmChanged,
      decodeBeep_alarmChanged, decodeZones_alarmChanged, decodeAlarmZones_alarmChanged,
      decodeTroubleFire_alarmChanged, decodeKeypadAlarms_alarmChanged, decodeStatus_alarmChanged,
      decodeLights_previousAlarm, decodeBlink_previousAlarm, decodeBeep_previousAlarm,
      decodeZones_previousAlarm, decodeAlarmZones_previousAlarm, decodeTroubleFire_previousAlarm,
      decodeKeypadAlarms_previousAlarm, decodeStatus_previousAlarm, decodeLights_exitDelayChanged,
      decodeBlink_exitDelayChanged, decodeBeep_exitDelayChanged, decodeArmed_exitDelayChanged,
      decodeZones_exitDelayChanged, decodeAlarmZones_exitDelayChanged,
      decodeAlarm_exitDelayChanged, decodeTroubleFire_exitDelayChanged,
      decodeKeypadAlarms_exitDelayChanged, decodeStatus_exitDelayChanged,
      decodeLights_previousExitDelay, decodeBlink_previousExitDelay, decodeBeep_previousExitDelay,
      decodeArmed_previousExitDelay, decodeZones_previousExitDelay,
      decodeAlarmZones_previousExitDelay, decodeAlarm_previousExitDelay,
      decodeTroubleFire_previousExitDelay, decodeKeypadAlarms_previousExitDelay,
      decodeStatus_previousExitDelay, decodeLights_zonesTriggered, decodeBlink_zonesTriggered,
      decodeBeep_zonesTriggered, decodeArmed_zonesTriggered, decodeReady_zonesTriggered,
      decodeZones_zonesTriggered, decodeAlarm_zonesTriggered, decodeTroubleFire_zonesTriggered,
      decodeKeypadAlarms_zonesTriggered, decodeStatus_zonesTriggered]
  exact hI

theorem decodeKeypadAlarms_idle (p : Foreground) (d : Decoder) (now : Nat) (hI : Idle d) :
    Idle (decodeKeypadAlarms p d now) := by
  unfold Idle at hI ⊢
  simp only [decodeLights_memoryBlink, decodeBeep_memoryBlink, decodeArmed_memoryBlink,
      decodeReady_memoryBlink, decodeZones_memoryBlink, decodeAlarmZones_memoryBlink,
      decodeAlarm_memoryBlink, decodeTroubleFire_memoryBlink, decodeKeypadAlarms_memoryBlink,
      decodeStatus_memoryBlink, decodeLights_bypassBlink, decodeBeep_bypassBlink,
      decodeArmed_bypassBlink, decodeReady_bypassBlink, decodeZones_bypassBlink,
      decodeAlarmZones_bypassBlink, decodeAlarm_bypassBlink, decodeTroubleFire_bypassBlink,
      decodeKeypadAlarms_bypassBlink, decodeStatus_bypassBlink, decodeLights_troubleBlink,
      decodeBeep_troubleBlink, decodeArmed_troubleBlink, decodeReady_troubleBlink,
      decodeZones_troubleBlink, decodeAlarmZones_troubleBlink, decodeAlarm_troubleBlink,
      decodeTroubleFire_troubleBlink, decodeKeypadAlarms_troubleBlink, decodeStatus_troubleBlink,
      decodeLights_beepOn, decodeBlink_beepOn, decodeArmed_beepOn, decodeReady_beepOn,
      decodeZones_beepOn, decodeAlarmZones_beepOn, decodeAlarm_beepOn, decodeTroubleFire_beepOn,
      decodeKeypadAlarms_beepOn, decodeStatus_beepOn, decodeLights_readyChanged,
      decodeBlink_readyChanged, decodeZones_readyChanged, decodeAlarmZones_readyChanged,
      decodeTroubleFire_readyChanged, decodeKeypadAlarms_readyChanged, decodeStatus_readyChanged,
      decodeLights_previousReady, decodeBlink_previousReady, decodeBeep_previousReady,
      decodeZones_previousReady, decodeAlarmZones_previousReady, decodeTroubleFire_previousReady,
      decodeKeypadAlarms_previousReady, decodeStatus_previousReady, decodeLights_armedChanged,
      decodeBlink_armedChanged, decodeBeep_armedChanged, decodeZones_armedChanged,
      decodeAlarmZones_armedChanged, decodeAlarm_armedChanged, decodeTroubleFire_armedChanged,
      decodeKeypadAlarms_armedChanged, decodeStatus_armedChanged, decodeLights_previousArmed,
      decodeBlink_previousArmed, decodeBeep_previousArmed, decodeZones_previousArmed,
      decodeAlarmZones_previousArmed, decodeAlarm_previousArmed, decodeTroubleFire_previousArmed,
      decodeKeypadAlarms_previousArmed, decodeStatus_previousArmed, decodeLights_previousArmedStay,
      decodeBlink_previousArmedStay, decodeBeep_previousArmedStay, decodeReady_previousArmedStay,
      decodeZones_previousArmedStay, decodeAlarmZones_previousArmedStay,
      decodeAlarm_previousArmedStay, decodeTroubleFire_previousArmedStay,
      decodeKeypadAlarms_previousArmedStay, decodeStatus_previousArmedStay,
      decodeLights_previousArmedAway, decodeBlink_previousArmedAway, decodeBeep_previousArmedAway,
      decodeReady_previousArmedAway, decodeZones_previousArmedAway,
      decodeAlarmZones_previousArmedAway, decodeAlarm_previousArmedAway,
      decodeTroubleFire_previousArmedAway, decodeKeypadAlarms_previousArmedAway,
      decodeStatus_previousArmedAway, decodeLights_alarmChanged, decodeBlink_alarmChanged,
      decodeBeep_alarmChanged, decodeZones_alarmChanged, decodeAlarmZones_alarmChanged,
      decodeTroubleFire_alarmChanged, decodeKeypadAlarms_alarmChanged, decodeStatus_alarmChanged,
      decodeLights_previousAlarm, decodeBlink_previousAlarm, decodeBeep_previousAlarm,
      decodeZones_previousAlarm, decodeAlarmZones_previousAlarm, decodeTroubleFire_previousAlarm,
      decodeKeypadAlarms_previousAlarm, decodeStatus_previousAlarm, decodeLights_exitDelayChanged,
      decodeBlink_exitDelayChanged, decodeBeep_exitDelayChanged, decodeArmed_exitDelayChanged,
      decodeZones_exitDelayChanged, decodeAlarmZones_exitDelayChanged,
      decodeAlarm_exitDelayChanged, decodeTroubleFire_exitDelayChanged,
      decodeKeypadAlarms_exitDelayChanged, decodeStatus_exitDelayChanged,
      decodeLights_previousExitDelay, decodeBlink_previousExitDelay, decodeBeep_previousExitDelay,
      decodeArmed_previousExitDelay, decodeZones_previousExitDelay,
      decodeAlarmZones_previousExitDelay, decodeAlarm_previousExitDelay,
      decodeTroubleFire_previousExitDelay, decodeKeypadAlarms_previousExitDelay,
      decodeStatus_previousExitDelay, decodeLights_zonesTriggered, decodeBlink_zonesTriggered,
      decodeBeep_zonesTriggered, decodeArmed_zonesTriggered, decodeReady_zonesTriggered,
      decodeZones_zonesTriggered, decodeAlarm_zonesTriggered, decodeTroubleFire_zonesTriggered,
      decodeKeypadAlarms_zonesTriggered, decodeStatus_zonesTriggered]
  exact hI

theorem decodeStatus_idle (p : Foreground) (d : Decoder) (hI : Idle d) :
    Idle (decodeStatus p d) := by
  unfold Idle at hI ⊢
  simp only [decodeLights_memoryBlink, decodeBeep_memoryBlink, decodeArmed_memoryBlink,
      decodeReady_memoryBlink, decodeZones_memoryBlink, decodeAlarmZones_memoryBlink,
      decodeAlarm_memoryBlink, decodeTroubleFire_memoryBlink, decodeKeypadAlarms_memoryBlink,
      decodeStatus_memoryBlink, decodeLights_bypassBlink, decodeBeep_bypassBlink,
      decodeArmed_bypassBlink, decodeReady_bypassBlink, decodeZones_bypassBlink,
      decodeAlarmZones_bypassBlink, decodeAlarm_bypassBlink, decodeTroubleFire_bypassBlink,
      decodeKeypadAlarms_bypassBlink, decodeStatus_bypassBlink, decodeLights_troubleBlink,
      decodeBeep_troubleBlink, decodeArmed_troubleBlink, decodeReady_troubleBlink,
      decodeZones_troubleBlink, decodeAlarmZones_troubleBlink, decodeAlarm_troubleBlink,
      decodeTroubleFire_troubleBlink, decodeKeypadAlarms_troubleBlink, decodeStatus_troubleBlink,
      decodeLights_beepOn, decodeBlink_beepOn, decodeArmed_beepOn, decodeReady_beepOn,
      decodeZones_beepOn, decodeAlarmZones_beepOn, decodeAlarm_beepOn, decodeTroubleFire_beepOn,
      decodeKeypadAlarms_beepOn, decodeStatus_beepOn, decodeLights_readyChanged,
      decodeBlink_readyChanged, decodeZones_readyChanged, decodeAlarmZones_readyChanged,
      decodeTroubleFire_readyChanged, decodeKeypadAlarms_readyChanged, decodeStatus_readyChanged,
      decodeLights_previousReady, decodeBlink_previousReady, decodeBeep_previousReady,
      decodeZones_previousReady, decodeAlarmZones_previousReady, decodeTroubleFire_previousReady,
      decodeKeypadAlarms_previousReady, decodeStatus_previousReady, decodeLights_armedChanged,
      decodeBlink_armedChanged, decodeBeep_armedChanged, decodeZones_armedChanged,
      decodeAlarmZones_armedChanged, decodeAlarm_armedChanged, decodeTroubleFire_armedChanged,
      decodeKeypadAlarms_armedChanged, decodeStatus_armedChanged, decodeLights_previousArmed,
      decodeBlink_previousArmed, decodeBeep_previousArmed, decodeZones_previousArmed,
      decodeAlarmZones_previousArmed, decodeAlarm_previousArmed, decodeTroubleFire_previousArmed,
      decodeKeypadAlarms_previousArmed, decodeStatus_previousArmed, decodeLights_previousArmedStay,
      decodeBlink_previousArmedStay, decodeBeep_previousArmedStay, decodeReady_previousArmedStay,
      decodeZones_previousArmedStay, decodeAlarmZones_previousArmedStay,
      decodeAlarm_previousArmedStay, decodeTroubleFire_previousArmedStay,
      decodeKeypadAlarms_previousArmedStay, decodeStatus_previousArmedStay,
      decodeLights_previousArmedAway, decodeBlink_previousArmedAway, decodeBeep_previousArmedAway,
      decodeReady_previousArmedAway, decodeZones_previousArmedAway,
      decodeAlarmZones_previousArmedAway, decodeAlarm_previousArmedAway,
      decodeTroubleFire_previousArmedAway, decodeKeypadAlarms_previousArmedAway,
      decodeStatus_previousArmedAway, decodeLights_alarmChanged, decodeBlink_alarmChanged,
      decodeBeep_alarmChanged, decodeZones_alarmChanged, decodeAlarmZones_alarmChanged,
      decodeTroubleFire_alarmChanged, decodeKeypadAlarms_alarmChanged, decodeStatus_alarmChanged,
      decodeLights_previousAlarm, decodeBlink_previousAlarm, decodeBeep_previousAlarm,
      decodeZones_previousAlarm, decodeAlarmZones_previousAlarm, decodeTroubleFire_previousAlarm,
      decodeKeypadAlarms_previousAlarm, decodeStatus_previousAlarm, decodeLights_exitDelayChanged,
      decodeBlink_exitDelayChanged, decodeBeep_exitDelayChanged, decodeArmed_exitDelayChanged,
      decodeZones_exitDelayChanged, decodeAlarmZones_exitDelayChanged,
      decodeAlarm_exitDelayChanged, decodeTroubleFire_exitDelayChanged,
      decodeKeypadAlarms_exitDelayChanged, decodeStatus_exitDelayChanged,
      decodeLights_previousExitDelay, decodeBlink_previousExitDelay, decodeBeep_previousExitDelay,
      decodeArmed_previousExitDelay, decodeZones_previousExitDelay,
      decodeAlarmZones_previousExitDelay, decodeAlarm_previousExitDelay,
      decodeTroubleFire_previousExitDelay, decodeKeypadAlarms_previousExitDelay,
      decodeStatus_previousExitDelay, decodeLights_zonesTriggered, decodeBlink_zonesTriggered,
      decodeBeep_zonesTriggered, decodeArmed_zonesTriggered, decodeReady_zonesTriggered,
      decodeZones_zonesTriggered, decodeAlarm_zonesTriggered, decodeTroubleFire_zonesTriggered,
      decodeKeypadAlarms_zonesTriggered, decodeStatus_zonesTriggered]
  exact hI

theorem decodeBlink_idle (d : Decoder) (now : Nat) (hI : Idle d) (hQ : ReadyInputs d) :
    Idle (decodeBlink d now) := by
  unfold Idle at hI ⊢
  unfold ReadyInputs at hQ
  obtain ⟨a1, a2, a3, a4, a5, a6, a7, a8, a9, a10, a11, a12, a13, a14⟩ := hI
  obtain ⟨q1, q2, q3, q4, q5, q6, q7, q8⟩ := hQ
  simp only [decodeLights_memoryBlink, decodeBeep_memoryBlink, decodeArmed_memoryBlink,
      decodeReady_memoryBlink, decodeZones_memoryBlink, decodeAlarmZones_memoryBlink,
      decodeAlarm_memoryBlink, decodeTroubleFire_memoryBlink, decodeKeypadAlarms_memoryBlink,
      decodeStatus_memoryBlink, decodeLights_bypassBlink, decodeBeep_bypassBlink,
      decodeArmed_bypassBlink, decodeReady_bypassBlink, decodeZones_bypassBlink,
      decodeAlarmZones_bypassBlink, decodeAlarm_bypassBlink, decodeTroubleFire_bypassBlink,
      decodeKeypadAlarms_bypassBlink, decodeStatus_bypassBlink, decodeLights_troubleBlink,
      decodeBeep_troubleBlink, decodeArmed_troubleBlink, decodeReady_troubleBlink,
      decodeZones_troubleBlink, decodeAlarmZones_troubleBlink, decodeAlarm_troubleBlink,
      decodeTroubleFire_troubleBlink, decodeKeypadAlarms_troubleBlink, decodeStatus_troubleBlink,
      decodeLights_beepOn, decodeBlink_beepOn, decodeArmed_beepOn, decodeReady_beepOn,
      decodeZones_beepOn, decodeAlarmZones_beepOn, decodeAlarm_beepOn, decodeTroubleFire_beepOn,
      decodeKeypadAlarms_beepOn, decodeStatus_beepOn, decodeLights_readyChanged,
      decodeBlink_readyChanged, decodeZones_readyChanged, decodeAlarmZones_readyChanged,
      decodeTroubleFire_readyChanged, decodeKeypadAlarms_readyChanged, decodeStatus_readyChanged,
      decodeLights_previousReady, decodeBlink_previousReady, decodeBeep_previousReady,
      decodeZones_previousReady, decodeAlarmZones_previousReady, decodeTroubleFire_previousReady,
      decodeKeypadAlarms_previousReady, decodeStatus_previousReady, decodeLights_armedChanged,
      decodeBlink_armedChanged, decodeBeep_armedChanged, decodeZones_armedChanged,
      decodeAlarmZones_armedChanged, decodeAlarm_armedChanged, decodeTroubleFire_armedChanged,
      decodeKeypadAlarms_armedChanged, decodeStatus_armedChanged, decodeLights_previousArmed,
      decodeBlink_previousArmed, decodeBeep_previousArmed, decodeZones_previousArmed,
      decodeAlarmZones_previousArmed, decodeAlarm_previousArmed, decodeTroubleFire_previousArmed,
      decodeKeypadAlarms_previousArmed, decodeStatus_previousArmed, decodeLights_previousArmedStay,
      decodeBlink_previousArmedStay, decodeBeep_previousArmedStay, decodeReady_previousArmedStay,
      decodeZones_previousArmedStay, decodeAlarmZones_previousArmedStay,
      decodeAlarm_previousArmedStay, decodeTroubleFire_previousArmedStay,
      decodeKeypadAlarms_previousArmedStay, decodeStatus_previousArmedStay,
      decodeLights_previousArmedAway, decodeBlink_previousArmedAway, decodeBeep_previousArmedAway,
      decodeReady_previousArmedAway, decodeZones_previousArmedAway,
      decodeAlarmZones_previousArmedAway, decodeAlarm_previousArmedAway,
      decodeTroubleFire_previousArmedAway, decodeKeypadAlarms_previousArmedAway,
      decodeStatus_previousArmedAway, decodeLights_alarmChanged, decodeBlink_alarmChanged,
      decodeBeep_alarmChanged, decodeZones_alarmChanged, decodeAlarmZones_alarmChanged,
      decodeTroubleFire_alarmChanged, decodeKeypadAlarms_alarmChanged, decodeStatus_alarmChanged,
      decodeLights_previousAlarm, decodeBlink_previousAlarm, decodeBeep_previousAlarm,
      decodeZones_previousAlarm, decodeAlarmZones_previousAlarm, decodeTroubleFire_previousAlarm,
      decodeKeypadAlarms_previousAlarm, decodeStatus_previousAlarm, decodeLights_exitDelayChanged,
      decodeBlink_exitDelayChanged, decodeBeep_exitDelayChanged, decodeArmed_exitDelayChanged,
      decodeZones_exitDelayChanged, decodeAlarmZones_exitDelayChanged,
      decodeAlarm_exitDelayChanged, decodeTroubleFire_exitDelayChanged,
      decodeKeypadAlarms_exitDelayChanged, decodeStatus_exitDelayChanged,
      decodeLights_previousExitDelay, decodeBlink_previousExitDelay, decodeBeep_previousExitDelay,
      decodeArmed_previousExitDelay, decodeZones_previousExitDelay,
      decodeAlarmZones_previousExitDelay, decodeAlarm_previousExitDelay,
      decodeTroubleFire_previousExitDelay, decodeKeypadAlarms_previousExitDelay,
      decodeStatus_previousExitDelay, decodeLights_zonesTriggered, decodeBlink_zonesTriggered,
      decodeBeep_zonesTriggered, decodeArmed_zonesTriggered, decodeReady_zonesTriggered,
      decodeZones_zonesTriggered, decodeAlarm_zonesTriggered, decodeTroubleFire_zonesTriggered,
      decodeKeypadAlarms_zonesTriggered, decodeStatus_zonesTriggered]
  simp only [decodeBlink, blinkCheck, Decoder.ite_field, apply_ite Prod.fst, apply_ite Prod.snd,
    ite_self, a1, a2, a3, q3, q4, q5, Bool.false_eq_true, if_false]
  exact ⟨trivial, trivial, trivial, a4, a5, a6, a7, a8, a9, a10, a11, a12, a13, a14⟩

theorem decodeBeep_idle (d : Decoder) (now : Nat) (hI : Idle d) (hQ : ReadyInputs d) :
    Idle (decodeBeep d now) ∧ (decodeBeep d now).status = d.status := by
  unfold Idle at hI ⊢
  unfold ReadyInputs at hQ
  obtain ⟨a1, a2, a3, a4, a5, a6, a7, a8, a9, a10, a11, a12, a13, a14⟩ := hI
  obtain ⟨q1, q2, q3, q4, q5, q6, q7, q8⟩ := hQ
  simp only [decodeLights_memoryBlink, decodeBeep_memoryBlink, decodeArmed_memoryBlink,
      decodeReady_memoryBlink, decodeZones_memoryBlink, decodeAlarmZones_memoryBlink,
      decodeAlarm_memoryBlink, decodeTroubleFire_memoryBlink, decodeKeypadAlarms_memoryBlink,
      decodeStatus_memoryBlink, decodeLights_bypassBlink, decodeBeep_bypassBlink,
      decodeArmed_bypassBlink, decodeReady_bypassBlink, decodeZones_bypassBlink,
      decodeAlarmZones_bypassBlink, decodeAlarm_bypassBlink, decodeTroubleFire_bypassBlink,
      decodeKeypadAlarms_bypassBlink, decodeStatus_bypassBlink, decodeLights_troubleBlink,
      decodeBeep_troubleBlink, decodeArmed_troubleBlink, decodeReady_troubleBlink,
      decodeZones_troubleBlink, decodeAlarmZones_troubleBlink, decodeAlarm_troubleBlink,
      decodeTroubleFire_troubleBlink, decodeKeypadAlarms_troubleBlink, decodeStatus_troubleBlink,
      decodeLights_beepOn, decodeBlink_beepOn, decodeArmed_beepOn, decodeReady_beepOn,
      decodeZones_beepOn, decodeAlarmZones_beepOn, decodeAlarm_beepOn, decodeTroubleFire_beepOn,
      decodeKeypadAlarms_beepOn, decodeStatus_beepOn, decodeLights_readyChanged,
      decodeBlink_readyChanged, decodeZones_readyChanged, decodeAlarmZones_readyChanged,
      decodeTroubleFire_readyChanged, decodeKeypadAlarms_readyChanged, decodeStatus_readyChanged,
      decodeLights_previousReady, decodeBlink_previousReady, decodeBeep_previousReady,
      decodeZones_previousReady, decodeAlarmZones_previousReady, decodeTroubleFire_previousReady,
      decodeKeypadAlarms_previousReady, decodeStatus_previousReady, decodeLights_armedChanged,
      decodeBlink_armedChanged, decodeBeep_armedChanged, decodeZones_armedChanged,
      decodeAlarmZones_armedChanged, decodeAlarm_armedChanged, decodeTroubleFire_armedChanged,
      decodeKeypadAlarms_armedChanged, decodeStatus_armedChanged, decodeLights_previousArmed,
      decodeBlink_previousArmed, decodeBeep_previousArmed, decodeZones_previousArmed,
      decodeAlarmZones_previousArmed, decodeAlarm_previousArmed, decodeTroubleFire_previousArmed,
      decodeKeypadAlarms_previousArmed, decodeStatus_previousArmed, decodeLights_previousArmedStay,
      decodeBlink_previousArmedStay, decodeBeep_previousArmedStay, decodeReady_previousArmedStay,
      decodeZones_previousArmedStay, decodeAlarmZones_previousArmedStay,
      decodeAlarm_previousArmedStay, decodeTroubleFire_previousArmedStay,
      decodeKeypadAlarms_previousArmedStay, decodeStatus_previousArmedStay,
      decodeLights_previousArmedAway, decodeBlink_previousArmedAway, decodeBeep_previousArmedAway,
      decodeReady_previousArmedAway, decodeZones_previousArmedAway,
      decodeAlarmZones_previousArmedAway, decodeAlarm_previousArmedAway,
      decodeTroubleFire_previousArmedAway, decodeKeypadAlarms_previousArmedAway,
      decodeStatus_previousArmedAway, decodeLights_alarmChanged, decodeBlink_alarmChanged,
      decodeBeep_alarmChanged, decodeZones_alarmChanged, decodeAlarmZones_alarmChanged,
      decodeTroubleFire_alarmChanged, decodeKeypadAlarms_alarmChanged, decodeStatus_alarmChanged,
      decodeLights_previousAlarm, decodeBlink_previousAlarm, decodeBeep_previousAlarm,
      decodeZones_previousAlarm, decodeAlarmZones_previousAlarm, decodeTroubleFire_previousAlarm,
      decodeKeypadAlarms_previousAlarm, decodeStatus_previousAlarm, decodeLights_exitDelayChanged,
      decodeBlink_exitDelayChanged, decodeBeep_exitDelayChanged, decodeArmed_exitDelayChanged,
      decodeZones_exitDelayChanged, decodeAlarmZones_exitDelayChanged,
      decodeAlarm_exitDelayChanged, decodeTroubleFire_exitDelayChanged,
      decodeKeypadAlarms_exitDelayChanged, decodeStatus_exitDelayChanged,
      decodeLights_previousExitDelay, decodeBlink_previousExitDelay, decodeBeep_previousExitDelay,
      decodeArmed_previousExitDelay, decodeZones_previousExitDelay,
      decodeAlarmZones_previousExitDelay, decodeAlarm_previousExitDelay,
      decodeTroubleFire_previousExitDelay, decodeKeypadAlarms_previousExitDelay,
      decodeStatus_previousExitDelay, decodeLights_zonesTriggered, decodeBlink_zonesTriggered,
      decodeBeep_zonesTriggered, decodeArmed_zonesTriggered, decodeReady_zonesTriggered,
      decodeZones_zonesTriggered, decodeAlarm_zonesTriggered, decodeTroubleFire_zonesTriggered,
      decodeKeypadAlarms_zonesTriggered, decodeStatus_zonesTriggered]
  simp only [decodeBeep, Decoder.ite_field, ite_self, a4, q6, Bool.false_eq_true, if_false]
  exact ⟨⟨a1, a2, a3, trivial, a5, a6, a7, a8, a9, a10, a11, a12, a13, a14⟩, trivial⟩

theorem decodeArmed_idle (p : Foreground) (d : Decoder) (now : Nat) (hI : Idle d)
    (hQ : ReadyInputs d) : Idle (decodeArmed p d now) := by
  unfold Idle at hI ⊢
  unfold ReadyInputs at hQ
  obtain ⟨a1, a2, a3, a4, a5, a6, a7, a8, a9, a10, a11, a12, a13, a14⟩ := hI
  obtain ⟨q1, q2, q3, q4, q5, q6, q7, q8⟩ := hQ
  simp only [decodeLights_memoryBlink, decodeBeep_memoryBlink, decodeArmed_memoryBlink,
      decodeReady_memoryBlink, decodeZones_memoryBlink, decodeAlarmZones_memoryBlink,
      decodeAlarm_memoryBlink, decodeTroubleFire_memoryBlink, decodeKeypadAlarms_memoryBlink,
      decodeStatus_memoryBlink, decodeLights_bypassBlink, decodeBeep_bypassBlink,
      decodeArmed_bypassBlink, decodeReady_bypassBlink, decodeZones_bypassBlink,
      decodeAlarmZones_bypassBlink, decodeAlarm_bypassBlink, decodeTroubleFire_bypassBlink,
      decodeKeypadAlarms_bypassBlink, decodeStatus_bypassBlink, decodeLights_troubleBlink,
      decodeBeep_troubleBlink, decodeArmed_troubleBlink, decodeReady_troubleBlink,
      decodeZones_troubleBlink, decodeAlarmZones_troubleBlink, decodeAlarm_troubleBlink,
      decodeTroubleFire_troubleBlink, decodeKeypadAlarms_troubleBlink, decodeStatus_troubleBlink,
      decodeLights_beepOn, decodeBlink_beepOn, decodeArmed_beepOn, decodeReady_beepOn,
      decodeZones_beepOn, decodeAlarmZones_beepOn, decodeAlarm_beepOn, decodeTroubleFire_beepOn,
      decodeKeypadAlarms_beepOn, decodeStatus_beepOn, decodeLights_readyChanged,
      decodeBlink_readyChanged, decodeZones_readyChanged, decodeAlarmZones_readyChanged,
      decodeTroubleFire_readyChanged, decodeKeypadAlarms_readyChanged, decodeStatus_readyChanged,
      decodeLights_previousReady, decodeBlink_previousReady, decodeBeep_previousReady,
      decodeZones_previousReady, decodeAlarmZones_previousReady, decodeTroubleFire_previousReady,
      decodeKeypadAlarms_previousReady, decodeStatus_previousReady, decodeLights_armedChanged,
      decodeBlink_armedChanged, decodeBeep_armedChanged, decodeZones_armedChanged,
      decodeAlarmZones_armedChanged, decodeAlarm_armedChanged, decodeTroubleFire_armedChanged,
      decodeKeypadAlarms_armedChanged, decodeStatus_armedChanged, decodeLights_previousArmed,
      decodeBlink_previousArmed, decodeBeep_previousArmed, decodeZones_previousArmed,
      decodeAlarmZones_previousArmed, decodeAlarm_previousArmed, decodeTroubleFire_previousArmed,
      decodeKeypadAlarms_previousArmed, decodeStatus_previousArmed, decodeLights_previousArmedStay,
      decodeBlink_previousArmedStay, decodeBeep_previousArmedStay, decodeReady_previousArmedStay,
      decodeZones_previousArmedStay, decodeAlarmZones_previousArmedStay,
      decodeAlarm_previousArmedStay, decodeTroubleFire_previousArmedStay,
      decodeKeypadAlarms_previousArmedStay, decodeStatus_previousArmedStay,
      decodeLights_previousArmedAway, decodeBlink_previousArmedAway, decodeBeep_previousArmedAway,
      decodeReady_previousArmedAway, decodeZones_previousArmedAway,
      decodeAlarmZones_previousArmedAway, decodeAlarm_previousArmedAway,
      decodeTroubleFire_previousArmedAway, decodeKeypadAlarms_previousArmedAway,
      decodeStatus_previousArmedAway, decodeLights_alarmChanged, decodeBlink_alarmChanged,
      decodeBeep_alarmChanged, decodeZones_alarmChanged, decodeAlarmZones_alarmChanged,
      decodeTroubleFire_alarmChanged, decodeKeypadAlarms_alarmChanged, decodeStatus_alarmChanged,
      decodeLights_previousAlarm, decodeBlink_previousAlarm, decodeBeep_previousAlarm,
      decodeZones_previousAlarm, decodeAlarmZones_previousAlarm, decodeTroubleFire_previousAlarm,
      decodeKeypadAlarms_previousAlarm, decodeStatus_previousAlarm, decodeLights_exitDelayChanged,
      decodeBlink_exitDelayChanged, decodeBeep_exitDelayChanged, decodeArmed_exitDelayChanged,
      decodeZones_exitDelayChanged, decodeAlarmZones_exitDelayChanged,
      decodeAlarm_exitDelayChanged, decodeTroubleFire_exitDelayChanged,
      decodeKeypadAlarms_exitDelayChanged, decodeStatus_exitDelayChanged,
      decodeLights_previousExitDelay, decodeBlink_previousExitDelay, decodeBeep_previousExitDelay,
      decodeArmed_previousExitDelay, decodeZones_previousExitDelay,
      decodeAlarmZones_previousExitDelay, decodeAlarm_previousExitDelay,
      decodeTroubleFire_previousExitDelay, decodeKeypadAlarms_previousExitDelay,
      decodeStatus_previousExitDelay, decodeLights_zonesTriggered, decodeBlink_zonesTriggered,
      decodeBeep_zonesTriggered, decodeArmed_zonesTriggered, decodeReady_zonesTriggered,
      decodeZones_zonesTriggered, decodeAlarm_zonesTriggered, decodeTroubleFire_zonesTriggered,
      decodeKeypadAlarms_zonesTriggered, decodeStatus_zonesTriggered]
  simp only [decodeArmed, processReadyStatus, processArmedStatus, processAlarmStatus,
    markStatusChanged, Decoder.ite_field, ite_self, q7, a6, a7, a8, a9, a10, a11,
    Bool.false_eq_true, if_false, bne_self_eq_false, Bool.or_self]
  exact ⟨a1, a2, a3, a4, a5, trivial, trivial, trivial, trivial, trivial, trivial, a12, a13, a14⟩

theorem decodeReady_idle (p : Foreground) (d : Decoder) (now : Nat) (hI : Idle d)
    (hQ : ReadyInputs d) :
    Idle (decodeReady p d now) ∧ (decodeReady p d now).ready = true
      ∧ (decodeReady p d now).readyChanged = true
      ∧ zonesGuard (decodeReady p d now) = true := by
  unfold Idle at hI ⊢
  unfold ReadyInputs at hQ
  obtain ⟨a1, a2, a3, a4, a5, a6, a7, a8, a9, a10, a11, a12, a13, a14⟩ := hI
  obtain ⟨q1, q2, q3, q4, q5, q6, q7, q8⟩ := hQ
  unfold zonesGuard
  simp only [decodeLights_memoryBlink, decodeBeep_memoryBlink, decodeArmed_memoryBlink,
      decodeReady_memoryBlink, decodeZones_memoryBlink, decodeAlarmZones_memoryBlink,
      decodeAlarm_memoryBlink, decodeTroubleFire_memoryBlink, decodeKeypadAlarms_memoryBlink,
      decodeStatus_memoryBlink, decodeLights_bypassBlink, decodeBeep_bypassBlink,
      decodeArmed_bypassBlink, decodeReady_bypassBlink, decodeZones_bypassBlink,
      decodeAlarmZones_bypassBlink, decodeAlarm_bypassBlink, decodeTroubleFire_bypassBlink,
      decodeKeypadAlarms_bypassBlink, decodeStatus_bypassBlink, decodeLights_troubleBlink,
      decodeBeep_troubleBlink, decodeArmed_troubleBlink, decodeReady_troubleBlink,
      decodeZones_troubleBlink, decodeAlarmZones_troubleBlink, decodeAlarm_troubleBlink,
      decodeTroubleFire_troubleBlink, decodeKeypadAlarms_troubleBlink, decodeStatus_troubleBlink,
      decodeLights_beepOn, decodeBlink_beepOn, decodeArmed_beepOn, decodeReady_beepOn,
      decodeZones_beepOn, decodeAlarmZones_beepOn, decodeAlarm_beepOn, decodeTroubleFire_beepOn,
      decodeKeypadAlarms_beepOn, decodeStatus_beepOn, decodeLights_readyChanged,
      decodeBlink_readyChanged, decodeZones_readyChanged, decodeAlarmZones_readyChanged,
      decodeTroubleFire_readyChanged, decodeKeypadAlarms_readyChanged, decodeStatus_readyChanged,
      decodeLights_previousReady, decodeBlink_previousReady, decodeBeep_previousReady,
      decodeZones_previousReady, decodeAlarmZones_previousReady, decodeTroubleFire_previousReady,
      decodeKeypadAlarms_previousReady, decodeStatus_previousReady, decodeLights_armedChanged,
      decodeBlink_armedChanged, decodeBeep_armedChanged, decodeZones_armedChanged,
      decodeAlarmZones_armedChanged, decodeAlarm_armedChanged, decodeTroubleFire_armedChanged,
      decodeKeypadAlarms_armedChanged, decodeStatus_armedChanged, decodeLights_previousArmed,
      decodeBlink_previousArmed, decodeBeep_previousArmed, decodeZones_previousArmed,
      decodeAlarmZones_previousArmed, decodeAlarm_previousArmed, decodeTroubleFire_previousArmed,
      decodeKeypadAlarms_previousArmed, decodeStatus_previousArmed, decodeLights_previousArmedStay,
      decodeBlink_previousArmedStay, decodeBeep_previousArmedStay, decodeReady_previousArmedStay,
      decodeZones_previousArmedStay, decodeAlarmZones_previousArmedStay,
      decodeAlarm_previousArmedStay, decodeTroubleFire_previousArmedStay,
      decodeKeypadAlarms_previousArmedStay, decodeStatus_previousArmedStay,
      decodeLights_previousArmedAway, decodeBlink_previousArmedAway, decodeBeep_previousArmedAway,
      decodeReady_previousArmedAway, decodeZones_previousArmedAway,
      decodeAlarmZones_previousArmedAway, decodeAlarm_previousArmedAway,
      decodeTroubleFire_previousArmedAway, decodeKeypadAlarms_previousArmedAway,
      decodeStatus_previousArmedAway, decodeLights_alarmChanged, decodeBlink_alarmChanged,
      decodeBeep_alarmChanged, decodeZones_alarmChanged, decodeAlarmZones_alarmChanged,
      decodeTroubleFire_alarmChanged, decodeKeypadAlarms_alarmChanged, decodeStatus_alarmChanged,
      decodeLights_previousAlarm, decodeBlink_previousAlarm, decodeBeep_previousAlarm,
      decodeZones_previousAlarm, decodeAlarmZones_previousAlarm, decodeTroubleFire_previousAlarm,
      decodeKeypadAlarms_previousAlarm, decodeStatus_previousAlarm, decodeLights_exitDelayChanged,
      decodeBlink_exitDelayChanged, decodeBeep_exitDelayChanged, decodeArmed_exitDelayChanged,
      decodeZones_exitDelayChanged, decodeAlarmZones_exitDelayChanged,
      decodeAlarm_exitDelayChanged, decodeTroubleFire_exitDelayChanged,
      decodeKeypadAlarms_exitDelayChanged, decodeStatus_exitDelayChanged,
      decodeLights_previousExitDelay, decodeBlink_previousExitDelay, decodeBeep_previousExitDelay,
      decodeArmed_previousExitDelay, decodeZones_previousExitDelay,
      decodeAlarmZones_previousExitDelay, decodeAlarm_previousExitDelay,
      decodeTroubleFire_previousExitDelay, decodeKeypadAlarms_previousExitDelay,
      decodeStatus_previousExitDelay, decodeLights_zonesTriggered, decodeBlink_zonesTriggered,
      decodeBeep_zonesTriggered, decodeArmed_zonesTriggered, decodeReady_zonesTriggered,
      decodeZones_zonesTriggered, decodeAlarm_zonesTriggered, decodeTroubleFire_zonesTriggered,
      decodeKeypadAlarms_zonesTriggered, decodeStatus_zonesTriggered]
  simp only [decodeReady, processReadyStatus, processArmedStatus, processAlarmStatus,
    processExitDelayStatus, markStatusChanged, Decoder.ite_field, ite_self, q1, q2, q7, a1, a2, a3,
    a6, a7, a10, a11, a12, a13, Bool.false_eq_true, if_false, bne_self_eq_false, Bool.not_false,
    Bool.and_self, if_true]
  rcases a5 with a5 | a5 <;> simp [a5, a4, a8, a9, a14]

theorem decodeAlarmZones_idle (p : Foreground) (d : Decoder) (hI : Idle d)
    (hq : ∀ bit, bitRead (p.pc16Data (p.statusByte - 1)) bit = false) :
    Idle (decodeAlarmZones p d) := by
  unfold Idle at hI ⊢
  have hz := decodeAlarmZones_zonesTriggered_of_clear p d hq
  rw [hz]
  simp only [decodeLights_memoryBlink, decodeBeep_memoryBlink, decodeArmed_memoryBlink,
      decodeReady_memoryBlink, decodeZones_memoryBlink, decodeAlarmZones_memoryBlink,
      decodeAlarm_memoryBlink, decodeTroubleFire_memoryBlink, decodeKeypadAlarms_memoryBlink,
      decodeStatus_memoryBlink, decodeLights_bypassBlink, decodeBeep_bypassBlink,
      decodeArmed_bypassBlink, decodeReady_bypassBlink, decodeZones_bypassBlink,
      decodeAlarmZones_bypassBlink, decodeAlarm_bypassBlink, decodeTroubleFire_bypassBlink,
      decodeKeypadAlarms_bypassBlink, decodeStatus_bypassBlink, decodeLights_troubleBlink,
      decodeBeep_troubleBlink, decodeArmed_troubleBlink, decodeReady_troubleBlink,
      decodeZones_troubleBlink, decodeAlarmZones_troubleBlink, decodeAlarm_troubleBlink,
      decodeTroubleFire_troubleBlink, decodeKeypadAlarms_troubleBlink, decodeStatus_troubleBlink,
      decodeLights_beepOn, decodeBlink_beepOn, decodeArmed_beepOn, decodeReady_beepOn,
      decodeZones_beepOn, decodeAlarmZones_beepOn, decodeAlarm_beepOn, decodeTroubleFire_beepOn,
      decodeKeypadAlarms_beepOn, decodeStatus_beepOn, decodeLights_readyChanged,
      decodeBlink_readyChanged, decodeZones_readyChanged, decodeAlarmZones_readyChanged,
      decodeTroubleFire_readyChanged, decodeKeypadAlarms_readyChanged, decodeStatus_readyChanged,
      decodeLights_previousReady, decodeBlink_previousReady, decodeBeep_previousReady,
      decodeZones_previousReady, decodeAlarmZones_previousReady, decodeTroubleFire_previousReady,
      decodeKeypadAlarms_previousReady, decodeStatus_previousReady, decodeLights_armedChanged,
      decodeBlink_armedChanged, decodeBeep_armedChanged, decodeZones_armedChanged,
      decodeAlarmZones_armedChanged, decodeAlarm_armedChanged, decodeTroubleFire_armedChanged,
      decodeKeypadAlarms_armedChanged, decodeStatus_armedChanged, decodeLights_previousArmed,
      decodeBlink_previousArmed, decodeBeep_previousArmed, decodeZones_previousArmed,
      decodeAlarmZones_previousArmed, decodeAlarm_previousArmed, decodeTroubleFire_previousArmed,
      decodeKeypadAlarms_previousArmed, decodeStatus_previousArmed, decodeLights_previousArmedStay,
      decodeBlink_previousArmedStay, decodeBeep_previousArmedStay, decodeReady_previousArmedStay,
      decodeZones_previousArmedStay, decodeAlarmZones_previousArmedStay,
      decodeAlarm_previousArmedStay, decodeTroubleFire_previousArmedStay,
      decodeKeypadAlarms_previousArmedStay, decodeStatus_previousArmedStay,
      decodeLights_previousArmedAway, decodeBlink_previousArmedAway, decodeBeep_previousArmedAway,
      decodeReady_previousArmedAway, decodeZones_previousArmedAway,
      decodeAlarmZones_previousArmedAway, decodeAlarm_previousArmedAway,
      decodeTroubleFire_previousArmedAway, decodeKeypadAlarms_previousArmedAway,
      decodeStatus_previousArmedAway, decodeLights_alarmChanged, decodeBlink_alarmChanged,
      decodeBeep_alarmChanged, decodeZones_alarmChanged, decodeAlarmZones_alarmChanged,
      decodeTroubleFire_alarmChanged, decodeKeypadAlarms_alarmChanged, decodeStatus_alarmChanged,
      decodeLights_previousAlarm, decodeBlink_previousAlarm, decodeBeep_previousAlarm,
      decodeZones_previousAlarm, decodeAlarmZones_previousAlarm, decodeTroubleFire_previousAlarm,
      decodeKeypadAlarms_previousAlarm, decodeStatus_previousAlarm, decodeLights_exitDelayChanged,
      decodeBlink_exitDelayChanged, decodeBeep_exitDelayChanged, decodeArmed_exitDelayChanged,
      decodeZones_exitDelayChanged, decodeAlarmZones_exitDelayChanged,
      decodeAlarm_exitDelayChanged, decodeTroubleFire_exitDelayChanged,
      decodeKeypadAlarms_exitDelayChanged, decodeStatus_exitDelayChanged,
      decodeLights_previousExitDelay, decodeBlink_previousExitDelay, decodeBeep_previousExitDelay,
      decodeArmed_previousExitDelay, decodeZones_previousExitDelay,
      decodeAlarmZones_previousExitDelay, decodeAlarm_previousExitDelay,
      decodeTroubleFire_previousExitDelay, decodeKeypadAlarms_previousExitDelay,
      decodeStatus_previousExitDelay, decodeLights_zonesTriggered, decodeBlink_zonesTriggered,
      decodeBeep_zonesTriggered, decodeArmed_zonesTriggered, decodeReady_zonesTriggered,
      decodeZones_zonesTriggered, decodeAlarm_zonesTriggered, decodeTroubleFire_zonesTriggered,
      decodeKeypadAlarms_zonesTriggered, decodeStatus_zonesTriggered]
  exact hI

theorem decodeAlarm_idle (p : Foreground) (d : Decoder) (hI : Idle d) (hQ : ReadyInputs d) :
    Idle (decodeAlarm p d) ∧ (decodeAlarm p d).ready = d.ready
      ∧ (decodeAlarm p d).readyChanged = d.readyChanged := by
  unfold Idle at hI ⊢
  unfold ReadyInputs at hQ
  obtain ⟨a1, a2, a3, a4, a5, a6, a7, a8, a9, a10, a11, a12, a13, a14⟩ := hI
  obtain ⟨q1, q2, q3, q4, q5, q6, q7, q8⟩ := hQ
  simp only [decodeLights_memoryBlink, decodeBeep_memoryBlink, decodeArmed_memoryBlink,
      decodeReady_memoryBlink, decodeZones_memoryBlink, decodeAlarmZones_memoryBlink,
      decodeAlarm_memoryBlink, decodeTroubleFire_memoryBlink, decodeKeypadAlarms_memoryBlink,
      decodeStatus_memoryBlink, decodeLights_bypassBlink, decodeBeep_bypassBlink,
      decodeArmed_bypassBlink, decodeReady_bypassBlink, decodeZones_bypassBlink,
      decodeAlarmZones_bypassBlink, decodeAlarm_bypassBlink, decodeTroubleFire_bypassBlink,
      decodeKeypadAlarms_bypassBlink, decodeStatus_bypassBlink, decodeLights_troubleBlink,
      decodeBeep_troubleBlink, decodeArmed_troubleBlink, decodeReady_troubleBlink,
      decodeZones_troubleBlink, decodeAlarmZones_troubleBlink, decodeAlarm_troubleBlink,
      decodeTroubleFire_troubleBlink, decodeKeypadAlarms_troubleBlink, decodeStatus_troubleBlink,
      decodeLights_beepOn, decodeBlink_beepOn, decodeArmed_beepOn, decodeReady_beepOn,
      decodeZones_beepOn, decodeAlarmZones_beepOn, decodeAlarm_beepOn, decodeTroubleFire_beepOn,
      decodeKeypadAlarms_beepOn, decodeStatus_beepOn, decodeLights_readyChanged,
      decodeBlink_readyChanged, decodeZones_readyChanged, decodeAlarmZones_readyChanged,
      decodeTroubleFire_readyChanged, decodeKeypadAlarms_readyChanged, decodeStatus_readyChanged,
      decodeLights_previousReady, decodeBlink_previousReady, decodeBeep_previousReady,
      decodeZones_previousReady, decodeAlarmZones_previousReady, decodeTroubleFire_previousReady,
      decodeKeypadAlarms_previousReady, decodeStatus_previousReady, decodeLights_armedChanged,
      decodeBlink_armedChanged, decodeBeep_armedChanged, decodeZones_armedChanged,
      decodeAlarmZones_armedChanged, decodeAlarm_armedChanged, decodeTroubleFire_armedChanged,
      decodeKeypadAlarms_armedChanged, decodeStatus_armedChanged, decodeLights_previousArmed,
      decodeBlink_previousArmed, decodeBeep_previousArmed, decodeZones_previousArmed,
      decodeAlarmZones_previousArmed, decodeAlarm_previousArmed, decodeTroubleFire_previousArmed,
      decodeKeypadAlarms_previousArmed, decodeStatus_previousArmed, decodeLights_previousArmedStay,
      decodeBlink_previousArmedStay, decodeBeep_previousArmedStay, decodeReady_previousArmedStay,
      decodeZones_previousArmedStay, decodeAlarmZones_previousArmedStay,
      decodeAlarm_previousArmedStay, decodeTroubleFire_previousArmedStay,
      decodeKeypadAlarms_previousArmedStay, decodeStatus_previousArmedStay,
      decodeLights_previousArmedAway, decodeBlink_previousArmedAway, decodeBeep_previousArmedAway,
      decodeReady_previousArmedAway, decodeZones_previousArmedAway,
      decodeAlarmZones_previousArmedAway, decodeAlarm_previousArmedAway,
      decodeTroubleFire_previousArmedAway, decodeKeypadAlarms_previousArmedAway,
      decodeStatus_previousArmedAway, decodeLights_alarmChanged, decodeBlink_alarmChanged,
      decodeBeep_alarmChanged, decodeZones_alarmChanged, decodeAlarmZones_alarmChanged,
      decodeTroubleFire_alarmChanged, decodeKeypadAlarms_alarmChanged, decodeStatus_alarmChanged,
      decodeLights_previousAlarm, decodeBlink_previousAlarm, decodeBeep_previousAlarm,
      decodeZones_previousAlarm, decodeAlarmZones_previousAlarm, decodeTroubleFire_previousAlarm,
      decodeKeypadAlarms_previousAlarm, decodeStatus_previousAlarm, decodeLights_exitDelayChanged,
      decodeBlink_exitDelayChanged, decodeBeep_exitDelayChanged, decodeArmed_exitDelayChanged,
      decodeZones_exitDelayChanged, decodeAlarmZones_exitDelayChanged,
      decodeAlarm_exitDelayChanged, decodeTroubleFire_exitDelayChanged,
      decodeKeypadAlarms_exitDelayChanged, decodeStatus_exitDelayChanged,
      decodeLights_previousExitDelay, decodeBlink_previousExitDelay, decodeBeep_previousExitDelay,
      decodeArmed_previousExitDelay, decodeZones_previousExitDelay,
      decodeAlarmZones_previousExitDelay, decodeAlarm_previousExitDelay,
      decodeTroubleFire_previousExitDelay, decodeKeypadAlarms_previousExitDelay,
      decodeStatus_previousExitDelay, decodeLights_zonesTriggered, decodeBlink_zonesTriggered,
      decodeBeep_zonesTriggered, decodeArmed_zonesTriggered, decodeReady_zonesTriggered,
      decodeZones_zonesTriggered, decodeAlarm_zonesTriggered, decodeTroubleFire_zonesTriggered,
      decodeKeypadAlarms_zonesTriggered, decodeStatus_zonesTriggered]
  simp only [decodeAlarm, processReadyStatus, processAlarmStatus, markStatusChanged,
    Decoder.ite_field, ite_self, q8, a1, a6, a10, a11, Bool.false_eq_true, if_false, false_and,
    Bool.false_and, bne_self_eq_false, Bool.not_false, Bool.and_self, if_true]
  refine ⟨⟨?_, ?_, ?_, ?_, ?_, ?_, ?_, ?_, ?_, ?_, ?_, ?_, ?_, ?_⟩, ?_, ?_⟩ <;> trivial

theorem decodeStatus_of_ready (p : Foreground) (d : Decoder) (h1 : d.memoryBlink = false)
    (h2 : d.lights ≠ 0) (h3 : d.readyChanged = true) (h4 : d.ready = true)
    (h5 : d.armedChanged = false) (h6 : d.alarmChanged = false)
    (h7 : d.exitDelayChanged = false) : (decodeStatus p d).status = 0x01 := by
  simp only [decodeStatus, markStatusChanged, Decoder.ite_field, ite_self, h1, h2, h3, h4, h5, h6,
    h7, Bool.false_and, Bool.false_eq_true, if_false, ne_eq, not_false_eq_true, if_true, true_or]

theorem lights_ne_zero (p : Foreground) (d : Decoder)
    (h7 : bitRead (p.panelData p.statusByte) 7 = true) : (decodeLights p d).lights ≠ 0 := by
  intro h0
  have hb : bitRead (decodeLights p d).lights 0 = true := by
    rw [decodeLights_lights_eq]
    simp [bitRead_bitWrite, h7]
  rw [h0, bitRead_zero] at hb
  exact Bool.noConfusion hb

theorem idle_decode (p : Foreground) (d : Decoder) (now : Nat) (hI : Idle d)
    (h7 : bitRead (p.panelData p.statusByte) 7 = true)
    (h6 : bitRead (p.panelData p.statusByte) 6 = false)
    (h5 : bitRead (p.panelData p.statusByte) 5 = false)
    (h4 : bitRead (p.panelData p.statusByte) 4 = false)
    (h3 : bitRead (p.panelData p.statusByte) 3 = false)
    (h0 : bitRead (p.panelData p.statusByte) 0 = false)
    (g5 : bitRead (p.pc16Data p.statusByte) 5 = false)
    (g0 : bitRead (p.pc16Data p.statusByte) 0 = false)
    (hq : ∀ bit, bitRead (p.pc16Data (p.statusByte - 1)) bit = false) :
    Idle (processPanelStatus p d now)
      ∧ (processPanelStatus p d now).status = 0x01
      ∧ zonesGuard (beforeZones p d now) = true := by
  have qL := decodeLights_readyInputs p d h7 h6 h5 h4 h3 h0 g5 g0
  have iL := decodeLights_idle p d hI
  have qB := decodeBlink_readyInputs _ now qL
  have iB := decodeBlink_idle _ now iL qL
  have qP := decodeBeep_readyInputs _ now qB
  obtain ⟨iP, _⟩ := decodeBeep_idle _ now iB qB
  have qA := decodeArmed_readyInputs p _ now qP
  have iA := decodeArmed_idle p _ now iP qP
  have qR := decodeReady_readyInputs p _ now qA
  obtain ⟨iR, r1, r2, r3⟩ := decodeReady_idle p _ now iA qA
  have qZ := decodeZones_readyInputs p _ qR
  have iZ := decodeZones_idle p _ iR
  have qY := decodeAlarmZones_readyInputs p _ qZ
  have iY := decodeAlarmZones_idle p _ iZ hq
  have qM := decodeAlarm_readyInputs p _ qY
  obtain ⟨iM, m1, m2⟩ := decodeAlarm_idle p _ iY qY
  have iT := decodeTroubleFire_idle p _ iM
  have iK := decodeKeypadAlarms_idle p _ now iT
  have iS := decodeStatus_idle p _ iK
  refine ⟨iS, ?_, r3⟩
  unfold processPanelStatus
  apply decodeStatus_of_ready
  · exact iK.1
  · simp only [decodeBlink_lights, decodeBeep_lights, decodeArmed_lights, decodeReady_lights,
        decodeZones_lights, decodeAlarmZones_lights, decodeAlarm_lights, decodeTroubleFire_lights,
        decodeKeypadAlarms_lights, decodeStatus_lights]
    exact lights_ne_zero p d h7
  · simp only [decodeLights_readyChanged, decodeBlink_readyChanged, decodeZones_readyChanged,
        decodeAlarmZones_readyChanged, decodeTroubleFire_readyChanged,
        decodeKeypadAlarms_readyChanged, decodeStatus_readyChanged, m2, r2]
  · simp only [decodeLights_ready, decodeBlink_ready, decodeBeep_ready, decodeZones_ready,
        decodeAlarmZones_ready, decodeTroubleFire_ready, decodeKeypadAlarms_ready,
        decodeStatus_ready, m1, r1]
  · exact iK.2.2.2.2.2.1
  · exact iK.2.2.2.2.2.2.2.2.2.1
  · exact iK.2.2.2.2.2.2.2.2.2.2.2.1

theorem idle_init : Idle Decoder.init :=
  ⟨rfl, rfl, rfl, rfl, Or.inr rfl, rfl, rfl, rfl, rfl, rfl, rfl, rfl, rfl,
    fun _ bit => bitRead_zero bit⟩

theorem idle_after_ready (d : Decoder) (hI : Idle d) (now : Nat) :
    Idle (processPanelStatus (readyFrame.foreground 1) d now) :=
  (idle_decode (readyFrame.foreground 1) d now hI (by decide) (by decide) (by decide)
    (by decide) (by decide) (by decide) (by decide) (by decide)
    (fun bit => bitRead_zero bit)).1

theorem zone_frame_decoded (d : Decoder) (hI : Idle d) (now : Nat) :
    bitRead ((processPanelStatus (zoneFrame.foreground 1) d now).openZones 0) 2 = true
      ∧ (processPanelStatus (zoneFrame.foreground 1) d now).status = 0x01 := by
  obtain ⟨_, hs, hg⟩ := idle_decode (zoneFrame.foreground 1) d now hI (by decide) (by decide)
    (by decide) (by decide) (by decide) (by decide) (by decide) (by decide)
    (fun bit => bitRead_zero bit)
  refine ⟨?_, hs⟩
  have h := (processPanelStatus_openZones_quiet (zoneFrame.foreground 1) d now hg (by decide)
    (fun bit => hI.2.2.2.2.2.2.2.2.2.2.2.2.2 _ bit) ⟨0, by decide⟩).1 ⟨2, by decide⟩
  rw [h]
  decide

/-- C14: decoded from the power-on state at any time `now`, the PC1550 frame
`panelData = [0x00, 0x80]`, `pc16Data = [0x00, 0x00]` gives `ready[0] = true`,
`armed[0] = false`, `status[0] = 0x01` and `lights[0] = 0b00000001`. -/
theorem ready_idle_frame (now : Nat) :
    (processPanelStatus (readyFrame.foreground 1) Decoder.init now).ready = true
      ∧ (processPanelStatus (readyFrame.foreground 1) Decoder.init now).armed = false
      ∧ (processPanelStatus (readyFrame.foreground 1) Decoder.init now).status = 0x01
      ∧ (processPanelStatus (readyFrame.foreground 1) Decoder.init now).lights = 1 := by
  obtain ⟨h1, _, _, h4⟩ := processPanelStatus_of_readyLight (readyFrame.foreground 1)
    Decoder.init now (by decide) (by decide)
  obtain ⟨_, hs, _⟩ := idle_decode (readyFrame.foreground 1) Decoder.init now idle_init
    (by decide) (by decide) (by decide) (by decide) (by decide) (by decide) (by decide)
    (by decide) (fun bit => bitRead_zero bit)
  refine ⟨?_, h1, hs, ?_⟩
  · rw [h4]
    have : bitRead ((readyFrame.foreground 1).pc16Data (readyFrame.foreground 1).statusByte) 0
        = false := by decide
    rw [this]
    rfl
  · rw [processPanelStatus_lights_eq, decodeLights_lights_eq]
    decide

/-- C16, as the code has it: decoded at any time, either from the power-on
state or directly after the ready-idle frame `[0x00, 0x80]` (itself decoded
from power-on at any time), the PC1550 frame `panelData = [0x20, 0x80]`,
`pc16Data = [0x00, 0x00]` leaves bit 2 of `openZones[0]` set and
`status[0] = 0x01` (Partition Ready: the Ready light is on). -/
theorem zone_three_frame (now earlier : Nat) :
    (bitRead ((processPanelStatus (zoneFrame.foreground 1) Decoder.init now).openZones 0) 2 = true
        ∧ (processPanelStatus (zoneFrame.foreground 1) Decoder.init now).status = 0x01)
      ∧ (bitRead ((processPanelStatus (zoneFrame.foreground 1)
            (processPanelStatus (readyFrame.foreground 1) Decoder.init earlier) now).openZones 0) 2
          = true
        ∧ (processPanelStatus (zoneFrame.foreground 1)
            (processPanelStatus (readyFrame.foreground 1) Decoder.init earlier) now).status
          = 0x01) :=
  ⟨zone_frame_decoded Decoder.init idle_init now,
    zone_frame_decoded _ (idle_after_ready Decoder.init idle_init earlier) now⟩

set_option maxRecDepth 100000 in
/-- Counterexample for C16 as stated: the frame `panelData = [0x20, 0x80]`,
`pc16Data = [0x00, 0x00]` decoded at 5 s from power-on, or at 5.1 s after the
ready-idle frame decoded at 5 s, leaves `status[0] = 0x01`, not `0x03`. -/
theorem zone_three_status_ready :
    (processPanelStatus (zoneFrame.foreground 1) Decoder.init 5000).status = 0x01
      ∧ (processPanelStatus (zoneFrame.foreground 1) Decoder.init 5000).status ≠ 0x03
      ∧ (processPanelStatus (zoneFrame.foreground 1)
          (processPanelStatus (readyFrame.foreground 1) Decoder.init 5000) 5100).status = 0x01
      ∧ (processPanelStatus (zoneFrame.foreground 1)
          (processPanelStatus (readyFrame.foreground 1) Decoder.init 5000) 5100).status ≠ 0x03 := by
  decide!

theorem decodeLights_alarm (p : Foreground) (d : Decoder) :
    (decodeLights p d).alarm = d.alarm := by
  have h := congrArg Decoder.alarm (decodeLights_restore p d)
  exact h

theorem decodeLights_alarmZones (p : Foreground) (d : Decoder) :
    (decodeLights p d).alarmZones = d.alarmZones := by
  have h := congrArg Decoder.alarmZones (decodeLights_restore p d)
  exact h

theorem decodeLights_exitDelay (p : Foreground) (d : Decoder) :
    (decodeLights p d).exitDelay = d.exitDelay := by
  have h := congrArg Decoder.exitDelay (decodeLights_restore p d)
  exact h

theorem decodeLights_previousAlarmZones (p : Foreground) (d : Decoder) :
    (decodeLights p d).previousAlarmZones = d.previousAlarmZones := by
  have h := congrArg Decoder.previousAlarmZones (decodeLights_restore p d)
  exact h

theorem decodeBlink_alarm (d : Decoder) (now : Nat) :
    (decodeBlink d now).alarm = d.alarm := by
  have h := congrArg Decoder.alarm (decodeBlink_restore d now)
  exact h

theorem decodeBlink_alarmZones (d : Decoder) (now : Nat) :
    (decodeBlink d now).alarmZones = d.alarmZones := by
  have h := congrArg Decoder.alarmZones (decodeBlink_restore d now)
  exact h

theorem decodeBlink_exitDelay (d : Decoder) (now : Nat) :
    (decodeBlink d now).exitDelay = d.exitDelay := by
  have h := congrArg Decoder.exitDelay (decodeBlink_restore d now)
  exact h

theorem decodeBlink_previousAlarmZones (d : Decoder) (now : Nat) :
    (decodeBlink d now).previousAlarmZones = d.previousAlarmZones := by
  have h := congrArg Decoder.previousAlarmZones (decodeBlink_restore d now)
  exact h

theorem decodeBeep_alarm (d : Decoder) (now : Nat) :
    (decodeBeep d now).alarm = d.alarm := by
  have h := congrArg Decoder.alarm (decodeBeep_restore d now)
  exact h

theorem decodeBeep_alarmZones (d : Decoder) (now : Nat) :
    (decodeBeep d now).alarmZones = d.alarmZones := by
  have h := congrArg Decoder.alarmZones (decodeBeep_restore d now)
  exact h

theorem decodeBeep_exitDelay (d : Decoder) (now : Nat) :
    (decodeBeep d now).exitDelay = d.exitDelay := by
  have h := congrArg Decoder.exitDelay (decodeBeep_restore d now)
  exact h

theorem decodeBeep_previousAlarmZones (d : Decoder) (now : Nat) :
    (decodeBeep d now).previousAlarmZones = d.previousAlarmZones := by
  have h := congrArg Decoder.previousAlarmZones (decodeBeep_restore d now)
  exact h

theorem decodeArmed_alarmZones (p : Foreground) (d : Decoder) (now : Nat) :
    (decodeArmed p d now).alarmZones = d.alarmZones := by
  have h := congrArg Decoder.alarmZones (decodeArmed_restore p d now)
  exact h

theorem decodeArmed_exitDelay (p : Foreground) (d : Decoder) (now : Nat) :
    (decodeArmed p d now).exitDelay = d.exitDelay := by
  have h := congrArg Decoder.exitDelay (decodeArmed_restore p d now)
  exact h

theorem decodeArmed_previousAlarmZones (p : Foreground) (d : Decoder) (now : Nat) :
    (decodeArmed p d now).previousAlarmZones = d.previousAlarmZones := by
  have h := congrArg Decoder.previousAlarmZones (decodeArmed_restore p d now)
  exact h

theorem decodeReady_alarmZones (p : Foreground) (d : Decoder) (now : Nat) :
    (decodeReady p d now).alarmZones = d.alarmZones := by
  have h := congrArg Decoder.alarmZones (decodeReady_restore p d now)
  exact h

theorem decodeReady_previousAlarmZones (p : Foreground) (d : Decoder) (now : Nat) :
    (decodeReady p d now).previousAlarmZones = d.previousAlarmZones := by
  have h := congrArg Decoder.previousAlarmZones (decodeReady_restore p d now)
  exact h

theorem decodeZones_alarm (p : Foreground) (d : Decoder) :
    (decodeZones p d).alarm = d.alarm := by
  have h := congrArg Decoder.alarm (decodeZones_restore p d)
  exact h

theorem decodeZones_alarmZones (p : Foreground) (d : Decoder) :
    (decodeZones p d).alarmZones = d.alarmZones := by
  have h := congrArg Decoder.alarmZones (decodeZones_restore p d)
  exact h

theorem decodeZones_exitDelay (p : Foreground) (d : Decoder) :
    (decodeZones p d).exitDelay = d.exitDelay := by
  have h := congrArg Decoder.exitDelay (decodeZones_restore p d)
  exact h

theorem decodeZones_previousAlarmZones (p : Foreground) (d : Decoder) :
    (decodeZones p d).previousAlarmZones = d.previousAlarmZones := by
  have h := congrArg Decoder.previousAlarmZones (decodeZones_restore p d)
  exact h

theorem decodeAlarmZones_alarm (p : Foreground) (d : Decoder) :
    (decodeAlarmZones p d).alarm = d.alarm := by
  have h := congrArg Decoder.alarm (decodeAlarmZones_restore p d)
  exact h

theorem decodeAlarmZones_exitDelay (p : Foreground) (d : Decoder) :
    (decodeAlarmZones p d).exitDelay = d.exitDelay := by
  have h := congrArg Decoder.exitDelay (decodeAlarmZones_restore p d)
  exact h

theorem decodeAlarm_alarmZones (p : Foreground) (d : Decoder) :
    (decodeAlarm p d).alarmZones = d.alarmZones := by
  have h := congrArg Decoder.alarmZones (decodeAlarm_restore p d)
  exact h

theorem decodeAlarm_exitDelay (p : Foreground) (d : Decoder) :
    (decodeAlarm p d).exitDelay = d.exitDelay := by
  have h := congrArg Decoder.exitDelay (decodeAlarm_restore p d)
  exact h

theorem decodeAlarm_previousAlarmZones (p : Foreground) (d : Decoder) :
    (decodeAlarm p d).previousAlarmZones = d.previousAlarmZones := by
  have h := congrArg Decoder.previousAlarmZones (decodeAlarm_restore p d)
  exact h

theorem decodeTroubleFire_alarm (p : Foreground) (d : Decoder) :
    (decodeTroubleFire p d).alarm = d.alarm := by
  have h := congrArg Decoder.alarm (decodeTroubleFire_restore p d)
  exact h

theorem decodeTroubleFire_alarmZones (p : Foreground) (d : Decoder) :
    (decodeTroubleFire p d).alarmZones = d.alarmZones := by
  have h := congrArg Decoder.alarmZones (decodeTroubleFire_restore p d)
  exact h

theorem decodeTroubleFire_exitDelay (p : Foreground) (d : Decoder) :
    (decodeTroubleFire p d).exitDelay = d.exitDelay := by
  have h := congrArg Decoder.exitDelay (decodeTroubleFire_restore p d)
  exact h

theorem decodeTroubleFire_previousAlarmZones (p : Foreground) (d : Decoder) :
    (decodeTroubleFire p d).previousAlarmZones = d.previousAlarmZones := by
  have h := congrArg Decoder.previousAlarmZones (decodeTroubleFire_restore p d)
  exact h

theorem decodeKeypadAlarms_alarm (p : Foreground) (d : Decoder) (now : Nat) :
    (decodeKeypadAlarms p d now).alarm = d.alarm := by
  have h := congrArg Decoder.alarm (decodeKeypadAlarms_restore p d now)
  exact h

theorem decodeKeypadAlarms_alarmZones (p : Foreground) (d : Decoder) (now : Nat) :
    (decodeKeypadAlarms p d now).alarmZones = d.alarmZones := by
  have h := congrArg Decoder.alarmZones (decodeKeypadAlarms_restore p d now)
  exact h

theorem decodeKeypadAlarms_exitDelay (p : Foreground) (d : Decoder) (now : Nat) :
    (decodeKeypadAlarms p d now).exitDelay = d.exitDelay := by
  have h := congrArg Decoder.exitDelay (decodeKeypadAlarms_restore p d now)
  exact h

theorem decodeKeypadAlarms_previousAlarmZones (p : Foreground) (d : Decoder) (now : Nat) :
    (decodeKeypadAlarms p d now).previousAlarmZones = d.previousAlarmZones := by
  have h := congrArg Decoder.previousAlarmZones (decodeKeypadAlarms_restore p d now)
  exact h

theorem decodeStatus_alarm (p : Foreground) (d : Decoder) :
    (decodeStatus p d).alarm = d.alarm := by
  have h := congrArg Decoder.alarm (decodeStatus_restore p d)
  exact h

theorem decodeStatus_alarmZones (p : Foreground) (d : Decoder) :
    (decodeStatus p d).alarmZones = d.alarmZones := by
  have h := congrArg Decoder.alarmZones (decodeStatus_restore p d)
  exact h

theorem decodeStatus_exitDelay (p : Foreground) (d : Decoder) :
    (decodeStatus p d).exitDelay = d.exitDelay := by
  have h := congrArg Decoder.exitDelay (decodeStatus_restore p d)
  exact h

theorem decodeStatus_previousAlarmZones (p : Foreground) (d : Decoder) :
    (decodeStatus p d).previousAlarmZones = d.previousAlarmZones := by
  have h := congrArg Decoder.previousAlarmZones (decodeStatus_restore p d)
  exact h


/-! ## Alarm (`processPanelStatus`) -/

theorem bitRead_xor (a b k : Nat) : bitRead (a ^^^ b) k = (bitRead a k ^^ bitRead b k) := by
  simp only [bitRead_eq_testBit, Nat.testBit_xor]

theorem decodeAlarmZones_alarm_bit (p : Foreground) (x : Decoder) (b : Nat) (hb2 : 2 ≤ b)
    (hb7 : b ≤ 7) (hA : x.alarmBit = true)
    (hz : bitRead (p.pc16Data (p.statusByte - 1)) b = true)
    (hprev : bitRead (x.previousAlarmZones 0) (7 - b) = false) :
    bitRead ((decodeAlarmZones p x).alarmZones 0) (7 - b) = true
      ∧ bitRead ((decodeAlarmZones p x).openZones 0) (7 - b) = true := by
  have hk : 7 - b < 8 := by omega
  unfold decodeAlarmZones
  lift_lets
  intro y zc z
  have hy1 : bitRead (y.alarmZones 0) (7 - b) = true := by
    unfold y
    refine foldl_establishes _ (fun _ => True)
      (fun w : Decoder => bitRead (w.alarmZones 0) (7 - b) = true) b _ ?_ ?_ ?_ x trivial
      (Or.inl ?_)
    · intros
      trivial
    · intro w a ha _ hw
      have ha' : a = 7 ∨ a = 6 ∨ a = 5 ∨ a = 4 ∨ a = 3 ∨ a = 2 := by simpa using ha
      have ha8 : 7 - a < 8 := by omega
      simp only [Decoder.ite_field, ite_apply, setAt, if_true, bitRead_ite,
        bitRead_bitWrite _ _ _ _ ha8 hk, hw]
      by_cases h : 7 - b = 7 - a
      · have : a = b := by omega
        subst this
        simp [hz]
      · simp [h]
    · intro w _
      simp only [hz, if_true, setAt]
      rw [bitRead_bitWrite _ _ _ _ hk hk, if_pos rfl]
    · interval_cases b <;> simp
  have hyA : y.alarmBit = true := by
    unfold y
    refine foldl_preserves (fun w : Decoder => w.alarmBit = true) _ ?_ _ _ hA
    intro w a hw
    simp only [Decoder.ite_field, ite_self]
    exact hw
  have hyP : y.previousAlarmZones = x.previousAlarmZones := by
    unfold y
    refine foldl_preserves (fun w : Decoder => w.previousAlarmZones = x.previousAlarmZones) _ ?_ _ _
      rfl
    intro w a hw
    simp only [Decoder.ite_field, ite_self]
    exact hw
  have hzc : bitRead zc (7 - b) = true := by
    unfold zc
    rw [bitRead_xor, hy1, hyP, hprev]
    rfl
  have hzc0 : zc ≠ 0 := by
    intro h0
    rw [h0, bitRead_zero] at hzc
    exact Bool.noConfusion hzc
  have hzA : z.alarmBit = true := by
    unfold z markStatusChanged
    split_ifs <;> exact hyA
  have hz1 : bitRead (z.alarmZones 0) (7 - b) = true := by
    unfold z markStatusChanged
    split_ifs <;> exact hy1
  rw [if_pos hzc0]
  constructor
  · refine foldl_preserves (fun w : Decoder => bitRead (w.alarmZones 0) (7 - b) = true) _ ?_ _ _ hz1
    intro w a hw
    simp only [Decoder.ite_field, ite_self]
    exact hw
  · refine foldl_establishes _
      (fun w : Decoder => w.alarmBit = true ∧ bitRead (w.alarmZones 0) (7 - b) = true)
      (fun w : Decoder => bitRead (w.openZones 0) (7 - b) = true) (7 - b) _ ?_ ?_ ?_ z ⟨hzA, hz1⟩
      (Or.inl (List.mem_range.mpr hk))
    · intro w a _ hw
      simp only [Decoder.ite_field, ite_self]
      exact hw
    · intro w a ha hw hq
      have ha8 : a < 8 := List.mem_range.mp ha
      simp only [Decoder.ite_field, ite_apply, setAt, if_true, bitRead_ite, hw.1,
        bitRead_bitWrite _ _ _ _ ha8 hk, hq, ite_self]
      by_cases h : 7 - b = a
      · subst h
        simp [hw.2]
      · simp [h]
    · intro w hw
      simp only [Decoder.ite_field, ite_apply, setAt, if_true, bitRead_ite, hw.1, hzc,
        bitRead_bitWrite _ _ _ _ hk hk, hw.2]

theorem decodeAlarm_of_alarm (p : Foreground) (d : Decoder)
    (hb : p.panelData p.statusByte &&& 0xFE ≠ 0) (hA : d.alarmBit = true)
    (hM : d.memoryBlink = false) (hP : d.previousAlarm = false) :
    (decodeAlarm p d).alarm = true ∧ (decodeAlarm p d).alarmChanged = true := by
  simp only [decodeAlarm, processReadyStatus, processAlarmStatus, markStatusChanged,
    Decoder.ite_field, ite_self, hb, hA, hM, hP, ne_eq, not_false_eq_true, if_true,
    Bool.not_false, Bool.and_self]
  simp

theorem and_mask_ne_zero_of_armed (v : Nat) (h : bitRead v 6 = true) : v &&& 0xFE ≠ 0 := by
  rw [bitRead_eq_testBit] at h
  intro h0
  have h6 : (v &&& 0xFE).testBit 6 = true := by
    rw [Nat.testBit_and, h]
    decide
  rw [h0] at h6
  simp at h6

theorem lights_ne_zero_of_armed (p : Foreground) (d : Decoder)
    (h6 : bitRead (p.panelData p.statusByte) 6 = true) : (decodeLights p d).lights ≠ 0 := by
  intro h0
  have hb : bitRead (decodeLights p d).lights 1 = true := by
    rw [decodeLights_lights_eq]
    simp [bitRead_bitWrite, h6]
  rw [h0, bitRead_zero] at hb
  exact Bool.noConfusion hb

theorem decodeArmed_previousAlarm (p : Foreground) (d : Decoder) (now : Nat)
    (h : d.previousAlarm = false) : (decodeArmed p d now).previousAlarm = false := by
  simp only [decodeArmed, processReadyStatus, processArmedStatus, processAlarmStatus,
    markStatusChanged, Decoder.ite_field, ite_self, h, bne_self_eq_false, Bool.false_eq_true,
    if_false]

theorem decodeReady_previousAlarm (p : Foreground) (d : Decoder) (now : Nat)
    (h : d.previousAlarm = false) : (decodeReady p d now).previousAlarm = false := by
  simp only [decodeReady, processReadyStatus, processArmedStatus, processAlarmStatus,
    processExitDelayStatus, markStatusChanged, Decoder.ite_field, ite_self, h, bne_self_eq_false,
    Bool.false_eq_true, if_false]

theorem decodeReady_exitDelay (p : Foreground) (d : Decoder) (now : Nat)
    (h1 : d.armedLight = true) (h2 : d.exitDelay = false) (h3 : d.previousExitDelay = false)
    (h4 : d.exitDelayChanged = false) :
    (decodeReady p d now).exitDelayChanged = (d.readyLight && !d.armedBitA)
      ∧ (decodeReady p d now).exitDelay = (d.readyLight && !d.armedBitA) := by
  simp only [decodeReady, processReadyStatus, processArmedStatus, processAlarmStatus,
    processExitDelayStatus, markStatusChanged, Decoder.ite_field, ite_self, h1, h2, h3, h4,
    if_true, Bool.false_and, Bool.false_eq_true, if_false]
  cases d.readyLight <;> cases d.armedBitA <;> simp

theorem decodeStatus_of_alarm (p : Foreground) (d : Decoder) (h1 : d.memoryBlink = false)
    (h2 : d.lights ≠ 0) (h3 : d.alarmChanged = true) (h4 : d.alarm = true)
    (h5 : d.exitDelayChanged = false) : (decodeStatus p d).status = 0x11 := by
  simp only [decodeStatus, markStatusChanged, Decoder.ite_field, ite_self, h1, h2, h3, h4, h5,
    Bool.false_and, Bool.false_eq_true, if_false, ne_eq, not_false_eq_true, if_true]
  simp

theorem decodeStatus_of_exitDelay (p : Foreground) (d : Decoder) (h1 : d.memoryBlink = false)
    (h2 : d.lights ≠ 0) (h5 : d.exitDelayChanged = true) (h6 : d.exitDelay = true) :
    (decodeStatus p d).status = 0x08 := by
  simp only [decodeStatus, markStatusChanged, Decoder.ite_field, ite_self, h1, h2, h5, h6,
    Bool.false_and, Bool.false_eq_true, if_false, ne_eq, not_false_eq_true, if_true]
  simp

theorem processPanelStatus_of_alarm (p : Foreground) (now b : Nat) (hb2 : 2 ≤ b) (hb7 : b ≤ 7)
    (hArm : bitRead (p.panelData p.statusByte) 6 = true)
    (hM : (processPanelStatus p Decoder.init now).memoryBlink = false)
    (hAl : bitRead (p.pc16Data p.statusByte) 0 = true)
    (hZ : bitRead (p.pc16Data (p.statusByte - 1)) b = true) :
    (processPanelStatus p Decoder.init now).alarm = true
      ∧ bitRead ((processPanelStatus p Decoder.init now).alarmZones 0) (7 - b) = true
      ∧ bitRead ((processPanelStatus p Decoder.init now).openZones 0) (7 - b) = true
      ∧ (processPanelStatus p Decoder.init now).status
          = if bitRead (p.panelData p.statusByte) 7 = true
              ∧ bitRead (p.pc16Data p.statusByte) 5 = false then 0x08 else 0x11 := by
  obtain ⟨i1, i2, _, _, _, _, _, _, i9, _, i11⟩ := decodeLights_inputs p Decoder.init
  unfold processPanelStatus at hM ⊢
  simp only [decodeLights_memoryBlink, decodeBeep_memoryBlink, decodeArmed_memoryBlink,
      decodeReady_memoryBlink, decodeZones_memoryBlink, decodeAlarmZones_memoryBlink,
      decodeAlarm_memoryBlink, decodeTroubleFire_memoryBlink, decodeKeypadAlarms_memoryBlink,
      decodeStatus_memoryBlink] at hM
  have zA : (decodeZones p (decodeReady p (decodeArmed p (decodeBeep (decodeBlink
      (decodeLights p Decoder.init) now) now) now) now)).alarmBit = true := by
    simp only [decodeBlink_alarmBit, decodeBeep_alarmBit, decodeArmed_alarmBit,
        decodeReady_alarmBit, decodeZones_alarmBit, decodeAlarmZones_alarmBit,
        decodeAlarm_alarmBit, decodeTroubleFire_alarmBit, decodeKeypadAlarms_alarmBit,
        decodeStatus_alarmBit, i11, hAl]
  have zP : bitRead ((decodeZones p (decodeReady p (decodeArmed p (decodeBeep (decodeBlink
      (decodeLights p Decoder.init) now) now) now) now)).previousAlarmZones 0) (7 - b)
      = false := by
    simp only [decodeLights_previousAlarmZones, decodeBlink_previousAlarmZones,
        decodeBeep_previousAlarmZones, decodeArmed_previousAlarmZones,
        decodeReady_previousAlarmZones, decodeZones_previousAlarmZones,
        decodeAlarm_previousAlarmZones, decodeTroubleFire_previousAlarmZones,
        decodeKeypadAlarms_previousAlarmZones, decodeStatus_previousAlarmZones]
    exact bitRead_zero _
  obtain ⟨y1, y2⟩ := decodeAlarmZones_alarm_bit p _ b hb2 hb7 zA hZ zP
  have aP : (decodeArmed p (decodeBeep (decodeBlink (decodeLights p Decoder.init) now) now)
      now).previousAlarm = false := by
    apply decodeArmed_previousAlarm
    simp only [decodeLights_previousAlarm, decodeBlink_previousAlarm, decodeBeep_previousAlarm,
        decodeZones_previousAlarm, decodeAlarmZones_previousAlarm, decodeTroubleFire_previousAlarm,
        decodeKeypadAlarms_previousAlarm, decodeStatus_previousAlarm]
    rfl
  have rP := decodeReady_previousAlarm p _ now aP
  have aL : (decodeArmed p (decodeBeep (decodeBlink (decodeLights p Decoder.init) now) now)
      now).armedLight = true := by
    simp only [decodeBlink_armedLight, decodeBeep_armedLight, decodeArmed_armedLight,
        decodeReady_armedLight, decodeZones_armedLight, decodeAlarmZones_armedLight,
        decodeAlarm_armedLight, decodeTroubleFire_armedLight, decodeKeypadAlarms_armedLight,
        decodeStatus_armedLight, i2, hArm]
  have aE : (decodeArmed p (decodeBeep (decodeBlink (decodeLights p Decoder.init) now) now)
      now).exitDelay = false := by
    simp only [decodeLights_exitDelay, decodeBlink_exitDelay, decodeBeep_exitDelay,
        decodeArmed_exitDelay, decodeZones_exitDelay, decodeAlarmZones_exitDelay,
        decodeAlarm_exitDelay, decodeTroubleFire_exitDelay, decodeKeypadAlarms_exitDelay,
        decodeStatus_exitDelay]
    rfl
  have aE2 : (decodeArmed p (decodeBeep (decodeBlink (decodeLights p Decoder.init) now) now)
      now).previousExitDelay = false := by
    simp only [decodeLights_previousExitDelay, decodeBlink_previousExitDelay,
        decodeBeep_previousExitDelay, decodeArmed_previousExitDelay, decodeZones_previousExitDelay,
        decodeAlarmZones_previousExitDelay, decodeAlarm_previousExitDelay,
        decodeTroubleFire_previousExitDelay, decodeKeypadAlarms_previousExitDelay,
        decodeStatus_previousExitDelay]
    rfl
  have aE3 : (decodeArmed p (decodeBeep (decodeBlink (decodeLights p Decoder.init) now) now)
      now).exitDelayChanged = false := by
    simp only [decodeLights_exitDelayChanged, decodeBlink_exitDelayChanged,
        decodeBeep_exitDelayChanged, decodeArmed_exitDelayChanged, decodeZones_exitDelayChanged,
        decodeAlarmZones_exitDelayChanged, decodeAlarm_exitDelayChanged,
        decodeTroubleFire_exitDelayChanged, decodeKeypadAlarms_exitDelayChanged,
        decodeStatus_exitDelayChanged]
    rfl
  obtain ⟨r1, r2⟩ := decodeReady_exitDelay p _ now aL aE aE2 aE3
  simp only [decodeBlink_readyLight, decodeBeep_readyLight, decodeArmed_readyLight,
      decodeReady_readyLight, decodeZones_readyLight, decodeAlarmZones_readyLight,
      decodeAlarm_readyLight, decodeTroubleFire_readyLight, decodeKeypadAlarms_readyLight,
      decodeStatus_readyLight, decodeBlink_armedBitA, decodeBeep_armedBitA, decodeArmed_armedBitA,
      decodeReady_armedBitA, decodeZones_armedBitA, decodeAlarmZones_armedBitA,
      decodeAlarm_armedBitA, decodeTroubleFire_armedBitA, decodeKeypadAlarms_armedBitA,
      decodeStatus_armedBitA, i1, i9] at r1 r2
  have yA : (decodeAlarmZones p (decodeZones p (decodeReady p (decodeArmed p (decodeBeep
      (decodeBlink (decodeLights p Decoder.init) now) now) now) now))).alarmBit = true := by
    simp only [decodeBlink_alarmBit, decodeBeep_alarmBit, decodeArmed_alarmBit,
        decodeReady_alarmBit, decodeZones_alarmBit, decodeAlarmZones_alarmBit,
        decodeAlarm_alarmBit, decodeTroubleFire_alarmBit, decodeKeypadAlarms_alarmBit,
        decodeStatus_alarmBit, i11, hAl]
  have yM : (decodeAlarmZones p (decodeZones p (decodeReady p (decodeArmed p (decodeBeep
      (decodeBlink (decodeLights p Decoder.init) now) now) now) now))).memoryBlink = false := by
    simp only [decodeLights_memoryBlink, decodeBeep_memoryBlink, decodeArmed_memoryBlink,
        decodeReady_memoryBlink, decodeZones_memoryBlink, decodeAlarmZones_memoryBlink,
        decodeAlarm_memoryBlink, decodeTroubleFire_memoryBlink, decodeKeypadAlarms_memoryBlink,
        decodeStatus_memoryBlink, hM]
  have yP : (decodeAlarmZones p (decodeZones p (decodeReady p (decodeArmed p (decodeBeep
      (decodeBlink (decodeLights p Decoder.init) now) now) now) now))).previousAlarm = false := by
    simp only [decodeLights_previousAlarm, decodeBlink_previousAlarm, decodeBeep_previousAlarm,
        decodeZones_previousAlarm, decodeAlarmZones_previousAlarm, decodeTroubleFire_previousAlarm,
        decodeKeypadAlarms_previousAlarm, decodeStatus_previousAlarm, rP]
  obtain ⟨m1, m2⟩ := decodeAlarm_of_alarm p _ (and_mask_ne_zero_of_armed _ hArm) yA yM yP
  refine ⟨?_, ?_, ?_, ?_⟩
  · simp only [decodeLights_alarm, decodeBlink_alarm, decodeBeep_alarm, decodeZones_alarm,
        decodeAlarmZones_alarm, decodeTroubleFire_alarm, decodeKeypadAlarms_alarm,
        decodeStatus_alarm, m1]
  · simp only [decodeLights_alarmZones, decodeBlink_alarmZones, decodeBeep_alarmZones,
        decodeArmed_alarmZones, decodeReady_alarmZones, decodeZones_alarmZones,
        decodeAlarm_alarmZones, decodeTroubleFire_alarmZones, decodeKeypadAlarms_alarmZones,
        decodeStatus_alarmZones, y1]
  · simp only [decodeLights_openZones, decodeBlink_openZones, decodeBeep_openZones,
        decodeArmed_openZones, decodeReady_openZones, decodeAlarm_openZones,
        decodeTroubleFire_openZones, decodeKeypadAlarms_openZones, decodeStatus_openZones, y2]
  · by_cases hc : bitRead (p.panelData p.statusByte) 7 = true
        ∧ bitRead (p.pc16Data p.statusByte) 5 = false
    · rw [if_pos hc]
      apply decodeStatus_of_exitDelay
      · simp only [decodeLights_memoryBlink, decodeBeep_memoryBlink, decodeArmed_memoryBlink,
            decodeReady_memoryBlink, decodeZones_memoryBlink, decodeAlarmZones_memoryBlink,
            decodeAlarm_memoryBlink, decodeTroubleFire_memoryBlink, decodeKeypadAlarms_memoryBlink,
            decodeStatus_memoryBlink, hM]
      · simp only [decodeBlink_lights, decodeBeep_lights, decodeArmed_lights, decodeReady_lights,
            decodeZones_lights, decodeAlarmZones_lights, decodeAlarm_lights,
            decodeTroubleFire_lights, decodeKeypadAlarms_lights, decodeStatus_lights]
        exact lights_ne_zero_of_armed p _ hArm
      · simp only [decodeLights_exitDelayChanged, decodeBlink_exitDelayChanged,
            decodeBeep_exitDelayChanged, decodeArmed_exitDelayChanged,
            decodeZones_exitDelayChanged, decodeAlarmZones_exitDelayChanged,
            decodeAlarm_exitDelayChanged, decodeTroubleFire_exitDelayChanged,
            decodeKeypadAlarms_exitDelayChanged, decodeStatus_exitDelayChanged, r1, hc.1, hc.2]
        rfl
      · simp only [decodeLights_exitDelay, decodeBlink_exitDelay, decodeBeep_exitDelay,
            decodeArmed_exitDelay, decodeZones_exitDelay, decodeAlarmZones_exitDelay,
            decodeAlarm_exitDelay, decodeTroubleFire_exitDelay, decodeKeypadAlarms_exitDelay,
            decodeStatus_exitDelay, r2, hc.1, hc.2]
        rfl
    · rw [if_neg hc]
      apply decodeStatus_of_alarm
      · simp only [decodeLights_memoryBlink, decodeBeep_memoryBlink, decodeArmed_memoryBlink,
            decodeReady_memoryBlink, decodeZones_memoryBlink, decodeAlarmZones_memoryBlink,
            decodeAlarm_memoryBlink, decodeTroubleFire_memoryBlink, decodeKeypadAlarms_memoryBlink,
            decodeStatus_memoryBlink, hM]
      · simp only [decodeBlink_lights, decodeBeep_lights, decodeArmed_lights, decodeReady_lights,
            decodeZones_lights, decodeAlarmZones_lights, decodeAlarm_lights,
            decodeTroubleFire_lights, decodeKeypadAlarms_lights, decodeStatus_lights]
        exact lights_ne_zero_of_armed p _ hArm
      · simp only [decodeLights_alarmChanged, decodeBlink_alarmChanged, decodeBeep_alarmChanged,
            decodeZones_alarmChanged, decodeAlarmZones_alarmChanged,
            decodeTroubleFire_alarmChanged, decodeKeypadAlarms_alarmChanged,
            decodeStatus_alarmChanged, m2]
      · simp only [decodeLights_alarm, decodeBlink_alarm, decodeBeep_alarm, decodeZones_alarm,
            decodeAlarmZones_alarm, decodeTroubleFire_alarm, decodeKeypadAlarms_alarm,
            decodeStatus_alarm, m1]
      · simp only [decodeLights_exitDelayChanged, decodeBlink_exitDelayChanged,
            decodeBeep_exitDelayChanged, decodeArmed_exitDelayChanged,
            decodeZones_exitDelayChanged, decodeAlarmZones_exitDelayChanged,
            decodeAlarm_exitDelayChanged, decodeTroubleFire_exitDelayChanged,
            decodeKeypadAlarms_exitDelayChanged, decodeStatus_exitDelayChanged, r1]
        cases h7 : bitRead (p.panelData p.statusByte) 7 <;>
          cases h5 : bitRead (p.pc16Data p.statusByte) 5 <;> simp_all

/-- C18, as the code has it: for every `b` in 2..7, decoding from the power-on
state (at any time, with any `statusByte`) a frame whose light byte has the
Armed light on, with the memory light not blinking, the PC16 Alarm bit set and
zone-alarm bit `b` of `pc16Data[statusByte - 1]` set, gives `alarm[0] = true`,
bit `7 - b` of `alarmZones[0]` and of `openZones[0]` set, and `status[0] = 0x11`,
except that `status[0] = 0x08` (exit delay) when the frame also has the Ready
light on with PC16 ArmedSideA clear. -/
theorem alarm_zone_frame (p : Foreground) (now b : Nat) (hb2 : 2 ≤ b) (hb7 : b ≤ 7)
    (hArm : bitRead (p.panelData p.statusByte) 6 = true)
    (hM : (processPanelStatus p Decoder.init now).memoryBlink = false)
    (hAl : bitRead (p.pc16Data p.statusByte) 0 = true)
    (hZ : bitRead (p.pc16Data (p.statusByte - 1)) b = true) :
    (processPanelStatus p Decoder.init now).alarm = true
      ∧ bitRead ((processPanelStatus p Decoder.init now).alarmZones 0) (7 - b) = true
      ∧ bitRead ((processPanelStatus p Decoder.init now).openZones 0) (7 - b) = true
      ∧ (processPanelStatus p Decoder.init now).status
          = if bitRead (p.panelData p.statusByte) 7 = true
              ∧ bitRead (p.pc16Data p.statusByte) 5 = false then 0x08 else 0x11 :=
  processPanelStatus_of_alarm p now b hb2 hb7 hArm hM hAl hZ

set_option maxRecDepth 100000 in
/-- Example for C18: the frame "armed, in alarm on zone 2" (`b = 6`) decoded
from power-on at 5 s. -/
theorem alarm_zone_frame_witness :
    2 ≤ 6 ∧ 6 ≤ 7
      ∧ bitRead ((alarmZone2Frame.foreground 1).panelData (alarmZone2Frame.foreground 1).statusByte)
          6 = true
      ∧ (processPanelStatus (alarmZone2Frame.foreground 1) Decoder.init 5000).memoryBlink = false
      ∧ bitRead ((alarmZone2Frame.foreground 1).pc16Data (alarmZone2Frame.foreground 1).statusByte)
          0 = true
      ∧ bitRead ((alarmZone2Frame.foreground 1).pc16Data
          ((alarmZone2Frame.foreground 1).statusByte - 1)) 6 = true
      ∧ ((processPanelStatus (alarmZone2Frame.foreground 1) Decoder.init 5000).alarm = true
        ∧ bitRead ((processPanelStatus (alarmZone2Frame.foreground 1) Decoder.init 5000).alarmZones
            0) (7 - 6) = true
        ∧ bitRead ((processPanelStatus (alarmZone2Frame.foreground 1) Decoder.init 5000).openZones
            0) (7 - 6) = true
        ∧ (processPanelStatus (alarmZone2Frame.foreground 1) Decoder.init 5000).status
            = if bitRead ((alarmZone2Frame.foreground 1).panelData
                  (alarmZone2Frame.foreground 1).statusByte) 7 = true
                ∧ bitRead ((alarmZone2Frame.foreground 1).pc16Data
                  (alarmZone2Frame.foreground 1).statusByte) 5 = false then 0x08 else 0x11) :=
  ⟨by decide, by decide, by decide, by decide!, by decide, by decide,
    alarm_zone_frame (alarmZone2Frame.foreground 1) 5000 6 (by decide) (by decide) (by decide)
      (by decide!) (by decide) (by decide)⟩

set_option maxRecDepth 100000 in
/-- Counterexample for C18 as stated: the frame `panelData = [0x00, 0xC0]`,
`pc16Data = [0x40, 0x01]` has the Armed light on (with the Ready light), the
PC16 Alarm bit set and zone-alarm bit 6 set; decoded from power-on at 5 s the
memory light is not blinking and `alarm[0]` is true, but `status[0]` is `0x08`,
not `0x11`. -/
theorem alarm_status_exit_delay :
    bitRead ((exitDelayAlarmFrame.foreground 1).panelData 1) 6 = true
      ∧ bitRead ((exitDelayAlarmFrame.foreground 1).pc16Data 1) 0 = true
      ∧ bitRead ((exitDelayAlarmFrame.foreground 1).pc16Data 0) 6 = true
      ∧ (processPanelStatus (exitDelayAlarmFrame.foreground 1) Decoder.init 5000).memoryBlink
          = false
      ∧ (processPanelStatus (exitDelayAlarmFrame.foreground 1) Decoder.init 5000).alarm = true
      ∧ (processPanelStatus (exitDelayAlarmFrame.foreground 1) Decoder.init 5000).status = 0x08
      ∧ (processPanelStatus (exitDelayAlarmFrame.foreground 1) Decoder.init 5000).status ≠ 0x11 := by
  decide!

theorem decodeLights_beepTimeOff (p : Foreground) (d : Decoder) :
    (decodeLights p d).beepTimeOff = d.beepTimeOff := by
  have h := congrArg Decoder.beepTimeOff (decodeLights_restore p d)
  exact h

theorem decodeLights_beepTimesSet (p : Foreground) (d : Decoder) :
    (decodeLights p d).beepTimesSet = d.beepTimesSet := by
  have h := congrArg Decoder.beepTimesSet (decodeLights_restore p d)
  exact h

theorem decodeBlink_beepTimeOff (d : Decoder) (now : Nat) :
    (decodeBlink d now).beepTimeOff = d.beepTimeOff := by
  have h := congrArg Decoder.beepTimeOff (decodeBlink_restore d now)
  exact h

theorem decodeBlink_beepTimesSet (d : Decoder) (now : Nat) :
    (decodeBlink d now).beepTimesSet = d.beepTimesSet := by
  have h := congrArg Decoder.beepTimesSet (decodeBlink_restore d now)
  exact h

theorem decodeArmed_beepTimeOff (p : Foreground) (d : Decoder) (now : Nat) :
    (decodeArmed p d now).beepTimeOff = d.beepTimeOff := by
  have h := congrArg Decoder.beepTimeOff (decodeArmed_restore p d now)
  exact h

theorem decodeArmed_beepTimesSet (p : Foreground) (d : Decoder) (now : Nat) :
    (decodeArmed p d now).beepTimesSet = d.beepTimesSet := by
  have h := congrArg Decoder.beepTimesSet (decodeArmed_restore p d now)
  exact h

theorem decodeReady_beepTimeOff (p : Foreground) (d : Decoder) (now : Nat) :
    (decodeReady p d now).beepTimeOff = d.beepTimeOff := by
  have h := congrArg Decoder.beepTimeOff (decodeReady_restore p d now)
  exact h

theorem decodeReady_beepTimesSet (p : Foreground) (d : Decoder) (now : Nat) :
    (decodeReady p d now).beepTimesSet = d.beepTimesSet := by
  have h := congrArg Decoder.beepTimesSet (decodeReady_restore p d now)
  exact h

theorem decodeZones_beepTimeOff (p : Foreground) (d : Decoder) :
    (decodeZones p d).beepTimeOff = d.beepTimeOff := by
  have h := congrArg Decoder.beepTimeOff (decodeZones_restore p d)
  exact h

theorem decodeZones_beepTimesSet (p : Foreground) (d : Decoder) :
    (decodeZones p d).beepTimesSet = d.beepTimesSet := by
  have h := congrArg Decoder.beepTimesSet (decodeZones_restore p d)
  exact h

theorem decodeAlarmZones_beepTimeOff (p : Foreground) (d : Decoder) :
    (decodeAlarmZones p d).beepTimeOff = d.beepTimeOff := by
  have h := congrArg Decoder.beepTimeOff (decodeAlarmZones_restore p d)
  exact h

theorem decodeAlarmZones_beepTimesSet (p : Foreground) (d : Decoder) :
    (decodeAlarmZones p d).beepTimesSet = d.beepTimesSet := by
  have h := congrArg Decoder.beepTimesSet (decodeAlarmZones_restore p d)
  exact h

theorem decodeAlarm_beepTimeOff (p : Foreground) (d : Decoder) :
    (decodeAlarm p d).beepTimeOff = d.beepTimeOff := by
  have h := congrArg Decoder.beepTimeOff (decodeAlarm_restore p d)
  exact h

theorem decodeAlarm_beepTimesSet (p : Foreground) (d : Decoder) :
    (decodeAlarm p d).beepTimesSet = d.beepTimesSet := by
  have h := congrArg Decoder.beepTimesSet (decodeAlarm_restore p d)
  exact h

theorem decodeTroubleFire_beepTimeOff (p : Foreground) (d : Decoder) :
    (decodeTroubleFire p d).beepTimeOff = d.beepTimeOff := by
  have h := congrArg Decoder.beepTimeOff (decodeTroubleFire_restore p d)
  exact h

theorem decodeTroubleFire_beepTimesSet (p : Foreground) (d : Decoder) :
    (decodeTroubleFire p d).beepTimesSet = d.beepTimesSet := by
  have h := congrArg Decoder.beepTimesSet (decodeTroubleFire_restore p d)
  exact h

theorem decodeKeypadAlarms_beepTimeOff (p : Foreground) (d : Decoder) (now : Nat) :
    (decodeKeypadAlarms p d now).beepTimeOff = d.beepTimeOff := by
  have h := congrArg Decoder.beepTimeOff (decodeKeypadAlarms_restore p d now)
  exact h

theorem decodeKeypadAlarms_beepTimesSet (p : Foreground) (d : Decoder) (now : Nat) :
    (decodeKeypadAlarms p d now).beepTimesSet = d.beepTimesSet := by
  have h := congrArg Decoder.beepTimesSet (decodeKeypadAlarms_restore p d now)
  exact h

theorem decodeStatus_beepTimeOff (p : Foreground) (d : Decoder) :
    (decodeStatus p d).beepTimeOff = d.beepTimeOff := by
  have h := congrArg Decoder.beepTimeOff (decodeStatus_restore p d)
  exact h

theorem decodeStatus_beepTimesSet (p : Foreground) (d : Decoder) :
    (decodeStatus p d).beepTimesSet = d.beepTimesSet := by
  have h := congrArg Decoder.beepTimesSet (decodeStatus_restore p d)
  exact h


/-! ## Armed stay to armed away (`processPanelStatus`) -/

theorem decodeBeep_beepTimeOff (d : Decoder) (now : Nat) :
    (decodeBeep d now).beepTimeOff = if d.beepTimesSet = true then d.beepTimeOff else now := by
  simp only [decodeBeep, Decoder.ite_field, ite_self]

theorem processPanelStatus_beepTimeOff (p : Foreground) (d : Decoder) (now : Nat) :
    (processPanelStatus p d now).beepTimeOff
      = if d.beepTimesSet = true then d.beepTimeOff else now := by
  unfold processPanelStatus
  simp only [decodeLights_beepTimeOff, decodeBlink_beepTimeOff, decodeArmed_beepTimeOff,
      decodeReady_beepTimeOff, decodeZones_beepTimeOff, decodeAlarmZones_beepTimeOff,
      decodeAlarm_beepTimeOff, decodeTroubleFire_beepTimeOff, decodeKeypadAlarms_beepTimeOff,
      decodeStatus_beepTimeOff, decodeLights_beepTimesSet, decodeBlink_beepTimesSet,
      decodeArmed_beepTimesSet, decodeReady_beepTimesSet, decodeZones_beepTimesSet,
      decodeAlarmZones_beepTimesSet, decodeAlarm_beepTimesSet, decodeTroubleFire_beepTimesSet,
      decodeKeypadAlarms_beepTimesSet, decodeStatus_beepTimesSet, decodeBeep_beepTimeOff]

set_option maxRecDepth 100000 in
/-- Evaluation for C20: from power-on the armed-stay frame is decoded at 1 s
(`armedStay[0]` true), the same frame with the beep bit on at 10 s, and the
frame "armed" (ArmedSideA set, bypass light and ArmedBypass bit clear, beep
off, Alarm clear) at 10.5 s.  The beep was on half a second before, yet the
last decode switches to `armedStay[0] = false`, `armedAway[0] = true`:
`beepTimeOff` still holds the time of the first decode. -/
theorem armed_away_right_after_beep :
    (processPanelStatus (armedStayFrame.foreground 1) Decoder.init 1000).armedStay = true
      ∧ (processPanelStatus (armedStayBeepFrame.foreground 1)
          (processPanelStatus (armedStayFrame.foreground 1) Decoder.init 1000) 10000).armedStay
          = true
      ∧ (processPanelStatus (armedStayBeepFrame.foreground 1)
          (processPanelStatus (armedStayFrame.foreground 1) Decoder.init 1000) 10000).beep = true
      ∧ (processPanelStatus (armedFrame.foreground 1)
          (processPanelStatus (armedStayBeepFrame.foreground 1)
            (processPanelStatus (armedStayFrame.foreground 1) Decoder.init 1000) 10000)
          10500).armedStay = false
      ∧ (processPanelStatus (armedFrame.foreground 1)
          (processPanelStatus (armedStayBeepFrame.foreground 1)
            (processPanelStatus (armedStayFrame.foreground 1) Decoder.init 1000) 10000)
          10500).armedAway = true
      ∧ (processPanelStatus (armedFrame.foreground 1)
          (processPanelStatus (armedStayBeepFrame.foreground 1)
            (processPanelStatus (armedStayFrame.foreground 1) Decoder.init 1000) 10000)
          10500).beepTimeOff = 1000 := by
  decide!



/-! ## Startup wait and `statusByte` (`loop`) -/

theorem loop_fg_dec (s : State) (now : Nat) :
    (loop s now).1.fg.startupCycle
        = (s.fg.startupCycle && !(loopCopies s now && passesStartup s))
      ∧ (loop s now).1.fg.statusByte
          = (if s.fg.startupCycle = true ∧ loopCopies s now = true ∧ passesStartup s = true
                ∧ (copySlot s.ring s.fg).panelByteCount = 3 then 2 else s.fg.statusByte)
      ∧ (loop s now).1.dec
          = (if loopDecodes s now = true then
              processPanelStatus (loop s now).1.fg (keybusCheck s now) now
            else keybusCheck s now) := by
  unfold loop
  lift_lets
  intro d0 d1 changed d2 wr fg ring started fg2 wr2 wr3
  have hd2 : d2 = keybusCheck s now := rfl
  have hdis : (changed && !d2.keybusConnected) = loopDisconnects s now := by
    unfold loopDisconnects
    have hk : d2.keybusConnected = !decide (subU32 now s.cap.keybusTime > 3000) := by
      unfold d2 markStatusChanged
      split_ifs <;> rfl
    rw [hk]
    simp only [changed, d1, d0, Bool.not_not]
  have hfg1 : fg.startupCycle = s.fg.startupCycle := rfl
  have hfg2 : fg.statusByte = s.fg.statusByte := rfl
  have hfg : fg = copySlot s.ring s.fg := rfl
  rw [hdis]
  unfold loopDecodes loopCopies passesStartup
  rw [← hfg]
  clear_value d2 fg
  generalize loopDisconnects s now = c
  subst hd2
  cases c
  · simp only [Bool.false_eq_true, if_false, Bool.not_false, Bool.true_and]
    by_cases h2 : s.ring.panelBufferLength = 0
    · simp [h2]
    · rw [if_neg h2]
      cases hs : fg.startupCycle
      · simp [h2, hs, ← hfg1, hfg2, fg2, started]
      · by_cases h3 : (decide (fg.panelByteCount < 2) || fg.pc16Data 0 == 0xFF) = true
        · simp only [Bool.or_eq_true, decide_eq_true_eq, beq_iff_eq] at h3
          have h3n : ¬(2 ≤ fg.panelByteCount ∧ ¬fg.pc16Data 0 = 255) := by
            rintro ⟨ha, hb⟩
            rcases h3 with h | h
            · omega
            · exact hb h
          simp [h2, hs, ← hfg1, hfg2, h3, h3n]
        · simp only [Bool.or_eq_true, decide_eq_true_eq, beq_iff_eq] at h3
          have h3p : 2 ≤ fg.panelByteCount ∧ ¬fg.pc16Data 0 = 255 := by
            constructor
            · by_contra hx
              exact h3 (Or.inl (by omega))
            · intro hx
              exact h3 (Or.inr hx)
          have hlt : ¬fg.panelByteCount < 2 := by omega
          simp [h2, hs, ← hfg1, hfg2, fg2, started, h3p, hlt]
  · simp

theorem dscClockInterrupt_fg (s : State) (clockPin : Bool) (micros millis : Nat) :
    (dscClockInterrupt s clockPin micros millis).1.fg = s.fg := by
  unfold dscClockInterrupt
  simp only []
  split_ifs <;> rfl

theorem dscDataInterrupt_fg (s : State) (clockPin readPin pc16Pin : Bool) (millis : Nat) :
    (dscDataInterrupt s clockPin readPin pc16Pin millis).fg = s.fg := by
  unfold dscDataInterrupt
  split_ifs <;> rfl

theorem loop_startInv (s : State) (now : Nat) (h : StartInv s.fg) :
    StartInv (loop s now).1.fg := by
  obtain ⟨h1, h2, _⟩ := loop_fg_dec s now
  unfold StartInv at h ⊢
  rw [h1, h2]
  obtain ⟨ha, hb⟩ := h
  split_ifs with hc
  · refine ⟨Or.inr rfl, Or.inl ?_⟩
    simp [hc.1, hc.2.1, hc.2.2.1]
  · refine ⟨ha, ?_⟩
    rcases hb with hb | hb
    · left
      simp [hb]
    · exact Or.inr hb

theorem step_startInv (s : State) (e : Event) (h : StartInv s.fg) : StartInv (step s e).fg := by
  cases e with
  | clockEdge clockPin micros millis =>
    show StartInv (dscClockInterrupt s clockPin micros millis).1.fg
    rw [dscClockInterrupt_fg]
    exact h
  | dataSample clockPin readPin pc16Pin millis =>
    show StartInv (dscDataInterrupt s clockPin readPin pc16Pin millis).fg
    rw [dscDataInterrupt_fg]
    exact h
  | poll millis => exact loop_startInv s millis h
  | keys receivedKeys millis =>
    show StartInv (match write s.wr receivedKeys millis with
      | some w => { s with wr := w }
      | none => s).fg
    cases write s.wr receivedKeys millis <;> exact h
  | stopCapture => exact h
  | beginCapture => exact h
  | resetFlags => exact h

theorem runEvents_startInv (w : Nat) (a : List Char) (es : List Event) :
    StartInv (runEvents (State.init w a) es).fg := by
  unfold runEvents
  refine foldl_preserves (fun s : State => StartInv s.fg) _ ?_ _ _ ?_
  · intro s e hs
    exact step_startInv s e hs
  · exact ⟨Or.inl rfl, Or.inr rfl⟩

/-- C11, as the code has it: in every state reached from power-on by any
events (interrupts, `loop()` calls, writes, `stop()`, `begin()`,
`resetStatus()`), `statusByte` is 1 or 2, and 1 while the startup wait lasts;
and a `loop()` call there, at any time `now`, (a) ends the startup wait exactly
when it copies a frame with `panelByteCount >= 2` and `pc16Data[0] != 0xFF`
(`passesStartup`), (b) changes `statusByte` only then, and only to 2 for a
3-byte frame, and (c) runs `processPanelStatus` (on the frame, with the latched
`statusByte`) exactly when it copies a frame and the wait is over or ends with
it, and otherwise leaves the decoder as the liveness check left it. -/
theorem statusByte_latched (w : Nat) (a : List Char) (es : List Event) (now : Nat) :
    ((runEvents (State.init w a) es).fg.statusByte = 1
        ∨ (runEvents (State.init w a) es).fg.statusByte = 2)
      ∧ ((runEvents (State.init w a) es).fg.startupCycle = false
        ∨ (runEvents (State.init w a) es).fg.statusByte = 1)
      ∧ (loop (runEvents (State.init w a) es) now).1.fg.startupCycle
          = ((runEvents (State.init w a) es).fg.startupCycle
              && !(loopCopies (runEvents (State.init w a) es) now
                    && passesStartup (runEvents (State.init w a) es)))
      ∧ (loop (runEvents (State.init w a) es) now).1.fg.statusByte
          = (if (runEvents (State.init w a) es).fg.startupCycle = true
                ∧ loopCopies (runEvents (State.init w a) es) now = true
                ∧ passesStartup (runEvents (State.init w a) es) = true
                ∧ (copySlot (runEvents (State.init w a) es).ring
                    (runEvents (State.init w a) es).fg).panelByteCount = 3
              then 2 else (runEvents (State.init w a) es).fg.statusByte)
      ∧ (loop (runEvents (State.init w a) es) now).1.dec
          = (if loopDecodes (runEvents (State.init w a) es) now = true then
              processPanelStatus (loop (runEvents (State.init w a) es) now).1.fg
                (keybusCheck (runEvents (State.init w a) es) now) now
            else keybusCheck (runEvents (State.init w a) es) now) :=
  ⟨(runEvents_startInv w a es).1, (runEvents_startInv w a es).2,
    loop_fg_dec (runEvents (State.init w a) es) now⟩

set_option maxRecDepth 100000 in
/-- Counterexample for C11 as stated: from power-on a frame of four bytes is
the first frame `loop()` consumes.  Its byte count is not in {2, 3}, yet it
ends the startup wait and is decoded (`ready[0]` becomes true).  The next
frame has three bytes, the first consumed frame with a byte count in {2, 3},
and `statusByte` is still 1 after it. -/
theorem four_byte_frame_ends_startup :
    fourByteFrameRun.fg.panelByteCount = 4
      ∧ fourByteFrameRun.fg.startupCycle = false
      ∧ fourByteFrameRun.dec.ready = true
      ∧ fourByteFrameRun.fg.statusByte = 1
      ∧ threeByteFrameRun.fg.panelByteCount = 3
      ∧ threeByteFrameRun.fg.statusByte = 1 := by
  decide!


/-! ## Key codes: zero bits per hex digit -/

/-- Counterexample for C25: the fire alarm key `F` is assigned `0x3F`, which has
two zero bits in its upper hex digit and none in its lower one. -/
theorem fire_key_code_zero_bits :
    (setWriteKey (Writer.init 4 []) 'F' 1000).writeKey = 0x3F
    ∧ nibbleZeroBits (setWriteKey (Writer.init 4 []) 'F' 1000).writeKey 4 = 2
    ∧ nibbleZeroBits (setWriteKey (Writer.init 4 []) 'F' 1000).writeKey 0 = 0 := by
  decide

/-- C25 (amended): when `setWriteKey` accepts a key, the code it assigns to a
digit, star or hash key has exactly one zero bit in each of its two hex
digits, and the code it assigns to an alarm key (F, A, P) has two zero bits in
the upper hex digit and none in the lower one. -/
theorem setWriteKey_code_zero_bits (s : Writer) (c : Char) (now : Nat)
    (hpend : s.writeKeyPending = false)
    (hcool : subU32 now s.previousTime > 500 ∨ now ≤ 500) :
    (c ∈ keypadKeyChars →
        nibbleZeroBits (setWriteKey s c now).writeKey 4 = 1
        ∧ nibbleZeroBits (setWriteKey s c now).writeKey 0 = 1)
    ∧ (c ∈ alarmKeyChars →
        nibbleZeroBits (setWriteKey s c now).writeKey 4 = 2
        ∧ nibbleZeroBits (setWriteKey s c now).writeKey 0 = 0) := by
  have hguard : (!s.writeKeyPending && (decide (subU32 now s.previousTime > 500)
      || decide (now ≤ 500))) = true := by
    rcases hcool with h | h <;> simp [hpend, h]
  refine ⟨?_, ?_⟩
  · intro hc
    simp only [keypadKeyChars, List.mem_cons, List.mem_singleton, List.not_mem_nil,
      or_false] at hc
    rcases hc with h | h | h | h | h | h | h | h | h | h | h | h <;>
    · subst h
      simp only [setWriteKey, hguard, keySwitch]
      cases hA : s.writeAlarm <;> simp [hA] <;> decide
  · intro hc
    simp only [alarmKeyChars, List.mem_cons, List.mem_singleton, List.not_mem_nil,
      or_false] at hc
    rcases hc with h | h | h | h | h | h <;>
    · subst h
      simp only [setWriteKey, hguard, keySwitch]
      simp
      decide

/-- Example for C25: the key `5` written at 1000 ms into the idle writer of the
power-on state gets `0xDD`, one zero bit in each hex digit. -/
theorem setWriteKey_code_zero_bits_witness :
    nibbleZeroBits (setWriteKey (Writer.init 4 []) '5' 1000).writeKey 4 = 1
    ∧ nibbleZeroBits (setWriteKey (Writer.init 4 []) '5' 1000).writeKey 0 = 1 :=
  (setWriteKey_code_zero_bits (Writer.init 4 []) '5' 1000 rfl (Or.inl (by decide))).1
    (by decide)

/-! ## Redundancy filter -/

theorem redundantPanelData_fst (p c : Nat → Nat) (n : Nat) :
    (redundantPanelData p c n).1 = true ↔ ∀ i, i < n → p i = c i := by
  unfold redundantPanelData
  simp only []
  split_ifs with h
  · simp only [true_iff]
    intro i hi
    have := (List.all_eq_true.mp h) i (List.mem_range.mpr hi)
    simpa using this
  · simp only [Bool.false_eq_true, false_iff]
    intro hall
    apply h
    rw [List.all_eq_true]
    intro i hi
    simpa using hall i (List.mem_range.mp hi)

/-- C26: for `checkedBytes ≤ dscDataSize`, `redundantPanelData` returns true
exactly when the two arrays agree on the first `checkedBytes` bytes; when it
returns true `previousCmd` is unchanged; when it returns false `previousCmd`
afterwards equals `currentCmd` in all `dscDataSize` bytes, and an immediately
repeated call with the same `currentCmd` returns true. -/
theorem redundantPanelData_contract (previousCmd currentCmd : Nat → Nat) (checkedBytes : Nat)
    (hn : checkedBytes ≤ dscDataSize) :
    ((redundantPanelData previousCmd currentCmd checkedBytes).1 = true
        ↔ ∀ i, i < checkedBytes → previousCmd i = currentCmd i)
    ∧ ((redundantPanelData previousCmd currentCmd checkedBytes).1 = true →
        (redundantPanelData previousCmd currentCmd checkedBytes).2 = previousCmd)
    ∧ ((redundantPanelData previousCmd currentCmd checkedBytes).1 = false →
        (∀ i, i < dscDataSize →
          (redundantPanelData previousCmd currentCmd checkedBytes).2 i = currentCmd i)
        ∧ (redundantPanelData (redundantPanelData previousCmd currentCmd checkedBytes).2
            currentCmd checkedBytes).1 = true) := by
  refine ⟨redundantPanelData_fst _ _ _, ?_, ?_⟩
  · intro h
    unfold redundantPanelData at h ⊢
    simp only [] at h ⊢
    split_ifs at h ⊢ with hr
    · rfl
  · intro h
    have h2 : ∀ i, i < dscDataSize →
        (redundantPanelData previousCmd currentCmd checkedBytes).2 i = currentCmd i := by
      intro i hi
      unfold redundantPanelData at h ⊢
      simp only [] at h ⊢
      split_ifs at h ⊢ with hr
      simp only [hi, if_true]
    refine ⟨h2, ?_⟩
    rw [redundantPanelData_fst]
    intro i hi
    exact h2 i (lt_of_lt_of_le hi hn)

/-- Example for C26: a two-byte frame that differs from the stored one in its
second byte is reported as new, stored, and reported as redundant when the
call is repeated. -/
theorem redundantPanelData_contract_witness :
    (redundantPanelData zeros (keyModuleData 0) 2).1 = false
    ∧ (redundantPanelData (redundantPanelData zeros (keyModuleData 0) 2).2
        (keyModuleData 0) 2).1 = true :=
  ⟨by decide,
   ((redundantPanelData_contract zeros (keyModuleData 0) 2 (by decide)).2.2 (by decide)).2⟩

/-! ## Module printing with hidden keypad digits -/

/-- C30: with `hideKeypadDigits` enabled `printModuleMessage` prints the same
text for all ten digit key codes, but `printModuleBinary` does not: for the
code `0xD7` of the digit 0 it prints the bits of the first module byte, where
for the other nine digits it prints eight dots. -/
theorem printModuleBinary_reveals_zero :
    (∀ k ∈ digitKeyCodes,
        printModuleMessage true (keyModuleData k) = ("[Keypad] ", "[Digit]"))
    ∧ (∀ k ∈ digitKeyCodes, k ≠ 0xD7 →
        printModuleBinary true (keyModuleData k) 2 2 true = "........ 11111111")
    ∧ printModuleBinary true (keyModuleData 0xD7) 2 2 true = "11010111 11111111" := by
  decide


/-! ## A long idle during a key transmission -/

/-- The falling edge that ends a long idle while a transmission is under way:
the write stays pending and bit 7 is acted on again. -/
theorem dscClockInterrupt_restart (s : State) (micros millis : Nat)
    (hvk : s.wr.virtualKeypad = true) (hpend : s.wr.writeKeyPending = true)
    (hw : s.wr.writeKeyWait = false)
    (hidle : subU32 micros s.cap.previousClockHighTime > 2000) :
    (dscClockInterrupt s false micros millis).1.wr = { s.wr with writeStart := true }
    ∧ (dscClockInterrupt s false micros millis).2 = slotAction s.wr.writeKey 0 := by
  rw [← slotAction_eq]
  have hwr : { s.wr with writeKeyWait := false } = s.wr := by rw [← hw]
  unfold dscClockInterrupt
  by_cases ht : subU32 millis s.wr.writeCompleteTime > 50
  · simp [hvk, hpend, ht, hidle, hwr, hw]
  · simp [hvk, hpend, ht, hidle, hw]

theorem clockCycle_restart (s : State) (c : Cycle)
    (hvk : s.wr.virtualKeypad = true) (hpend : s.wr.writeKeyPending = true)
    (hw : s.wr.writeKeyWait = false)
    (hidle : subU32 c.fallMicros c.riseMicros > 2000) :
    Sending (clockCycle s c).1 s.wr.writeKey 0
    ∧ (clockCycle s c).2 = slotAction s.wr.writeKey 0 := by
  have hprev : (dscDataInterrupt (dscClockInterrupt s true c.riseMicros c.riseMillis).1 true
      c.panelBit c.pc16Bit c.highMillis).cap.previousClockHighTime = c.riseMicros := by
    rw [dscClockInterrupt_rising]
    simp only [dscDataInterrupt, if_true]
    rw [samplePanelBit_previousClockHighTime]
  have hwr : (dscDataInterrupt (dscClockInterrupt s true c.riseMicros c.riseMillis).1 true
      c.panelBit c.pc16Bit c.highMillis).wr = s.wr := by
    rw [dscDataInterrupt_wr, dscClockInterrupt_rising]
  obtain ⟨h1, h2⟩ := dscClockInterrupt_restart
    (dscDataInterrupt (dscClockInterrupt s true c.riseMicros c.riseMillis).1 true
      c.panelBit c.pc16Bit c.highMillis) c.fallMicros c.fallMillis
    (by rw [hwr]; exact hvk) (by rw [hwr]; exact hpend) (by rw [hwr]; exact hw)
    (by rw [hprev]; exact hidle)
  have hcap := dscClockInterrupt_cap
    (dscDataInterrupt (dscClockInterrupt s true c.riseMicros c.riseMillis).1 true
      c.panelBit c.pc16Bit c.highMillis) c.fallMicros c.fallMillis
  have hhigh : (dscClockInterrupt
      (dscDataInterrupt (dscClockInterrupt s true c.riseMicros c.riseMillis).1 true
        c.panelBit c.pc16Bit c.highMillis) false c.fallMicros c.fallMillis).1.cap.clockHighTime
      > 2000 := by
    rw [hcap, hprev]; exact hidle
  obtain ⟨z1, z2, z3⟩ := dscDataInterrupt_low_idle _ c.keypadBit false c.lowMillis hhigh
  rw [hwr] at h1 h2
  unfold clockCycle
  refine ⟨⟨?_, ?_, ?_, ?_, ?_, z1, z2, z3⟩, h2⟩
  · simp only [dscDataInterrupt_wr]; rw [h1]; exact hvk
  · simp only [dscDataInterrupt_wr]; rw [h1]; exact hpend
  · simp only [dscDataInterrupt_wr]; rw [h1]; exact hw
  · simp only [dscDataInterrupt_wr]; rw [h1]
  · simp only [dscDataInterrupt_wr]; rw [h1]

set_option maxRecDepth 100000 in
/-- Counterexample for C27: the key `5` is pending, its transmission has begun
and three bits of the command have passed when the next long idle arrives.
After the clock period of that idle the write is still pending and not
waiting, and in the command that follows the key is driven in slots 2 and 6. -/
theorem long_idle_keeps_write_pending :
    keyFiveInterrupted.wr.writeStart = true
    ∧ keyFiveInterrupted.cap.isrPanelBitTotal = 3
    ∧ (clockCycle keyFiveInterrupted ((bitCycle 0).delay 20)).1.wr.writeKeyPending = true
    ∧ (clockCycle keyFiveInterrupted ((bitCycle 0).delay 20)).1.wr.writeKeyWait = false
    ∧ (clockCycles keyFiveInterrupted (keyCycles 20)).2
        = [none, none, some true, none, none, none, some true, none] := by
  decide!

/-- C27 (amended): if a key transmission has begun and the next long idle
arrives before the write has completed, the clock period of that idle leaves
the write pending (`writeKeyPending` set, `writeKeyWait` clear) and acts on
bit 7 of the key again; the command that follows carries the whole key, slot
`k` driven exactly when bit `7 - k` of the key is 0, and only the falling edge
with 7 sampled bits completes the write. -/
theorem long_idle_restarts_write (s : State) (key k : Nat)
    (c0 c1 c2 c3 c4 c5 c6 c7 : Cycle)
    (hS : Sending s key k)
    (hidle : subU32 c0.fallMicros c0.riseMicros > 2000)
    (hshort : ∀ c ∈ [c1, c2, c3, c4, c5, c6, c7], subU32 c.fallMicros c.riseMicros ≤ 2000) :
    (clockCycle s c0).1.wr.writeKeyPending = true
    ∧ (clockCycle s c0).1.wr.writeKeyWait = false
    ∧ (clockCycle s c0).2 = slotAction key 0
    ∧ (clockCycles s [c0, c1, c2, c3, c4, c5, c6, c7]).2 = (List.range 8).map (slotAction key)
    ∧ (clockCycles s [c0, c1, c2, c3, c4, c5, c6, c7]).1.wr.writeKeyPending = false
    ∧ (clockCycles s [c0, c1, c2, c3, c4, c5, c6, c7]).1.wr.writeKeyWait = true := by
  obtain ⟨hvk, hpend, hw, hstart, hkey, hT, hC, hB⟩ := hS
  have hs : ∀ c ∈ [c1, c2, c3, c4, c5, c6, c7], ¬ subU32 c.fallMicros c.riseMicros > 2000 :=
    fun c hc => Nat.not_lt.mpr (hshort c hc)
  obtain ⟨S0, p0⟩ := clockCycle_restart s c0 hvk hpend hw hidle
  rw [hkey] at S0 p0
  obtain ⟨p1, S1, -⟩ := clockCycle_next _ c1 _ 0 (by omega) S0 (hs c1 (by simp))
  obtain ⟨p2, S2, -⟩ := clockCycle_next _ c2 _ 1 (by omega) (S1 (by omega)) (hs c2 (by simp))
  obtain ⟨p3, S3, -⟩ := clockCycle_next _ c3 _ 2 (by omega) (S2 (by omega)) (hs c3 (by simp))
  obtain ⟨p4, S4, -⟩ := clockCycle_next _ c4 _ 3 (by omega) (S3 (by omega)) (hs c4 (by simp))
  obtain ⟨p5, S5, -⟩ := clockCycle_next _ c5 _ 4 (by omega) (S4 (by omega)) (hs c5 (by simp))
  obtain ⟨p6, S6, -⟩ := clockCycle_next _ c6 _ 5 (by omega) (S5 (by omega)) (hs c6 (by simp))
  obtain ⟨p7, -, F⟩ := clockCycle_next _ c7 _ 6 (by omega) (S6 (by omega)) (hs c7 (by simp))
  obtain ⟨f1, f2, f3⟩ := F (by omega)
  have hrun : clockCycles s [c0, c1, c2, c3, c4, c5, c6, c7]
      = ((clockCycle (clockCycle (clockCycle (clockCycle (clockCycle (clockCycle (clockCycle
            (clockCycle s c0).1 c1).1 c2).1 c3).1 c4).1 c5).1 c6).1 c7).1,
          [slotAction key 0, slotAction key 1, slotAction key 2,
           slotAction key 3, slotAction key 4, slotAction key 5,
           slotAction key 6, slotAction key 7]) := by
    simp only [clockCycles, List.foldl_cons, List.foldl_nil, List.nil_append, List.cons_append,
      p0, p1, p2, p3, p4, p5, p6, p7]
  rw [hrun]
  refine ⟨S0.2.1, S0.2.2.1, p0, ?_, f1, f2⟩
  simp [List.range, List.range.loop]

set_option maxRecDepth 100000 in
/-- Example for C27: the interrupted transmission of the key `5` (`0xDD`),
followed by a long idle and seven bit periods 20 ms later. -/
theorem long_idle_restarts_write_witness :
    Sending keyFiveInterrupted 0xDD 3
    ∧ (clockCycles keyFiveInterrupted
        [(bitCycle 0).delay 20, (bitCycle 1).delay 20, (bitCycle 2).delay 20,
         (bitCycle 3).delay 20, (bitCycle 4).delay 20, (bitCycle 5).delay 20,
         (bitCycle 6).delay 20, (bitCycle 7).delay 20]).2 = (List.range 8).map (slotAction 0xDD) :=
  ⟨by unfold Sending; decide!,
   (long_idle_restarts_write keyFiveInterrupted 0xDD 3
      ((bitCycle 0).delay 20) ((bitCycle 1).delay 20) ((bitCycle 2).delay 20)
      ((bitCycle 3).delay 20) ((bitCycle 4).delay 20) ((bitCycle 5).delay 20)
      ((bitCycle 6).delay 20) ((bitCycle 7).delay 20)
      (by unfold Sending; decide!) (by decide) (by decide)).2.2.2.1⟩

theorem decodeLights_armedBlink (p : Foreground) (d : Decoder) :
    (decodeLights p d).armedBlink = d.armedBlink := by
  have h := congrArg Decoder.armedBlink (decodeLights_restore p d)
  exact h

theorem decodeLights_armedLightTimeOff (p : Foreground) (d : Decoder) :
    (decodeLights p d).armedLightTimeOff = d.armedLightTimeOff := by
  have h := congrArg Decoder.armedLightTimeOff (decodeLights_restore p d)
  exact h

theorem decodeLights_armedLightTimeOn (p : Foreground) (d : Decoder) :
    (decodeLights p d).armedLightTimeOn = d.armedLightTimeOn := by
  have h := congrArg Decoder.armedLightTimeOn (decodeLights_restore p d)
  exact h

theorem decodeLights_bypassLightTimeOff (p : Foreground) (d : Decoder) :
    (decodeLights p d).bypassLightTimeOff = d.bypassLightTimeOff := by
  have h := congrArg Decoder.bypassLightTimeOff (decodeLights_restore p d)
  exact h

theorem decodeLights_bypassLightTimeOn (p : Foreground) (d : Decoder) :
    (decodeLights p d).bypassLightTimeOn = d.bypassLightTimeOn := by
  have h := congrArg Decoder.bypassLightTimeOn (decodeLights_restore p d)
  exact h

theorem decodeLights_lightBlink (p : Foreground) (d : Decoder) :
    (decodeLights p d).lightBlink = d.lightBlink := by
  have h := congrArg Decoder.lightBlink (decodeLights_restore p d)
  exact h

theorem decodeLights_memoryLightTimeOff (p : Foreground) (d : Decoder) :
    (decodeLights p d).memoryLightTimeOff = d.memoryLightTimeOff := by
  have h := congrArg Decoder.memoryLightTimeOff (decodeLights_restore p d)
  exact h

theorem decodeLights_memoryLightTimeOn (p : Foreground) (d : Decoder) :
    (decodeLights p d).memoryLightTimeOn = d.memoryLightTimeOn := by
  have h := congrArg Decoder.memoryLightTimeOn (decodeLights_restore p d)
  exact h

theorem decodeLights_troubleLightTimeOff (p : Foreground) (d : Decoder) :
    (decodeLights p d).troubleLightTimeOff = d.troubleLightTimeOff := by
  have h := congrArg Decoder.troubleLightTimeOff (decodeLights_restore p d)
  exact h

theorem decodeLights_troubleLightTimeOn (p : Foreground) (d : Decoder) :
    (decodeLights p d).troubleLightTimeOn = d.troubleLightTimeOn := by
  have h := congrArg Decoder.troubleLightTimeOn (decodeLights_restore p d)
  exact h

theorem decodeBeep_armedBlink (d : Decoder) (now : Nat) :
    (decodeBeep d now).armedBlink = d.armedBlink := by
  have h := congrArg Decoder.armedBlink (decodeBeep_restore d now)
  exact h

theorem decodeBeep_armedLightTimeOff (d : Decoder) (now : Nat) :
    (decodeBeep d now).armedLightTimeOff = d.armedLightTimeOff := by
  have h := congrArg Decoder.armedLightTimeOff (decodeBeep_restore d now)
  exact h

theorem decodeBeep_armedLightTimeOn (d : Decoder) (now : Nat) :
    (decodeBeep d now).armedLightTimeOn = d.armedLightTimeOn := by
  have h := congrArg Decoder.armedLightTimeOn (decodeBeep_restore d now)
  exact h

theorem decodeBeep_bypassLightTimeOff (d : Decoder) (now : Nat) :
    (decodeBeep d now).bypassLightTimeOff = d.bypassLightTimeOff := by
  have h := congrArg Decoder.bypassLightTimeOff (decodeBeep_restore d now)
  exact h

theorem decodeBeep_bypassLightTimeOn (d : Decoder) (now : Nat) :
    (decodeBeep d now).bypassLightTimeOn = d.bypassLightTimeOn := by
  have h := congrArg Decoder.bypassLightTimeOn (decodeBeep_restore d now)
  exact h

theorem decodeBeep_lightBlink (d : Decoder) (now : Nat) :
    (decodeBeep d now).lightBlink = d.lightBlink := by
  have h := congrArg Decoder.lightBlink (decodeBeep_restore d now)
  exact h

theorem decodeBeep_memoryLightTimeOff (d : Decoder) (now : Nat) :
    (decodeBeep d now).memoryLightTimeOff = d.memoryLightTimeOff := by
  have h := congrArg Decoder.memoryLightTimeOff (decodeBeep_restore d now)
  exact h

theorem decodeBeep_memoryLightTimeOn (d : Decoder) (now : Nat) :
    (decodeBeep d now).memoryLightTimeOn = d.memoryLightTimeOn := by
  have h := congrArg Decoder.memoryLightTimeOn (decodeBeep_restore d now)
  exact h

theorem decodeBeep_troubleLightTimeOff (d : Decoder) (now : Nat) :
    (decodeBeep d now).troubleLightTimeOff = d.troubleLightTimeOff := by
  have h := congrArg Decoder.troubleLightTimeOff (decodeBeep_restore d now)
  exact h

theorem decodeBeep_troubleLightTimeOn (d : Decoder) (now : Nat) :
    (decodeBeep d now).troubleLightTimeOn = d.troubleLightTimeOn := by
  have h := congrArg Decoder.troubleLightTimeOn (decodeBeep_restore d now)
  exact h

theorem decodeArmed_armedBlink (p : Foreground) (d : Decoder) (now : Nat) :
    (decodeArmed p d now).armedBlink = d.armedBlink := by
  have h := congrArg Decoder.armedBlink (decodeArmed_restore p d now)
  exact h

theorem decodeArmed_armedLightTimeOff (p : Foreground) (d : Decoder) (now : Nat) :
    (decodeArmed p d now).armedLightTimeOff = d.armedLightTimeOff := by
  have h := congrArg Decoder.armedLightTimeOff (decodeArmed_restore p d now)
  exact h

theorem decodeArmed_armedLightTimeOn (p : Foreground) (d : Decoder) (now : Nat) :
    (decodeArmed p d now).armedLightTimeOn = d.armedLightTimeOn := by
  have h := congrArg Decoder.armedLightTimeOn (decodeArmed_restore p d now)
  exact h

theorem decodeArmed_bypassLightTimeOff (p : Foreground) (d : Decoder) (now : Nat) :
    (decodeArmed p d now).bypassLightTimeOff = d.bypassLightTimeOff := by
  have h := congrArg Decoder.bypassLightTimeOff (decodeArmed_restore p d now)
  exact h

theorem decodeArmed_bypassLightTimeOn (p : Foreground) (d : Decoder) (now : Nat) :
    (decodeArmed p d now).bypassLightTimeOn = d.bypassLightTimeOn := by
  have h := congrArg Decoder.bypassLightTimeOn (decodeArmed_restore p d now)
  exact h

theorem decodeArmed_lightBlink (p : Foreground) (d : Decoder) (now : Nat) :
    (decodeArmed p d now).lightBlink = d.lightBlink := by
  have h := congrArg Decoder.lightBlink (decodeArmed_restore p d now)
  exact h

theorem decodeArmed_memoryLightTimeOff (p : Foreground) (d : Decoder) (now : Nat) :
    (decodeArmed p d now).memoryLightTimeOff = d.memoryLightTimeOff := by
  have h := congrArg Decoder.memoryLightTimeOff (decodeArmed_restore p d now)
  exact h

theorem decodeArmed_memoryLightTimeOn (p : Foreground) (d : Decoder) (now : Nat) :
    (decodeArmed p d now).memoryLightTimeOn = d.memoryLightTimeOn := by
  have h := congrArg Decoder.memoryLightTimeOn (decodeArmed_restore p d now)
  exact h

theorem decodeArmed_troubleLightTimeOff (p : Foreground) (d : Decoder) (now : Nat) :
    (decodeArmed p d now).troubleLightTimeOff = d.troubleLightTimeOff := by
  have h := congrArg Decoder.troubleLightTimeOff (decodeArmed_restore p d now)
  exact h

theorem decodeArmed_troubleLightTimeOn (p : Foreground) (d : Decoder) (now : Nat) :
    (decodeArmed p d now).troubleLightTimeOn = d.troubleLightTimeOn := by
  have h := congrArg Decoder.troubleLightTimeOn (decodeArmed_restore p d now)
  exact h

theorem decodeReady_armedBlink (p : Foreground) (d : Decoder) (now : Nat) :
    (decodeReady p d now).armedBlink = d.armedBlink := by
  have h := congrArg Decoder.armedBlink (decodeReady_restore p d now)
  exact h

theorem decodeReady_armedLightTimeOff (p : Foreground) (d : Decoder) (now : Nat) :
    (decodeReady p d now).armedLightTimeOff = d.armedLightTimeOff := by
  have h := congrArg Decoder.armedLightTimeOff (decodeReady_restore p d now)
  exact h

theorem decodeReady_armedLightTimeOn (p : Foreground) (d : Decoder) (now : Nat) :
    (decodeReady p d now).armedLightTimeOn = d.armedLightTimeOn := by
  have h := congrArg Decoder.armedLightTimeOn (decodeReady_restore p d now)
  exact h

theorem decodeReady_bypassLightTimeOff (p : Foreground) (d : Decoder) (now : Nat) :
    (decodeReady p d now).bypassLightTimeOff = d.bypassLightTimeOff := by
  have h := congrArg Decoder.bypassLightTimeOff (decodeReady_restore p d now)
  exact h

theorem decodeReady_bypassLightTimeOn (p : Foreground) (d : Decoder) (now : Nat) :
    (decodeReady p d now).bypassLightTimeOn = d.bypassLightTimeOn := by
  have h := congrArg Decoder.bypassLightTimeOn (decodeReady_restore p d now)
  exact h

theorem decodeReady_lightBlink (p : Foreground) (d : Decoder) (now : Nat) :
    (decodeReady p d now).lightBlink = d.lightBlink := by
  have h := congrArg Decoder.lightBlink (decodeReady_restore p d now)
  exact h

theorem decodeReady_memoryLightTimeOff (p : Foreground) (d : Decoder) (now : Nat) :
    (decodeReady p d now).memoryLightTimeOff = d.memoryLightTimeOff := by
  have h := congrArg Decoder.memoryLightTimeOff (decodeReady_restore p d now)
  exact h

theorem decodeReady_memoryLightTimeOn (p : Foreground) (d : Decoder) (now : Nat) :
    (decodeReady p d now).memoryLightTimeOn = d.memoryLightTimeOn := by
  have h := congrArg Decoder.memoryLightTimeOn (decodeReady_restore p d now)
  exact h

theorem decodeReady_troubleLightTimeOff (p : Foreground) (d : Decoder) (now : Nat) :
    (decodeReady p d now).troubleLightTimeOff = d.troubleLightTimeOff := by
  have h := congrArg Decoder.troubleLightTimeOff (decodeReady_restore p d now)
  exact h

theorem decodeReady_troubleLightTimeOn (p : Foreground) (d : Decoder) (now : Nat) :
    (decodeReady p d now).troubleLightTimeOn = d.troubleLightTimeOn := by
  have h := congrArg Decoder.troubleLightTimeOn (decodeReady_restore p d now)
  exact h

theorem decodeZones_armedBlink (p : Foreground) (d : Decoder) :
    (decodeZones p d).armedBlink = d.armedBlink := by
  have h := congrArg Decoder.armedBlink (decodeZones_restore p d)
  exact h

theorem decodeZones_armedLightTimeOff (p : Foreground) (d : Decoder) :
    (decodeZones p d).armedLightTimeOff = d.armedLightTimeOff := by
  have h := congrArg Decoder.armedLightTimeOff (decodeZones_restore p d)
  exact h

theorem decodeZones_armedLightTimeOn (p : Foreground) (d : Decoder) :
    (decodeZones p d).armedLightTimeOn = d.armedLightTimeOn := by
  have h := congrArg Decoder.armedLightTimeOn (decodeZones_restore p d)
  exact h

theorem decodeZones_bypassLightTimeOff (p : Foreground) (d : Decoder) :
    (decodeZones p d).bypassLightTimeOff = d.bypassLightTimeOff := by
  have h := congrArg Decoder.bypassLightTimeOff (decodeZones_restore p d)
  exact h

theorem decodeZones_bypassLightTimeOn (p : Foreground) (d : Decoder) :
    (decodeZones p d).bypassLightTimeOn = d.bypassLightTimeOn := by
  have h := congrArg Decoder.bypassLightTimeOn (decodeZones_restore p d)
  exact h

theorem decodeZones_lightBlink (p : Foreground) (d : Decoder) :
    (decodeZones p d).lightBlink = d.lightBlink := by
  have h := congrArg Decoder.lightBlink (decodeZones_restore p d)
  exact h

theorem decodeZones_memoryLightTimeOff (p : Foreground) (d : Decoder) :
    (decodeZones p d).memoryLightTimeOff = d.memoryLightTimeOff := by
  have h := congrArg Decoder.memoryLightTimeOff (decodeZones_restore p d)
  exact h

theorem decodeZones_memoryLightTimeOn (p : Foreground) (d : Decoder) :
    (decodeZones p d).memoryLightTimeOn = d.memoryLightTimeOn := by
  have h := congrArg Decoder.memoryLightTimeOn (decodeZones_restore p d)
  exact h

theorem decodeZones_troubleLightTimeOff (p : Foreground) (d : Decoder) :
    (decodeZones p d).troubleLightTimeOff = d.troubleLightTimeOff := by
  have h := congrArg Decoder.troubleLightTimeOff (decodeZones_restore p d)
  exact h

theorem decodeZones_troubleLightTimeOn (p : Foreground) (d : Decoder) :
    (decodeZones p d).troubleLightTimeOn = d.troubleLightTimeOn := by
  have h := congrArg Decoder.troubleLightTimeOn (decodeZones_restore p d)
  exact h

theorem decodeAlarmZones_armedBlink (p : Foreground) (d : Decoder) :
    (decodeAlarmZones p d).armedBlink = d.armedBlink := by
  have h := congrArg Decoder.armedBlink (decodeAlarmZones_restore p d)
  exact h

theorem decodeAlarmZones_armedLightTimeOff (p : Foreground) (d : Decoder) :
    (decodeAlarmZones p d).armedLightTimeOff = d.armedLightTimeOff := by
  have h := congrArg Decoder.armedLightTimeOff (decodeAlarmZones_restore p d)
  exact h

theorem decodeAlarmZones_armedLightTimeOn (p : Foreground) (d : Decoder) :
    (decodeAlarmZones p d).armedLightTimeOn = d.armedLightTimeOn := by
  have h := congrArg Decoder.armedLightTimeOn (decodeAlarmZones_restore p d)
  exact h

theorem decodeAlarmZones_bypassLightTimeOff (p : Foreground) (d : Decoder) :
    (decodeAlarmZones p d).bypassLightTimeOff = d.bypassLightTimeOff := by
  have h := congrArg Decoder.bypassLightTimeOff (decodeAlarmZones_restore p d)
  exact h

theorem decodeAlarmZones_bypassLightTimeOn (p : Foreground) (d : Decoder) :
    (decodeAlarmZones p d).bypassLightTimeOn = d.bypassLightTimeOn := by
  have h := congrArg Decoder.bypassLightTimeOn (decodeAlarmZones_restore p d)
  exact h

theorem decodeAlarmZones_lightBlink (p : Foreground) (d : Decoder) :
    (decodeAlarmZones p d).lightBlink = d.lightBlink := by
  have h := congrArg Decoder.lightBlink (decodeAlarmZones_restore p d)
  exact h

theorem decodeAlarmZones_memoryLightTimeOff (p : Foreground) (d : Decoder) :
    (decodeAlarmZones p d).memoryLightTimeOff = d.memoryLightTimeOff := by
  have h := congrArg Decoder.memoryLightTimeOff (decodeAlarmZones_restore p d)
  exact h

theorem decodeAlarmZones_memoryLightTimeOn (p : Foreground) (d : Decoder) :
    (decodeAlarmZones p d).memoryLightTimeOn = d.memoryLightTimeOn := by
  have h := congrArg Decoder.memoryLightTimeOn (decodeAlarmZones_restore p d)
  exact h

theorem decodeAlarmZones_troubleLightTimeOff (p : Foreground) (d : Decoder) :
    (decodeAlarmZones p d).troubleLightTimeOff = d.troubleLightTimeOff := by
  have h := congrArg Decoder.troubleLightTimeOff (decodeAlarmZones_restore p d)
  exact h

theorem decodeAlarmZones_troubleLightTimeOn (p : Foreground) (d : Decoder) :
    (decodeAlarmZones p d).troubleLightTimeOn = d.troubleLightTimeOn := by
  have h := congrArg Decoder.troubleLightTimeOn (decodeAlarmZones_restore p d)
  exact h

theorem decodeAlarm_armedBlink (p : Foreground) (d : Decoder) :
    (decodeAlarm p d).armedBlink = d.armedBlink := by
  have h := congrArg Decoder.armedBlink (decodeAlarm_restore p d)
  exact h

theorem decodeAlarm_armedLightTimeOff (p : Foreground) (d : Decoder) :
    (decodeAlarm p d).armedLightTimeOff = d.armedLightTimeOff := by
  have h := congrArg Decoder.armedLightTimeOff (decodeAlarm_restore p d)
  exact h

theorem decodeAlarm_armedLightTimeOn (p : Foreground) (d : Decoder) :
    (decodeAlarm p d).armedLightTimeOn = d.armedLightTimeOn := by
  have h := congrArg Decoder.armedLightTimeOn (decodeAlarm_restore p d)
  exact h

theorem decodeAlarm_bypassLightTimeOff (p : Foreground) (d : Decoder) :
    (decodeAlarm p d).bypassLightTimeOff = d.bypassLightTimeOff := by
  have h := congrArg Decoder.bypassLightTimeOff (decodeAlarm_restore p d)
  exact h

theorem decodeAlarm_bypassLightTimeOn (p : Foreground) (d : Decoder) :
    (decodeAlarm p d).bypassLightTimeOn = d.bypassLightTimeOn := by
  have h := congrArg Decoder.bypassLightTimeOn (decodeAlarm_restore p d)
  exact h

theorem decodeAlarm_lightBlink (p : Foreground) (d : Decoder) :
    (decodeAlarm p d).lightBlink = d.lightBlink := by
  have h := congrArg Decoder.lightBlink (decodeAlarm_restore p d)
  exact h

theorem decodeAlarm_memoryLightTimeOff (p : Foreground) (d : Decoder) :
    (decodeAlarm p d).memoryLightTimeOff = d.memoryLightTimeOff := by
  have h := congrArg Decoder.memoryLightTimeOff (decodeAlarm_restore p d)
  exact h

theorem decodeAlarm_memoryLightTimeOn (p : Foreground) (d : Decoder) :
    (decodeAlarm p d).memoryLightTimeOn = d.memoryLightTimeOn := by
  have h := congrArg Decoder.memoryLightTimeOn (decodeAlarm_restore p d)
  exact h

theorem decodeAlarm_troubleLightTimeOff (p : Foreground) (d : Decoder) :
    (decodeAlarm p d).troubleLightTimeOff = d.troubleLightTimeOff := by
  have h := congrArg Decoder.troubleLightTimeOff (decodeAlarm_restore p d)
  exact h

theorem decodeAlarm_troubleLightTimeOn (p : Foreground) (d : Decoder) :
    (decodeAlarm p d).troubleLightTimeOn = d.troubleLightTimeOn := by
  have h := congrArg Decoder.troubleLightTimeOn (decodeAlarm_restore p d)
  exact h

theorem decodeTroubleFire_armedBlink (p : Foreground) (d : Decoder) :
    (decodeTroubleFire p d).armedBlink = d.armedBlink := by
  have h := congrArg Decoder.armedBlink (decodeTroubleFire_restore p d)
  exact h

theorem decodeTroubleFire_armedLightTimeOff (p : Foreground) (d : Decoder) :
    (decodeTroubleFire p d).armedLightTimeOff = d.armedLightTimeOff := by
  have h := congrArg Decoder.armedLightTimeOff (decodeTroubleFire_restore p d)
  exact h

theorem decodeTroubleFire_armedLightTimeOn (p : Foreground) (d : Decoder) :
    (decodeTroubleFire p d).armedLightTimeOn = d.armedLightTimeOn := by
  have h := congrArg Decoder.armedLightTimeOn (decodeTroubleFire_restore p d)
  exact h

theorem decodeTroubleFire_bypassLightTimeOff (p : Foreground) (d : Decoder) :
    (decodeTroubleFire p d).bypassLightTimeOff = d.bypassLightTimeOff := by
  have h := congrArg Decoder.bypassLightTimeOff (decodeTroubleFire_restore p d)
  exact h

theorem decodeTroubleFire_bypassLightTimeOn (p : Foreground) (d : Decoder) :
    (decodeTroubleFire p d).bypassLightTimeOn = d.bypassLightTimeOn := by
  have h := congrArg Decoder.bypassLightTimeOn (decodeTroubleFire_restore p d)
  exact h

theorem decodeTroubleFire_lightBlink (p : Foreground) (d : Decoder) :
    (decodeTroubleFire p d).lightBlink = d.lightBlink := by
  have h := congrArg Decoder.lightBlink (decodeTroubleFire_restore p d)
  exact h

theorem decodeTroubleFire_memoryLightTimeOff (p : Foreground) (d : Decoder) :
    (decodeTroubleFire p d).memoryLightTimeOff = d.memoryLightTimeOff := by
  have h := congrArg Decoder.memoryLightTimeOff (decodeTroubleFire_restore p d)
  exact h

theorem decodeTroubleFire_memoryLightTimeOn (p : Foreground) (d : Decoder) :
    (decodeTroubleFire p d).memoryLightTimeOn = d.memoryLightTimeOn := by
  have h := congrArg Decoder.memoryLightTimeOn (decodeTroubleFire_restore p d)
  exact h

theorem decodeTroubleFire_troubleLightTimeOff (p : Foreground) (d : Decoder) :
    (decodeTroubleFire p d).troubleLightTimeOff = d.troubleLightTimeOff := by
  have h := congrArg Decoder.troubleLightTimeOff (decodeTroubleFire_restore p d)
  exact h

theorem decodeTroubleFire_troubleLightTimeOn (p : Foreground) (d : Decoder) :
    (decodeTroubleFire p d).troubleLightTimeOn = d.troubleLightTimeOn := by
  have h := congrArg Decoder.troubleLightTimeOn (decodeTroubleFire_restore p d)
  exact h

theorem decodeKeypadAlarms_armedBlink (p : Foreground) (d : Decoder) (now : Nat) :
    (decodeKeypadAlarms p d now).armedBlink = d.armedBlink := by
  have h := congrArg Decoder.armedBlink (decodeKeypadAlarms_restore p d now)
  exact h

theorem decodeKeypadAlarms_armedLightTimeOff (p : Foreground) (d : Decoder) (now : Nat) :
    (decodeKeypadAlarms p d now).armedLightTimeOff = d.armedLightTimeOff := by
  have h := congrArg Decoder.armedLightTimeOff (decodeKeypadAlarms_restore p d now)
  exact h

theorem decodeKeypadAlarms_armedLightTimeOn (p : Foreground) (d : Decoder) (now : Nat) :
    (decodeKeypadAlarms p d now).armedLightTimeOn = d.armedLightTimeOn := by
  have h := congrArg Decoder.armedLightTimeOn (decodeKeypadAlarms_restore p d now)
  exact h

theorem decodeKeypadAlarms_bypassLightTimeOff (p : Foreground) (d : Decoder) (now : Nat) :
    (decodeKeypadAlarms p d now).bypassLightTimeOff = d.bypassLightTimeOff := by
  have h := congrArg Decoder.bypassLightTimeOff (decodeKeypadAlarms_restore p d now)
  exact h

theorem decodeKeypadAlarms_bypassLightTimeOn (p : Foreground) (d : Decoder) (now : Nat) :
    (decodeKeypadAlarms p d now).bypassLightTimeOn = d.bypassLightTimeOn := by
  have h := congrArg Decoder.bypassLightTimeOn (decodeKeypadAlarms_restore p d now)
  exact h

theorem decodeKeypadAlarms_lightBlink (p : Foreground) (d : Decoder) (now : Nat) :
    (decodeKeypadAlarms p d now).lightBlink = d.lightBlink := by
  have h := congrArg Decoder.lightBlink (decodeKeypadAlarms_restore p d now)
  exact h

theorem decodeKeypadAlarms_memoryLightTimeOff (p : Foreground) (d : Decoder) (now : Nat) :
    (decodeKeypadAlarms p d now).memoryLightTimeOff = d.memoryLightTimeOff := by
  have h := congrArg Decoder.memoryLightTimeOff (decodeKeypadAlarms_restore p d now)
  exact h

theorem decodeKeypadAlarms_memoryLightTimeOn (p : Foreground) (d : Decoder) (now : Nat) :
    (decodeKeypadAlarms p d now).memoryLightTimeOn = d.memoryLightTimeOn := by
  have h := congrArg Decoder.memoryLightTimeOn (decodeKeypadAlarms_restore p d now)
  exact h

theorem decodeKeypadAlarms_troubleLightTimeOff (p : Foreground) (d : Decoder) (now : Nat) :
    (decodeKeypadAlarms p d now).troubleLightTimeOff = d.troubleLightTimeOff := by
  have h := congrArg Decoder.troubleLightTimeOff (decodeKeypadAlarms_restore p d now)
  exact h

theorem decodeKeypadAlarms_troubleLightTimeOn (p : Foreground) (d : Decoder) (now : Nat) :
    (decodeKeypadAlarms p d now).troubleLightTimeOn = d.troubleLightTimeOn := by
  have h := congrArg Decoder.troubleLightTimeOn (decodeKeypadAlarms_restore p d now)
  exact h

theorem decodeStatus_armedBlink (p : Foreground) (d : Decoder) :
    (decodeStatus p d).armedBlink = d.armedBlink := by
  have h := congrArg Decoder.armedBlink (decodeStatus_restore p d)
  exact h

theorem decodeStatus_armedLightTimeOff (p : Foreground) (d : Decoder) :
    (decodeStatus p d).armedLightTimeOff = d.armedLightTimeOff := by
  have h := congrArg Decoder.armedLightTimeOff (decodeStatus_restore p d)
  exact h

theorem decodeStatus_armedLightTimeOn (p : Foreground) (d : Decoder) :
    (decodeStatus p d).armedLightTimeOn = d.armedLightTimeOn := by
  have h := congrArg Decoder.armedLightTimeOn (decodeStatus_restore p d)
  exact h

theorem decodeStatus_bypassLightTimeOff (p : Foreground) (d : Decoder) :
    (decodeStatus p d).bypassLightTimeOff = d.bypassLightTimeOff := by
  have h := congrArg Decoder.bypassLightTimeOff (decodeStatus_restore p d)
  exact h

theorem decodeStatus_bypassLightTimeOn (p : Foreground) (d : Decoder) :
    (decodeStatus p d).bypassLightTimeOn = d.bypassLightTimeOn := by
  have h := congrArg Decoder.bypassLightTimeOn (decodeStatus_restore p d)
  exact h

theorem decodeStatus_lightBlink (p : Foreground) (d : Decoder) :
    (decodeStatus p d).lightBlink = d.lightBlink := by
  have h := congrArg Decoder.lightBlink (decodeStatus_restore p d)
  exact h

theorem decodeStatus_memoryLightTimeOff (p : Foreground) (d : Decoder) :
    (decodeStatus p d).memoryLightTimeOff = d.memoryLightTimeOff := by
  have h := congrArg Decoder.memoryLightTimeOff (decodeStatus_restore p d)
  exact h

theorem decodeStatus_memoryLightTimeOn (p : Foreground) (d : Decoder) :
    (decodeStatus p d).memoryLightTimeOn = d.memoryLightTimeOn := by
  have h := congrArg Decoder.memoryLightTimeOn (decodeStatus_restore p d)
  exact h

theorem decodeStatus_troubleLightTimeOff (p : Foreground) (d : Decoder) :
    (decodeStatus p d).troubleLightTimeOff = d.troubleLightTimeOff := by
  have h := congrArg Decoder.troubleLightTimeOff (decodeStatus_restore p d)
  exact h

theorem decodeStatus_troubleLightTimeOn (p : Foreground) (d : Decoder) :
    (decodeStatus p d).troubleLightTimeOn = d.troubleLightTimeOn := by
  have h := congrArg Decoder.troubleLightTimeOn (decodeStatus_restore p d)
  exact h

/-! ## Blink detection -/

theorem blinkCheck_lightBlink (light : Bool) (now timeOn timeOff : Nat)
    (blink lightBlink a b c : Bool) (h : lightBlink = (blink || a || b || c)) :
    (blinkCheck light now timeOn timeOff blink lightBlink (!a && !b && !c)).2.2.2
      = ((blinkCheck light now timeOn timeOff blink lightBlink (!a && !b && !c)).2.2.1
          || a || b || c) := by
  subst h
  unfold blinkCheck
  cases a <;> cases b <;> cases c <;> cases blink <;> split_ifs <;> simp_all

theorem decodeBlink_blinkInv (d : Decoder) (now : Nat) (h : BlinkInv d) :
    BlinkInv (decodeBlink d now) := by
  unfold BlinkInv at h ⊢
  unfold decodeBlink
  lift_lets
  intro r1 d1 r2 d2 r3 d3 r4
  have h1 : d1.lightBlink = (d1.memoryBlink || d.armedBlink || d.bypassBlink || d.troubleBlink) :=
    blinkCheck_lightBlink d.memoryLight now d.memoryLightTimeOn d.memoryLightTimeOff
      d.memoryBlink d.lightBlink d.armedBlink d.bypassBlink d.troubleBlink h
  have h2 : d2.lightBlink = (d2.armedBlink || d1.memoryBlink || d.bypassBlink || d.troubleBlink) :=
    blinkCheck_lightBlink d.armedLight now d.armedLightTimeOn d.armedLightTimeOff
      d.armedBlink d1.lightBlink d1.memoryBlink d.bypassBlink d.troubleBlink
      (by rw [h1]; cases d1.memoryBlink <;> cases d.armedBlink <;> rfl)
  have h3 : d3.lightBlink = (d3.bypassBlink || d1.memoryBlink || d2.armedBlink || d.troubleBlink) :=
    blinkCheck_lightBlink d.bypassLight now d.bypassLightTimeOn d.bypassLightTimeOff
      d.bypassBlink d2.lightBlink d1.memoryBlink d2.armedBlink d.troubleBlink
      (by rw [h2]; cases d1.memoryBlink <;> cases d2.armedBlink <;> cases d.bypassBlink <;> rfl)
  have h4 : r4.2.2.2 = (r4.2.2.1 || d1.memoryBlink || d2.armedBlink || d3.bypassBlink) :=
    blinkCheck_lightBlink d.troubleLight now d.troubleLightTimeOn d.troubleLightTimeOff
      d.troubleBlink d3.lightBlink d1.memoryBlink d2.armedBlink d3.bypassBlink
      (by rw [h3]; cases d1.memoryBlink <;> cases d2.armedBlink <;> cases d3.bypassBlink <;>
            cases d.troubleBlink <;> rfl)
  show r4.2.2.2 = (d1.memoryBlink || d2.armedBlink || d3.bypassBlink || r4.2.2.1)
  rw [h4]
  cases d1.memoryBlink <;> cases d2.armedBlink <;> cases d3.bypassBlink <;> cases r4.2.2.1 <;> rfl

theorem processPanelStatus_blinkFlags (p : Foreground) (d : Decoder) (now : Nat) :
    (processPanelStatus p d now).lightBlink = (decodeBlink (decodeLights p d) now).lightBlink
    ∧ (processPanelStatus p d now).memoryBlink = (decodeBlink (decodeLights p d) now).memoryBlink
    ∧ (processPanelStatus p d now).armedBlink = (decodeBlink (decodeLights p d) now).armedBlink
    ∧ (processPanelStatus p d now).bypassBlink = (decodeBlink (decodeLights p d) now).bypassBlink
    ∧ (processPanelStatus p d now).troubleBlink
        = (decodeBlink (decodeLights p d) now).troubleBlink := by
  unfold processPanelStatus
  refine ⟨?_, ?_, ?_, ?_, ?_⟩
  · simp only [decodeLights_lightBlink, decodeBeep_lightBlink, decodeArmed_lightBlink,
        decodeReady_lightBlink, decodeZones_lightBlink, decodeAlarmZones_lightBlink,
        decodeAlarm_lightBlink, decodeTroubleFire_lightBlink, decodeKeypadAlarms_lightBlink,
        decodeStatus_lightBlink]
  · simp only [decodeLights_memoryBlink, decodeBeep_memoryBlink, decodeArmed_memoryBlink,
        decodeReady_memoryBlink, decodeZones_memoryBlink, decodeAlarmZones_memoryBlink,
        decodeAlarm_memoryBlink, decodeTroubleFire_memoryBlink, decodeKeypadAlarms_memoryBlink,
        decodeStatus_memoryBlink]
  · simp only [decodeLights_armedBlink, decodeBeep_armedBlink, decodeArmed_armedBlink,
        decodeReady_armedBlink, decodeZones_armedBlink, decodeAlarmZones_armedBlink,
        decodeAlarm_armedBlink, decodeTroubleFire_armedBlink, decodeKeypadAlarms_armedBlink,
        decodeStatus_armedBlink]
  · simp only [decodeLights_bypassBlink, decodeBeep_bypassBlink, decodeArmed_bypassBlink,
        decodeReady_bypassBlink, decodeZones_bypassBlink, decodeAlarmZones_bypassBlink,
        decodeAlarm_bypassBlink, decodeTroubleFire_bypassBlink, decodeKeypadAlarms_bypassBlink,
        decodeStatus_bypassBlink]
  · simp only [decodeLights_troubleBlink, decodeBeep_troubleBlink, decodeArmed_troubleBlink,
        decodeReady_troubleBlink, decodeZones_troubleBlink, decodeAlarmZones_troubleBlink,
        decodeAlarm_troubleBlink, decodeTroubleFire_troubleBlink, decodeKeypadAlarms_troubleBlink,
        decodeStatus_troubleBlink]

theorem processPanelStatus_blinkInv (p : Foreground) (d : Decoder) (now : Nat)
    (h : BlinkInv d) : BlinkInv (processPanelStatus p d now) := by
  obtain ⟨a1, a2, a3, a4, a5⟩ := processPanelStatus_blinkFlags p d now
  have hL : BlinkInv (decodeLights p d) := by
    unfold BlinkInv at h ⊢
    simp only [decodeLights_lightBlink, decodeBeep_lightBlink, decodeArmed_lightBlink,
        decodeReady_lightBlink, decodeZones_lightBlink, decodeAlarmZones_lightBlink,
        decodeAlarm_lightBlink, decodeTroubleFire_lightBlink, decodeKeypadAlarms_lightBlink,
        decodeStatus_lightBlink, decodeLights_memoryBlink, decodeBeep_memoryBlink,
        decodeArmed_memoryBlink, decodeReady_memoryBlink, decodeZones_memoryBlink,
        decodeAlarmZones_memoryBlink, decodeAlarm_memoryBlink, decodeTroubleFire_memoryBlink,
        decodeKeypadAlarms_memoryBlink, decodeStatus_memoryBlink, decodeLights_armedBlink,
        decodeBeep_armedBlink, decodeArmed_armedBlink, decodeReady_armedBlink,
        decodeZones_armedBlink, decodeAlarmZones_armedBlink, decodeAlarm_armedBlink,
        decodeTroubleFire_armedBlink, decodeKeypadAlarms_armedBlink, decodeStatus_armedBlink,
        decodeLights_bypassBlink, decodeBeep_bypassBlink, decodeArmed_bypassBlink,
        decodeReady_bypassBlink, decodeZones_bypassBlink, decodeAlarmZones_bypassBlink,
        decodeAlarm_bypassBlink, decodeTroubleFire_bypassBlink, decodeKeypadAlarms_bypassBlink,
        decodeStatus_bypassBlink, decodeLights_troubleBlink, decodeBeep_troubleBlink,
        decodeArmed_troubleBlink, decodeReady_troubleBlink, decodeZones_troubleBlink,
        decodeAlarmZones_troubleBlink, decodeAlarm_troubleBlink, decodeTroubleFire_troubleBlink,
        decodeKeypadAlarms_troubleBlink, decodeStatus_troubleBlink]
    exact h
  have hB := decodeBlink_blinkInv _ now hL
  unfold BlinkInv at hB ⊢
  rw [a1, a2, a3, a4, a5]
  exact hB

theorem decodeAll_blinkInv (fs : List (Foreground × Nat)) :
    BlinkInv (decodeAll Decoder.init fs) := by
  unfold decodeAll
  refine foldl_preserves BlinkInv _ ?_ _ _ ?_
  · intro c f hc
    exact processPanelStatus_blinkInv f.1 c f.2 hc
  · unfold BlinkInv
    rfl

/-- C29: in every state reached from power-on by `processPanelStatus` calls,
`lightBlink` is the disjunction of `memoryBlink`, `armedBlink`, `bypassBlink`
and `troubleBlink`. -/
theorem lightBlink_eq_or_blinks (fs : List (Foreground × Nat)) :
    (decodeAll Decoder.init fs).lightBlink
      = ((decodeAll Decoder.init fs).memoryBlink || (decodeAll Decoder.init fs).armedBlink
          || (decodeAll Decoder.init fs).bypassBlink || (decodeAll Decoder.init fs).troubleBlink) :=
  decodeAll_blinkInv fs

/-! ## Blink detection: the history of one light -/

theorem blinkCheck_blinkStep (light : Bool) (now timeOn timeOff : Nat)
    (blink lightBlink othersOff : Bool) :
    ((blinkCheck light now timeOn timeOff blink lightBlink othersOff).1,
     (blinkCheck light now timeOn timeOff blink lightBlink othersOff).2.1,
     (blinkCheck light now timeOn timeOff blink lightBlink othersOff).2.2.1)
      = blinkStep light now (timeOn, timeOff, blink) := by
  unfold blinkStep blinkCheck
  split_ifs <;> rfl

theorem blinkStep_eq (light : Bool) (now : Nat) (x : Nat × Nat × Bool) :
    blinkStep light now x
      = (if light then now else x.1, if light then x.2.1 else now,
         if light then decide (subU32 now x.2.1 < 600)
         else if subU32 now x.1 > 1200 then false else x.2.2) := by
  unfold blinkStep blinkCheck
  split_ifs <;> simp_all

theorem decodeBlink_memoryView (d : Decoder) (now : Nat) :
    (decodeBlink d now).memoryView = blinkStep d.memoryLight now d.memoryView :=
  blinkCheck_blinkStep d.memoryLight now d.memoryLightTimeOn d.memoryLightTimeOff
    d.memoryBlink _ _

theorem decodeBlink_armedView (d : Decoder) (now : Nat) :
    (decodeBlink d now).armedView = blinkStep d.armedLight now d.armedView :=
  blinkCheck_blinkStep d.armedLight now d.armedLightTimeOn d.armedLightTimeOff
    d.armedBlink _ _

theorem decodeBlink_bypassView (d : Decoder) (now : Nat) :
    (decodeBlink d now).bypassView = blinkStep d.bypassLight now d.bypassView :=
  blinkCheck_blinkStep d.bypassLight now d.bypassLightTimeOn d.bypassLightTimeOff
    d.bypassBlink _ _

theorem decodeBlink_troubleView (d : Decoder) (now : Nat) :
    (decodeBlink d now).troubleView = blinkStep d.troubleLight now d.troubleView :=
  blinkCheck_blinkStep d.troubleLight now d.troubleLightTimeOn d.troubleLightTimeOff
    d.troubleBlink _ _

theorem processPanelStatus_memoryView (p : Foreground) (d : Decoder) (now : Nat) :
    (processPanelStatus p d now).memoryView
      = blinkStep (bitRead (p.panelData p.statusByte) 5) now d.memoryView := by
  have h := decodeBlink_memoryView (decodeLights p d) now
  rw [(decodeLights_inputs p d).2.2.1] at h
  unfold Decoder.memoryView at h ⊢
  unfold processPanelStatus
  simp only [decodeLights_memoryLightTimeOn, decodeBeep_memoryLightTimeOn,
      decodeArmed_memoryLightTimeOn, decodeReady_memoryLightTimeOn, decodeZones_memoryLightTimeOn,
      decodeAlarmZones_memoryLightTimeOn, decodeAlarm_memoryLightTimeOn,
      decodeTroubleFire_memoryLightTimeOn, decodeKeypadAlarms_memoryLightTimeOn,
      decodeStatus_memoryLightTimeOn, decodeLights_memoryLightTimeOff,
      decodeBeep_memoryLightTimeOff, decodeArmed_memoryLightTimeOff,
      decodeReady_memoryLightTimeOff, decodeZones_memoryLightTimeOff,
      decodeAlarmZones_memoryLightTimeOff, decodeAlarm_memoryLightTimeOff,
      decodeTroubleFire_memoryLightTimeOff, decodeKeypadAlarms_memoryLightTimeOff,
      decodeStatus_memoryLightTimeOff, decodeLights_memoryBlink, decodeBeep_memoryBlink,
      decodeArmed_memoryBlink, decodeReady_memoryBlink, decodeZones_memoryBlink,
      decodeAlarmZones_memoryBlink, decodeAlarm_memoryBlink, decodeTroubleFire_memoryBlink,
      decodeKeypadAlarms_memoryBlink, decodeStatus_memoryBlink] at h ⊢
  exact h

theorem processPanelStatus_armedView (p : Foreground) (d : Decoder) (now : Nat) :
    (processPanelStatus p d now).armedView
      = blinkStep (bitRead (p.panelData p.statusByte) 6) now d.armedView := by
  have h := decodeBlink_armedView (decodeLights p d) now
  rw [(decodeLights_inputs p d).2.1] at h
  unfold Decoder.armedView at h ⊢
  unfold processPanelStatus
  simp only [decodeLights_armedLightTimeOn, decodeBeep_armedLightTimeOn,
      decodeArmed_armedLightTimeOn, decodeReady_armedLightTimeOn, decodeZones_armedLightTimeOn,
      decodeAlarmZones_armedLightTimeOn, decodeAlarm_armedLightTimeOn,
      decodeTroubleFire_armedLightTimeOn, decodeKeypadAlarms_armedLightTimeOn,
      decodeStatus_armedLightTimeOn, decodeLights_armedLightTimeOff, decodeBeep_armedLightTimeOff,
      decodeArmed_armedLightTimeOff, decodeReady_armedLightTimeOff, decodeZones_armedLightTimeOff,
      decodeAlarmZones_armedLightTimeOff, decodeAlarm_armedLightTimeOff,
      decodeTroubleFire_armedLightTimeOff, decodeKeypadAlarms_armedLightTimeOff,
      decodeStatus_armedLightTimeOff, decodeLights_armedBlink, decodeBeep_armedBlink,
      decodeArmed_armedBlink, decodeReady_armedBlink, decodeZones_armedBlink,
      decodeAlarmZones_armedBlink, decodeAlarm_armedBlink, decodeTroubleFire_armedBlink,
      decodeKeypadAlarms_armedBlink, decodeStatus_armedBlink] at h ⊢
  exact h

theorem processPanelStatus_bypassView (p : Foreground) (d : Decoder) (now : Nat) :
    (processPanelStatus p d now).bypassView
      = blinkStep (bitRead (p.panelData p.statusByte) 4) now d.bypassView := by
  have h := decodeBlink_bypassView (decodeLights p d) now
  rw [(decodeLights_inputs p d).2.2.2.1] at h
  unfold Decoder.bypassView at h ⊢
  unfold processPanelStatus
  simp only [decodeLights_bypassLightTimeOn, decodeBeep_bypassLightTimeOn,
      decodeArmed_bypassLightTimeOn, decodeReady_bypassLightTimeOn, decodeZones_bypassLightTimeOn,
      decodeAlarmZones_bypassLightTimeOn, decodeAlarm_bypassLightTimeOn,
      decodeTroubleFire_bypassLightTimeOn, decodeKeypadAlarms_bypassLightTimeOn,
      decodeStatus_bypassLightTimeOn, decodeLights_bypassLightTimeOff,
      decodeBeep_bypassLightTimeOff, decodeArmed_bypassLightTimeOff,
      decodeReady_bypassLightTimeOff, decodeZones_bypassLightTimeOff,
      decodeAlarmZones_bypassLightTimeOff, decodeAlarm_bypassLightTimeOff,
      decodeTroubleFire_bypassLightTimeOff, decodeKeypadAlarms_bypassLightTimeOff,
      decodeStatus_bypassLightTimeOff, decodeLights_bypassBlink, decodeBeep_bypassBlink,
      decodeArmed_bypassBlink, decodeReady_bypassBlink, decodeZones_bypassBlink,
      decodeAlarmZones_bypassBlink, decodeAlarm_bypassBlink, decodeTroubleFire_bypassBlink,
      decodeKeypadAlarms_bypassBlink, decodeStatus_bypassBlink] at h ⊢
  exact h

theorem processPanelStatus_troubleView (p : Foreground) (d : Decoder) (now : Nat) :
    (processPanelStatus p d now).troubleView
      = blinkStep (bitRead (p.panelData p.statusByte) 3) now d.troubleView := by
  have h := decodeBlink_troubleView (decodeLights p d) now
  rw [(decodeLights_inputs p d).2.2.2.2.1] at h
  unfold Decoder.troubleView at h ⊢
  unfold processPanelStatus
  simp only [decodeLights_troubleLightTimeOn, decodeBeep_troubleLightTimeOn,
      decodeArmed_troubleLightTimeOn, decodeReady_troubleLightTimeOn,
      decodeZones_troubleLightTimeOn, decodeAlarmZones_troubleLightTimeOn,
      decodeAlarm_troubleLightTimeOn, decodeTroubleFire_troubleLightTimeOn,
      decodeKeypadAlarms_troubleLightTimeOn, decodeStatus_troubleLightTimeOn,
      decodeLights_troubleLightTimeOff, decodeBeep_troubleLightTimeOff,
      decodeArmed_troubleLightTimeOff, decodeReady_troubleLightTimeOff,
      decodeZones_troubleLightTimeOff, decodeAlarmZones_troubleLightTimeOff,
      decodeAlarm_troubleLightTimeOff, decodeTroubleFire_troubleLightTimeOff,
      decodeKeypadAlarms_troubleLightTimeOff, decodeStatus_troubleLightTimeOff,
      decodeLights_troubleBlink, decodeBeep_troubleBlink, decodeArmed_troubleBlink,
      decodeReady_troubleBlink, decodeZones_troubleBlink, decodeAlarmZones_troubleBlink,
      decodeAlarm_troubleBlink, decodeTroubleFire_troubleBlink, decodeKeypadAlarms_troubleBlink,
      decodeStatus_troubleBlink] at h ⊢
  exact h

theorem view_decodeAll (view : Decoder → Nat × Nat × Bool) (bit : Nat)
    (hstep : ∀ p d now, view (processPanelStatus p d now)
      = blinkStep (bitRead (p.panelData p.statusByte) bit) now (view d))
    (fs : List (Foreground × Nat)) (d : Decoder) :
    view (decodeAll d fs)
      = (lightObs bit fs).foldl (fun x o => blinkStep o.1 o.2 x) (view d) := by
  induction fs generalizing d with
  | nil => rfl
  | cons f fs ih =>
    unfold decodeAll lightObs at ih ⊢
    simp only [List.foldl_cons, List.map_cons]
    rw [ih, hstep]

theorem blinkRun_snoc (obs : List (Bool × Nat)) (o : Bool × Nat) :
    blinkRun (obs ++ [o]) = blinkStep o.1 o.2 (blinkRun obs) := by
  unfold blinkRun
  rw [List.foldl_append]
  rfl

theorem lastOff_snoc (obs : List (Bool × Nat)) (o : Bool × Nat) :
    lastOff (obs ++ [o]) = if o.1 then lastOff obs else o.2 := by
  unfold lastOff
  rw [List.foldl_append]
  rfl

theorem lastOn_snoc (obs : List (Bool × Nat)) (o : Bool × Nat) :
    lastOn (obs ++ [o]) = if o.1 then o.2 else lastOn obs := by
  unfold lastOn
  rw [List.foldl_append]
  rfl

/-- The registers of a light after a run of observations: the two time stamps
are the times of the last ON and of the last OFF observation, and the blink
flag is set only if some ON observation came less than 600 ms after the OFF
time stamp of that moment. -/
theorem blinkRun_history (obs : List (Bool × Nat)) :
    (blinkRun obs).1 = lastOn obs ∧ (blinkRun obs).2.1 = lastOff obs
    ∧ ((blinkRun obs).2.2 = true →
        ∃ pre t post, obs = pre ++ (true, t) :: post ∧ subU32 t (lastOff pre) < 600) := by
  induction obs using List.reverseRecOn with
  | nil => exact ⟨rfl, rfl, fun h => Bool.noConfusion h⟩
  | append_singleton obs o ih =>
    obtain ⟨i1, i2, i3⟩ := ih
    obtain ⟨l, t⟩ := o
    rw [blinkRun_snoc, lastOn_snoc, lastOff_snoc, blinkStep_eq, i1, i2]
    refine ⟨rfl, rfl, ?_⟩
    intro hb
    simp only [] at hb
    cases l with
    | true =>
      simp only [if_true, decide_eq_true_eq] at hb
      exact ⟨obs, t, [], rfl, hb⟩
    | false =>
      simp only [Bool.false_eq_true, if_false] at hb
      split_ifs at hb with hgt
      obtain ⟨pre, t1, post, hobs, hlt⟩ := i3 hb
      exact ⟨pre, t1, post ++ [(false, t)], by rw [hobs]; simp, hlt⟩

theorem blink_history (view : Decoder → Nat × Nat × Bool) (bit : Nat)
    (hinit : view Decoder.init = (0, 0, false))
    (hstep : ∀ p d now, view (processPanelStatus p d now)
      = blinkStep (bitRead (p.panelData p.statusByte) bit) now (view d))
    (fs : List (Foreground × Nat)) (p : Foreground) (now : Nat) :
    ((view (processPanelStatus p (decodeAll Decoder.init fs) now)).2.2 = true →
        ∃ pre t post, lightObs bit (fs ++ [(p, now)]) = pre ++ (true, t) :: post
          ∧ subU32 t (lastOff pre) < 600)
    ∧ (bitRead (p.panelData p.statusByte) bit = false →
        subU32 now (lastOn (lightObs bit fs)) > 1200 →
        (view (processPanelStatus p (decodeAll Decoder.init fs) now)).2.2 = false) := by
  have hrun : ∀ gs, view (decodeAll Decoder.init gs) = blinkRun (lightObs bit gs) := by
    intro gs
    rw [view_decodeAll view bit hstep, hinit]
    rfl
  have hsnoc : processPanelStatus p (decodeAll Decoder.init fs) now
      = decodeAll Decoder.init (fs ++ [(p, now)]) := by
    unfold decodeAll
    rw [List.foldl_append]
    rfl
  refine ⟨?_, ?_⟩
  · intro hb
    rw [hsnoc, hrun] at hb
    exact (blinkRun_history _).2.2 hb
  · intro hoff hlong
    rw [hstep, hrun, blinkStep_eq, hoff, (blinkRun_history _).1]
    simp [hlong]

/-- Counterexample for C22: the first frame decoded after power-on, at 100 ms,
has the Memory light on. The decode sets `memoryBlink` although no frame with
the light OFF has been observed: the OFF time stamp still has its initial
value 0. -/
theorem blink_without_off_observation :
    (processPanelStatus (memoryLightFrame.foreground 1) (decodeAll Decoder.init []) 100).memoryBlink
      = true
    ∧ (lightObs 5 ([] ++ [(memoryLightFrame.foreground 1, 100)])).all (fun o => o.1) = true := by
  decide!

/-- C22 (amended): for each of the memory, armed, bypass and trouble lights
(bits 5, 6, 4, 3 of `panelData[statusByte]`) and every sequence of decodes from
power-on: the blink flag is true after a decode only if some decoded frame
had the light ON at a time `t` whose 32-bit difference to the time of the most
recent earlier frame with the light OFF, or to 0 when there was none, is
below 600 ms; and the flag is false after every decode in which the light is
OFF and more than 1200 ms have passed since the last ON observation (since 0
when there was none). -/
theorem blink_flags_history (fs : List (Foreground × Nat)) (p : Foreground) (now : Nat) :
    (((processPanelStatus p (decodeAll Decoder.init fs) now).memoryBlink = true →
        ∃ pre t post, lightObs 5 (fs ++ [(p, now)]) = pre ++ (true, t) :: post
          ∧ subU32 t (lastOff pre) < 600)
      ∧ (bitRead (p.panelData p.statusByte) 5 = false →
        subU32 now (lastOn (lightObs 5 fs)) > 1200 →
        (processPanelStatus p (decodeAll Decoder.init fs) now).memoryBlink = false))
    ∧ (((processPanelStatus p (decodeAll Decoder.init fs) now).armedBlink = true →
        ∃ pre t post, lightObs 6 (fs ++ [(p, now)]) = pre ++ (true, t) :: post
          ∧ subU32 t (lastOff pre) < 600)
      ∧ (bitRead (p.panelData p.statusByte) 6 = false →
        subU32 now (lastOn (lightObs 6 fs)) > 1200 →
        (processPanelStatus p (decodeAll Decoder.init fs) now).armedBlink = false))
    ∧ (((processPanelStatus p (decodeAll Decoder.init fs) now).bypassBlink = true →
        ∃ pre t post, lightObs 4 (fs ++ [(p, now)]) = pre ++ (true, t) :: post
          ∧ subU32 t (lastOff pre) < 600)
      ∧ (bitRead (p.panelData p.statusByte) 4 = false →
        subU32 now (lastOn (lightObs 4 fs)) > 1200 →
        (processPanelStatus p (decodeAll Decoder.init fs) now).bypassBlink = false))
    ∧ (((processPanelStatus p (decodeAll Decoder.init fs) now).troubleBlink = true →
        ∃ pre t post, lightObs 3 (fs ++ [(p, now)]) = pre ++ (true, t) :: post
          ∧ subU32 t (lastOff pre) < 600)
      ∧ (bitRead (p.panelData p.statusByte) 3 = false →
        subU32 now (lastOn (lightObs 3 fs)) > 1200 →
        (processPanelStatus p (decodeAll Decoder.init fs) now).troubleBlink = false)) :=
  ⟨blink_history Decoder.memoryView 5 rfl processPanelStatus_memoryView fs p now,
   blink_history Decoder.armedView 6 rfl processPanelStatus_armedView fs p now,
   blink_history Decoder.bypassView 4 rfl processPanelStatus_bypassView fs p now,
   blink_history Decoder.troubleView 3 rfl processPanelStatus_troubleView fs p now⟩

set_option maxRecDepth 100000 in
/-- Example for C22: a frame without lights decoded at 1000 ms, then a frame
with the Memory light on at 1300 ms: `memoryBlink` is set, and the ON
observation lies within 600 ms of the OFF observation. -/
theorem blink_flags_history_witness :
    (processPanelStatus (memoryLightFrame.foreground 1)
        (decodeAll Decoder.init [((Frame.mk [0, 0] [0, 0] 16 2).foreground 1, 1000)])
        1300).memoryBlink = true
    ∧ ∃ pre t post,
        lightObs 5 ([((Frame.mk [0, 0] [0, 0] 16 2).foreground 1, 1000)]
            ++ [(memoryLightFrame.foreground 1, 1300)]) = pre ++ (true, t) :: post
          ∧ subU32 t (lastOff pre) < 600 :=
  ⟨by decide!,
   (blink_flags_history [((Frame.mk [0, 0] [0, 0] 16 2).foreground 1, 1000)]
      (memoryLightFrame.foreground 1) 1300).1.1 (by decide!)⟩

theorem decodeLights_alarmZonesStatusChanged (p : Foreground) (d : Decoder) :
    (decodeLights p d).alarmZonesStatusChanged = d.alarmZonesStatusChanged := by
  have h := congrArg Decoder.alarmZonesStatusChanged (decodeLights_restore p d)
  exact h

theorem decodeLights_exitStateChanged (p : Foreground) (d : Decoder) :
    (decodeLights p d).exitStateChanged = d.exitStateChanged := by
  have h := congrArg Decoder.exitStateChanged (decodeLights_restore p d)
  exact h

theorem decodeLights_fireChanged (p : Foreground) (d : Decoder) :
    (decodeLights p d).fireChanged = d.fireChanged := by
  have h := congrArg Decoder.fireChanged (decodeLights_restore p d)
  exact h

theorem decodeLights_keybusChanged (p : Foreground) (d : Decoder) :
    (decodeLights p d).keybusChanged = d.keybusChanged := by
  have h := congrArg Decoder.keybusChanged (decodeLights_restore p d)
  exact h

theorem decodeLights_openZonesStatusChanged (p : Foreground) (d : Decoder) :
    (decodeLights p d).openZonesStatusChanged = d.openZonesStatusChanged := by
  have h := congrArg Decoder.openZonesStatusChanged (decodeLights_restore p d)
  exact h

theorem decodeLights_status (p : Foreground) (d : Decoder) :
    (decodeLights p d).status = d.status := by
  have h := congrArg Decoder.status (decodeLights_restore p d)
  exact h

theorem decodeLights_troubleChanged (p : Foreground) (d : Decoder) :
    (decodeLights p d).troubleChanged = d.troubleChanged := by
  have h := congrArg Decoder.troubleChanged (decodeLights_restore p d)
  exact h

theorem decodeBlink_alarmZonesStatusChanged (d : Decoder) (now : Nat) :
    (decodeBlink d now).alarmZonesStatusChanged = d.alarmZonesStatusChanged := by
  have h := congrArg Decoder.alarmZonesStatusChanged (decodeBlink_restore d now)
  exact h

theorem decodeBlink_exitStateChanged (d : Decoder) (now : Nat) :
    (decodeBlink d now).exitStateChanged = d.exitStateChanged := by
  have h := congrArg Decoder.exitStateChanged (decodeBlink_restore d now)
  exact h

theorem decodeBlink_fireChanged (d : Decoder) (now : Nat) :
    (decodeBlink d now).fireChanged = d.fireChanged := by
  have h := congrArg Decoder.fireChanged (decodeBlink_restore d now)
  exact h

theorem decodeBlink_keybusChanged (d : Decoder) (now : Nat) :
    (decodeBlink d now).keybusChanged = d.keybusChanged := by
  have h := congrArg Decoder.keybusChanged (decodeBlink_restore d now)
  exact h

theorem decodeBlink_openZonesStatusChanged (d : Decoder) (now : Nat) :
    (decodeBlink d now).openZonesStatusChanged = d.openZonesStatusChanged := by
  have h := congrArg Decoder.openZonesStatusChanged (decodeBlink_restore d now)
  exact h

theorem decodeBlink_status (d : Decoder) (now : Nat) :
    (decodeBlink d now).status = d.status := by
  have h := congrArg Decoder.status (decodeBlink_restore d now)
  exact h

theorem decodeBlink_statusChanged (d : Decoder) (now : Nat) :
    (decodeBlink d now).statusChanged = d.statusChanged := by
  have h := congrArg Decoder.statusChanged (decodeBlink_restore d now)
  exact h

theorem decodeBlink_troubleChanged (d : Decoder) (now : Nat) :
    (decodeBlink d now).troubleChanged = d.troubleChanged := by
  have h := congrArg Decoder.troubleChanged (decodeBlink_restore d now)
  exact h

theorem decodeBeep_alarmZonesStatusChanged (d : Decoder) (now : Nat) :
    (decodeBeep d now).alarmZonesStatusChanged = d.alarmZonesStatusChanged := by
  have h := congrArg Decoder.alarmZonesStatusChanged (decodeBeep_restore d now)
  exact h

theorem decodeBeep_exitStateChanged (d : Decoder) (now : Nat) :
    (decodeBeep d now).exitStateChanged = d.exitStateChanged := by
  have h := congrArg Decoder.exitStateChanged (decodeBeep_restore d now)
  exact h

theorem decodeBeep_fireChanged (d : Decoder) (now : Nat) :
    (decodeBeep d now).fireChanged = d.fireChanged := by
  have h := congrArg Decoder.fireChanged (decodeBeep_restore d now)
  exact h

theorem decodeBeep_keybusChanged (d : Decoder) (now : Nat) :
    (decodeBeep d now).keybusChanged = d.keybusChanged := by
  have h := congrArg Decoder.keybusChanged (decodeBeep_restore d now)
  exact h

theorem decodeBeep_openZonesStatusChanged (d : Decoder) (now : Nat) :
    (decodeBeep d now).openZonesStatusChanged = d.openZonesStatusChanged := by
  have h := congrArg Decoder.openZonesStatusChanged (decodeBeep_restore d now)
  exact h

theorem decodeBeep_statusChanged (d : Decoder) (now : Nat) :
    (decodeBeep d now).statusChanged = d.statusChanged := by
  have h := congrArg Decoder.statusChanged (decodeBeep_restore d now)
  exact h

theorem decodeBeep_troubleChanged (d : Decoder) (now : Nat) :
    (decodeBeep d now).troubleChanged = d.troubleChanged := by
  have h := congrArg Decoder.troubleChanged (decodeBeep_restore d now)
  exact h

theorem decodeArmed_alarmZonesStatusChanged (p : Foreground) (d : Decoder) (now : Nat) :
    (decodeArmed p d now).alarmZonesStatusChanged = d.alarmZonesStatusChanged := by
  have h := congrArg Decoder.alarmZonesStatusChanged (decodeArmed_restore p d now)
  exact h

theorem decodeArmed_exitStateChanged (p : Foreground) (d : Decoder) (now : Nat) :
    (decodeArmed p d now).exitStateChanged = d.exitStateChanged := by
  have h := congrArg Decoder.exitStateChanged (decodeArmed_restore p d now)
  exact h

theorem decodeArmed_fireChanged (p : Foreground) (d : Decoder) (now : Nat) :
    (decodeArmed p d now).fireChanged = d.fireChanged := by
  have h := congrArg Decoder.fireChanged (decodeArmed_restore p d now)
  exact h

theorem decodeArmed_keybusChanged (p : Foreground) (d : Decoder) (now : Nat) :
    (decodeArmed p d now).keybusChanged = d.keybusChanged := by
  have h := congrArg Decoder.keybusChanged (decodeArmed_restore p d now)
  exact h

theorem decodeArmed_openZonesStatusChanged (p : Foreground) (d : Decoder) (now : Nat) :
    (decodeArmed p d now).openZonesStatusChanged = d.openZonesStatusChanged := by
  have h := congrArg Decoder.openZonesStatusChanged (decodeArmed_restore p d now)
  exact h

theorem decodeArmed_status (p : Foreground) (d : Decoder) (now : Nat) :
    (decodeArmed p d now).status = d.status := by
  have h := congrArg Decoder.status (decodeArmed_restore p d now)
  exact h

theorem decodeArmed_troubleChanged (p : Foreground) (d : Decoder) (now : Nat) :
    (decodeArmed p d now).troubleChanged = d.troubleChanged := by
  have h := congrArg Decoder.troubleChanged (decodeArmed_restore p d now)
  exact h

theorem decodeReady_alarmZonesStatusChanged (p : Foreground) (d : Decoder) (now : Nat) :
    (decodeReady p d now).alarmZonesStatusChanged = d.alarmZonesStatusChanged := by
  have h := congrArg Decoder.alarmZonesStatusChanged (decodeReady_restore p d now)
  exact h

theorem decodeReady_fireChanged (p : Foreground) (d : Decoder) (now : Nat) :
    (decodeReady p d now).fireChanged = d.fireChanged := by
  have h := congrArg Decoder.fireChanged (decodeReady_restore p d now)
  exact h

theorem decodeReady_keybusChanged (p : Foreground) (d : Decoder) (now : Nat) :
    (decodeReady p d now).keybusChanged = d.keybusChanged := by
  have h := congrArg Decoder.keybusChanged (decodeReady_restore p d now)
  exact h

theorem decodeReady_openZonesStatusChanged (p : Foreground) (d : Decoder) (now : Nat) :
    (decodeReady p d now).openZonesStatusChanged = d.openZonesStatusChanged := by
  have h := congrArg Decoder.openZonesStatusChanged (decodeReady_restore p d now)
  exact h

theorem decodeReady_status (p : Foreground) (d : Decoder) (now : Nat) :
    (decodeReady p d now).status = d.status := by
  have h := congrArg Decoder.status (decodeReady_restore p d now)
  exact h

theorem decodeReady_troubleChanged (p : Foreground) (d : Decoder) (now : Nat) :
    (decodeReady p d now).troubleChanged = d.troubleChanged := by
  have h := congrArg Decoder.troubleChanged (decodeReady_restore p d now)
  exact h

theorem decodeZones_alarmZonesStatusChanged (p : Foreground) (d : Decoder) :
    (decodeZones p d).alarmZonesStatusChanged = d.alarmZonesStatusChanged := by
  have h := congrArg Decoder.alarmZonesStatusChanged (decodeZones_restore p d)
  exact h

theorem decodeZones_exitStateChanged (p : Foreground) (d : Decoder) :
    (decodeZones p d).exitStateChanged = d.exitStateChanged := by
  have h := congrArg Decoder.exitStateChanged (decodeZones_restore p d)
  exact h

theorem decodeZones_fireChanged (p : Foreground) (d : Decoder) :
    (decodeZones p d).fireChanged = d.fireChanged := by
  have h := congrArg Decoder.fireChanged (decodeZones_restore p d)
  exact h

theorem decodeZones_keybusChanged (p : Foreground) (d : Decoder) :
    (decodeZones p d).keybusChanged = d.keybusChanged := by
  have h := congrArg Decoder.keybusChanged (decodeZones_restore p d)
  exact h

theorem decodeZones_status (p : Foreground) (d : Decoder) :
    (decodeZones p d).status = d.status := by
  have h := congrArg Decoder.status (decodeZones_restore p d)
  exact h

theorem decodeZones_troubleChanged (p : Foreground) (d : Decoder) :
    (decodeZones p d).troubleChanged = d.troubleChanged := by
  have h := congrArg Decoder.troubleChanged (decodeZones_restore p d)
  exact h

theorem decodeAlarmZones_exitStateChanged (p : Foreground) (d : Decoder) :
    (decodeAlarmZones p d).exitStateChanged = d.exitStateChanged := by
  have h := congrArg Decoder.exitStateChanged (decodeAlarmZones_restore p d)
  exact h

theorem decodeAlarmZones_fireChanged (p : Foreground) (d : Decoder) :
    (decodeAlarmZones p d).fireChanged = d.fireChanged := by
  have h := congrArg Decoder.fireChanged (decodeAlarmZones_restore p d)
  exact h

theorem decodeAlarmZones_keybusChanged (p : Foreground) (d : Decoder) :
    (decodeAlarmZones p d).keybusChanged = d.keybusChanged := by
  have h := congrArg Decoder.keybusChanged (decodeAlarmZones_restore p d)
  exact h

theorem decodeAlarmZones_status (p : Foreground) (d : Decoder) :
    (decodeAlarmZones p d).status = d.status := by
  have h := congrArg Decoder.status (decodeAlarmZones_restore p d)
  exact h

theorem decodeAlarmZones_troubleChanged (p : Foreground) (d : Decoder) :
    (decodeAlarmZones p d).troubleChanged = d.troubleChanged := by
  have h := congrArg Decoder.troubleChanged (decodeAlarmZones_restore p d)
  exact h

theorem decodeAlarm_alarmZonesStatusChanged (p : Foreground) (d : Decoder) :
    (decodeAlarm p d).alarmZonesStatusChanged = d.alarmZonesStatusChanged := by
  have h := congrArg Decoder.alarmZonesStatusChanged (decodeAlarm_restore p d)
  exact h

theorem decodeAlarm_exitStateChanged (p : Foreground) (d : Decoder) :
    (decodeAlarm p d).exitStateChanged = d.exitStateChanged := by
  have h := congrArg Decoder.exitStateChanged (decodeAlarm_restore p d)
  exact h

theorem decodeAlarm_fireChanged (p : Foreground) (d : Decoder) :
    (decodeAlarm p d).fireChanged = d.fireChanged := by
  have h := congrArg Decoder.fireChanged (decodeAlarm_restore p d)
  exact h

theorem decodeAlarm_keybusChanged (p : Foreground) (d : Decoder) :
    (decodeAlarm p d).keybusChanged = d.keybusChanged := by
  have h := congrArg Decoder.keybusChanged (decodeAlarm_restore p d)
  exact h

theorem decodeAlarm_openZonesStatusChanged (p : Foreground) (d : Decoder) :
    (decodeAlarm p d).openZonesStatusChanged = d.openZonesStatusChanged := by
  have h := congrArg Decoder.openZonesStatusChanged (decodeAlarm_restore p d)
  exact h

theorem decodeAlarm_status (p : Foreground) (d : Decoder) :
    (decodeAlarm p d).status = d.status := by
  have h := congrArg Decoder.status (decodeAlarm_restore p d)
  exact h

theorem decodeAlarm_troubleChanged (p : Foreground) (d : Decoder) :
    (decodeAlarm p d).troubleChanged = d.troubleChanged := by
  have h := congrArg Decoder.troubleChanged (decodeAlarm_restore p d)
  exact h

theorem decodeTroubleFire_alarmZonesStatusChanged (p : Foreground) (d : Decoder) :
    (decodeTroubleFire p d).alarmZonesStatusChanged = d.alarmZonesStatusChanged := by
  have h := congrArg Decoder.alarmZonesStatusChanged (decodeTroubleFire_restore p d)
  exact h

theorem decodeTroubleFire_exitStateChanged (p : Foreground) (d : Decoder) :
    (decodeTroubleFire p d).exitStateChanged = d.exitStateChanged := by
  have h := congrArg Decoder.exitStateChanged (decodeTroubleFire_restore p d)
  exact h

theorem decodeTroubleFire_keybusChanged (p : Foreground) (d : Decoder) :
    (decodeTroubleFire p d).keybusChanged = d.keybusChanged := by
  have h := congrArg Decoder.keybusChanged (decodeTroubleFire_restore p d)
  exact h

theorem decodeTroubleFire_openZonesStatusChanged (p : Foreground) (d : Decoder) :
    (decodeTroubleFire p d).openZonesStatusChanged = d.openZonesStatusChanged := by
  have h := congrArg Decoder.openZonesStatusChanged (decodeTroubleFire_restore p d)
  exact h

theorem decodeTroubleFire_status (p : Foreground) (d : Decoder) :
    (decodeTroubleFire p d).status = d.status := by
  have h := congrArg Decoder.status (decodeTroubleFire_restore p d)
  exact h

theorem decodeKeypadAlarms_alarmZonesStatusChanged (p : Foreground) (d : Decoder) (now : Nat) :
    (decodeKeypadAlarms p d now).alarmZonesStatusChanged = d.alarmZonesStatusChanged := by
  have h := congrArg Decoder.alarmZonesStatusChanged (decodeKeypadAlarms_restore p d now)
  exact h

theorem decodeKeypadAlarms_exitStateChanged (p : Foreground) (d : Decoder) (now : Nat) :
    (decodeKeypadAlarms p d now).exitStateChanged = d.exitStateChanged := by
  have h := congrArg Decoder.exitStateChanged (decodeKeypadAlarms_restore p d now)
  exact h

theorem decodeKeypadAlarms_fireChanged (p : Foreground) (d : Decoder) (now : Nat) :
    (decodeKeypadAlarms p d now).fireChanged = d.fireChanged := by
  have h := congrArg Decoder.fireChanged (decodeKeypadAlarms_restore p d now)
  exact h

theorem decodeKeypadAlarms_keybusChanged (p : Foreground) (d : Decoder) (now : Nat) :
    (decodeKeypadAlarms p d now).keybusChanged = d.keybusChanged := by
  have h := congrArg Decoder.keybusChanged (decodeKeypadAlarms_restore p d now)
  exact h

theorem decodeKeypadAlarms_openZonesStatusChanged (p : Foreground) (d : Decoder) (now : Nat) :
    (decodeKeypadAlarms p d now).openZonesStatusChanged = d.openZonesStatusChanged := by
  have h := congrArg Decoder.openZonesStatusChanged (decodeKeypadAlarms_restore p d now)
  exact h

theorem decodeKeypadAlarms_status (p : Foreground) (d : Decoder) (now : Nat) :
    (decodeKeypadAlarms p d now).status = d.status := by
  have h := congrArg Decoder.status (decodeKeypadAlarms_restore p d now)
  exact h

theorem decodeKeypadAlarms_troubleChanged (p : Foreground) (d : Decoder) (now : Nat) :
    (decodeKeypadAlarms p d now).troubleChanged = d.troubleChanged := by
  have h := congrArg Decoder.troubleChanged (decodeKeypadAlarms_restore p d now)
  exact h

theorem decodeStatus_alarmZonesStatusChanged (p : Foreground) (d : Decoder) :
    (decodeStatus p d).alarmZonesStatusChanged = d.alarmZonesStatusChanged := by
  have h := congrArg Decoder.alarmZonesStatusChanged (decodeStatus_restore p d)
  exact h

theorem decodeStatus_exitStateChanged (p : Foreground) (d : Decoder) :
    (decodeStatus p d).exitStateChanged = d.exitStateChanged := by
  have h := congrArg Decoder.exitStateChanged (decodeStatus_restore p d)
  exact h

theorem decodeStatus_fireChanged (p : Foreground) (d : Decoder) :
    (decodeStatus p d).fireChanged = d.fireChanged := by
  have h := congrArg Decoder.fireChanged (decodeStatus_restore p d)
  exact h

theorem decodeStatus_keybusChanged (p : Foreground) (d : Decoder) :
    (decodeStatus p d).keybusChanged = d.keybusChanged := by
  have h := congrArg Decoder.keybusChanged (decodeStatus_restore p d)
  exact h

theorem decodeStatus_openZonesStatusChanged (p : Foreground) (d : Decoder) :
    (decodeStatus p d).openZonesStatusChanged = d.openZonesStatusChanged := by
  have h := congrArg Decoder.openZonesStatusChanged (decodeStatus_restore p d)
  exact h

theorem decodeStatus_troubleChanged (p : Foreground) (d : Decoder) :
    (decodeStatus p d).troubleChanged = d.troubleChanged := by
  have h := congrArg Decoder.troubleChanged (decodeStatus_restore p d)
  exact h

theorem flagsKept_refl (p : Foreground) (d : Decoder) : FlagsKept p d d :=
  ⟨id, fun _ => rfl, fun _ => Or.inr ⟨id, id, id, id, id, id, id, id, id, id⟩⟩

theorem flagsKept_trans (p : Foreground) (d x y : Decoder)
    (h1 : FlagsKept p d x) (h2 : FlagsKept p x y) : FlagsKept p d y := by
  obtain ⟨a1, a2, a3⟩ := h1
  obtain ⟨b1, b2, b3⟩ := h2
  refine ⟨fun h => b1 (a1 h), fun h => (b2 h).trans (a2 h), fun hp => ?_⟩
  rcases b3 hp with h | h
  · exact Or.inl h
  · rcases a3 hp with g | g
    · exact Or.inl (b1 g)
    · obtain ⟨h1, h2, h3, h4, h5, h6, h7, h8, h9, h10⟩ := h
      obtain ⟨g1, g2, g3, g4, g5, g6, g7, g8, g9, g10⟩ := g
      exact Or.inr ⟨fun z => g1 (h1 z), fun z => g2 (h2 z), fun z => g3 (h3 z),
        fun z => g4 (h4 z), fun z => g5 (h5 z), fun z => g6 (h6 z), fun z => g7 (h7 z),
        fun z => g8 (h8 z), fun z => g9 (h9 z), fun z => g10 (h10 z)⟩

theorem decodeArmed_flagsKept (p : Foreground) (d : Decoder) (now : Nat) :
    FlagsKept p d (decodeArmed p d now) := by
  unfold FlagsKept
  cases hp : p.pauseStatus <;>
  simp only [decodeArmed, processReadyStatus, processArmedStatus, processAlarmStatus,
    processExitDelayStatus, markStatusChanged, Decoder.ite_field, ite_self, hp] <;>
  split_ifs <;> simp_all

theorem flagsKept_raise (p : Foreground) (d c x : Decoder) (h : FlagsKept p d c)
    (hs : x.statusChanged = c.statusChanged)
    (hset : p.pauseStatus = false → c.statusChanged = true) : FlagsKept p d x := by
  obtain ⟨a1, a2, -⟩ := h
  refine ⟨fun z => ?_, fun z => ?_, fun z => Or.inl ?_⟩
  · rw [hs]; exact a1 z
  · rw [hs]; exact a2 z
  · rw [hs]; exact hset z

theorem markStatusChanged_statusChanged (p : Foreground) (x : Decoder) :
    (markStatusChanged p x).statusChanged = (if p.pauseStatus then x.statusChanged else true) := by
  unfold markStatusChanged
  cases p.pauseStatus <;> rfl

theorem flagsKept_mark (p : Foreground) (d c x : Decoder) (h : FlagsKept p d c)
    (hs : x.statusChanged = c.statusChanged) : FlagsKept p d (markStatusChanged p x) := by
  obtain ⟨a1, a2, -⟩ := h
  refine ⟨fun z => ?_, fun z => ?_, fun z => Or.inl ?_⟩
  · rw [markStatusChanged_statusChanged, hs, a1 z, ite_self]
  · rw [markStatusChanged_statusChanged, hs, a2 z, z, if_pos rfl]
  · rw [markStatusChanged_statusChanged, z]
    rfl

theorem markStatusChanged_set (p : Foreground) (x : Decoder) (hp : p.pauseStatus = false) :
    (markStatusChanged p x).statusChanged = true := by
  simp [markStatusChanged, hp]

theorem processReadyStatus_flagsKept (p : Foreground) (d x : Decoder) (status : Bool)
    (h : FlagsKept p d x) : FlagsKept p d (processReadyStatus p x status) := by
  unfold processReadyStatus
  lift_lets
  intro y
  split_ifs
  · exact flagsKept_mark p d x _ h rfl
  · exact h

theorem processAlarmStatus_flagsKept (p : Foreground) (d x : Decoder) (status : Bool)
    (h : FlagsKept p d x) : FlagsKept p d (processAlarmStatus p x status) := by
  unfold processAlarmStatus
  lift_lets
  intro y
  split_ifs
  · exact flagsKept_mark p d x _ h rfl
  · exact h

theorem processExitDelayStatus_flagsKept (p : Foreground) (d x : Decoder) (status : Bool)
    (h : FlagsKept p d x) : FlagsKept p d (processExitDelayStatus p x status) := by
  unfold processExitDelayStatus
  lift_lets
  intro y
  split_ifs
  · exact flagsKept_mark p d x _ h rfl
  · exact h

theorem processArmedStatus_flagsKept (p : Foreground) (d x : Decoder) (armedStatus : Bool)
    (h : FlagsKept p d x) : FlagsKept p d (processArmedStatus p x armedStatus) := by
  unfold processArmedStatus
  lift_lets
  intro y
  split_ifs
  · exact flagsKept_mark p d x _ h rfl
  · exact h

theorem decodeReady_flagsKept (p : Foreground) (d : Decoder) (now : Nat) :
    FlagsKept p d (decodeReady p d now) := by
  unfold decodeReady
  lift_lets
  intro d1 d2 d3 s1 d4 d5 s2 d6 s3 d7
  have h1 : FlagsKept p d d1 :=
    processAlarmStatus_flagsKept p d _ false (processArmedStatus_flagsKept p d _ false
      (processReadyStatus_flagsKept p d d true (flagsKept_refl p d)))
  have h2 : FlagsKept p d d2 := h1
  have h3 : FlagsKept p d d3 := by
    unfold d3
    split_ifs <;> exact h2
  have hs1 : FlagsKept p d s1 := processExitDelayStatus_flagsKept p d d3 true h3
  have h4 : FlagsKept p d d4 := hs1
  have h5 : FlagsKept p d d5 := by
    unfold d5
    split_ifs <;> exact h4
  have hs2 : FlagsKept p d s2 := processExitDelayStatus_flagsKept p d d3 false h3
  have h6 : FlagsKept p d d6 := by
    unfold d6
    split_ifs
    · exact processReadyStatus_flagsKept p d d false (flagsKept_refl p d)
    · exact flagsKept_refl p d
  have hs3 : FlagsKept p d s3 := processReadyStatus_flagsKept p d d6 false h6
  have h7 : FlagsKept p d d7 := by
    unfold d7
    split_ifs
    · exact hs3
    · exact h6
  split_ifs
  · exact flagsKept_mark p d d5 _ h5 rfl
  · exact h5
  · exact h4
  · exact hs2
  · exact h3
  · exact processExitDelayStatus_flagsKept p d d7 false h7
  · exact h7

theorem decodeAlarm_flagsKept (p : Foreground) (d : Decoder) :
    FlagsKept p d (decodeAlarm p d) := by
  unfold FlagsKept
  cases hp : p.pauseStatus <;>
  simp only [decodeAlarm, processReadyStatus, processArmedStatus, processAlarmStatus,
    processExitDelayStatus, markStatusChanged, Decoder.ite_field, ite_self, hp] <;>
  split_ifs <;> simp_all

theorem decodeTroubleFire_flagsKept (p : Foreground) (d : Decoder) :
    FlagsKept p d (decodeTroubleFire p d) := by
  unfold FlagsKept
  cases hp : p.pauseStatus <;>
  simp only [decodeTroubleFire, markStatusChanged, Decoder.ite_field, ite_self, hp] <;>
  split_ifs <;> simp_all

theorem decodeKeypadAlarms_flagsKept (p : Foreground) (d : Decoder) (now : Nat) :
    FlagsKept p d (decodeKeypadAlarms p d now) := by
  unfold FlagsKept
  cases hp : p.pauseStatus <;>
  simp only [decodeKeypadAlarms, markStatusChanged, Decoder.ite_field, ite_self, hp] <;>
  split_ifs <;> simp_all

theorem decodeStatus_flagsKept (p : Foreground) (d : Decoder) :
    FlagsKept p d (decodeStatus p d) := by
  have h0 : FlagsKept p d d := flagsKept_refl p d
  unfold decodeStatus
  lift_lets
  repeat
    first
    | (intro x
       have : FlagsKept p d x := by
         unfold x
         first | assumption | (split_ifs <;> assumption))
    | intro x
  split_ifs
  · exact flagsKept_mark p d _ _ (by assumption) rfl
  · assumption

theorem decodeLights_flagsKept (p : Foreground) (d : Decoder) :
    FlagsKept p d (decodeLights p d) := by
  have h0 : FlagsKept p d d := flagsKept_refl p d
  unfold decodeLights
  lift_lets
  repeat
    first
    | (intro x
       have : FlagsKept p d x := by
         unfold x
         first
         | assumption
         | (split_ifs <;> first | assumption | exact flagsKept_mark p d _ _ (by assumption) rfl))
    | intro x
  assumption

theorem decodeZoneGroup_flagsKept (p : Foreground) (x d : Decoder) (i : Nat)
    (h : FlagsKept p d x) : FlagsKept p d (decodeZoneGroup p x i) := by
  unfold decodeZoneGroup
  lift_lets
  intro y zc z
  have hy : FlagsKept p d y := by
    unfold y
    refine foldl_preserves (fun c : Decoder => FlagsKept p d c) _ ?_ _ _ h
    intro b a hb
    dsimp only
    split_ifs <;> exact hb
  have hz : FlagsKept p d z ∧ (p.pauseStatus = false → z.statusChanged = true) :=
    ⟨flagsKept_mark p d y _ hy rfl, fun hp => markStatusChanged_set p _ hp⟩
  split_ifs
  · refine (foldl_preserves (fun c : Decoder => FlagsKept p d c) _ ?_ _ _ hz.1)
    intro b a hb
    dsimp only
    split_ifs <;> exact hb
  · exact hy

theorem decodeZones_flagsKept (p : Foreground) (d : Decoder) :
    FlagsKept p d (decodeZones p d) := by
  unfold decodeZones
  split_ifs
  · exact foldl_preserves (fun c : Decoder => FlagsKept p d c) _
      (fun b a hb => decodeZoneGroup_flagsKept p b d a hb) _ _ (flagsKept_refl p d)
  · exact flagsKept_refl p d

theorem decodeAlarmZones_flagsKept (p : Foreground) (d : Decoder) :
    FlagsKept p d (decodeAlarmZones p d) := by
  unfold decodeAlarmZones
  lift_lets
  intro y zc z
  have hy : FlagsKept p d y := by
    unfold y
    refine foldl_preserves (fun c : Decoder => FlagsKept p d c) _ ?_ _ _ (flagsKept_refl p d)
    intro b a hb
    dsimp only
    split_ifs <;> exact hb
  have hz : FlagsKept p d z ∧ (p.pauseStatus = false → z.statusChanged = true) :=
    ⟨flagsKept_mark p d y _ hy rfl, fun hp => markStatusChanged_set p _ hp⟩
  split_ifs
  · refine (foldl_preserves
      (fun c : Decoder => FlagsKept p d c ∧ (p.pauseStatus = false → c.statusChanged = true))
      _ ?_ _ _ hz).1
    intro b a hb
    dsimp only
    split_ifs
    · exact ⟨flagsKept_raise p d b _ hb.1 rfl hb.2, hb.2⟩
    · exact hb
    · exact hb
  · exact hy

/-- The blocks of `processPanelStatus` after the beep block. -/
theorem afterBeep_flagsKept (p : Foreground) (d : Decoder) (now : Nat) :
    FlagsKept p d
      (decodeStatus p (decodeKeypadAlarms p (decodeTroubleFire p (decodeAlarm p
        (decodeAlarmZones p (decodeZones p (decodeReady p (decodeArmed p d now) now))))) now)) := by
  refine flagsKept_trans p _ _ _ ?_ (decodeStatus_flagsKept p _)
  refine flagsKept_trans p _ _ _ ?_ (decodeKeypadAlarms_flagsKept p _ now)
  refine flagsKept_trans p _ _ _ ?_ (decodeTroubleFire_flagsKept p _)
  refine flagsKept_trans p _ _ _ ?_ (decodeAlarm_flagsKept p _)
  refine flagsKept_trans p _ _ _ ?_ (decodeAlarmZones_flagsKept p _)
  refine flagsKept_trans p _ _ _ ?_ (decodeZones_flagsKept p _)
  exact flagsKept_trans p _ _ _ (decodeArmed_flagsKept p d now) (decodeReady_flagsKept p _ now)

theorem decodeBeep_readyChanged_raised (d : Decoder) (now : Nat)
    (h0 : d.readyChanged = false) (h1 : (decodeBeep d now).readyChanged = true) :
    d.beep = false ∧ d.beepOn = true ∧ d.status = 0x0E := by
  simp only [decodeBeep, Decoder.ite_field, ite_self] at h1
  split_ifs at h1 <;> simp_all

theorem beforeArmed_flags (p : Foreground) (d : Decoder) (now : Nat) :
    (decodeBeep (decodeBlink (decodeLights p d) now) now).statusChanged
        = (decodeLights p d).statusChanged
    ∧ (decodeBeep (decodeBlink (decodeLights p d) now) now).armedChanged = d.armedChanged
    ∧ (decodeBeep (decodeBlink (decodeLights p d) now) now).alarmChanged = d.alarmChanged
    ∧ (decodeBeep (decodeBlink (decodeLights p d) now) now).exitDelayChanged = d.exitDelayChanged
    ∧ (decodeBeep (decodeBlink (decodeLights p d) now) now).exitStateChanged = d.exitStateChanged
    ∧ (decodeBeep (decodeBlink (decodeLights p d) now) now).fireChanged = d.fireChanged
    ∧ (decodeBeep (decodeBlink (decodeLights p d) now) now).troubleChanged = d.troubleChanged
    ∧ (decodeBeep (decodeBlink (decodeLights p d) now) now).keybusChanged = d.keybusChanged
    ∧ (decodeBeep (decodeBlink (decodeLights p d) now) now).openZonesStatusChanged
        = d.openZonesStatusChanged
    ∧ (decodeBeep (decodeBlink (decodeLights p d) now) now).alarmZonesStatusChanged
        = d.alarmZonesStatusChanged := by
  refine ⟨?_, ?_, ?_, ?_, ?_, ?_, ?_, ?_, ?_, ?_⟩
  · simp only [decodeBlink_statusChanged, decodeBeep_statusChanged]
  · simp only [decodeLights_armedChanged, decodeBlink_armedChanged, decodeBeep_armedChanged,
        decodeZones_armedChanged, decodeAlarmZones_armedChanged, decodeAlarm_armedChanged,
        decodeTroubleFire_armedChanged, decodeKeypadAlarms_armedChanged, decodeStatus_armedChanged]
  · simp only [decodeLights_alarmChanged, decodeBlink_alarmChanged, decodeBeep_alarmChanged,
        decodeZones_alarmChanged, decodeAlarmZones_alarmChanged, decodeTroubleFire_alarmChanged,
        decodeKeypadAlarms_alarmChanged, decodeStatus_alarmChanged]
  · simp only [decodeLights_exitDelayChanged, decodeBlink_exitDelayChanged,
        decodeBeep_exitDelayChanged, decodeArmed_exitDelayChanged, decodeZones_exitDelayChanged,
        decodeAlarmZones_exitDelayChanged, decodeAlarm_exitDelayChanged,
        decodeTroubleFire_exitDelayChanged, decodeKeypadAlarms_exitDelayChanged,
        decodeStatus_exitDelayChanged]
  · simp only [decodeLights_exitStateChanged, decodeBlink_exitStateChanged,
        decodeBeep_exitStateChanged, decodeArmed_exitStateChanged, decodeZones_exitStateChanged,
        decodeAlarmZones_exitStateChanged, decodeAlarm_exitStateChanged,
        decodeTroubleFire_exitStateChanged, decodeKeypadAlarms_exitStateChanged,
        decodeStatus_exitStateChanged]
  · simp only [decodeLights_fireChanged, decodeBlink_fireChanged, decodeBeep_fireChanged,
        decodeArmed_fireChanged, decodeReady_fireChanged, decodeZones_fireChanged,
        decodeAlarmZones_fireChanged, decodeAlarm_fireChanged, decodeKeypadAlarms_fireChanged,
        decodeStatus_fireChanged]
  · simp only [decodeLights_troubleChanged, decodeBlink_troubleChanged, decodeBeep_troubleChanged,
        decodeArmed_troubleChanged, decodeReady_troubleChanged, decodeZones_troubleChanged,
        decodeAlarmZones_troubleChanged, decodeAlarm_troubleChanged,
        decodeKeypadAlarms_troubleChanged, decodeStatus_troubleChanged]
  · simp only [decodeLights_keybusChanged, decodeBlink_keybusChanged, decodeBeep_keybusChanged,
        decodeArmed_keybusChanged, decodeReady_keybusChanged, decodeZones_keybusChanged,
        decodeAlarmZones_keybusChanged, decodeAlarm_keybusChanged, decodeTroubleFire_keybusChanged,
        decodeKeypadAlarms_keybusChanged, decodeStatus_keybusChanged]
  · simp only [decodeLights_openZonesStatusChanged, decodeBlink_openZonesStatusChanged,
        decodeBeep_openZonesStatusChanged, decodeArmed_openZonesStatusChanged,
        decodeReady_openZonesStatusChanged, decodeAlarm_openZonesStatusChanged,
        decodeTroubleFire_openZonesStatusChanged, decodeKeypadAlarms_openZonesStatusChanged,
        decodeStatus_openZonesStatusChanged]
  · simp only [decodeLights_alarmZonesStatusChanged, decodeBlink_alarmZonesStatusChanged,
        decodeBeep_alarmZonesStatusChanged, decodeArmed_alarmZonesStatusChanged,
        decodeReady_alarmZonesStatusChanged, decodeZones_alarmZonesStatusChanged,
        decodeAlarm_alarmZonesStatusChanged, decodeTroubleFire_alarmZonesStatusChanged,
        decodeKeypadAlarms_alarmZonesStatusChanged, decodeStatus_alarmZonesStatusChanged]

theorem beep_raises_readyChanged (p : Foreground) (d : Decoder) (now : Nat)
    (h0 : d.readyChanged = false)
    (h1 : (decodeBeep (decodeBlink (decodeLights p d) now) now).readyChanged = true) :
    bitRead (p.panelData p.statusByte) 0 = false ∧ d.beepOn = true ∧ d.status = 0x0E := by
  have h := decodeBeep_readyChanged_raised (decodeBlink (decodeLights p d) now) now
    (by simp only [decodeLights_readyChanged, decodeBlink_readyChanged, decodeZones_readyChanged,
        decodeAlarmZones_readyChanged, decodeTroubleFire_readyChanged,
        decodeKeypadAlarms_readyChanged, decodeStatus_readyChanged]; exact h0) h1
  simp only [decodeBlink_beep, decodeBeep_beep, decodeArmed_beep, decodeReady_beep,
      decodeZones_beep, decodeAlarmZones_beep, decodeAlarm_beep, decodeTroubleFire_beep,
      decodeKeypadAlarms_beep, decodeStatus_beep, decodeLights_beepOn, decodeBlink_beepOn,
      decodeArmed_beepOn, decodeReady_beepOn, decodeZones_beepOn, decodeAlarmZones_beepOn,
      decodeAlarm_beepOn, decodeTroubleFire_beepOn, decodeKeypadAlarms_beepOn, decodeStatus_beepOn,
      decodeLights_status, decodeBlink_status, decodeArmed_status, decodeReady_status,
      decodeZones_status, decodeAlarmZones_status, decodeAlarm_status, decodeTroubleFire_status,
      decodeKeypadAlarms_status, (decodeLights_inputs p d).2.2.2.2.2.1] at h
  exact h

theorem statusFollows_of_flagsKept (p : Foreground) (d c x : Decoder)
    (s2 : p.pauseStatus = true → c.statusChanged = d.statusChanged)
    (hx : FlagsKept p c x)
    (e : p.pauseStatus = false → c.statusChanged = true ∨
      ((c.armedChanged = true → d.armedChanged = true)
      ∧ (c.alarmChanged = true → d.alarmChanged = true)
      ∧ (c.exitDelayChanged = true → d.exitDelayChanged = true)
      ∧ (c.exitStateChanged = true → d.exitStateChanged = true)
      ∧ (c.fireChanged = true → d.fireChanged = true)
      ∧ (c.troubleChanged = true → d.troubleChanged = true)
      ∧ (c.keybusChanged = true → d.keybusChanged = true)
      ∧ (c.openZonesStatusChanged = true → d.openZonesStatusChanged = true)
      ∧ (c.alarmZonesStatusChanged = true → d.alarmZonesStatusChanged = true))) :
    (p.pauseStatus = true → x.statusChanged = d.statusChanged)
    ∧ (p.pauseStatus = false → FlagRaised d x → x.statusChanged = true)
    ∧ (p.pauseStatus = false → x.readyChanged = true →
        x.statusChanged = true ∨ c.readyChanged = true) := by
  obtain ⟨b1, b2, b3⟩ := hx
  refine ⟨fun hp => (b2 hp).trans (s2 hp), fun hp hr => ?_, fun hp hr => ?_⟩
  · rcases b3 hp with h | ⟨-, h1, h2, h3, h4, h5, h6, h7, h8, h9⟩
    · exact h
    · rcases e hp with g | ⟨g1, g2, g3, g4, g5, g6, g7, g8, g9⟩
      · exact b1 g
      · unfold FlagRaised at hr
        rcases hr with ⟨r0, r1⟩ | ⟨r0, r1⟩ | ⟨r0, r1⟩ | ⟨r0, r1⟩ | ⟨r0, r1⟩ | ⟨r0, r1⟩ | ⟨r0, r1⟩
          | ⟨r0, r1⟩ | ⟨r0, r1⟩
        · rw [g1 (h1 r1)] at r0; exact Bool.noConfusion r0
        · rw [g2 (h2 r1)] at r0; exact Bool.noConfusion r0
        · rw [g3 (h3 r1)] at r0; exact Bool.noConfusion r0
        · rw [g4 (h4 r1)] at r0; exact Bool.noConfusion r0
        · rw [g5 (h5 r1)] at r0; exact Bool.noConfusion r0
        · rw [g6 (h6 r1)] at r0; exact Bool.noConfusion r0
        · rw [g7 (h7 r1)] at r0; exact Bool.noConfusion r0
        · rw [g8 (h8 r1)] at r0; exact Bool.noConfusion r0
        · rw [g9 (h9 r1)] at r0; exact Bool.noConfusion r0
  · rcases b3 hp with h | ⟨h0, -⟩
    · exact Or.inl h
    · exact Or.inr (h0 hr)

/-- The relation between `statusChanged` and the change flags across a call of
`processPanelStatus` on `d`, where `d` comes from `d0` by a step that keeps
the relation (for `loop`, the liveness check). -/
theorem processPanelStatus_statusFollows (p : Foreground) (d0 d : Decoder) (now : Nat)
    (hk : FlagsKept p d0 d) :
    (p.pauseStatus = true → (processPanelStatus p d now).statusChanged = d0.statusChanged)
    ∧ (p.pauseStatus = false → FlagRaised d0 (processPanelStatus p d now) →
        (processPanelStatus p d now).statusChanged = true)
    ∧ (p.pauseStatus = false → d.readyChanged = false →
        (processPanelStatus p d now).readyChanged = true →
        (processPanelStatus p d now).statusChanged = true
        ∨ (bitRead (p.panelData p.statusByte) 0 = false ∧ d.beepOn = true ∧ d.status = 0x0E)) := by
  have hL := decodeLights_flagsKept p d
  obtain ⟨esc, f1, f2, f3, f4, f5, f6, f7, f8, f9⟩ := beforeArmed_flags p d now
  have hx := afterBeep_flagsKept p (decodeBeep (decodeBlink (decodeLights p d) now) now) now
  have hbeep := beep_raises_readyChanged p d now
  have hd : processPanelStatus p d now
      = decodeStatus p (decodeKeypadAlarms p (decodeTroubleFire p (decodeAlarm p
        (decodeAlarmZones p (decodeZones p (decodeReady p (decodeArmed p
          (decodeBeep (decodeBlink (decodeLights p d) now) now) now) now))))) now) := rfl
  rw [← hd] at hx
  generalize processPanelStatus p d now = x at hx ⊢
  clear hd
  generalize decodeBeep (decodeBlink (decodeLights p d) now) now = c at *
  obtain ⟨k1, k2, k3⟩ := hk
  obtain ⟨l1, l2, -⟩ := hL
  have hs := statusFollows_of_flagsKept p d0 c x
    (fun h => by rw [esc]; exact (l2 h).trans (k2 h)) hx
    (fun hp => by
      rcases k3 hp with g | ⟨-, g1, g2, g3, g4, g5, g6, g7, g8, g9⟩
      · left; rw [esc]; exact l1 g
      · right
        rw [f1, f2, f3, f4, f5, f6, f7, f8, f9]
        exact ⟨g1, g2, g3, g4, g5, g6, g7, g8, g9⟩)
  refine ⟨hs.1, hs.2.1, fun hp h0 h1 => ?_⟩
  rcases hs.2.2 hp h1 with h | h
  · exact Or.inl h
  · exact Or.inr (hbeep h0 h)

theorem keybusCheck_flagsKept (s : State) (now : Nat) :
    FlagsKept s.fg s.dec (keybusCheck s now)
    ∧ (keybusCheck s now).readyChanged = s.dec.readyChanged
    ∧ (keybusCheck s now).beepOn = s.dec.beepOn
    ∧ (keybusCheck s now).status = s.dec.status := by
  unfold keybusCheck
  lift_lets
  intro d0
  have h0 : FlagsKept s.fg s.dec d0 := flagsKept_refl s.fg s.dec
  refine ⟨?_, ?_, ?_, ?_⟩
  · split_ifs
    · exact flagsKept_mark s.fg s.dec d0 _ h0 rfl
    · exact h0
  · unfold markStatusChanged
    split_ifs <;> rfl
  · unfold markStatusChanged
    split_ifs <;> rfl
  · unfold markStatusChanged
    split_ifs <;> rfl

theorem loop_fg_pauseStatus (s : State) (now : Nat) :
    (loop s now).1.fg.pauseStatus = s.fg.pauseStatus := by
  unfold loop
  lift_lets
  intro d0 d1 changed d2 wr fg ring started fg2 wr2 wr3
  have h1 : fg.pauseStatus = s.fg.pauseStatus := rfl
  have h2 : fg2.pauseStatus = s.fg.pauseStatus := by
    unfold fg2
    split_ifs <;> rfl
  split_ifs <;> first | rfl | exact h1 | exact h2

theorem loop_statusFollows (s : State) (now : Nat) :
    (s.fg.pauseStatus = true → (loop s now).1.dec.statusChanged = s.dec.statusChanged)
    ∧ (s.fg.pauseStatus = false → FlagRaised s.dec (loop s now).1.dec →
        (loop s now).1.dec.statusChanged = true)
    ∧ (s.fg.pauseStatus = false → s.dec.readyChanged = false →
        (loop s now).1.dec.readyChanged = true →
        (loop s now).1.dec.statusChanged = true
        ∨ (s.dec.beepOn = true ∧ s.dec.status = 0x0E)) := by
  obtain ⟨hk, r1, r2, r3⟩ := keybusCheck_flagsKept s now
  have hp := loop_fg_pauseStatus s now
  have hdec := (loop_fg_dec s now).2.2
  rw [hdec]
  split_ifs with hc
  · have hk2 : FlagsKept (loop s now).1.fg s.dec (keybusCheck s now) := by
      unfold FlagsKept at hk ⊢
      rw [hp]
      exact hk
    obtain ⟨q1, q2, q3⟩ := processPanelStatus_statusFollows (loop s now).1.fg s.dec
      (keybusCheck s now) now hk2
    rw [hp] at q1 q2 q3
    refine ⟨q1, q2, fun h h0 h1 => ?_⟩
    rcases q3 h (by rw [r1]; exact h0) h1 with g | ⟨-, g2, g3⟩
    · exact Or.inl g
    · right
      rw [← r2, ← r3]
      exact ⟨g2, g3⟩
  · obtain ⟨q1, q2, q3⟩ := statusFollows_of_flagsKept s.fg s.dec s.dec (keybusCheck s now)
      (fun _ => rfl) hk (fun _ => Or.inr ⟨id, id, id, id, id, id, id, id, id⟩)
    refine ⟨q1, q2, fun h h0 h1 => ?_⟩
    rw [r1, h0] at h1
    exact Bool.noConfusion h1

set_option maxRecDepth 100000 in
/-- Counterexample for C24: `pauseStatus` is clear, `status[0]` is `0x0E`
(function not available) and a keypress beep is on since 1000 ms; the frame
decoded at 1050 ms has the beep bit off. The beep block raises
`readyChanged[0]` from false to true, and `statusChanged` is still false when
the call returns. -/
theorem readyChanged_without_statusChanged :
    (darkFrame.foreground 1).pauseStatus = false
    ∧ functionNotAvailableBeep.readyChanged = false
    ∧ (processPanelStatus (darkFrame.foreground 1) functionNotAvailableBeep 1050).readyChanged
        = true
    ∧ (processPanelStatus (darkFrame.foreground 1) functionNotAvailableBeep 1050).statusChanged
        = false := by
  decide!

/-- C24 (amended): for every decoder state and frame, for `processPanelStatus`
and for `loop()`: if `pauseStatus` is true the call leaves `statusChanged`
unchanged; if `pauseStatus` is false and the call raises one of
`armedChanged[0]`, `alarmChanged[0]`, `exitDelayChanged[0]`,
`exitStateChanged[0]`, `fireChanged[0]`, `troubleChanged`, `keybusChanged`,
`openZonesStatusChanged`, `alarmZonesStatusChanged` from false to true,
`statusChanged` is true when the call returns; and if it raises
`readyChanged[0]` from false to true, `statusChanged` is true when the call
returns unless the beep block raised the flag, which it does only when the
call began with `beepOn` set and `status[0] = 0x0E` (and, in
`processPanelStatus`, the frame has the beep bit off). -/
theorem statusChanged_follows_flags (p : Foreground) (d : Decoder) (s : State) (now : Nat) :
    ((p.pauseStatus = true → (processPanelStatus p d now).statusChanged = d.statusChanged)
      ∧ (p.pauseStatus = false → FlagRaised d (processPanelStatus p d now) →
          (processPanelStatus p d now).statusChanged = true)
      ∧ (p.pauseStatus = false → d.readyChanged = false →
          (processPanelStatus p d now).readyChanged = true →
          (processPanelStatus p d now).statusChanged = true
          ∨ (bitRead (p.panelData p.statusByte) 0 = false ∧ d.beepOn = true
              ∧ d.status = 0x0E)))
    ∧ ((s.fg.pauseStatus = true → (loop s now).1.dec.statusChanged = s.dec.statusChanged)
      ∧ (s.fg.pauseStatus = false → FlagRaised s.dec (loop s now).1.dec →
          (loop s now).1.dec.statusChanged = true)
      ∧ (s.fg.pauseStatus = false → s.dec.readyChanged = false →
          (loop s now).1.dec.readyChanged = true →
          (loop s now).1.dec.statusChanged = true
          ∨ (s.dec.beepOn = true ∧ s.dec.status = 0x0E))) :=
  ⟨processPanelStatus_statusFollows p d d now (flagsKept_refl p d), loop_statusFollows s now⟩

set_option maxRecDepth 100000 in
/-- Example for C24: from power-on the frame "armed" decoded at 5000 ms raises
`armedChanged[0]`, and `statusChanged` is set. -/
theorem statusChanged_follows_flags_witness :
    (armedFrame.foreground 1).pauseStatus = false
    ∧ FlagRaised Decoder.init (processPanelStatus (armedFrame.foreground 1) Decoder.init 5000)
    ∧ (processPanelStatus (armedFrame.foreground 1) Decoder.init 5000).statusChanged = true :=
  ⟨rfl, Or.inl (by decide!),
   (statusChanged_follows_flags (armedFrame.foreground 1) Decoder.init (State.init 4 [])
      5000).1.2.1 rfl (Or.inl (by decide!))⟩

theorem decodeLights_exitState (p : Foreground) (d : Decoder) :
    (decodeLights p d).exitState = d.exitState := by
  have h := congrArg Decoder.exitState (decodeLights_restore p d)
  exact h

theorem decodeBlink_armedBitB (d : Decoder) (now : Nat) :
    (decodeBlink d now).armedBitB = d.armedBitB := by
  have h := congrArg Decoder.armedBitB (decodeBlink_restore d now)
  exact h

theorem decodeBlink_exitState (d : Decoder) (now : Nat) :
    (decodeBlink d now).exitState = d.exitState := by
  have h := congrArg Decoder.exitState (decodeBlink_restore d now)
  exact h

theorem decodeBeep_armedBitB (d : Decoder) (now : Nat) :
    (decodeBeep d now).armedBitB = d.armedBitB := by
  have h := congrArg Decoder.armedBitB (decodeBeep_restore d now)
  exact h

theorem decodeBeep_exitState (d : Decoder) (now : Nat) :
    (decodeBeep d now).exitState = d.exitState := by
  have h := congrArg Decoder.exitState (decodeBeep_restore d now)
  exact h

theorem decodeArmed_armedBitB (p : Foreground) (d : Decoder) (now : Nat) :
    (decodeArmed p d now).armedBitB = d.armedBitB := by
  have h := congrArg Decoder.armedBitB (decodeArmed_restore p d now)
  exact h

theorem decodeReady_armedBitB (p : Foreground) (d : Decoder) (now : Nat) :
    (decodeReady p d now).armedBitB = d.armedBitB := by
  have h := congrArg Decoder.armedBitB (decodeReady_restore p d now)
  exact h

theorem decodeZones_armedBitB (p : Foreground) (d : Decoder) :
    (decodeZones p d).armedBitB = d.armedBitB := by
  have h := congrArg Decoder.armedBitB (decodeZones_restore p d)
  exact h

theorem decodeZones_exitState (p : Foreground) (d : Decoder) :
    (decodeZones p d).exitState = d.exitState := by
  have h := congrArg Decoder.exitState (decodeZones_restore p d)
  exact h

theorem decodeAlarmZones_armedBitB (p : Foreground) (d : Decoder) :
    (decodeAlarmZones p d).armedBitB = d.armedBitB := by
  have h := congrArg Decoder.armedBitB (decodeAlarmZones_restore p d)
  exact h

theorem decodeAlarmZones_exitState (p : Foreground) (d : Decoder) :
    (decodeAlarmZones p d).exitState = d.exitState := by
  have h := congrArg Decoder.exitState (decodeAlarmZones_restore p d)
  exact h

theorem decodeAlarm_armedBitB (p : Foreground) (d : Decoder) :
    (decodeAlarm p d).armedBitB = d.armedBitB := by
  have h := congrArg Decoder.armedBitB (decodeAlarm_restore p d)
  exact h

theorem decodeAlarm_exitState (p : Foreground) (d : Decoder) :
    (decodeAlarm p d).exitState = d.exitState := by
  have h := congrArg Decoder.exitState (decodeAlarm_restore p d)
  exact h

theorem decodeTroubleFire_armedBitB (p : Foreground) (d : Decoder) :
    (decodeTroubleFire p d).armedBitB = d.armedBitB := by
  have h := congrArg Decoder.armedBitB (decodeTroubleFire_restore p d)
  exact h

theorem decodeTroubleFire_exitState (p : Foreground) (d : Decoder) :
    (decodeTroubleFire p d).exitState = d.exitState := by
  have h := congrArg Decoder.exitState (decodeTroubleFire_restore p d)
  exact h

theorem decodeKeypadAlarms_armedBitB (p : Foreground) (d : Decoder) (now : Nat) :
    (decodeKeypadAlarms p d now).armedBitB = d.armedBitB := by
  have h := congrArg Decoder.armedBitB (decodeKeypadAlarms_restore p d now)
  exact h

theorem decodeKeypadAlarms_exitState (p : Foreground) (d : Decoder) (now : Nat) :
    (decodeKeypadAlarms p d now).exitState = d.exitState := by
  have h := congrArg Decoder.exitState (decodeKeypadAlarms_restore p d now)
  exact h

theorem decodeStatus_armedBitB (p : Foreground) (d : Decoder) :
    (decodeStatus p d).armedBitB = d.armedBitB := by
  have h := congrArg Decoder.armedBitB (decodeStatus_restore p d)
  exact h

theorem decodeStatus_exitState (p : Foreground) (d : Decoder) :
    (decodeStatus p d).exitState = d.exitState := by
  have h := congrArg Decoder.exitState (decodeStatus_restore p d)
  exact h

/-! ## Exit state -/

theorem decodeArmed_exitState (p : Foreground) (d : Decoder) (now : Nat) :
    (decodeArmed p d now).exitState = d.exitState
    ∨ ((decodeArmed p d now).exitState = DSC_EXIT_NO_ENTRY_DELAY
        ∧ d.armedBlink = true ∧ d.armedBitA = d.armedBitB) := by
  simp only [decodeArmed, processReadyStatus, processArmedStatus, processAlarmStatus,
    processExitDelayStatus, markStatusChanged, Decoder.ite_field, ite_self]
  split_ifs <;> simp_all

theorem decodeReady_exitState (P : Nat → Prop) (p : Foreground) (d : Decoder) (now : Nat)
    (h0 : P 0) (h1 : P DSC_EXIT_STAY) (h2 : P DSC_EXIT_AWAY) (h : P d.exitState) :
    P (decodeReady p d now).exitState := by
  simp only [decodeReady, processReadyStatus, processArmedStatus, processAlarmStatus,
    processExitDelayStatus, markStatusChanged, Decoder.ite_field, ite_self]
  split_ifs <;> assumption

theorem processPanelStatus_exitState (p : Foreground) (d : Decoder) (now : Nat) :
    (processPanelStatus p d now).exitState
        = (decodeReady p (decodeArmed p (decodeBeep (decodeBlink (decodeLights p d) now) now) now)
            now).exitState
    ∧ (decodeBeep (decodeBlink (decodeLights p d) now) now).exitState = d.exitState
    ∧ (processPanelStatus p d now).armedBlink
        = (decodeBeep (decodeBlink (decodeLights p d) now) now).armedBlink
    ∧ (processPanelStatus p d now).armedBitA
        = (decodeBeep (decodeBlink (decodeLights p d) now) now).armedBitA
    ∧ (processPanelStatus p d now).armedBitB
        = (decodeBeep (decodeBlink (decodeLights p d) now) now).armedBitB := by
  unfold processPanelStatus
  refine ⟨?_, ?_, ?_, ?_, ?_⟩
  · simp only [decodeLights_exitState, decodeBlink_exitState, decodeBeep_exitState,
        decodeZones_exitState, decodeAlarmZones_exitState, decodeAlarm_exitState,
        decodeTroubleFire_exitState, decodeKeypadAlarms_exitState, decodeStatus_exitState]
  · simp only [decodeLights_exitState, decodeBlink_exitState, decodeBeep_exitState,
        decodeZones_exitState, decodeAlarmZones_exitState, decodeAlarm_exitState,
        decodeTroubleFire_exitState, decodeKeypadAlarms_exitState, decodeStatus_exitState]
  · simp only [decodeLights_armedBlink, decodeBeep_armedBlink, decodeArmed_armedBlink,
        decodeReady_armedBlink, decodeZones_armedBlink, decodeAlarmZones_armedBlink,
        decodeAlarm_armedBlink, decodeTroubleFire_armedBlink, decodeKeypadAlarms_armedBlink,
        decodeStatus_armedBlink]
  · simp only [decodeBlink_armedBitA, decodeBeep_armedBitA, decodeArmed_armedBitA,
        decodeReady_armedBitA, decodeZones_armedBitA, decodeAlarmZones_armedBitA,
        decodeAlarm_armedBitA, decodeTroubleFire_armedBitA, decodeKeypadAlarms_armedBitA,
        decodeStatus_armedBitA]
  · simp only [decodeBlink_armedBitB, decodeBeep_armedBitB, decodeArmed_armedBitB,
        decodeReady_armedBitB, decodeZones_armedBitB, decodeAlarmZones_armedBitB,
        decodeAlarm_armedBitB, decodeTroubleFire_armedBitB, decodeKeypadAlarms_armedBitB,
        decodeStatus_armedBitB]

theorem processPanelStatus_exitStateValid (p : Foreground) (d : Decoder) (now : Nat)
    (h : ExitStateValid d.exitState) : ExitStateValid (processPanelStatus p d now).exitState := by
  obtain ⟨e1, e2, -⟩ := processPanelStatus_exitState p d now
  rw [e1]
  refine decodeReady_exitState ExitStateValid p _ now (Or.inl rfl) (Or.inr (Or.inl rfl))
    (Or.inr (Or.inr (Or.inl rfl))) ?_
  rcases decodeArmed_exitState p (decodeBeep (decodeBlink (decodeLights p d) now) now) now
    with g | ⟨g, -⟩
  · rw [g, e2]; exact h
  · rw [g]; exact Or.inr (Or.inr (Or.inr rfl))

theorem decodeAll_exitStateValid (fs : List (Foreground × Nat)) :
    ExitStateValid (decodeAll Decoder.init fs).exitState := by
  unfold decodeAll
  refine foldl_preserves (fun c : Decoder => ExitStateValid c.exitState) _ ?_ _ _ (Or.inl rfl)
  intro c f hc
  exact processPanelStatus_exitStateValid f.1 c f.2 hc

theorem processPanelStatus_noEntryDelay (p : Foreground) (d : Decoder) (now : Nat)
    (h : (processPanelStatus p d now).exitState = DSC_EXIT_NO_ENTRY_DELAY) :
    d.exitState = DSC_EXIT_NO_ENTRY_DELAY
    ∨ ((processPanelStatus p d now).armedBlink = true
        ∧ (processPanelStatus p d now).armedBitA = (processPanelStatus p d now).armedBitB) := by
  obtain ⟨e1, e2, e3, e4, e5⟩ := processPanelStatus_exitState p d now
  rw [e1] at h
  rw [e3, e4, e5]
  have hA := decodeReady_exitState
    (fun v => v = DSC_EXIT_NO_ENTRY_DELAY →
      (decodeArmed p (decodeBeep (decodeBlink (decodeLights p d) now) now) now).exitState
        = DSC_EXIT_NO_ENTRY_DELAY)
    p (decodeArmed p (decodeBeep (decodeBlink (decodeLights p d) now) now) now) now
    (fun z => by simp [DSC_EXIT_NO_ENTRY_DELAY] at z)
    (fun z => by simp [DSC_EXIT_NO_ENTRY_DELAY, DSC_EXIT_STAY] at z)
    (fun z => by simp [DSC_EXIT_NO_ENTRY_DELAY, DSC_EXIT_AWAY] at z) id h
  rcases decodeArmed_exitState p (decodeBeep (decodeBlink (decodeLights p d) now) now) now
    with g | ⟨-, g1, g2⟩
  · left
    rw [← e2, ← g]
    exact hA
  · exact Or.inr ⟨g1, g2⟩

set_option maxRecDepth 100000 in
/-- Counterexample for C21: from power-on the frame with the Armed light off
and both PC16 armed bits set is decoded at 5000 ms, the same frame with the
Armed light on at 5300 ms (the light blinks: `exitState[0]` becomes
`DSC_EXIT_NO_ENTRY_DELAY`) and again at 9000 ms. After the third decode the
exit state is still `DSC_EXIT_NO_ENTRY_DELAY` while `armedBlink` is false. -/
theorem exitState_outlives_armedBlink :
    (decodeAll Decoder.init
      [(armedLightOffFrame.foreground 1, 5000), (armedBothSidesFrame.foreground 1, 5300),
       (armedBothSidesFrame.foreground 1, 9000)]).exitState = DSC_EXIT_NO_ENTRY_DELAY
    ∧ (decodeAll Decoder.init
      [(armedLightOffFrame.foreground 1, 5000), (armedBothSidesFrame.foreground 1, 5300),
       (armedBothSidesFrame.foreground 1, 9000)]).armedBlink = false := by
  decide!

/-- C21 (amended): in every state reached from power-on by `processPanelStatus`
calls, `exitState[0]` is one of 0, `DSC_EXIT_STAY`, `DSC_EXIT_AWAY`,
`DSC_EXIT_NO_ENTRY_DELAY`; and it is `DSC_EXIT_NO_ENTRY_DELAY` after a call only
if it was so before the call or, in the state after the call, `armedBlink` is
true and `armedBitA = armedBitB`. -/
theorem exitState_values (fs : List (Foreground × Nat)) (p : Foreground) (now : Nat) :
    ExitStateValid (processPanelStatus p (decodeAll Decoder.init fs) now).exitState
    ∧ ((processPanelStatus p (decodeAll Decoder.init fs) now).exitState
          = DSC_EXIT_NO_ENTRY_DELAY →
        (decodeAll Decoder.init fs).exitState = DSC_EXIT_NO_ENTRY_DELAY
        ∨ ((processPanelStatus p (decodeAll Decoder.init fs) now).armedBlink = true
            ∧ (processPanelStatus p (decodeAll Decoder.init fs) now).armedBitA
                = (processPanelStatus p (decodeAll Decoder.init fs) now).armedBitB)) :=
  ⟨processPanelStatus_exitStateValid p _ now (decodeAll_exitStateValid fs),
   processPanelStatus_noEntryDelay p _ now⟩

set_option maxRecDepth 100000 in
/-- Example for C21: the Armed light off at 5000 ms and on at 5300 ms with
both PC16 armed bits set: the exit state becomes `DSC_EXIT_NO_ENTRY_DELAY`
in a call after which `armedBlink` is true and the two armed bits agree. -/
theorem exitState_values_witness :
    (processPanelStatus (armedBothSidesFrame.foreground 1)
        (decodeAll Decoder.init [(armedLightOffFrame.foreground 1, 5000)]) 5300).exitState
      = DSC_EXIT_NO_ENTRY_DELAY
    ∧ ((decodeAll Decoder.init [(armedLightOffFrame.foreground 1, 5000)]).exitState
          = DSC_EXIT_NO_ENTRY_DELAY
        ∨ ((processPanelStatus (armedBothSidesFrame.foreground 1)
              (decodeAll Decoder.init [(armedLightOffFrame.foreground 1, 5000)]) 5300).armedBlink
            = true
          ∧ (processPanelStatus (armedBothSidesFrame.foreground 1)
              (decodeAll Decoder.init [(armedLightOffFrame.foreground 1, 5000)]) 5300).armedBitA
            = (processPanelStatus (armedBothSidesFrame.foreground 1)
              (decodeAll Decoder.init [(armedLightOffFrame.foreground 1,
                  5000)]) 5300).armedBitB)) :=
  ⟨by decide!,
   (exitState_values [(armedLightOffFrame.foreground 1, 5000)]
      (armedBothSidesFrame.foreground 1) 5300).2 (by decide!)⟩

set_option maxRecDepth 100000 in
/-- C23: from power-on (an empty frame ring, no keybus transition, no pending
write), `resetStatus()` followed by `loop()` leaves `statusChanged`,
`keybusChanged`, `troubleChanged`, `readyChanged[0]`, `armedChanged[0]`,
`alarmChanged[0]`, `fireChanged[0]`, `openZonesStatusChanged`,
`alarmZonesStatusChanged` set and `openZonesChanged[0]`, `alarmZonesChanged[0]`
at `0xFF`, but `exitDelayChanged[0]` and `exitStateChanged[0]` are false and
`openZonesChanged[1]` is 0: `resetStatus` does not assign them. -/
theorem resetStatus_leaves_exit_flags :
    (State.init 4 []).ring.panelBufferLength = 0
    ∧ afterResetStatus.dec.statusChanged = true
    ∧ afterResetStatus.dec.keybusChanged = true
    ∧ afterResetStatus.dec.troubleChanged = true
    ∧ afterResetStatus.dec.readyChanged = true
    ∧ afterResetStatus.dec.armedChanged = true
    ∧ afterResetStatus.dec.alarmChanged = true
    ∧ afterResetStatus.dec.fireChanged = true
    ∧ afterResetStatus.dec.openZonesStatusChanged = true
    ∧ afterResetStatus.dec.alarmZonesStatusChanged = true
    ∧ afterResetStatus.dec.openZonesChanged 0 = 0xFF
    ∧ afterResetStatus.dec.alarmZonesChanged 0 = 0xFF
    ∧ afterResetStatus.dec.exitDelayChanged = false
    ∧ afterResetStatus.dec.exitStateChanged = false
    ∧ afterResetStatus.dec.openZonesChanged 1 = 0 := by
  decide!

end DscClassic
